import Mathlib

/-! libdft (i386): tag map and tag-propagation rules.

A shallow embedding of `tagmap.c` and `libdft_core.c`.

* Storage is byte addressed.  A store is a function from cell index to cell
  content; a cell is one `uint8_t`, so a read takes the content modulo 256 and
  a write truncates the stored value modulo 256.
* Wider accesses are little-endian (i386): the `uint16_t` at cell `a` is made
  of cells `a`, `a + 1`; the `uint32_t` at `a` of cells `a .. a + 3`.
* `thread_ctx->vcpu.gpr` is `uint32_t gpr[GPR_NUM + 1]`; byte `k` of slot `r`
  (`((uint8_t *)&gpr[r]) + k`) is cell `4 * r + k` of the register store.
* The shadow memory (the tag segments) and the segment table `STAB` are
  separate stores; an analysis routine never reaches the register vector
  through a shadow address.  Shadow memory is a flat store; the page
  protection of the segments is a separate map (`access_ok`), under which
  the accessors `tagmap_setb_prot` .. `tagmap_getl_prot` fault where the
  host does not let the access through.
* `ins_inspect` is embedded as a whole, sanity check and `switch`, one
  definition per larger case; a binding records the analysis
  routine, the insertion primitive, the insertion point and the arguments, and
  `run` executes the bindings of one instruction in insertion order.
-/

namespace Libdft

/-! ## Byte stores -/

/-- Read of the `uint8_t` cell `a`. -/
def rd8 (m : Nat → Nat) (a : Nat) : Nat := m a % 256

/-- Read of the little-endian `uint16_t` that starts at cell `a`. -/
def rd16 (m : Nat → Nat) (a : Nat) : Nat := rd8 m a + 256 * rd8 m (a + 1)

/-- Read of the little-endian `uint32_t` that starts at cell `a`. -/
def rd32 (m : Nat → Nat) (a : Nat) : Nat := rd16 m a + 65536 * rd16 m (a + 2)

/-- Store of a `uint8_t` into cell `a`. -/
def wr8 (m : Nat → Nat) (a v : Nat) : Nat → Nat :=
  fun i => if i = a then v % 256 else m i

/-- Store of a little-endian `uint16_t` at cell `a`. -/
def wr16 (m : Nat → Nat) (a v : Nat) : Nat → Nat :=
  wr8 (wr8 m a v) (a + 1) (v / 256)

/-- Store of a little-endian `uint32_t` at cell `a`. -/
def wr32 (m : Nat → Nat) (a v : Nat) : Nat → Nat :=
  wr16 (wr16 m a v) (a + 2) (v / 65536)

/-! ## tagmap.h -/

/-- Page alignment offset in bits (`PAGE_SHIFT`). -/
def PAGE_SHIFT : Nat := 12

/-- Clean tag (`TAG_ZERO`). -/
def TAG_ZERO : Nat := 0

/-- Offset in the segment table of a virtual address (`VIRT2STAB`). -/
def VIRT2STAB (vaddr : Nat) : Nat := vaddr >>> PAGE_SHIFT

/-! ## Machine state -/

/-- The tag state the analysis routines work on: the bytes of
`thread_ctx->vcpu.gpr` (nine 32-bit slots, slot 8 being the scratch
register), the segment table `STAB` (one `uint32_t` displacement per page)
and the shadow memory that holds the tagmap segments. -/
structure State where
  /-- Bytes of `vcpu.gpr`; byte `k` of slot `r` is cell `4 * r + k`. -/
  gpr : Nat → Nat
  /-- Segment table: page index to displacement. -/
  STAB : Nat → Nat
  /-- Shadow memory, indexed by (translated) address. -/
  mem : Nat → Nat

/-- Translated address `addr + STAB[VIRT2STAB(addr)]`, in 32-bit unsigned
arithmetic. -/
def taddr (s : State) (addr : Nat) : Nat :=
  (addr + s.STAB (VIRT2STAB addr)) % 4294967296

/-- Byte view `*(((uint8_t *)&thread_ctx->vcpu.gpr[r]) + k)`. -/
def gpr8 (s : State) (r k : Nat) : Nat := rd8 s.gpr (4 * r + k)

/-- Word view `*(((uint16_t *)&thread_ctx->vcpu.gpr[r]) + h)`. -/
def gpr16 (s : State) (r h : Nat) : Nat := rd16 s.gpr (4 * r + 2 * h)

/-- Whole slot `thread_ctx->vcpu.gpr[r]`. -/
def gpr32 (s : State) (r : Nat) : Nat := rd32 s.gpr (4 * r)

/-- Assignment to `*(((uint8_t *)&thread_ctx->vcpu.gpr[r]) + k)`. -/
def set_gpr8 (s : State) (r k v : Nat) : State :=
  { s with gpr := wr8 s.gpr (4 * r + k) v }

/-- Assignment to `*(((uint16_t *)&thread_ctx->vcpu.gpr[r]) + h)`. -/
def set_gpr16 (s : State) (r h v : Nat) : State :=
  { s with gpr := wr16 s.gpr (4 * r + 2 * h) v }

/-- Assignment to `thread_ctx->vcpu.gpr[r]`. -/
def set_gpr32 (s : State) (r v : Nat) : State :=
  { s with gpr := wr32 s.gpr (4 * r) v }

/-- Load `*(uint8_t *)p` from shadow memory. -/
def ld8 (s : State) (p : Nat) : Nat := rd8 s.mem p

/-- Load `*(uint16_t *)p` from shadow memory. -/
def ld16 (s : State) (p : Nat) : Nat := rd16 s.mem p

/-- Load `*(uint32_t *)p` from shadow memory. -/
def ld32 (s : State) (p : Nat) : Nat := rd32 s.mem p

/-- Store `*(uint8_t *)p = v` into shadow memory. -/
def st8 (s : State) (p v : Nat) : State := { s with mem := wr8 s.mem p v }

/-- Store `*(uint16_t *)p = v` into shadow memory. -/
def st16 (s : State) (p v : Nat) : State := { s with mem := wr16 s.mem p v }

/-- Store `*(uint32_t *)p = v` into shadow memory. -/
def st32 (s : State) (p v : Nat) : State := { s with mem := wr32 s.mem p v }

/-! ## tagmap.c: tag store accessors -/

/-- Tag a byte in the virtual address space (`tagmap_setb`). -/
def tagmap_setb (s : State) (addr color : Nat) : State :=
  st8 s (taddr s addr) color

/-- Untag a byte (`tagmap_clrb`). -/
def tagmap_clrb (s : State) (addr : Nat) : State :=
  st8 s (taddr s addr) TAG_ZERO

/-- Tag value of a byte (`tagmap_getb`). -/
def tagmap_getb (s : State) (addr : Nat) : Nat :=
  ld8 s (taddr s addr)

/-- Tag a word (`tagmap_setw`). -/
def tagmap_setw (s : State) (addr color : Nat) : State :=
  st16 s (taddr s addr) color

/-- Untag a word (`tagmap_clrw`). -/
def tagmap_clrw (s : State) (addr : Nat) : State :=
  st16 s (taddr s addr) TAG_ZERO

/-- Tag value of a word (`tagmap_getw`). -/
def tagmap_getw (s : State) (addr : Nat) : Nat :=
  ld16 s (taddr s addr)

/-- Tag a long word (`tagmap_setl`). -/
def tagmap_setl (s : State) (addr color : Nat) : State :=
  st32 s (taddr s addr) color

/-- Untag a long word (`tagmap_clrl`). -/
def tagmap_clrl (s : State) (addr : Nat) : State :=
  st32 s (taddr s addr) TAG_ZERO

/-- Tag value of a long word (`tagmap_getl`). -/
def tagmap_getl (s : State) (addr : Nat) : Nat :=
  ld32 s (taddr s addr)

/-! ## libdft_core.c: analysis routines (tag propagation rules) -/

/-- MOVZX, 16-bit register from upper 8-bit register (`_movzx_r2r_opwb_u`). -/
def _movzx_r2r_opwb_u (s : State) (dst src : Nat) : State :=
  let src_tag := gpr8 s src 1
  set_gpr16 s dst 0 src_tag

/-- MOVZX, 16-bit register from lower 8-bit register (`_movzx_r2r_opwb_l`). -/
def _movzx_r2r_opwb_l (s : State) (dst src : Nat) : State :=
  let src_tag := gpr8 s src 0
  set_gpr16 s dst 0 src_tag

/-- MOVZX, 32-bit register from upper 8-bit register (`_movzx_r2r_oplb_u`). -/
def _movzx_r2r_oplb_u (s : State) (dst src : Nat) : State :=
  let src_tag := gpr8 s src 1
  set_gpr32 s dst src_tag

/-- MOVZX, 32-bit register from lower 8-bit register (`_movzx_r2r_oplb_l`). -/
def _movzx_r2r_oplb_l (s : State) (dst src : Nat) : State :=
  let src_tag := gpr8 s src 0
  set_gpr32 s dst src_tag

/-- MOVZX, 32-bit register from 16-bit register (`_movzx_r2r_oplw`). -/
def _movzx_r2r_oplw (s : State) (dst src : Nat) : State :=
  let src_tag := gpr16 s src 0
  set_gpr32 s dst src_tag

/-- MOVZX, 16-bit register from 8-bit memory location (`_movzx_m2r_opwb`). -/
def _movzx_m2r_opwb (s : State) (dst src : Nat) : State :=
  let src_tag := ld8 s (taddr s src)
  set_gpr16 s dst 0 src_tag

/-- MOVZX, 32-bit register from 8-bit memory location (`_movzx_m2r_oplb`). -/
def _movzx_m2r_oplb (s : State) (dst src : Nat) : State :=
  let src_tag := ld8 s (taddr s src)
  set_gpr32 s dst src_tag

/-- MOVZX, 32-bit register from 16-bit memory location (`_movzx_m2r_oplw`). -/
def _movzx_m2r_oplw (s : State) (dst src : Nat) : State :=
  let src_tag := ld16 s (taddr s src)
  set_gpr32 s dst src_tag

/-- CMPXCHG, 32-bit registers, probe (`_cmpxchg_r2r_opl_fast`): save `gpr[7]`
in the scratch slot, set `gpr[7] = gpr[src]`, return `dst_val == src_val`. -/
def _cmpxchg_r2r_opl_fast (s : State) (dst_val src src_val : Nat) : State × Nat :=
  let s1 := set_gpr32 s 8 (gpr32 s 7)
  let s2 := set_gpr32 s1 7 (gpr32 s1 src)
  (s2, if dst_val % 4294967296 = src_val % 4294967296 then 1 else 0)

/-- CMPXCHG, 32-bit registers, second phase (`_cmpxchg_r2r_opl_slow`). -/
def _cmpxchg_r2r_opl_slow (s : State) (dst src : Nat) : State :=
  let s1 := set_gpr32 s 7 (gpr32 s 8)
  set_gpr32 s1 dst (gpr32 s1 src)

/-- CMPXCHG, 16-bit registers, probe (`_cmpxchg_r2r_opw_fast`). -/
def _cmpxchg_r2r_opw_fast (s : State) (dst_val src src_val : Nat) : State × Nat :=
  let s1 := set_gpr32 s 8 (gpr32 s 7)
  let s2 := set_gpr16 s1 7 0 (gpr16 s1 src 0)
  (s2, if dst_val % 65536 = src_val % 65536 then 1 else 0)

/-- CMPXCHG, 16-bit registers, second phase (`_cmpxchg_r2r_opw_slow`). -/
def _cmpxchg_r2r_opw_slow (s : State) (dst src : Nat) : State :=
  let s1 := set_gpr32 s 7 (gpr32 s 8)
  set_gpr16 s1 dst 0 (gpr16 s1 src 0)

/-- CMPXCHG, 32-bit memory operand, probe (`_cmpxchg_m2r_opl_fast`); `data`
is the program memory the routine reads `*(uint32_t *)src` from. -/
def _cmpxchg_m2r_opl_fast (data : Nat → Nat) (s : State) (dst_val src : Nat) :
    State × Nat :=
  let s1 := set_gpr32 s 8 (gpr32 s 7)
  let s2 := set_gpr32 s1 7 (ld32 s1 (taddr s1 src))
  (s2, if dst_val % 4294967296 = rd32 data src then 1 else 0)

/-- CMPXCHG, 32-bit memory operand, second phase (`_cmpxchg_r2m_opl_slow`). -/
def _cmpxchg_r2m_opl_slow (s : State) (dst src : Nat) : State :=
  let s1 := set_gpr32 s 7 (gpr32 s 8)
  st32 s1 (taddr s1 dst) (gpr32 s1 src)

/-- CMPXCHG, 16-bit memory operand, probe (`_cmpxchg_m2r_opw_fast`). -/
def _cmpxchg_m2r_opw_fast (data : Nat → Nat) (s : State) (dst_val src : Nat) :
    State × Nat :=
  let s1 := set_gpr32 s 8 (gpr32 s 7)
  let s2 := set_gpr16 s1 7 0 (ld16 s1 (taddr s1 src))
  (s2, if dst_val % 65536 = rd16 data src then 1 else 0)

/-- CMPXCHG, 16-bit memory operand, second phase (`_cmpxchg_r2m_opw_slow`). -/
def _cmpxchg_r2m_opw_slow (s : State) (dst src : Nat) : State :=
  let s1 := set_gpr32 s 7 (gpr32 s 8)
  st16 s1 (taddr s1 dst) (gpr16 s1 src 0)

/-- XCHG, 32-bit register and memory (`_xchg_r2m_opl`). -/
def _xchg_r2m_opl (s : State) (dst src : Nat) : State :=
  let tmp_tag := ld32 s (taddr s dst)
  let s1 := st32 s (taddr s dst) (gpr32 s src)
  set_gpr32 s1 src tmp_tag

/-- XCHG, 16-bit register and memory (`_xchg_r2m_opw`). -/
def _xchg_r2m_opw (s : State) (dst src : Nat) : State :=
  let tmp_tag := ld16 s (taddr s dst)
  let s1 := st16 s (taddr s dst) (gpr16 s src 0)
  set_gpr16 s1 src 0 tmp_tag

/-- XCHG, upper 8-bit register and memory (`_xchg_r2m_opb_u`). -/
def _xchg_r2m_opb_u (s : State) (dst src : Nat) : State :=
  let tmp_tag := ld8 s (taddr s dst)
  let s1 := st8 s (taddr s dst) (gpr8 s src 1)
  set_gpr8 s1 src 1 tmp_tag

/-- XCHG, lower 8-bit register and memory (`_xchg_r2m_opb_l`). -/
def _xchg_r2m_opb_l (s : State) (dst src : Nat) : State :=
  let tmp_tag := ld8 s (taddr s dst)
  let s1 := st8 s (taddr s dst) (gpr8 s src 0)
  set_gpr8 s1 src 0 tmp_tag

/-- Accumulate `t[upper(dst)] |= t[lower(src)]` (`r2r_binary_opb_ul`). -/
def r2r_binary_opb_ul (s : State) (dst src : Nat) : State :=
  set_gpr8 s dst 1 (gpr8 s dst 1 ||| gpr8 s src 0)

/-- Accumulate `t[lower(dst)] |= t[upper(src)]` (`r2r_binary_opb_lu`). -/
def r2r_binary_opb_lu (s : State) (dst src : Nat) : State :=
  set_gpr8 s dst 0 (gpr8 s dst 0 ||| gpr8 s src 1)

/-- Accumulate `t[upper(dst)] |= t[upper(src)]` (`r2r_binary_opb_u`). -/
def r2r_binary_opb_u (s : State) (dst src : Nat) : State :=
  set_gpr8 s dst 1 (gpr8 s dst 1 ||| gpr8 s src 1)

/-- Accumulate `t[lower(dst)] |= t[lower(src)]` (`r2r_binary_opb_l`). -/
def r2r_binary_opb_l (s : State) (dst src : Nat) : State :=
  set_gpr8 s dst 0 (gpr8 s dst 0 ||| gpr8 s src 0)

/-- Accumulate between two 16-bit registers (`r2r_binary_opw`). -/
def r2r_binary_opw (s : State) (dst src : Nat) : State :=
  set_gpr16 s dst 0 (gpr16 s dst 0 ||| gpr16 s src 0)

/-- Accumulate between two 32-bit registers (`r2r_binary_opl`). -/
def r2r_binary_opl (s : State) (dst src : Nat) : State :=
  set_gpr32 s dst (gpr32 s dst ||| gpr32 s src)

/-- Accumulate memory byte into an upper 8-bit register (`m2r_binary_opb_u`). -/
def m2r_binary_opb_u (s : State) (dst src : Nat) : State :=
  set_gpr8 s dst 1 (gpr8 s dst 1 ||| ld8 s (taddr s src))

/-- Accumulate memory byte into a lower 8-bit register (`m2r_binary_opb_l`). -/
def m2r_binary_opb_l (s : State) (dst src : Nat) : State :=
  set_gpr8 s dst 0 (gpr8 s dst 0 ||| ld8 s (taddr s src))

/-- Accumulate memory word into a 16-bit register (`m2r_binary_opw`). -/
def m2r_binary_opw (s : State) (dst src : Nat) : State :=
  set_gpr16 s dst 0 (gpr16 s dst 0 ||| ld16 s (taddr s src))

/-- Accumulate memory long into a 32-bit register (`m2r_binary_opl`). -/
def m2r_binary_opl (s : State) (dst src : Nat) : State :=
  set_gpr32 s dst (gpr32 s dst ||| ld32 s (taddr s src))

/-- Accumulate an upper 8-bit register into memory (`r2m_binary_opb_u`). -/
def r2m_binary_opb_u (s : State) (dst src : Nat) : State :=
  st8 s (taddr s dst) (ld8 s (taddr s dst) ||| gpr8 s src 1)

/-- Accumulate a lower 8-bit register into memory (`r2m_binary_opb_l`). -/
def r2m_binary_opb_l (s : State) (dst src : Nat) : State :=
  st8 s (taddr s dst) (ld8 s (taddr s dst) ||| gpr8 s src 0)

/-- Accumulate a 16-bit register into memory (`r2m_binary_opw`). -/
def r2m_binary_opw (s : State) (dst src : Nat) : State :=
  st16 s (taddr s dst) (ld16 s (taddr s dst) ||| gpr16 s src 0)

/-- Accumulate a 32-bit register into memory (`r2m_binary_opl`). -/
def r2m_binary_opl (s : State) (dst src : Nat) : State :=
  st32 s (taddr s dst) (ld32 s (taddr s dst) ||| gpr32 s src)

/-- Clear the tag of a 32-bit register (`r_clrl`). -/
def r_clrl (s : State) (reg : Nat) : State := set_gpr32 s reg TAG_ZERO

/-- Clear the tag of a 16-bit register (`r_clrw`). -/
def r_clrw (s : State) (reg : Nat) : State := set_gpr16 s reg 0 TAG_ZERO

/-- Clear the tag of an upper 8-bit register (`r_clrb_u`). -/
def r_clrb_u (s : State) (reg : Nat) : State := set_gpr8 s reg 1 TAG_ZERO

/-- Clear the tag of a lower 8-bit register (`r_clrb_l`). -/
def r_clrb_l (s : State) (reg : Nat) : State := set_gpr8 s reg 0 TAG_ZERO

/-- Transfer `t[upper(dst)] = t[lower(src)]` (`r2r_xfer_opb_ul`). -/
def r2r_xfer_opb_ul (s : State) (dst src : Nat) : State :=
  set_gpr8 s dst 1 (gpr8 s src 0)

/-- Transfer `t[lower(dst)] = t[upper(src)]` (`r2r_xfer_opb_lu`). -/
def r2r_xfer_opb_lu (s : State) (dst src : Nat) : State :=
  set_gpr8 s dst 0 (gpr8 s src 1)

/-- Transfer `t[upper(dst)] = t[upper(src)]` (`r2r_xfer_opb_u`). -/
def r2r_xfer_opb_u (s : State) (dst src : Nat) : State :=
  set_gpr8 s dst 1 (gpr8 s src 1)

/-- Transfer `t[lower(dst)] = t[lower(src)]` (`r2r_xfer_opb_l`). -/
def r2r_xfer_opb_l (s : State) (dst src : Nat) : State :=
  set_gpr8 s dst 0 (gpr8 s src 0)

/-- Transfer between two 16-bit registers (`r2r_xfer_opw`). -/
def r2r_xfer_opw (s : State) (dst src : Nat) : State :=
  set_gpr16 s dst 0 (gpr16 s src 0)

/-- Transfer between two 32-bit registers (`r2r_xfer_opl`). -/
def r2r_xfer_opl (s : State) (dst src : Nat) : State :=
  set_gpr32 s dst (gpr32 s src)

/-- Transfer a memory byte to an upper 8-bit register (`m2r_xfer_opb_u`). -/
def m2r_xfer_opb_u (s : State) (dst src : Nat) : State :=
  set_gpr8 s dst 1 (ld8 s (taddr s src))

/-- Transfer a memory byte to a lower 8-bit register (`m2r_xfer_opb_l`). -/
def m2r_xfer_opb_l (s : State) (dst src : Nat) : State :=
  set_gpr8 s dst 0 (ld8 s (taddr s src))

/-- Transfer a memory word to a 16-bit register (`m2r_xfer_opw`). -/
def m2r_xfer_opw (s : State) (dst src : Nat) : State :=
  set_gpr16 s dst 0 (ld16 s (taddr s src))

/-- Transfer a memory long to a 32-bit register (`m2r_xfer_opl`). -/
def m2r_xfer_opl (s : State) (dst src : Nat) : State :=
  set_gpr32 s dst (ld32 s (taddr s src))

/-- Transfer an upper 8-bit register to memory (`r2m_xfer_opb_u`). -/
def r2m_xfer_opb_u (s : State) (dst src : Nat) : State :=
  st8 s (taddr s dst) (gpr8 s src 1)

/-- Transfer a lower 8-bit register to memory (`r2m_xfer_opb_l`). -/
def r2m_xfer_opb_l (s : State) (dst src : Nat) : State :=
  st8 s (taddr s dst) (gpr8 s src 0)

/-- Transfer a 16-bit register to memory (`r2m_xfer_opw`). -/
def r2m_xfer_opw (s : State) (dst src : Nat) : State :=
  st16 s (taddr s dst) (gpr16 s src 0)

/-- Transfer a 32-bit register to memory (`r2m_xfer_opl`). -/
def r2m_xfer_opl (s : State) (dst src : Nat) : State :=
  st32 s (taddr s dst) (gpr32 s src)

/-- Transfer between two 16-bit memory locations (`m2m_xfer_opw`). -/
def m2m_xfer_opw (s : State) (dst src : Nat) : State :=
  st16 s (taddr s dst) (ld16 s (taddr s src))

/-- Transfer between two 8-bit memory locations (`m2m_xfer_opb`). -/
def m2m_xfer_opb (s : State) (dst src : Nat) : State :=
  st8 s (taddr s dst) (ld8 s (taddr s src))

/-- Transfer between two 32-bit memory locations (`m2m_xfer_opl`). -/
def m2m_xfer_opl (s : State) (dst src : Nat) : State :=
  st32 s (taddr s dst) (ld32 s (taddr s src))

/-! ## libdft_core.c: further analysis routines -/

/-- Truncation to `uint32_t`. -/
def u32 (x : Nat) : Nat := x % 4294967296

/-- Modelled from the spec: the macro `EFLAGS_DF` of `libdft_core.h`
(absent), which extracts the direction flag that makes a block copy run
forward or backward; DF is bit 10 of EFLAGS. -/
def EFLAGS_DF (eflags : Nat) : Nat := eflags &&& 1024

/-- Library routine `memcpy(d, s, n)` on the shadow memory: the `n` bytes at
`s` are copied to the `n` bytes at `d` (the two areas are not to overlap; the
source bytes are read as they were before the call). -/
def memcpy (m : Nat → Nat) (d s n : Nat) : Nat → Nat :=
  fun i => if d ≤ i ∧ i < d + n then rd8 m (s + (i - d)) else m i

/-- The state with its shadow memory replaced. -/
def set_mem (s : State) (m : Nat → Nat) : State := { s with mem := m }

/-- CWDE: `t[upper(eax)] = t[ax]` (`_cwde`). -/
def _cwde (s : State) : State :=
  set_gpr16 s 7 1 (gpr16 s 7 0)

/-- MOVSX, 16-bit register from upper 8-bit register (`_movsx_r2r_opwb_u`). -/
def _movsx_r2r_opwb_u (s : State) (dst src : Nat) : State :=
  let src_tag := gpr8 s src 1
  let s1 := set_gpr8 s dst 0 src_tag
  set_gpr8 s1 dst 1 src_tag

/-- MOVSX, 16-bit register from lower 8-bit register (`_movsx_r2r_opwb_l`). -/
def _movsx_r2r_opwb_l (s : State) (dst src : Nat) : State :=
  let src_tag := gpr8 s src 0
  let s1 := set_gpr8 s dst 0 src_tag
  set_gpr8 s1 dst 1 src_tag

/-- MOVSX, 32-bit register from upper 8-bit register (`_movsx_r2r_oplb_u`). -/
def _movsx_r2r_oplb_u (s : State) (dst src : Nat) : State :=
  let src_tag := gpr8 s src 1
  let s1 := set_gpr8 s dst 0 src_tag
  let s2 := set_gpr8 s1 dst 1 src_tag
  let s3 := set_gpr8 s2 dst 2 src_tag
  set_gpr8 s3 dst 3 src_tag

/-- MOVSX, 32-bit register from lower 8-bit register (`_movsx_r2r_oplb_l`). -/
def _movsx_r2r_oplb_l (s : State) (dst src : Nat) : State :=
  let src_tag := gpr8 s src 0
  let s1 := set_gpr8 s dst 0 src_tag
  let s2 := set_gpr8 s1 dst 1 src_tag
  let s3 := set_gpr8 s2 dst 2 src_tag
  set_gpr8 s3 dst 3 src_tag

/-- MOVSX, 32-bit register from 16-bit register (`_movsx_r2r_oplw`). -/
def _movsx_r2r_oplw (s : State) (dst src : Nat) : State :=
  let src_tag := gpr16 s src 0
  let s1 := set_gpr16 s dst 0 src_tag
  set_gpr16 s1 dst 1 src_tag

/-- MOVSX, 16-bit register from 8-bit memory location (`_movsx_m2r_opwb`). -/
def _movsx_m2r_opwb (s : State) (dst src : Nat) : State :=
  let src_tag := ld8 s (taddr s src)
  let s1 := set_gpr8 s dst 0 src_tag
  set_gpr8 s1 dst 1 src_tag

/-- MOVSX, 32-bit register from 8-bit memory location (`_movsx_m2r_oplb`). -/
def _movsx_m2r_oplb (s : State) (dst src : Nat) : State :=
  let src_tag := ld8 s (taddr s src)
  let s1 := set_gpr8 s dst 0 src_tag
  let s2 := set_gpr8 s1 dst 1 src_tag
  let s3 := set_gpr8 s2 dst 2 src_tag
  set_gpr8 s3 dst 3 src_tag

/-- MOVSX, 32-bit register from 16-bit memory location (`_movsx_m2r_oplw`). -/
def _movsx_m2r_oplw (s : State) (dst src : Nat) : State :=
  let src_tag := ld16 s (taddr s src)
  let s1 := set_gpr16 s dst 0 src_tag
  set_gpr16 s1 dst 1 src_tag

/-- XADD, 32-bit register and memory (`_xadd_r2m_opl`). -/
def _xadd_r2m_opl (s : State) (dst src : Nat) : State :=
  let tmp_tag := ld32 s (taddr s dst)
  let s1 := st32 s (taddr s dst) (ld32 s (taddr s dst) ||| gpr32 s src)
  set_gpr32 s1 src tmp_tag

/-- XADD, 16-bit register and memory (`_xadd_r2m_opw`). -/
def _xadd_r2m_opw (s : State) (dst src : Nat) : State :=
  let tmp_tag := ld16 s (taddr s dst)
  let s1 := st16 s (taddr s dst) (ld16 s (taddr s dst) ||| gpr16 s src 0)
  set_gpr16 s1 src 0 tmp_tag

/-- XADD, upper 8-bit register and memory (`_xadd_r2m_opb_u`). -/
def _xadd_r2m_opb_u (s : State) (dst src : Nat) : State :=
  let tmp_tag := ld8 s (taddr s dst)
  let s1 := st8 s (taddr s dst) (ld8 s (taddr s dst) ||| gpr8 s src 1)
  set_gpr8 s1 src 1 tmp_tag

/-- XADD, lower 8-bit register and memory (`_xadd_r2m_opb_l`). -/
def _xadd_r2m_opb_l (s : State) (dst src : Nat) : State :=
  let tmp_tag := ld8 s (taddr s dst)
  let s1 := st8 s (taddr s dst) (ld8 s (taddr s dst) ||| gpr8 s src 0)
  set_gpr8 s1 src 0 tmp_tag

/-- LEA, 16-bit: `t[dst] = t[base] | t[index]` (`_lea_r2r_opw`). -/
def _lea_r2r_opw (s : State) (dst base index : Nat) : State :=
  set_gpr16 s dst 0 (gpr16 s base 0 ||| gpr16 s index 0)

/-- LEA, 32-bit: `t[dst] = t[base] | t[index]` (`_lea_r2r_opl`). -/
def _lea_r2r_opl (s : State) (dst base index : Nat) : State :=
  set_gpr32 s dst (gpr32 s base ||| gpr32 s index)

/-- DIV/IDIV/MUL, upper 8-bit register source (`r2r_ternary_opb_u`). -/
def r2r_ternary_opb_u (s : State) (src : Nat) : State :=
  let tmp_tag := gpr8 s src 1
  let s1 := set_gpr8 s 7 0 (gpr8 s 7 0 ||| tmp_tag)
  set_gpr8 s1 7 1 (gpr8 s1 7 1 ||| tmp_tag)

/-- DIV/IDIV/MUL, lower 8-bit register source (`r2r_ternary_opb_l`). -/
def r2r_ternary_opb_l (s : State) (src : Nat) : State :=
  let tmp_tag := gpr8 s src 0
  let s1 := set_gpr8 s 7 0 (gpr8 s 7 0 ||| tmp_tag)
  set_gpr8 s1 7 1 (gpr8 s1 7 1 ||| tmp_tag)

/-- DIV/IDIV/MUL, 16-bit register source (`r2r_ternary_opw`). -/
def r2r_ternary_opw (s : State) (src : Nat) : State :=
  let tmp_tag := gpr16 s src 0
  let s1 := set_gpr16 s 5 0 (gpr16 s 5 0 ||| tmp_tag)
  set_gpr16 s1 7 0 (gpr16 s1 7 0 ||| tmp_tag)

/-- DIV/IDIV/MUL, 32-bit register source (`r2r_ternary_opl`). -/
def r2r_ternary_opl (s : State) (src : Nat) : State :=
  let tmp_tag := gpr32 s src
  let s1 := set_gpr32 s 5 (gpr32 s 5 ||| tmp_tag)
  set_gpr32 s1 7 (gpr32 s1 7 ||| tmp_tag)

/-- DIV/IDIV/MUL, 8-bit memory source (`m2r_ternary_opb`). -/
def m2r_ternary_opb (s : State) (src : Nat) : State :=
  let tmp_tag := ld8 s (taddr s src)
  let s1 := set_gpr8 s 7 0 (gpr8 s 7 0 ||| tmp_tag)
  set_gpr8 s1 7 1 (gpr8 s1 7 1 ||| tmp_tag)

/-- DIV/IDIV/MUL, 16-bit memory source (`m2r_ternary_opw`). -/
def m2r_ternary_opw (s : State) (src : Nat) : State :=
  let tmp_tag := ld16 s (taddr s src)
  let s1 := set_gpr16 s 5 0 (gpr16 s 5 0 ||| tmp_tag)
  set_gpr16 s1 7 0 (gpr16 s1 7 0 ||| tmp_tag)

/-- DIV/IDIV/MUL, 32-bit memory source (`m2r_ternary_opl`). -/
def m2r_ternary_opl (s : State) (src : Nat) : State :=
  let tmp_tag := ld32 s (taddr s src)
  let s1 := set_gpr32 s 5 (gpr32 s 5 ||| tmp_tag)
  set_gpr32 s1 7 (gpr32 s1 7 ||| tmp_tag)

/-- Clear the tags of EAX, EBX, ECX, EDX (`r_clrl4`). -/
def r_clrl4 (s : State) : State :=
  let s1 := set_gpr32 s 4 TAG_ZERO
  let s2 := set_gpr32 s1 5 TAG_ZERO
  let s3 := set_gpr32 s2 6 TAG_ZERO
  set_gpr32 s3 7 TAG_ZERO

/-- Clear the tags of EAX, EDX (`r_clrl2`). -/
def r_clrl2 (s : State) : State :=
  let s1 := set_gpr32 s 5 TAG_ZERO
  set_gpr32 s1 7 TAG_ZERO

/-- Transfer between `count` 16-bit memory locations (`m2m_xfer_opwn`). -/
def m2m_xfer_opwn (s : State) (dst src count eflags : Nat) : State :=
  if EFLAGS_DF eflags = 0 then
    set_mem s (memcpy s.mem (taddr s dst) (taddr s src) (u32 (count <<< 1)))
  else
    set_mem s (memcpy s.mem
        (u32 (taddr s dst + 4294967296 - u32 (count <<< 1) + 1))
        (u32 (taddr s src + 4294967296 - u32 (count <<< 1) + 1))
        (u32 (count <<< 1)))

/-- Transfer between `count` 8-bit memory locations (`m2m_xfer_opbn`). -/
def m2m_xfer_opbn (s : State) (dst src count eflags : Nat) : State :=
  if EFLAGS_DF eflags = 0 then
    set_mem s (memcpy s.mem (taddr s dst) (taddr s src) (u32 count))
  else
    set_mem s (memcpy s.mem
        (u32 (taddr s dst + 4294967296 - u32 count + 1))
        (u32 (taddr s src + 4294967296 - u32 count + 1))
        (u32 count))

/-- Transfer between `count` 32-bit memory locations (`m2m_xfer_opln`). -/
def m2m_xfer_opln (s : State) (dst src count eflags : Nat) : State :=
  if EFLAGS_DF eflags = 0 then
    set_mem s (memcpy s.mem (taddr s dst) (taddr s src) (u32 (count <<< 2)))
  else
    set_mem s (memcpy s.mem
        (u32 (taddr s dst + 4294967296 - u32 (count <<< 2) + 1))
        (u32 (taddr s src + 4294967296 - u32 (count <<< 2) + 1))
        (u32 (count <<< 2)))

/-- Instrumentation helper that returns the flag it is given
(`rep_predicate`). -/
def rep_predicate (first_iteration : Bool) : Nat :=
  if first_iteration then 1 else 0

/-- POPA: restore the 16-bit register tags from memory (`m2r_restore_opw`). -/
def m2r_restore_opw (s : State) (src : Nat) : State :=
  let dst := taddr s src
  let s0 := set_gpr16 s 0 0 (ld16 s dst)
  let s1 := set_gpr16 s0 1 0 (ld16 s0 (u32 (dst + 2)))
  let s2 := set_gpr16 s1 2 0 (ld16 s1 (u32 (dst + 4)))
  let s4 := set_gpr16 s2 4 0 (ld16 s2 (u32 (dst + 8)))
  let s5 := set_gpr16 s4 5 0 (ld16 s4 (u32 (dst + 10)))
  let s6 := set_gpr16 s5 6 0 (ld16 s5 (u32 (dst + 12)))
  set_gpr16 s6 7 0 (ld16 s6 (u32 (dst + 14)))

/-- POPAD: restore the 32-bit register tags from memory (`m2r_restore_opl`). -/
def m2r_restore_opl (s : State) (src : Nat) : State :=
  let dst := taddr s src
  let s0 := set_gpr32 s 0 (ld32 s dst)
  let s1 := set_gpr32 s0 1 (ld32 s0 (u32 (dst + 4)))
  let s2 := set_gpr32 s1 2 (ld32 s1 (u32 (dst + 8)))
  let s4 := set_gpr32 s2 4 (ld32 s2 (u32 (dst + 16)))
  let s5 := set_gpr32 s4 5 (ld32 s4 (u32 (dst + 20)))
  let s6 := set_gpr32 s5 6 (ld32 s5 (u32 (dst + 24)))
  set_gpr32 s6 7 (ld32 s6 (u32 (dst + 28)))

/-- PUSHA: save the 16-bit register tags into memory (`r2m_save_opw`). -/
def r2m_save_opw (s : State) (dst : Nat) : State :=
  let dst_val := taddr s dst
  let s0 := st16 s dst_val (gpr16 s 0 0)
  let s1 := st16 s0 (u32 (dst_val + 2)) (gpr16 s0 1 0)
  let s2 := st16 s1 (u32 (dst_val + 4)) (gpr16 s1 2 0)
  let s3 := st16 s2 (u32 (dst_val + 6)) (gpr16 s2 3 0)
  let s4 := st16 s3 (u32 (dst_val + 8)) (gpr16 s3 4 0)
  let s5 := st16 s4 (u32 (dst_val + 10)) (gpr16 s4 5 0)
  let s6 := st16 s5 (u32 (dst_val + 12)) (gpr16 s5 6 0)
  st16 s6 (u32 (dst_val + 14)) (gpr16 s6 7 0)

/-- PUSHAD: save the 32-bit register tags into memory (`r2m_save_opl`). -/
def r2m_save_opl (s : State) (dst : Nat) : State :=
  let dst_val := taddr s dst
  let s0 := st32 s dst_val (gpr32 s 0)
  let s1 := st32 s0 (u32 (dst_val + 4)) (gpr32 s0 1)
  let s2 := st32 s1 (u32 (dst_val + 8)) (gpr32 s1 2)
  let s3 := st32 s2 (u32 (dst_val + 12)) (gpr32 s2 3)
  let s4 := st32 s3 (u32 (dst_val + 16)) (gpr32 s3 4)
  let s5 := st32 s4 (u32 (dst_val + 20)) (gpr32 s4 5)
  let s6 := st32 s5 (u32 (dst_val + 24)) (gpr32 s5 6)
  st32 s6 (u32 (dst_val + 28)) (gpr32 s6 7)

/-! ## The instrumentation host (Pin) as seen by `ins_inspect` -/

/-- Registers of the host's `REG` enumeration that `ins_inspect` tells apart:
the 32-, 16- and 8-bit general purpose registers and the segment registers. -/
inductive REG where
  | INVALID
  | EDI | ESI | EBP | ESP | EBX | EDX | ECX | EAX
  | DI | SI | BP | SP | BX | DX | CX | AX
  | AL | AH | BL | BH | CL | CH | DL | DH
  | SEG_CS | SEG_SS | SEG_DS | SEG_ES | SEG_FS | SEG_GS
  | EFLAGS
  deriving DecidableEq, Repr

/-- Host predicate `REG_is_gr32`. -/
def REG_is_gr32 : REG → Bool
  | .EDI | .ESI | .EBP | .ESP | .EBX | .EDX | .ECX | .EAX => true
  | _ => false

/-- Host predicate `REG_is_gr16`. -/
def REG_is_gr16 : REG → Bool
  | .DI | .SI | .BP | .SP | .BX | .DX | .CX | .AX => true
  | _ => false

/-- Host predicate `REG_is_Upper8`. -/
def REG_is_Upper8 : REG → Bool
  | .AH | .BH | .CH | .DH => true
  | _ => false

/-- Host predicate `REG_is_Lower8`. -/
def REG_is_Lower8 : REG → Bool
  | .AL | .BL | .CL | .DL => true
  | _ => false

/-- Host predicate `REG_is_gr8`. -/
def REG_is_gr8 (r : REG) : Bool := REG_is_Lower8 r || REG_is_Upper8 r

/-- Host predicate `REG_is_seg`. -/
def REG_is_seg : REG → Bool
  | .SEG_CS | .SEG_SS | .SEG_DS | .SEG_ES | .SEG_FS | .SEG_GS => true
  | _ => false

/-- The register-to-slot macros `REG32_INDX`, `REG16_INDX` and `REG8_INDX`
are defined in `libdft_core.h`, which is not among the sources; the
classifier is embedded over an arbitrary choice of them. -/
structure RegIndx where
  /-- Slot of a 32-bit register. -/
  REG32_INDX : REG → Nat
  /-- Slot of a 16-bit register. -/
  REG16_INDX : REG → Nat
  /-- Slot of an 8-bit register. -/
  REG8_INDX : REG → Nat

/-- Modelled from the spec: the macros `REG32_INDX` / `REG16_INDX` /
`REG8_INDX` of `libdft_core.h` (absent).  The eight slots 0..7 correspond to
the eight 32-bit general purpose registers; the order is the one the
analysis routines spell out (`gpr[0]` EDI, `gpr[1]` ESI, `gpr[2]` EBP,
`gpr[3]` ESP, `gpr[4]` EBX, `gpr[5]` EDX, `gpr[6]` ECX, `gpr[7]` EAX), and a
16- or 8-bit register lives in the slot of the 32-bit register it is part
of. -/
def slotOf : REG → Nat
  | .EDI | .DI => 0
  | .ESI | .SI => 1
  | .EBP | .BP => 2
  | .ESP | .SP => 3
  | .EBX | .BX | .BL | .BH => 4
  | .EDX | .DX | .DL | .DH => 5
  | .ECX | .CX | .CL | .CH => 6
  | .EAX | .AX | .AL | .AH => 7
  | _ => 0

/-- The slot assignment `slotOf` packaged as index macros. -/
def stdIndx : RegIndx := ⟨slotOf, slotOf, slotOf⟩

/-- Values of the host decoder's enumeration `xed_iclass_enum_t`, as far as
`ins_inspect` tells them apart: the bound `XED_ICLASS_INVALID` (the first
enumerator), every opcode class that has a case label in `ins_inspect`,
`other n` for the opcode classes without a case label, the bound
`XED_ICLASS_LAST` (the last enumerator) and `beyond n` for the value
`XED_ICLASS_LAST + 1 + n`, which is no enumerator. -/
inductive xed_iclass where
  | INVALID
  | ADC | ADD | AND | OR | XOR | SBB | SUB
  | CMPXCHG
  | XCHG
  | XADD
  | MOVSD | MOVSW | MOVSB
  | LEA
  | BSF | BSR | MOV
  | SETB | SETBE | SETL | SETLE | SETNB | SETNBE | SETNL | SETNLE
  | SETNO | SETNP | SETNS | SETNZ | SETO | SETP | SETS | SETZ
  | STMXCSR | SMSW | STR | LAR | RDPMC | RDTSC | CPUID | LAHF | SALC
  | RCL | RCR | ROL | ROR | SHL | SAR | SHR | SHLD | SHRD
  | CMPXCHG8B | ENTER
  | CMOVB | CMOVBE | CMOVL | CMOVLE | CMOVNB | CMOVNBE | CMOVNL | CMOVNLE
  | CMOVNO | CMOVNP | CMOVNS | CMOVNZ | CMOVO | CMOVP | CMOVS | CMOVZ
  | CBW | CWD | CWDE | CDQ
  | MOVSX | MOVZX
  | DIV | IDIV | MUL | IMUL
  | XLAT | LODSB | LODSW | LODSD | STOSB | STOSW | STOSD
  | POP | PUSH | POPA | POPAD | PUSHA | PUSHAD | PUSHF | PUSHFD
  | CALL_NEAR | LEAVE
  | other (n : Nat)
  | LAST
  | beyond (n : Nat)

/-- A numbering of the values of `xed_iclass`, one pair for each value; it
serves to decide equality and says nothing about the host's numbering. -/
def xed_iclass.code : xed_iclass → Nat × Nat
  | .INVALID => (0, 0)
  | .ADC => (1, 0)
  | .ADD => (2, 0)
  | .AND => (3, 0)
  | .OR => (4, 0)
  | .XOR => (5, 0)
  | .SBB => (6, 0)
  | .SUB => (7, 0)
  | .CMPXCHG => (8, 0)
  | .XCHG => (9, 0)
  | .XADD => (10, 0)
  | .MOVSD => (11, 0)
  | .MOVSW => (12, 0)
  | .MOVSB => (13, 0)
  | .LEA => (14, 0)
  | .BSF => (15, 0)
  | .BSR => (16, 0)
  | .MOV => (17, 0)
  | .SETB => (18, 0)
  | .SETBE => (19, 0)
  | .SETL => (20, 0)
  | .SETLE => (21, 0)
  | .SETNB => (22, 0)
  | .SETNBE => (23, 0)
  | .SETNL => (24, 0)
  | .SETNLE => (25, 0)
  | .SETNO => (26, 0)
  | .SETNP => (27, 0)
  | .SETNS => (28, 0)
  | .SETNZ => (29, 0)
  | .SETO => (30, 0)
  | .SETP => (31, 0)
  | .SETS => (32, 0)
  | .SETZ => (33, 0)
  | .STMXCSR => (34, 0)
  | .SMSW => (35, 0)
  | .STR => (36, 0)
  | .LAR => (37, 0)
  | .RDPMC => (38, 0)
  | .RDTSC => (39, 0)
  | .CPUID => (40, 0)
  | .LAHF => (41, 0)
  | .SALC => (42, 0)
  | .RCL => (43, 0)
  | .RCR => (44, 0)
  | .ROL => (45, 0)
  | .ROR => (46, 0)
  | .SHL => (47, 0)
  | .SAR => (48, 0)
  | .SHR => (49, 0)
  | .SHLD => (50, 0)
  | .SHRD => (51, 0)
  | .CMPXCHG8B => (52, 0)
  | .ENTER => (53, 0)
  | .CMOVB => (54, 0)
  | .CMOVBE => (55, 0)
  | .CMOVL => (56, 0)
  | .CMOVLE => (57, 0)
  | .CMOVNB => (58, 0)
  | .CMOVNBE => (59, 0)
  | .CMOVNL => (60, 0)
  | .CMOVNLE => (61, 0)
  | .CMOVNO => (62, 0)
  | .CMOVNP => (63, 0)
  | .CMOVNS => (64, 0)
  | .CMOVNZ => (65, 0)
  | .CMOVO => (66, 0)
  | .CMOVP => (67, 0)
  | .CMOVS => (68, 0)
  | .CMOVZ => (69, 0)
  | .CBW => (70, 0)
  | .CWD => (71, 0)
  | .CWDE => (72, 0)
  | .CDQ => (73, 0)
  | .MOVSX => (74, 0)
  | .MOVZX => (75, 0)
  | .DIV => (76, 0)
  | .IDIV => (77, 0)
  | .MUL => (78, 0)
  | .IMUL => (79, 0)
  | .XLAT => (80, 0)
  | .LODSB => (81, 0)
  | .LODSW => (82, 0)
  | .LODSD => (83, 0)
  | .STOSB => (84, 0)
  | .STOSW => (85, 0)
  | .STOSD => (86, 0)
  | .POP => (87, 0)
  | .PUSH => (88, 0)
  | .POPA => (89, 0)
  | .POPAD => (90, 0)
  | .PUSHA => (91, 0)
  | .PUSHAD => (92, 0)
  | .PUSHF => (93, 0)
  | .PUSHFD => (94, 0)
  | .CALL_NEAR => (95, 0)
  | .LEAVE => (96, 0)
  | .LAST => (97, 0)
  | .other n => (98, n)
  | .beyond n => (99, n)

/-- The value of `xed_iclass` that has a given number (`xed_iclass.code`). -/
def xed_iclass.uncode : Nat × Nat → xed_iclass
  | (1, _) => .ADC
  | (2, _) => .ADD
  | (3, _) => .AND
  | (4, _) => .OR
  | (5, _) => .XOR
  | (6, _) => .SBB
  | (7, _) => .SUB
  | (8, _) => .CMPXCHG
  | (9, _) => .XCHG
  | (10, _) => .XADD
  | (11, _) => .MOVSD
  | (12, _) => .MOVSW
  | (13, _) => .MOVSB
  | (14, _) => .LEA
  | (15, _) => .BSF
  | (16, _) => .BSR
  | (17, _) => .MOV
  | (18, _) => .SETB
  | (19, _) => .SETBE
  | (20, _) => .SETL
  | (21, _) => .SETLE
  | (22, _) => .SETNB
  | (23, _) => .SETNBE
  | (24, _) => .SETNL
  | (25, _) => .SETNLE
  | (26, _) => .SETNO
  | (27, _) => .SETNP
  | (28, _) => .SETNS
  | (29, _) => .SETNZ
  | (30, _) => .SETO
  | (31, _) => .SETP
  | (32, _) => .SETS
  | (33, _) => .SETZ
  | (34, _) => .STMXCSR
  | (35, _) => .SMSW
  | (36, _) => .STR
  | (37, _) => .LAR
  | (38, _) => .RDPMC
  | (39, _) => .RDTSC
  | (40, _) => .CPUID
  | (41, _) => .LAHF
  | (42, _) => .SALC
  | (43, _) => .RCL
  | (44, _) => .RCR
  | (45, _) => .ROL
  | (46, _) => .ROR
  | (47, _) => .SHL
  | (48, _) => .SAR
  | (49, _) => .SHR
  | (50, _) => .SHLD
  | (51, _) => .SHRD
  | (52, _) => .CMPXCHG8B
  | (53, _) => .ENTER
  | (54, _) => .CMOVB
  | (55, _) => .CMOVBE
  | (56, _) => .CMOVL
  | (57, _) => .CMOVLE
  | (58, _) => .CMOVNB
  | (59, _) => .CMOVNBE
  | (60, _) => .CMOVNL
  | (61, _) => .CMOVNLE
  | (62, _) => .CMOVNO
  | (63, _) => .CMOVNP
  | (64, _) => .CMOVNS
  | (65, _) => .CMOVNZ
  | (66, _) => .CMOVO
  | (67, _) => .CMOVP
  | (68, _) => .CMOVS
  | (69, _) => .CMOVZ
  | (70, _) => .CBW
  | (71, _) => .CWD
  | (72, _) => .CWDE
  | (73, _) => .CDQ
  | (74, _) => .MOVSX
  | (75, _) => .MOVZX
  | (76, _) => .DIV
  | (77, _) => .IDIV
  | (78, _) => .MUL
  | (79, _) => .IMUL
  | (80, _) => .XLAT
  | (81, _) => .LODSB
  | (82, _) => .LODSW
  | (83, _) => .LODSD
  | (84, _) => .STOSB
  | (85, _) => .STOSW
  | (86, _) => .STOSD
  | (87, _) => .POP
  | (88, _) => .PUSH
  | (89, _) => .POPA
  | (90, _) => .POPAD
  | (91, _) => .PUSHA
  | (92, _) => .PUSHAD
  | (93, _) => .PUSHF
  | (94, _) => .PUSHFD
  | (95, _) => .CALL_NEAR
  | (96, _) => .LEAVE
  | (97, _) => .LAST
  | (98, n) => .other n
  | (99, n) => .beyond n
  | _ => .INVALID

instance : DecidableEq xed_iclass := fun a b =>
  if h : a.code = b.code then
    isTrue (by
      have ha : xed_iclass.uncode a.code = a := by cases a <;> rfl
      have hb : xed_iclass.uncode b.code = b := by cases b <;> rfl
      rw [← ha, ← hb, h])
  else isFalse (fun e => h (by rw [e]))

/-- Position of a value of `xed_iclass_enum_t` relative to the two bounds
the sanity check of `ins_inspect` compares it with: `XED_ICLASS_INVALID` is
the first enumerator, `XED_ICLASS_LAST` the last one, and every opcode class
lies strictly between the two. -/
@[simp] def xed_iclass.rank : xed_iclass → Nat
  | .INVALID => 0
  | .LAST => 2
  | .beyond n => 3 + n
  | _ => 1

/-- Kind of an instruction operand. -/
inductive Operand where
  | reg (r : REG)
  | mem
  | imm
  deriving DecidableEq, Repr

/-- A decoded static instruction: opcode class, operands, the base and
index registers of its memory operand, its repeat prefix and the widths of
its operands. -/
structure INS where
  /-- Opcode class, `INS_Opcode`. -/
  opcode : xed_iclass
  /-- Operands, operand 0 first. -/
  operands : List Operand
  /-- Base register of the memory operand, `REG.INVALID` when there is none. -/
  base : REG
  /-- Index register of the memory operand, `REG.INVALID` when there is none. -/
  index : REG
  /-- Whether the instruction carries a repeat prefix. -/
  rep : Bool
  /-- Register that counts the repetitions. -/
  repCount : REG
  /-- Width in bits of operand `n`, `INS_OperandWidth`. -/
  width : Nat → Nat
  /-- Size in bytes of the memory operand written, `INS_MemoryWriteSize`. -/
  memWriteSize : Nat
  /-- Whether operand `n` is implicit, `INS_OperandIsImplicit`. -/
  implicit : Nat → Bool

/-- Host query `INS_Opcode`, cast to `xed_iclass_enum_t`. -/
@[simp] def INS_Opcode (ins : INS) : xed_iclass := ins.opcode

/-- Host query `INS_OperandIsImmediate`. -/
def INS_OperandIsImmediate (ins : INS) (n : Nat) : Bool :=
  match ins.operands.get? n with
  | some .imm => true
  | _ => false

/-- Host query `INS_OperandIsMemory`. -/
def INS_OperandIsMemory (ins : INS) (n : Nat) : Bool :=
  match ins.operands.get? n with
  | some .mem => true
  | _ => false

/-- Host query `INS_OperandReg`; `REG.INVALID` when the operand is no
register. -/
def INS_OperandReg (ins : INS) (n : Nat) : REG :=
  match ins.operands.get? n with
  | some (.reg r) => r
  | _ => .INVALID

/-- Host query `INS_OperandIsReg`. -/
def INS_OperandIsReg (ins : INS) (n : Nat) : Bool :=
  match ins.operands.get? n with
  | some (.reg _) => true
  | _ => false

/-- Host query `INS_OperandWidth`: width of operand `n` in bits. -/
def INS_OperandWidth (ins : INS) (n : Nat) : Nat := ins.width n

/-- Host query `INS_MemoryWriteSize`: size of the memory write in bytes. -/
def INS_MemoryWriteSize (ins : INS) : Nat := ins.memWriteSize

/-- Host query `INS_OperandIsImplicit`. -/
def INS_OperandIsImplicit (ins : INS) (n : Nat) : Bool := ins.implicit n

/-- Modelled from the spec: the macro `BIT2BYTE` of `libdft_core.h` (absent),
which turns a width in bits into a width in bytes. -/
def BIT2BYTE (len : Nat) : Nat := len >>> 3

/-- Modelled from the spec: the macro `MEM_LONG_LEN` of `libdft_core.h`
(absent), the width in bits of a long word operand. -/
def MEM_LONG_LEN : Nat := 32

/-- Modelled from the spec: the macro `MEM_WORD_LEN` of `libdft_core.h`
(absent), the width in bits of a word operand. -/
def MEM_WORD_LEN : Nat := 16

/-- Modelled from the spec: the macro `MEM_BYTE_LEN` of `libdft_core.h`
(absent), the width in bits of a byte operand. -/
def MEM_BYTE_LEN : Nat := 8

/-- Host query `INS_MemoryOperandCount`. -/
def INS_MemoryOperandCount (ins : INS) : Nat :=
  (ins.operands.filter (fun o => o == .mem)).length

/-- Host query `INS_MemoryBaseReg`. -/
def INS_MemoryBaseReg (ins : INS) : REG := ins.base

/-- Host query `INS_MemoryIndexReg`. -/
def INS_MemoryIndexReg (ins : INS) : REG := ins.index

/-- Host query `INS_RepPrefix`. -/
def INS_RepPrefix (ins : INS) : Bool := ins.rep

/-- Host query `INS_RepCountRegister`. -/
def INS_RepCountRegister (ins : INS) : REG := ins.repCount

/-- Host constant `REG_INVALID()`. -/
def REG_INVALID : REG := .INVALID

/-- First operand index (`OP_0`). -/
def OP_0 : Nat := 0

/-- Second operand index (`OP_1`). -/
def OP_1 : Nat := 1

/-- Third operand index (`OP_2`). -/
def OP_2 : Nat := 2

/-- Fourth operand index (`OP_3`). -/
def OP_3 : Nat := 3

/-- Sixth operand index (`OP_5`). -/
def OP_5 : Nat := 5

/-- Analysis routines that `ins_inspect` can install. -/
inductive AFUNPTR where
  | _cmpxchg_r2r_opl_fast | _cmpxchg_r2r_opl_slow
  | _cmpxchg_r2r_opw_fast | _cmpxchg_r2r_opw_slow
  | _cmpxchg_m2r_opl_fast | _cmpxchg_r2m_opl_slow
  | _cmpxchg_m2r_opw_fast | _cmpxchg_r2m_opw_slow
  | _xchg_r2m_opl | _xchg_r2m_opw | _xchg_r2m_opb_u | _xchg_r2m_opb_l
  | r2r_binary_opb_ul | r2r_binary_opb_lu | r2r_binary_opb_u | r2r_binary_opb_l
  | r2r_binary_opw | r2r_binary_opl
  | m2r_binary_opb_u | m2r_binary_opb_l | m2r_binary_opw | m2r_binary_opl
  | r2m_binary_opb_u | r2m_binary_opb_l | r2m_binary_opw | r2m_binary_opl
  | r_clrl | r_clrw | r_clrb_u | r_clrb_l
  | r2r_xfer_opb_ul | r2r_xfer_opb_lu | r2r_xfer_opb_u | r2r_xfer_opb_l
  | r2r_xfer_opw | r2r_xfer_opl
  | _cwde
  | _movsx_r2r_opwb_u | _movsx_r2r_opwb_l | _movsx_r2r_oplb_u | _movsx_r2r_oplb_l
  | _movsx_r2r_oplw | _movsx_m2r_opwb | _movsx_m2r_oplb | _movsx_m2r_oplw
  | _movzx_r2r_opwb_u | _movzx_r2r_opwb_l | _movzx_r2r_oplb_u | _movzx_r2r_oplb_l
  | _movzx_r2r_oplw | _movzx_m2r_opwb | _movzx_m2r_oplb | _movzx_m2r_oplw
  | _xadd_r2m_opl | _xadd_r2m_opw | _xadd_r2m_opb_u | _xadd_r2m_opb_l
  | _lea_r2r_opw | _lea_r2r_opl
  | r2r_ternary_opb_u | r2r_ternary_opb_l | r2r_ternary_opw | r2r_ternary_opl
  | m2r_ternary_opb | m2r_ternary_opw | m2r_ternary_opl
  | r_clrl4 | r_clrl2
  | m2r_xfer_opb_u | m2r_xfer_opb_l | m2r_xfer_opw | m2r_xfer_opl
  | r2m_xfer_opb_u | r2m_xfer_opb_l | r2m_xfer_opw | r2m_xfer_opl
  | m2m_xfer_opw | m2m_xfer_opb | m2m_xfer_opl
  | m2m_xfer_opwn | m2m_xfer_opbn | m2m_xfer_opln
  | rep_predicate
  | m2r_restore_opw | m2r_restore_opl | r2m_save_opw | r2m_save_opl
  | tagmap_clrb | tagmap_clrw | tagmap_clrl
  deriving DecidableEq, Repr

/-- Arguments the host passes to an analysis routine.  The leading
`IARG_FAST_ANALYSIS_CALL`, the thread context `IARG_REG_VALUE, thread_ctx_ptr`
(the state itself here) and the closing `IARG_END` are not listed. -/
inductive IARG where
  | REG_VALUE (r : REG)
  | UINT32 (n : Nat)
  | MEMORYREAD_EA
  | MEMORYWRITE_EA
  | FIRST_REP_ITERATION
  deriving DecidableEq, Repr

/-- Where a call is inserted relative to the instruction (the host's
`IPOINT`): `IPOINT_BEFORE`, `IPOINT_AFTER`, `IPOINT_ANYWHERE`,
`IPOINT_TAKEN_BRANCH`. -/
inductive IPOINT where
  | BEFORE | AFTER | ANYWHERE | TAKEN_BRANCH
  deriving DecidableEq, Repr

/-- Which insertion primitive was used: `INS_InsertCall`, `INS_InsertIfCall`,
`INS_InsertThenCall`, or one of the predicated primitives
`INS_InsertPredicatedCall`, `INS_InsertIfPredicatedCall`,
`INS_InsertThenPredicatedCall`, whose routine runs only when the
instruction's predicate holds. -/
inductive InsertKind where
  | Call | IfCall | ThenCall
  | PredicatedCall | IfPredicatedCall | ThenPredicatedCall
  deriving DecidableEq, Repr

/-- One instrumentation binding: an analysis routine with its insertion
point and arguments. -/
structure Binding where
  /-- Insertion primitive. -/
  how : InsertKind
  /-- Insertion point. -/
  ipoint : IPOINT
  /-- Analysis routine. -/
  fn : AFUNPTR
  /-- Arguments, in order. -/
  args : List IARG
  deriving DecidableEq, Repr

/-- Binding made by `INS_InsertCall(ins, ipoint, fn, ...)`. -/
def INS_InsertCall (ipoint : IPOINT) (fn : AFUNPTR) (args : List IARG) : Binding :=
  ⟨.Call, ipoint, fn, args⟩

/-- Binding made by `INS_InsertIfCall(ins, ipoint, fn, ...)`. -/
def INS_InsertIfCall (ipoint : IPOINT) (fn : AFUNPTR) (args : List IARG) : Binding :=
  ⟨.IfCall, ipoint, fn, args⟩

/-- Binding made by `INS_InsertThenCall(ins, ipoint, fn, ...)`. -/
def INS_InsertThenCall (ipoint : IPOINT) (fn : AFUNPTR) (args : List IARG) : Binding :=
  ⟨.ThenCall, ipoint, fn, args⟩

/-- Binding made by `INS_InsertPredicatedCall(ins, ipoint, fn, ...)`. -/
def INS_InsertPredicatedCall (ipoint : IPOINT) (fn : AFUNPTR) (args : List IARG) :
    Binding :=
  ⟨.PredicatedCall, ipoint, fn, args⟩

/-- Binding made by `INS_InsertIfPredicatedCall(ins, ipoint, fn, ...)`. -/
def INS_InsertIfPredicatedCall (ipoint : IPOINT) (fn : AFUNPTR) (args : List IARG) :
    Binding :=
  ⟨.IfPredicatedCall, ipoint, fn, args⟩

/-- Binding made by `INS_InsertThenPredicatedCall(ins, ipoint, fn, ...)`. -/
def INS_InsertThenPredicatedCall (ipoint : IPOINT) (fn : AFUNPTR) (args : List IARG) :
    Binding :=
  ⟨.ThenPredicatedCall, ipoint, fn, args⟩

/-! ## libdft_core.c: `ins_inspect` -/

/-- Case `XED_ICLASS_ADC` .. `XED_ICLASS_SUB` of `ins_inspect`:
`t[dst] |= t[src]`, with the clear-register idiom for `xor`, `sub`, `sbb`. -/
def ins_inspect_binary (ix : RegIndx) (ins : INS) : List Binding :=
  let ins_indx := ins.opcode
  if INS_OperandIsImmediate ins OP_1 then
    []
  else if INS_MemoryOperandCount ins = 0 then
    let reg_dst := INS_OperandReg ins OP_0
    let reg_src := INS_OperandReg ins OP_1
    if REG_is_gr32 reg_dst then
      let dflt := [INS_InsertCall .BEFORE .r2r_binary_opl
        [.UINT32 (ix.REG32_INDX reg_dst), .UINT32 (ix.REG32_INDX reg_src)]]
      match ins_indx with
      | .XOR | .SUB | .SBB =>
        if reg_dst = reg_src then
          [INS_InsertCall .BEFORE .r_clrl [.UINT32 (ix.REG32_INDX reg_dst)]]
        else dflt
      | _ => dflt
    else if REG_is_gr16 reg_dst then
      let dflt := [INS_InsertCall .BEFORE .r2r_binary_opw
        [.UINT32 (ix.REG16_INDX reg_dst), .UINT32 (ix.REG16_INDX reg_src)]]
      match ins_indx with
      | .XOR | .SUB | .SBB =>
        if reg_dst = reg_src then
          [INS_InsertCall .BEFORE .r_clrw [.UINT32 (ix.REG16_INDX reg_dst)]]
        else dflt
      | _ => dflt
    else
      let dflt :=
        if REG_is_Lower8 reg_dst && REG_is_Lower8 reg_src then
          [INS_InsertCall .BEFORE .r2r_binary_opb_l
            [.UINT32 (ix.REG8_INDX reg_dst), .UINT32 (ix.REG8_INDX reg_src)]]
        else if REG_is_Upper8 reg_dst && REG_is_Upper8 reg_src then
          [INS_InsertCall .BEFORE .r2r_binary_opb_u
            [.UINT32 (ix.REG8_INDX reg_dst), .UINT32 (ix.REG8_INDX reg_src)]]
        else if REG_is_Lower8 reg_dst then
          [INS_InsertCall .BEFORE .r2r_binary_opb_lu
            [.UINT32 (ix.REG8_INDX reg_dst), .UINT32 (ix.REG8_INDX reg_src)]]
        else
          [INS_InsertCall .BEFORE .r2r_binary_opb_ul
            [.UINT32 (ix.REG8_INDX reg_dst), .UINT32 (ix.REG8_INDX reg_src)]]
      match ins_indx with
      | .XOR | .SUB | .SBB =>
        if reg_dst = reg_src then
          if REG_is_Upper8 reg_dst then
            [INS_InsertCall .BEFORE .r_clrb_u [.UINT32 (ix.REG8_INDX reg_dst)]]
          else
            [INS_InsertCall .BEFORE .r_clrb_l [.UINT32 (ix.REG8_INDX reg_dst)]]
        else dflt
      | _ => dflt
  else if INS_OperandIsMemory ins OP_1 then
    let reg_dst := INS_OperandReg ins OP_0
    if REG_is_gr32 reg_dst then
      [INS_InsertCall .BEFORE .m2r_binary_opl [.UINT32 (ix.REG32_INDX reg_dst), .MEMORYREAD_EA]]
    else if REG_is_gr16 reg_dst then
      [INS_InsertCall .BEFORE .m2r_binary_opw [.UINT32 (ix.REG16_INDX reg_dst), .MEMORYREAD_EA]]
    else if REG_is_Upper8 reg_dst then
      [INS_InsertCall .BEFORE .m2r_binary_opb_u [.UINT32 (ix.REG8_INDX reg_dst), .MEMORYREAD_EA]]
    else
      [INS_InsertCall .BEFORE .m2r_binary_opb_l [.UINT32 (ix.REG8_INDX reg_dst), .MEMORYREAD_EA]]
  else
    let reg_src := INS_OperandReg ins OP_1
    if REG_is_gr32 reg_src then
      [INS_InsertCall .BEFORE .r2m_binary_opl [.MEMORYWRITE_EA, .UINT32 (ix.REG32_INDX reg_src)]]
    else if REG_is_gr16 reg_src then
      [INS_InsertCall .BEFORE .r2m_binary_opw [.MEMORYWRITE_EA, .UINT32 (ix.REG16_INDX reg_src)]]
    else if REG_is_Upper8 reg_src then
      [INS_InsertCall .BEFORE .r2m_binary_opb_u [.MEMORYWRITE_EA, .UINT32 (ix.REG8_INDX reg_src)]]
    else
      [INS_InsertCall .BEFORE .r2m_binary_opb_l [.MEMORYWRITE_EA, .UINT32 (ix.REG8_INDX reg_src)]]

/-- Case `XED_ICLASS_CMPXCHG` of `ins_inspect`: a probe installed with
`INS_InsertIfCall` and a second phase installed with `INS_InsertThenCall`;
8-bit operands are not handled. -/
def ins_inspect_cmpxchg (ix : RegIndx) (ins : INS) : List Binding :=
  if INS_MemoryOperandCount ins = 0 then
    let reg_dst := INS_OperandReg ins OP_0
    let reg_src := INS_OperandReg ins OP_1
    if REG_is_gr32 reg_dst then
      [INS_InsertIfCall .BEFORE ._cmpxchg_r2r_opl_fast
         [.REG_VALUE .EAX, .UINT32 (ix.REG32_INDX reg_dst), .REG_VALUE reg_dst],
       INS_InsertThenCall .BEFORE ._cmpxchg_r2r_opl_slow
         [.UINT32 (ix.REG32_INDX reg_dst), .UINT32 (ix.REG32_INDX reg_src)]]
    else if REG_is_gr16 reg_dst then
      [INS_InsertIfCall .BEFORE ._cmpxchg_r2r_opw_fast
         [.REG_VALUE .AX, .UINT32 (ix.REG16_INDX reg_dst), .REG_VALUE reg_dst],
       INS_InsertThenCall .BEFORE ._cmpxchg_r2r_opw_slow
         [.UINT32 (ix.REG16_INDX reg_dst), .UINT32 (ix.REG16_INDX reg_src)]]
    else
      []
  else
    let reg_src := INS_OperandReg ins OP_1
    if REG_is_gr32 reg_src then
      [INS_InsertIfCall .BEFORE ._cmpxchg_m2r_opl_fast [.REG_VALUE .EAX, .MEMORYREAD_EA],
       INS_InsertThenCall .BEFORE ._cmpxchg_r2m_opl_slow
         [.MEMORYWRITE_EA, .UINT32 (ix.REG32_INDX reg_src)]]
    else if REG_is_gr16 reg_src then
      [INS_InsertIfCall .BEFORE ._cmpxchg_m2r_opw_fast [.REG_VALUE .AX, .MEMORYREAD_EA],
       INS_InsertThenCall .BEFORE ._cmpxchg_r2m_opw_slow
         [.MEMORYWRITE_EA, .UINT32 (ix.REG16_INDX reg_src)]]
    else
      []

/-- Three transfers through the scratch slot 8, as `ins_inspect` installs
them for a register-register XCHG: `first 8 dst`, `second dst src`,
`third src 8`. -/
def xchg_via_scratch (first second third : AFUNPTR) (d r : Nat) : List Binding :=
  [INS_InsertCall .BEFORE first [.UINT32 8, .UINT32 d],
   INS_InsertCall .BEFORE second [.UINT32 d, .UINT32 r],
   INS_InsertCall .BEFORE third [.UINT32 r, .UINT32 8]]

/-- Case `XED_ICLASS_XCHG` of `ins_inspect`. -/
def ins_inspect_xchg (ix : RegIndx) (ins : INS) : List Binding :=
  if INS_MemoryOperandCount ins = 0 then
    let reg_dst := INS_OperandReg ins OP_0
    let reg_src := INS_OperandReg ins OP_1
    if REG_is_gr32 reg_dst then
      xchg_via_scratch .r2r_xfer_opl .r2r_xfer_opl .r2r_xfer_opl
        (ix.REG32_INDX reg_dst) (ix.REG32_INDX reg_src)
    else if REG_is_gr16 reg_dst then
      xchg_via_scratch .r2r_xfer_opw .r2r_xfer_opw .r2r_xfer_opw
        (ix.REG16_INDX reg_dst) (ix.REG16_INDX reg_src)
    else if REG_is_gr8 reg_dst then
      if REG_is_Lower8 reg_dst && REG_is_Lower8 reg_src then
        xchg_via_scratch .r2r_xfer_opb_l .r2r_xfer_opb_l .r2r_xfer_opb_l
          (ix.REG8_INDX reg_dst) (ix.REG8_INDX reg_src)
      else if REG_is_Upper8 reg_dst && REG_is_Upper8 reg_src then
        xchg_via_scratch .r2r_xfer_opb_u .r2r_xfer_opb_u .r2r_xfer_opb_u
          (ix.REG8_INDX reg_dst) (ix.REG8_INDX reg_src)
      else if REG_is_Lower8 reg_dst then
        xchg_via_scratch .r2r_xfer_opb_l .r2r_xfer_opb_lu .r2r_xfer_opb_ul
          (ix.REG8_INDX reg_dst) (ix.REG8_INDX reg_src)
      else
        xchg_via_scratch .r2r_xfer_opb_u .r2r_xfer_opb_ul .r2r_xfer_opb_lu
          (ix.REG8_INDX reg_dst) (ix.REG8_INDX reg_src)
    else
      []
  else if INS_OperandIsMemory ins OP_1 then
    let reg_dst := INS_OperandReg ins OP_0
    if REG_is_gr32 reg_dst then
      [INS_InsertCall .BEFORE ._xchg_r2m_opl [.MEMORYREAD_EA, .UINT32 (ix.REG32_INDX reg_dst)]]
    else if REG_is_gr16 reg_dst then
      [INS_InsertCall .BEFORE ._xchg_r2m_opw [.MEMORYREAD_EA, .UINT32 (ix.REG16_INDX reg_dst)]]
    else if REG_is_Upper8 reg_dst then
      [INS_InsertCall .BEFORE ._xchg_r2m_opb_u [.MEMORYREAD_EA, .UINT32 (ix.REG8_INDX reg_dst)]]
    else
      [INS_InsertCall .BEFORE ._xchg_r2m_opb_l [.MEMORYREAD_EA, .UINT32 (ix.REG8_INDX reg_dst)]]
  else
    let reg_src := INS_OperandReg ins OP_1
    if REG_is_gr32 reg_src then
      [INS_InsertCall .BEFORE ._xchg_r2m_opl [.MEMORYWRITE_EA, .UINT32 (ix.REG32_INDX reg_src)]]
    else if REG_is_gr16 reg_src then
      [INS_InsertCall .BEFORE ._xchg_r2m_opw [.MEMORYWRITE_EA, .UINT32 (ix.REG16_INDX reg_src)]]
    else if REG_is_Upper8 reg_src then
      [INS_InsertCall .BEFORE ._xchg_r2m_opb_u [.MEMORYWRITE_EA, .UINT32 (ix.REG8_INDX reg_src)]]
    else
      [INS_InsertCall .BEFORE ._xchg_r2m_opb_l [.MEMORYWRITE_EA, .UINT32 (ix.REG8_INDX reg_src)]]

/-- Case `XED_ICLASS_XADD` of `ins_inspect`: the three XCHG transfers through
the scratch slot followed by the accumulate rule, or the fused rule when the
first operand is memory. -/
def ins_inspect_xadd (ix : RegIndx) (ins : INS) : List Binding :=
  if INS_MemoryOperandCount ins = 0 then
    let reg_dst := INS_OperandReg ins OP_0
    let reg_src := INS_OperandReg ins OP_1
    if REG_is_gr32 reg_dst then
      xchg_via_scratch .r2r_xfer_opl .r2r_xfer_opl .r2r_xfer_opl
          (ix.REG32_INDX reg_dst) (ix.REG32_INDX reg_src) ++
        [INS_InsertCall .BEFORE .r2r_binary_opl
          [.UINT32 (ix.REG32_INDX reg_dst), .UINT32 (ix.REG32_INDX reg_src)]]
    else if REG_is_gr16 reg_dst then
      xchg_via_scratch .r2r_xfer_opw .r2r_xfer_opw .r2r_xfer_opw
          (ix.REG16_INDX reg_dst) (ix.REG16_INDX reg_src) ++
        [INS_InsertCall .BEFORE .r2r_binary_opw
          [.UINT32 (ix.REG16_INDX reg_dst), .UINT32 (ix.REG16_INDX reg_src)]]
    else if REG_is_gr8 reg_dst then
      if REG_is_Lower8 reg_dst && REG_is_Lower8 reg_src then
        xchg_via_scratch .r2r_xfer_opb_l .r2r_xfer_opb_l .r2r_xfer_opb_l
            (ix.REG8_INDX reg_dst) (ix.REG8_INDX reg_src) ++
          [INS_InsertCall .BEFORE .r2r_binary_opb_l
            [.UINT32 (ix.REG8_INDX reg_dst), .UINT32 (ix.REG8_INDX reg_src)]]
      else if REG_is_Upper8 reg_dst && REG_is_Upper8 reg_src then
        xchg_via_scratch .r2r_xfer_opb_u .r2r_xfer_opb_u .r2r_xfer_opb_u
            (ix.REG8_INDX reg_dst) (ix.REG8_INDX reg_src) ++
          [INS_InsertCall .BEFORE .r2r_binary_opb_u
            [.UINT32 (ix.REG8_INDX reg_dst), .UINT32 (ix.REG8_INDX reg_src)]]
      else if REG_is_Lower8 reg_dst then
        xchg_via_scratch .r2r_xfer_opb_l .r2r_xfer_opb_lu .r2r_xfer_opb_ul
            (ix.REG8_INDX reg_dst) (ix.REG8_INDX reg_src) ++
          [INS_InsertCall .BEFORE .r2r_binary_opb_lu
            [.UINT32 (ix.REG8_INDX reg_dst), .UINT32 (ix.REG8_INDX reg_src)]]
      else
        xchg_via_scratch .r2r_xfer_opb_u .r2r_xfer_opb_ul .r2r_xfer_opb_lu
            (ix.REG8_INDX reg_dst) (ix.REG8_INDX reg_src) ++
          [INS_InsertCall .BEFORE .r2r_binary_opb_ul
            [.UINT32 (ix.REG8_INDX reg_dst), .UINT32 (ix.REG8_INDX reg_src)]]
    else
      []
  else
    let reg_src := INS_OperandReg ins OP_1
    if REG_is_gr32 reg_src then
      [INS_InsertCall .BEFORE ._xadd_r2m_opl [.MEMORYWRITE_EA, .UINT32 (ix.REG32_INDX reg_src)]]
    else if REG_is_gr16 reg_src then
      [INS_InsertCall .BEFORE ._xadd_r2m_opw [.MEMORYWRITE_EA, .UINT32 (ix.REG16_INDX reg_src)]]
    else if REG_is_Upper8 reg_src then
      [INS_InsertCall .BEFORE ._xadd_r2m_opb_u [.MEMORYWRITE_EA, .UINT32 (ix.REG8_INDX reg_src)]]
    else
      [INS_InsertCall .BEFORE ._xadd_r2m_opb_l [.MEMORYWRITE_EA, .UINT32 (ix.REG8_INDX reg_src)]]

/-- Cases `XED_ICLASS_MOVSD`, `XED_ICLASS_MOVSW`, `XED_ICLASS_MOVSB` of
`ins_inspect`, which differ only in the rules they install: `blockRule` gated
by `rep_predicate` when the instruction is rep prefixed, `rule` otherwise. -/
def ins_inspect_movs (blockRule rule : AFUNPTR) (ins : INS) : List Binding :=
  if INS_RepPrefix ins then
    [INS_InsertIfPredicatedCall .BEFORE .rep_predicate [.FIRST_REP_ITERATION],
     INS_InsertThenPredicatedCall .BEFORE blockRule
       [.MEMORYWRITE_EA, .MEMORYREAD_EA, .REG_VALUE (INS_RepCountRegister ins),
        .REG_VALUE (INS_OperandReg ins OP_5)]]
  else
    [INS_InsertCall .BEFORE rule [.MEMORYWRITE_EA, .MEMORYREAD_EA]]

/-- Case `XED_ICLASS_LEA` of `ins_inspect`: four `if` statements in a row,
one for each way a base and an index register can be present. -/
def ins_inspect_lea (ix : RegIndx) (ins : INS) : List Binding :=
  let reg_base := INS_MemoryBaseReg ins
  let reg_indx := INS_MemoryIndexReg ins
  let reg_dst := INS_OperandReg ins OP_0
  (if reg_base = REG_INVALID ∧ reg_indx = REG_INVALID then
    if REG_is_gr32 reg_dst then
      [INS_InsertCall .BEFORE .r_clrl [.UINT32 (ix.REG32_INDX reg_dst)]]
    else
      [INS_InsertCall .BEFORE .r_clrw [.UINT32 (ix.REG16_INDX reg_dst)]]
  else []) ++
  (if reg_base ≠ REG_INVALID ∧ reg_indx = REG_INVALID then
    if REG_is_gr32 reg_dst then
      [INS_InsertCall .BEFORE .r2r_xfer_opl
        [.UINT32 (ix.REG32_INDX reg_dst), .UINT32 (ix.REG32_INDX reg_base)]]
    else
      [INS_InsertCall .BEFORE .r2r_xfer_opw
        [.UINT32 (ix.REG16_INDX reg_dst), .UINT32 (ix.REG16_INDX reg_base)]]
  else []) ++
  (if reg_base = REG_INVALID ∧ reg_indx ≠ REG_INVALID then
    if REG_is_gr32 reg_dst then
      [INS_InsertCall .BEFORE .r2r_xfer_opl
        [.UINT32 (ix.REG32_INDX reg_dst), .UINT32 (ix.REG32_INDX reg_indx)]]
    else
      [INS_InsertCall .BEFORE .r2r_xfer_opw
        [.UINT32 (ix.REG16_INDX reg_dst), .UINT32 (ix.REG16_INDX reg_indx)]]
  else []) ++
  (if reg_base ≠ REG_INVALID ∧ reg_indx ≠ REG_INVALID then
    if REG_is_gr32 reg_dst then
      [INS_InsertCall .BEFORE ._lea_r2r_opl
        [.UINT32 (ix.REG32_INDX reg_dst), .UINT32 (ix.REG32_INDX reg_base),
         .UINT32 (ix.REG32_INDX reg_indx)]]
    else
      [INS_InsertCall .BEFORE ._lea_r2r_opw
        [.UINT32 (ix.REG16_INDX reg_dst), .UINT32 (ix.REG16_INDX reg_base),
         .UINT32 (ix.REG16_INDX reg_indx)]]
  else [])

/-- Cases `XED_ICLASS_BSF`, `XED_ICLASS_BSR`, `XED_ICLASS_MOV` of
`ins_inspect`: `t[dst] = t[src]`; an immediate or segment-register source
clears the destination.  A memory destination of a width other than 32, 16
or 8 bits makes `ins_inspect` return without a binding. -/
def ins_inspect_mov (ix : RegIndx) (ins : INS) : List Binding :=
  if INS_OperandIsImmediate ins OP_1 ||
      (INS_OperandIsReg ins OP_1 && REG_is_seg (INS_OperandReg ins OP_1)) then
    if INS_OperandIsMemory ins OP_0 then
      if INS_OperandWidth ins OP_0 = MEM_LONG_LEN then
        [INS_InsertCall .BEFORE .tagmap_clrl [.MEMORYWRITE_EA]]
      else if INS_OperandWidth ins OP_0 = MEM_WORD_LEN then
        [INS_InsertCall .BEFORE .tagmap_clrw [.MEMORYWRITE_EA]]
      else if INS_OperandWidth ins OP_0 = MEM_BYTE_LEN then
        [INS_InsertCall .BEFORE .tagmap_clrb [.MEMORYWRITE_EA]]
      else
        []
    else if INS_OperandIsReg ins OP_0 then
      let reg_dst := INS_OperandReg ins OP_0
      if REG_is_gr32 reg_dst then
        [INS_InsertCall .BEFORE .r_clrl [.UINT32 (ix.REG32_INDX reg_dst)]]
      else if REG_is_gr16 reg_dst then
        [INS_InsertCall .BEFORE .r_clrw [.UINT32 (ix.REG16_INDX reg_dst)]]
      else if REG_is_Upper8 reg_dst then
        [INS_InsertCall .BEFORE .r_clrb_u [.UINT32 (ix.REG8_INDX reg_dst)]]
      else
        [INS_InsertCall .BEFORE .r_clrb_l [.UINT32 (ix.REG8_INDX reg_dst)]]
    else
      []
  else if INS_MemoryOperandCount ins = 0 then
    let reg_dst := INS_OperandReg ins OP_0
    let reg_src := INS_OperandReg ins OP_1
    if REG_is_gr32 reg_dst then
      [INS_InsertCall .BEFORE .r2r_xfer_opl
        [.UINT32 (ix.REG32_INDX reg_dst), .UINT32 (ix.REG32_INDX reg_src)]]
    else if REG_is_gr16 reg_dst then
      [INS_InsertCall .BEFORE .r2r_xfer_opw
        [.UINT32 (ix.REG16_INDX reg_dst), .UINT32 (ix.REG16_INDX reg_src)]]
    else if REG_is_gr8 reg_dst then
      if REG_is_Lower8 reg_dst && REG_is_Lower8 reg_src then
        [INS_InsertCall .BEFORE .r2r_xfer_opb_l
          [.UINT32 (ix.REG8_INDX reg_dst), .UINT32 (ix.REG8_INDX reg_src)]]
      else if REG_is_Upper8 reg_dst && REG_is_Upper8 reg_src then
        [INS_InsertCall .BEFORE .r2r_xfer_opb_u
          [.UINT32 (ix.REG8_INDX reg_dst), .UINT32 (ix.REG8_INDX reg_src)]]
      else if REG_is_Lower8 reg_dst then
        [INS_InsertCall .BEFORE .r2r_xfer_opb_lu
          [.UINT32 (ix.REG8_INDX reg_dst), .UINT32 (ix.REG8_INDX reg_src)]]
      else
        [INS_InsertCall .BEFORE .r2r_xfer_opb_ul
          [.UINT32 (ix.REG8_INDX reg_dst), .UINT32 (ix.REG8_INDX reg_src)]]
    else
      []
  else if INS_OperandIsMemory ins OP_1 then
    let reg_dst := INS_OperandReg ins OP_0
    if REG_is_gr32 reg_dst then
      [INS_InsertCall .BEFORE .m2r_xfer_opl [.UINT32 (ix.REG32_INDX reg_dst), .MEMORYREAD_EA]]
    else if REG_is_gr16 reg_dst then
      [INS_InsertCall .BEFORE .m2r_xfer_opw [.UINT32 (ix.REG16_INDX reg_dst), .MEMORYREAD_EA]]
    else if REG_is_Upper8 reg_dst then
      [INS_InsertCall .BEFORE .m2r_xfer_opb_u [.UINT32 (ix.REG8_INDX reg_dst), .MEMORYREAD_EA]]
    else
      [INS_InsertCall .BEFORE .m2r_xfer_opb_l [.UINT32 (ix.REG8_INDX reg_dst), .MEMORYREAD_EA]]
  else
    let reg_src := INS_OperandReg ins OP_1
    if REG_is_gr32 reg_src then
      [INS_InsertCall .BEFORE .r2m_xfer_opl [.MEMORYWRITE_EA, .UINT32 (ix.REG32_INDX reg_src)]]
    else if REG_is_gr16 reg_src then
      [INS_InsertCall .BEFORE .r2m_xfer_opw [.MEMORYWRITE_EA, .UINT32 (ix.REG16_INDX reg_src)]]
    else if REG_is_Upper8 reg_src then
      [INS_InsertCall .BEFORE .r2m_xfer_opb_u [.MEMORYWRITE_EA, .UINT32 (ix.REG8_INDX reg_src)]]
    else
      [INS_InsertCall .BEFORE .r2m_xfer_opb_l [.MEMORYWRITE_EA, .UINT32 (ix.REG8_INDX reg_src)]]

/-- Cases `XED_ICLASS_SETB` .. `XED_ICLASS_SETZ` of `ins_inspect`: a
predicated clear of the byte destination. -/
def ins_inspect_setcc (ix : RegIndx) (ins : INS) : List Binding :=
  if INS_MemoryOperandCount ins = 0 then
    let reg_dst := INS_OperandReg ins OP_0
    if REG_is_Upper8 reg_dst then
      [INS_InsertPredicatedCall .BEFORE .r_clrb_u [.UINT32 (ix.REG8_INDX reg_dst)]]
    else
      [INS_InsertPredicatedCall .BEFORE .r_clrb_l [.UINT32 (ix.REG8_INDX reg_dst)]]
  else
    [INS_InsertPredicatedCall .BEFORE .tagmap_clrb [.MEMORYWRITE_EA]]

/-- Cases `XED_ICLASS_SMSW`, `XED_ICLASS_STR` of `ins_inspect`: clear the
destination. -/
def ins_inspect_smsw (ix : RegIndx) (ins : INS) : List Binding :=
  if INS_MemoryOperandCount ins = 0 then
    let reg_dst := INS_OperandReg ins OP_0
    if REG_is_gr16 reg_dst then
      [INS_InsertCall .BEFORE .r_clrw [.UINT32 (ix.REG16_INDX reg_dst)]]
    else
      [INS_InsertCall .BEFORE .r_clrl [.UINT32 (ix.REG32_INDX reg_dst)]]
  else
    [INS_InsertCall .BEFORE .tagmap_clrw [.MEMORYWRITE_EA]]

/-- Case `XED_ICLASS_LAR` of `ins_inspect`: clear the destination register. -/
def ins_inspect_lar (ix : RegIndx) (ins : INS) : List Binding :=
  let reg_dst := INS_OperandReg ins OP_0
  if REG_is_gr16 reg_dst then
    [INS_InsertCall .BEFORE .r_clrw [.UINT32 (ix.REG16_INDX reg_dst)]]
  else
    [INS_InsertCall .BEFORE .r_clrl [.UINT32 (ix.REG32_INDX reg_dst)]]

/-- Cases `XED_ICLASS_CMOVB` .. `XED_ICLASS_CMOVZ` of `ins_inspect`: a
predicated transfer `t[dst] = t[src]`. -/
def ins_inspect_cmov (ix : RegIndx) (ins : INS) : List Binding :=
  if INS_MemoryOperandCount ins = 0 then
    let reg_dst := INS_OperandReg ins OP_0
    let reg_src := INS_OperandReg ins OP_1
    if REG_is_gr32 reg_dst then
      [INS_InsertPredicatedCall .BEFORE .r2r_xfer_opl
        [.UINT32 (ix.REG32_INDX reg_dst), .UINT32 (ix.REG32_INDX reg_src)]]
    else
      [INS_InsertPredicatedCall .BEFORE .r2r_xfer_opw
        [.UINT32 (ix.REG16_INDX reg_dst), .UINT32 (ix.REG16_INDX reg_src)]]
  else
    let reg_dst := INS_OperandReg ins OP_0
    if REG_is_gr32 reg_dst then
      [INS_InsertPredicatedCall .BEFORE .m2r_xfer_opl
        [.UINT32 (ix.REG32_INDX reg_dst), .MEMORYREAD_EA]]
    else
      [INS_InsertPredicatedCall .BEFORE .m2r_xfer_opw
        [.UINT32 (ix.REG16_INDX reg_dst), .MEMORYREAD_EA]]

/-- Case `XED_ICLASS_MOVSX` of `ins_inspect`: `t[dst] = t[src]`, extended to
the width of the destination. -/
def ins_inspect_movsx (ix : RegIndx) (ins : INS) : List Binding :=
  if INS_MemoryOperandCount ins = 0 then
    let reg_dst := INS_OperandReg ins OP_0
    let reg_src := INS_OperandReg ins OP_1
    if REG_is_gr16 reg_dst then
      if REG_is_Upper8 reg_src then
        [INS_InsertCall .BEFORE ._movsx_r2r_opwb_u
          [.UINT32 (ix.REG16_INDX reg_dst), .UINT32 (ix.REG8_INDX reg_src)]]
      else
        [INS_InsertCall .BEFORE ._movsx_r2r_opwb_l
          [.UINT32 (ix.REG16_INDX reg_dst), .UINT32 (ix.REG8_INDX reg_src)]]
    else if REG_is_gr16 reg_src then
      [INS_InsertCall .BEFORE ._movsx_r2r_oplw
        [.UINT32 (ix.REG32_INDX reg_dst), .UINT32 (ix.REG16_INDX reg_src)]]
    else if REG_is_Upper8 reg_src then
      [INS_InsertCall .BEFORE ._movsx_r2r_oplb_u
        [.UINT32 (ix.REG32_INDX reg_dst), .UINT32 (ix.REG8_INDX reg_src)]]
    else
      [INS_InsertCall .BEFORE ._movsx_r2r_oplb_l
        [.UINT32 (ix.REG32_INDX reg_dst), .UINT32 (ix.REG8_INDX reg_src)]]
  else
    let reg_dst := INS_OperandReg ins OP_0
    if REG_is_gr16 reg_dst then
      [INS_InsertCall .BEFORE ._movsx_m2r_opwb [.UINT32 (ix.REG16_INDX reg_dst), .MEMORYREAD_EA]]
    else if INS_MemoryWriteSize ins = BIT2BYTE MEM_WORD_LEN then
      [INS_InsertCall .BEFORE ._movsx_m2r_oplw [.UINT32 (ix.REG32_INDX reg_dst), .MEMORYREAD_EA]]
    else
      [INS_InsertCall .BEFORE ._movsx_m2r_oplb [.UINT32 (ix.REG32_INDX reg_dst), .MEMORYREAD_EA]]

/-- Case `XED_ICLASS_MOVZX` of `ins_inspect`: `t[dst] = t[src]`, extended to
the width of the destination. -/
def ins_inspect_movzx (ix : RegIndx) (ins : INS) : List Binding :=
  if INS_MemoryOperandCount ins = 0 then
    let reg_dst := INS_OperandReg ins OP_0
    let reg_src := INS_OperandReg ins OP_1
    if REG_is_gr16 reg_dst then
      if REG_is_Upper8 reg_src then
        [INS_InsertCall .BEFORE ._movzx_r2r_opwb_u
          [.UINT32 (ix.REG16_INDX reg_dst), .UINT32 (ix.REG8_INDX reg_src)]]
      else
        [INS_InsertCall .BEFORE ._movzx_r2r_opwb_l
          [.UINT32 (ix.REG16_INDX reg_dst), .UINT32 (ix.REG8_INDX reg_src)]]
    else if REG_is_gr16 reg_src then
      [INS_InsertCall .BEFORE ._movzx_r2r_oplw
        [.UINT32 (ix.REG32_INDX reg_dst), .UINT32 (ix.REG16_INDX reg_src)]]
    else if REG_is_Upper8 reg_src then
      [INS_InsertCall .BEFORE ._movzx_r2r_oplb_u
        [.UINT32 (ix.REG32_INDX reg_dst), .UINT32 (ix.REG8_INDX reg_src)]]
    else
      [INS_InsertCall .BEFORE ._movzx_r2r_oplb_l
        [.UINT32 (ix.REG32_INDX reg_dst), .UINT32 (ix.REG8_INDX reg_src)]]
  else
    let reg_dst := INS_OperandReg ins OP_0
    if REG_is_gr16 reg_dst then
      [INS_InsertCall .BEFORE ._movzx_m2r_opwb [.UINT32 (ix.REG16_INDX reg_dst), .MEMORYREAD_EA]]
    else if INS_MemoryWriteSize ins = BIT2BYTE MEM_WORD_LEN then
      [INS_InsertCall .BEFORE ._movzx_m2r_oplw [.UINT32 (ix.REG32_INDX reg_dst), .MEMORYREAD_EA]]
    else
      [INS_InsertCall .BEFORE ._movzx_m2r_oplb [.UINT32 (ix.REG32_INDX reg_dst), .MEMORYREAD_EA]]

/-- Cases `XED_ICLASS_DIV`, `XED_ICLASS_IDIV`, `XED_ICLASS_MUL` of
`ins_inspect`: `t[dst1]:t[dst2] |= t[src]`; a memory operand of a size other
than 4 or 2 bytes is treated as a byte. -/
def ins_inspect_mul (ix : RegIndx) (ins : INS) : List Binding :=
  if INS_OperandIsMemory ins OP_0 then
    if INS_MemoryWriteSize ins = BIT2BYTE MEM_LONG_LEN then
      [INS_InsertCall .BEFORE .m2r_ternary_opl [.MEMORYREAD_EA]]
    else if INS_MemoryWriteSize ins = BIT2BYTE MEM_WORD_LEN then
      [INS_InsertCall .BEFORE .m2r_ternary_opw [.MEMORYREAD_EA]]
    else
      [INS_InsertCall .BEFORE .m2r_ternary_opb [.MEMORYREAD_EA]]
  else
    let reg_src := INS_OperandReg ins OP_0
    if REG_is_gr32 reg_src then
      [INS_InsertCall .BEFORE .r2r_ternary_opl [.UINT32 (ix.REG32_INDX reg_src)]]
    else if REG_is_gr16 reg_src then
      [INS_InsertCall .BEFORE .r2r_ternary_opw [.UINT32 (ix.REG16_INDX reg_src)]]
    else if REG_is_Upper8 reg_src then
      [INS_InsertCall .BEFORE .r2r_ternary_opb_u [.UINT32 (ix.REG8_INDX reg_src)]]
    else
      [INS_InsertCall .BEFORE .r2r_ternary_opb_l [.UINT32 (ix.REG8_INDX reg_src)]]

/-- Case `XED_ICLASS_IMUL` of `ins_inspect`: the one-operand form is treated
as `mul`, the other forms as a binary operation; an immediate second operand
installs nothing. -/
def ins_inspect_imul (ix : RegIndx) (ins : INS) : List Binding :=
  if INS_OperandIsImplicit ins OP_1 then
    if INS_OperandIsMemory ins OP_0 then
      if INS_MemoryWriteSize ins = BIT2BYTE MEM_LONG_LEN then
        [INS_InsertCall .BEFORE .m2r_ternary_opl [.MEMORYREAD_EA]]
      else if INS_MemoryWriteSize ins = BIT2BYTE MEM_WORD_LEN then
        [INS_InsertCall .BEFORE .m2r_ternary_opw [.MEMORYREAD_EA]]
      else
        [INS_InsertCall .BEFORE .m2r_ternary_opb [.MEMORYREAD_EA]]
    else
      let reg_src := INS_OperandReg ins OP_0
      if REG_is_gr32 reg_src then
        [INS_InsertCall .BEFORE .r2r_ternary_opl [.UINT32 (ix.REG32_INDX reg_src)]]
      else if REG_is_gr16 reg_src then
        [INS_InsertCall .BEFORE .r2r_ternary_opw [.UINT32 (ix.REG16_INDX reg_src)]]
      else if REG_is_Upper8 reg_src then
        [INS_InsertCall .BEFORE .r2r_ternary_opb_u [.UINT32 (ix.REG8_INDX reg_src)]]
      else
        [INS_InsertCall .BEFORE .r2r_ternary_opb_l [.UINT32 (ix.REG8_INDX reg_src)]]
  else
    if INS_OperandIsImmediate ins OP_1 then
      []
    else if INS_MemoryOperandCount ins = 0 then
      let reg_dst := INS_OperandReg ins OP_0
      let reg_src := INS_OperandReg ins OP_1
      if REG_is_gr32 reg_dst then
        [INS_InsertCall .BEFORE .r2r_binary_opl
          [.UINT32 (ix.REG32_INDX reg_dst), .UINT32 (ix.REG32_INDX reg_src)]]
      else
        [INS_InsertCall .BEFORE .r2r_binary_opw
          [.UINT32 (ix.REG16_INDX reg_dst), .UINT32 (ix.REG16_INDX reg_src)]]
    else
      let reg_dst := INS_OperandReg ins OP_0
      if REG_is_gr32 reg_dst then
        [INS_InsertCall .BEFORE .m2r_binary_opl [.UINT32 (ix.REG32_INDX reg_dst), .MEMORYREAD_EA]]
      else
        [INS_InsertCall .BEFORE .m2r_binary_opw [.UINT32 (ix.REG16_INDX reg_dst), .MEMORYREAD_EA]]

/-- Case `XED_ICLASS_POP` of `ins_inspect`: a transfer from the memory read
to the register or memory operand; any other operand installs nothing. -/
def ins_inspect_pop (ix : RegIndx) (ins : INS) : List Binding :=
  if INS_OperandIsReg ins OP_0 then
    let reg_dst := INS_OperandReg ins OP_0
    if REG_is_gr32 reg_dst then
      [INS_InsertCall .BEFORE .m2r_xfer_opl [.UINT32 (ix.REG32_INDX reg_dst), .MEMORYREAD_EA]]
    else
      [INS_InsertCall .BEFORE .m2r_xfer_opw [.UINT32 (ix.REG16_INDX reg_dst), .MEMORYREAD_EA]]
  else if INS_OperandIsMemory ins OP_0 then
    if INS_MemoryWriteSize ins = BIT2BYTE MEM_LONG_LEN then
      [INS_InsertCall .BEFORE .m2m_xfer_opl [.MEMORYWRITE_EA, .MEMORYREAD_EA]]
    else
      [INS_InsertCall .BEFORE .m2m_xfer_opw [.MEMORYWRITE_EA, .MEMORYREAD_EA]]
  else
    []

/-- Case `XED_ICLASS_PUSH` of `ins_inspect`: a transfer from the register or
memory operand to the memory written; an immediate or segment operand clears
the memory written. -/
def ins_inspect_push (ix : RegIndx) (ins : INS) : List Binding :=
  if INS_OperandIsReg ins OP_0 then
    let reg_src := INS_OperandReg ins OP_0
    if REG_is_gr32 reg_src then
      [INS_InsertCall .BEFORE .r2m_xfer_opl [.MEMORYWRITE_EA, .UINT32 (ix.REG32_INDX reg_src)]]
    else
      [INS_InsertCall .BEFORE .r2m_xfer_opw [.MEMORYWRITE_EA, .UINT32 (ix.REG16_INDX reg_src)]]
  else if INS_OperandIsMemory ins OP_0 then
    if INS_MemoryWriteSize ins = BIT2BYTE MEM_LONG_LEN then
      [INS_InsertCall .BEFORE .m2m_xfer_opl [.MEMORYWRITE_EA, .MEMORYREAD_EA]]
    else
      [INS_InsertCall .BEFORE .m2m_xfer_opw [.MEMORYWRITE_EA, .MEMORYREAD_EA]]
  else
    if INS_OperandWidth ins OP_0 = MEM_LONG_LEN then
      [INS_InsertCall .BEFORE .tagmap_clrl [.MEMORYWRITE_EA]]
    else if INS_OperandWidth ins OP_0 = MEM_WORD_LEN then
      [INS_InsertCall .BEFORE .tagmap_clrw [.MEMORYWRITE_EA]]
    else if INS_OperandWidth ins OP_0 = MEM_BYTE_LEN then
      [INS_InsertCall .BEFORE .tagmap_clrb [.MEMORYWRITE_EA]]
    else
      []

/-- Case `XED_ICLASS_CALL_NEAR` of `ins_inspect`: the return address pushed
is clean, so the memory written is cleared. -/
def ins_inspect_call_near (ins : INS) : List Binding :=
  if INS_OperandIsImmediate ins OP_0 then
    if INS_OperandWidth ins OP_0 = MEM_LONG_LEN then
      [INS_InsertCall .BEFORE .tagmap_clrl [.MEMORYWRITE_EA]]
    else
      [INS_InsertCall .BEFORE .tagmap_clrw [.MEMORYWRITE_EA]]
  else if INS_OperandIsReg ins OP_0 then
    let reg_src := INS_OperandReg ins OP_0
    if REG_is_gr32 reg_src then
      [INS_InsertCall .BEFORE .tagmap_clrl [.MEMORYWRITE_EA]]
    else
      [INS_InsertCall .BEFORE .tagmap_clrw [.MEMORYWRITE_EA]]
  else
    if INS_OperandWidth ins OP_0 = MEM_LONG_LEN then
      [INS_InsertCall .BEFORE .tagmap_clrl [.MEMORYWRITE_EA]]
    else
      [INS_InsertCall .BEFORE .tagmap_clrw [.MEMORYWRITE_EA]]

/-- Case `XED_ICLASS_LEAVE` of `ins_inspect`: a move between ESP/SP and
EBP/BP followed by a pop. -/
def ins_inspect_leave (ix : RegIndx) (ins : INS) : List Binding :=
  let reg_dst := INS_OperandReg ins OP_3
  let reg_src := INS_OperandReg ins OP_2
  if REG_is_gr32 reg_dst then
    [INS_InsertCall .BEFORE .r2r_xfer_opl
       [.UINT32 (ix.REG32_INDX reg_dst), .UINT32 (ix.REG32_INDX reg_src)],
     INS_InsertCall .BEFORE .m2r_xfer_opl [.UINT32 (ix.REG32_INDX reg_src), .MEMORYREAD_EA]]
  else
    [INS_InsertCall .BEFORE .r2r_xfer_opw
       [.UINT32 (ix.REG16_INDX reg_dst), .UINT32 (ix.REG16_INDX reg_src)],
     INS_InsertCall .BEFORE .m2r_xfer_opw [.UINT32 (ix.REG16_INDX reg_src), .MEMORYREAD_EA]]

/-- Instruction inspection (`ins_inspect`): the bindings installed for a
static instruction, in insertion order.  An opcode outside the enumeration is
logged and nothing is installed; the rep-prefixed branches of the `stos`
cases are compiled out (`#if 0`) in the source. -/
def ins_inspect (ix : RegIndx) (ins : INS) : List Binding :=
  let ins_indx := INS_Opcode ins
  if ins_indx.rank ≤ xed_iclass.rank .INVALID ∨ ins_indx.rank ≥ xed_iclass.rank .LAST then
    []
  else
    match ins_indx with
    | .ADC | .ADD | .AND | .OR | .XOR | .SBB | .SUB => ins_inspect_binary ix ins
    | .BSF | .BSR | .MOV => ins_inspect_mov ix ins
    | .CMOVB | .CMOVBE | .CMOVL | .CMOVLE | .CMOVNB | .CMOVNBE | .CMOVNL | .CMOVNLE
    | .CMOVNO | .CMOVNP | .CMOVNS | .CMOVNZ | .CMOVO | .CMOVP | .CMOVS | .CMOVZ =>
      ins_inspect_cmov ix ins
    | .CBW =>
      [INS_InsertCall .BEFORE .r2r_xfer_opb_ul
        [.UINT32 (ix.REG8_INDX .AH), .UINT32 (ix.REG8_INDX .AL)]]
    | .CWD =>
      [INS_InsertCall .BEFORE .r2r_xfer_opw
        [.UINT32 (ix.REG16_INDX .DX), .UINT32 (ix.REG16_INDX .AX)]]
    | .CWDE => [INS_InsertCall .BEFORE ._cwde []]
    | .CDQ =>
      [INS_InsertCall .BEFORE .r2r_xfer_opl
        [.UINT32 (ix.REG32_INDX .EDX), .UINT32 (ix.REG32_INDX .EAX)]]
    | .MOVSX => ins_inspect_movsx ix ins
    | .MOVZX => ins_inspect_movzx ix ins
    | .DIV | .IDIV | .MUL => ins_inspect_mul ix ins
    | .IMUL => ins_inspect_imul ix ins
    | .SETB | .SETBE | .SETL | .SETLE | .SETNB | .SETNBE | .SETNL | .SETNLE
    | .SETNO | .SETNP | .SETNS | .SETNZ | .SETO | .SETP | .SETS | .SETZ =>
      ins_inspect_setcc ix ins
    | .STMXCSR => [INS_InsertCall .BEFORE .tagmap_clrl [.MEMORYWRITE_EA]]
    | .SMSW | .STR => ins_inspect_smsw ix ins
    | .LAR => ins_inspect_lar ix ins
    | .RDPMC | .RDTSC => [INS_InsertCall .BEFORE .r_clrl2 []]
    | .CPUID => [INS_InsertCall .BEFORE .r_clrl4 []]
    | .LAHF => [INS_InsertCall .BEFORE .r_clrb_u [.UINT32 (ix.REG8_INDX .AH)]]
    | .CMPXCHG => ins_inspect_cmpxchg ix ins
    | .XCHG => ins_inspect_xchg ix ins
    | .XADD => ins_inspect_xadd ix ins
    | .XLAT => [INS_InsertCall .BEFORE .m2r_xfer_opb_l [.UINT32 (ix.REG8_INDX .AL), .MEMORYREAD_EA]]
    | .LODSB =>
      [INS_InsertPredicatedCall .BEFORE .m2r_xfer_opb_l
        [.UINT32 (ix.REG8_INDX .AL), .MEMORYREAD_EA]]
    | .LODSW =>
      [INS_InsertPredicatedCall .BEFORE .m2r_xfer_opw [.UINT32 (ix.REG16_INDX .AX), .MEMORYREAD_EA]]
    | .LODSD =>
      [INS_InsertPredicatedCall .BEFORE .m2r_xfer_opl
        [.UINT32 (ix.REG32_INDX .EAX), .MEMORYREAD_EA]]
    | .STOSB =>
      [INS_InsertPredicatedCall .BEFORE .r2m_xfer_opb_l
        [.MEMORYWRITE_EA, .UINT32 (ix.REG8_INDX .AL)]]
    | .STOSW =>
      [INS_InsertPredicatedCall .BEFORE .r2m_xfer_opw
        [.MEMORYWRITE_EA, .UINT32 (ix.REG16_INDX .AX)]]
    | .STOSD =>
      [INS_InsertPredicatedCall .BEFORE .r2m_xfer_opl
        [.MEMORYWRITE_EA, .UINT32 (ix.REG32_INDX .EAX)]]
    | .MOVSD => ins_inspect_movs .m2m_xfer_opln .m2m_xfer_opl ins
    | .MOVSW => ins_inspect_movs .m2m_xfer_opwn .m2m_xfer_opw ins
    | .MOVSB => ins_inspect_movs .m2m_xfer_opbn .m2m_xfer_opb ins
    | .SALC => [INS_InsertCall .BEFORE .r_clrb_l [.UINT32 (ix.REG8_INDX .AL)]]
    | .RCL | .RCR | .ROL | .ROR | .SHL | .SAR | .SHR | .SHLD | .SHRD => []
    | .POP => ins_inspect_pop ix ins
    | .PUSH => ins_inspect_push ix ins
    | .POPA => [INS_InsertCall .BEFORE .m2r_restore_opw [.MEMORYREAD_EA]]
    | .POPAD => [INS_InsertCall .BEFORE .m2r_restore_opl [.MEMORYREAD_EA]]
    | .PUSHA => [INS_InsertCall .BEFORE .r2m_save_opw [.MEMORYWRITE_EA]]
    | .PUSHAD => [INS_InsertCall .BEFORE .r2m_save_opl [.MEMORYWRITE_EA]]
    | .PUSHF => [INS_InsertCall .BEFORE .tagmap_clrw [.MEMORYWRITE_EA]]
    | .PUSHFD => [INS_InsertCall .BEFORE .tagmap_clrl [.MEMORYWRITE_EA]]
    | .CALL_NEAR => ins_inspect_call_near ins
    | .LEAVE => ins_inspect_leave ix ins
    | .LEA => ins_inspect_lea ix ins
    | .CMPXCHG8B | .ENTER => []
    | _ => []

/-! ## Dynamic execution of the installed bindings -/

/-- What the host supplies at one dynamic execution of the instruction:
register contents, the effective addresses of the memory operand, the
program memory, whether this is the first iteration of a repeated instruction
and whether the instruction's predicate holds. -/
structure Env where
  /-- Content of a register (`IARG_REG_VALUE`). -/
  reg : REG → Nat
  /-- Address read by the instruction (`IARG_MEMORYREAD_EA`). -/
  read_ea : Nat
  /-- Address written by the instruction (`IARG_MEMORYWRITE_EA`). -/
  write_ea : Nat
  /-- Program memory, byte addressed. -/
  data : Nat → Nat
  /-- First iteration of a rep-prefixed instruction
  (`IARG_FIRST_REP_ITERATION`). -/
  first_rep : Bool
  /-- The predicate of the instruction holds, so that predicated calls run. -/
  predicate : Bool

/-- Value the host passes for an argument. -/
def IARG.value (env : Env) : IARG → Nat
  | .REG_VALUE r => env.reg r
  | .UINT32 n => n
  | .MEMORYREAD_EA => env.read_ea
  | .MEMORYWRITE_EA => env.write_ea
  | .FIRST_REP_ITERATION => if env.first_rep then 1 else 0

/-- Call of an analysis routine on argument values: new state and returned
`ADDRINT` (0 for a `void` routine).  An argument list of the wrong length,
which `ins_inspect` never builds, leaves the state alone. -/
def invoke (env : Env) (fn : AFUNPTR) (a : List Nat) (s : State) : State × Nat :=
  match fn, a with
  | ._cmpxchg_r2r_opl_fast, [dv, src, sv] => _cmpxchg_r2r_opl_fast s dv src sv
  | ._cmpxchg_r2r_opl_slow, [dst, src] => (_cmpxchg_r2r_opl_slow s dst src, 0)
  | ._cmpxchg_r2r_opw_fast, [dv, src, sv] => _cmpxchg_r2r_opw_fast s dv src sv
  | ._cmpxchg_r2r_opw_slow, [dst, src] => (_cmpxchg_r2r_opw_slow s dst src, 0)
  | ._cmpxchg_m2r_opl_fast, [dv, src] => _cmpxchg_m2r_opl_fast env.data s dv src
  | ._cmpxchg_r2m_opl_slow, [dst, src] => (_cmpxchg_r2m_opl_slow s dst src, 0)
  | ._cmpxchg_m2r_opw_fast, [dv, src] => _cmpxchg_m2r_opw_fast env.data s dv src
  | ._cmpxchg_r2m_opw_slow, [dst, src] => (_cmpxchg_r2m_opw_slow s dst src, 0)
  | ._xchg_r2m_opl, [dst, src] => (_xchg_r2m_opl s dst src, 0)
  | ._xchg_r2m_opw, [dst, src] => (_xchg_r2m_opw s dst src, 0)
  | ._xchg_r2m_opb_u, [dst, src] => (_xchg_r2m_opb_u s dst src, 0)
  | ._xchg_r2m_opb_l, [dst, src] => (_xchg_r2m_opb_l s dst src, 0)
  | .r2r_binary_opb_ul, [dst, src] => (r2r_binary_opb_ul s dst src, 0)
  | .r2r_binary_opb_lu, [dst, src] => (r2r_binary_opb_lu s dst src, 0)
  | .r2r_binary_opb_u, [dst, src] => (r2r_binary_opb_u s dst src, 0)
  | .r2r_binary_opb_l, [dst, src] => (r2r_binary_opb_l s dst src, 0)
  | .r2r_binary_opw, [dst, src] => (r2r_binary_opw s dst src, 0)
  | .r2r_binary_opl, [dst, src] => (r2r_binary_opl s dst src, 0)
  | .m2r_binary_opb_u, [dst, src] => (m2r_binary_opb_u s dst src, 0)
  | .m2r_binary_opb_l, [dst, src] => (m2r_binary_opb_l s dst src, 0)
  | .m2r_binary_opw, [dst, src] => (m2r_binary_opw s dst src, 0)
  | .m2r_binary_opl, [dst, src] => (m2r_binary_opl s dst src, 0)
  | .r2m_binary_opb_u, [dst, src] => (r2m_binary_opb_u s dst src, 0)
  | .r2m_binary_opb_l, [dst, src] => (r2m_binary_opb_l s dst src, 0)
  | .r2m_binary_opw, [dst, src] => (r2m_binary_opw s dst src, 0)
  | .r2m_binary_opl, [dst, src] => (r2m_binary_opl s dst src, 0)
  | .r_clrl, [reg] => (r_clrl s reg, 0)
  | .r_clrw, [reg] => (r_clrw s reg, 0)
  | .r_clrb_u, [reg] => (r_clrb_u s reg, 0)
  | .r_clrb_l, [reg] => (r_clrb_l s reg, 0)
  | .r2r_xfer_opb_ul, [dst, src] => (r2r_xfer_opb_ul s dst src, 0)
  | .r2r_xfer_opb_lu, [dst, src] => (r2r_xfer_opb_lu s dst src, 0)
  | .r2r_xfer_opb_u, [dst, src] => (r2r_xfer_opb_u s dst src, 0)
  | .r2r_xfer_opb_l, [dst, src] => (r2r_xfer_opb_l s dst src, 0)
  | .r2r_xfer_opw, [dst, src] => (r2r_xfer_opw s dst src, 0)
  | .r2r_xfer_opl, [dst, src] => (r2r_xfer_opl s dst src, 0)
  | ._cwde, [] => (_cwde s, 0)
  | ._movsx_r2r_opwb_u, [dst, src] => (_movsx_r2r_opwb_u s dst src, 0)
  | ._movsx_r2r_opwb_l, [dst, src] => (_movsx_r2r_opwb_l s dst src, 0)
  | ._movsx_r2r_oplb_u, [dst, src] => (_movsx_r2r_oplb_u s dst src, 0)
  | ._movsx_r2r_oplb_l, [dst, src] => (_movsx_r2r_oplb_l s dst src, 0)
  | ._movsx_r2r_oplw, [dst, src] => (_movsx_r2r_oplw s dst src, 0)
  | ._movsx_m2r_opwb, [dst, src] => (_movsx_m2r_opwb s dst src, 0)
  | ._movsx_m2r_oplb, [dst, src] => (_movsx_m2r_oplb s dst src, 0)
  | ._movsx_m2r_oplw, [dst, src] => (_movsx_m2r_oplw s dst src, 0)
  | ._movzx_r2r_opwb_u, [dst, src] => (_movzx_r2r_opwb_u s dst src, 0)
  | ._movzx_r2r_opwb_l, [dst, src] => (_movzx_r2r_opwb_l s dst src, 0)
  | ._movzx_r2r_oplb_u, [dst, src] => (_movzx_r2r_oplb_u s dst src, 0)
  | ._movzx_r2r_oplb_l, [dst, src] => (_movzx_r2r_oplb_l s dst src, 0)
  | ._movzx_r2r_oplw, [dst, src] => (_movzx_r2r_oplw s dst src, 0)
  | ._movzx_m2r_opwb, [dst, src] => (_movzx_m2r_opwb s dst src, 0)
  | ._movzx_m2r_oplb, [dst, src] => (_movzx_m2r_oplb s dst src, 0)
  | ._movzx_m2r_oplw, [dst, src] => (_movzx_m2r_oplw s dst src, 0)
  | ._xadd_r2m_opl, [dst, src] => (_xadd_r2m_opl s dst src, 0)
  | ._xadd_r2m_opw, [dst, src] => (_xadd_r2m_opw s dst src, 0)
  | ._xadd_r2m_opb_u, [dst, src] => (_xadd_r2m_opb_u s dst src, 0)
  | ._xadd_r2m_opb_l, [dst, src] => (_xadd_r2m_opb_l s dst src, 0)
  | ._lea_r2r_opw, [dst, base, index] => (_lea_r2r_opw s dst base index, 0)
  | ._lea_r2r_opl, [dst, base, index] => (_lea_r2r_opl s dst base index, 0)
  | .r2r_ternary_opb_u, [src] => (r2r_ternary_opb_u s src, 0)
  | .r2r_ternary_opb_l, [src] => (r2r_ternary_opb_l s src, 0)
  | .r2r_ternary_opw, [src] => (r2r_ternary_opw s src, 0)
  | .r2r_ternary_opl, [src] => (r2r_ternary_opl s src, 0)
  | .m2r_ternary_opb, [src] => (m2r_ternary_opb s src, 0)
  | .m2r_ternary_opw, [src] => (m2r_ternary_opw s src, 0)
  | .m2r_ternary_opl, [src] => (m2r_ternary_opl s src, 0)
  | .r_clrl4, [] => (r_clrl4 s, 0)
  | .r_clrl2, [] => (r_clrl2 s, 0)
  | .m2r_xfer_opb_u, [dst, src] => (m2r_xfer_opb_u s dst src, 0)
  | .m2r_xfer_opb_l, [dst, src] => (m2r_xfer_opb_l s dst src, 0)
  | .m2r_xfer_opw, [dst, src] => (m2r_xfer_opw s dst src, 0)
  | .m2r_xfer_opl, [dst, src] => (m2r_xfer_opl s dst src, 0)
  | .r2m_xfer_opb_u, [dst, src] => (r2m_xfer_opb_u s dst src, 0)
  | .r2m_xfer_opb_l, [dst, src] => (r2m_xfer_opb_l s dst src, 0)
  | .r2m_xfer_opw, [dst, src] => (r2m_xfer_opw s dst src, 0)
  | .r2m_xfer_opl, [dst, src] => (r2m_xfer_opl s dst src, 0)
  | .m2m_xfer_opw, [dst, src] => (m2m_xfer_opw s dst src, 0)
  | .m2m_xfer_opb, [dst, src] => (m2m_xfer_opb s dst src, 0)
  | .m2m_xfer_opl, [dst, src] => (m2m_xfer_opl s dst src, 0)
  | .m2m_xfer_opwn, [dst, src, count, eflags] => (m2m_xfer_opwn s dst src count eflags, 0)
  | .m2m_xfer_opbn, [dst, src, count, eflags] => (m2m_xfer_opbn s dst src count eflags, 0)
  | .m2m_xfer_opln, [dst, src, count, eflags] => (m2m_xfer_opln s dst src count eflags, 0)
  | .rep_predicate, [first_iteration] => (s, rep_predicate (decide (first_iteration ≠ 0)))
  | .m2r_restore_opw, [src] => (m2r_restore_opw s src, 0)
  | .m2r_restore_opl, [src] => (m2r_restore_opl s src, 0)
  | .r2m_save_opw, [dst] => (r2m_save_opw s dst, 0)
  | .r2m_save_opl, [dst] => (r2m_save_opl s dst, 0)
  | .tagmap_clrb, [addr] => (tagmap_clrb s addr, 0)
  | .tagmap_clrw, [addr] => (tagmap_clrw s addr, 0)
  | .tagmap_clrl, [addr] => (tagmap_clrl s addr, 0)
  | _, _ => (s, 0)

/-- One binding at run time.  The second component remembers what the last
`If` routine returned: a `Then` routine runs only when that was non-zero.  A
predicated routine runs only when the instruction's predicate holds; a
predicated `If` routine that does not run counts as having returned 0. -/
def step (env : Env) (acc : State × Nat) (b : Binding) : State × Nat :=
  match b.how with
  | .Call => ((invoke env b.fn (b.args.map (IARG.value env)) acc.1).1, acc.2)
  | .IfCall => invoke env b.fn (b.args.map (IARG.value env)) acc.1
  | .ThenCall =>
    if acc.2 ≠ 0 then
      ((invoke env b.fn (b.args.map (IARG.value env)) acc.1).1, acc.2)
    else acc
  | .PredicatedCall =>
    if env.predicate then
      ((invoke env b.fn (b.args.map (IARG.value env)) acc.1).1, acc.2)
    else acc
  | .IfPredicatedCall =>
    if env.predicate then invoke env b.fn (b.args.map (IARG.value env)) acc.1
    else (acc.1, 0)
  | .ThenPredicatedCall =>
    if env.predicate ∧ acc.2 ≠ 0 then
      ((invoke env b.fn (b.args.map (IARG.value env)) acc.1).1, acc.2)
    else acc

/-- Tag state after the bindings of one instruction have run, in insertion
order, before the instruction itself. -/
def run (env : Env) (bs : List Binding) (s : State) : State :=
  (bs.foldl (step env) (s, 0)).1

/-! ## Vocabulary of the statements -/

/-- The `w`-byte view (`w` = 1, 2 or 4) of a store at cell `a`. -/
def view (w : Nat) (m : Nat → Nat) (a : Nat) : Nat :=
  match w with
  | 1 => rd8 m a
  | 2 => rd16 m a
  | _ => rd32 m a

/-- Store `n` agrees with store `m` on every cell outside `lo .. lo + w - 1`. -/
def SameOutside (m n : Nat → Nat) (lo w : Nat) : Prop :=
  ∀ i, (i < lo ∨ lo + w ≤ i) → n i = m i

/-- Rule `f s dst src` replaces the `w`-byte view at byte `dOff` of register
slot `dst` by `op (old destination view) (source view)`, the source being the
view at byte `sOff` of slot `src`; every other register byte, the shadow
memory and the segment table are unchanged. -/
def UpdatesR2R (op : Nat → Nat → Nat) (f : State → Nat → Nat → State)
    (w dOff sOff : Nat) : Prop :=
  ∀ s dst src,
    view w (f s dst src).gpr (4 * dst + dOff) =
      op (view w s.gpr (4 * dst + dOff)) (view w s.gpr (4 * src + sOff)) ∧
    SameOutside s.gpr (f s dst src).gpr (4 * dst + dOff) w ∧
    (f s dst src).mem = s.mem ∧ (f s dst src).STAB = s.STAB

/-- Rule `f s dst src` replaces the `w`-byte view at byte `dOff` of register
slot `dst` by `op (old destination view) (source view)`, the source being the
`w` shadow bytes of address `src`; every other register byte, the shadow
memory and the segment table are unchanged. -/
def UpdatesM2R (op : Nat → Nat → Nat) (f : State → Nat → Nat → State)
    (w dOff : Nat) : Prop :=
  ∀ s dst src,
    view w (f s dst src).gpr (4 * dst + dOff) =
      op (view w s.gpr (4 * dst + dOff)) (view w s.mem (taddr s src)) ∧
    SameOutside s.gpr (f s dst src).gpr (4 * dst + dOff) w ∧
    (f s dst src).mem = s.mem ∧ (f s dst src).STAB = s.STAB

/-- Rule `f s dst src` replaces the `w` shadow bytes of address `dst` by
`op (old destination view) (source view)`, the source being the view at byte
`sOff` of register slot `src`; every other shadow byte, the register vector
and the segment table are unchanged. -/
def UpdatesR2M (op : Nat → Nat → Nat) (f : State → Nat → Nat → State)
    (w sOff : Nat) : Prop :=
  ∀ s dst src,
    view w (f s dst src).mem (taddr s dst) =
      op (view w s.mem (taddr s dst)) (view w s.gpr (4 * src + sOff)) ∧
    SameOutside s.mem (f s dst src).mem (taddr s dst) w ∧
    (f s dst src).gpr = s.gpr ∧ (f s dst src).STAB = s.STAB

/-- Rule `f s dst src` replaces the `w` shadow bytes of address `dst` by
`op (old destination view) (source view)`, the source being the `w` shadow
bytes of address `src`; every other shadow byte, the register vector and the
segment table are unchanged. -/
def UpdatesM2M (op : Nat → Nat → Nat) (f : State → Nat → Nat → State)
    (w : Nat) : Prop :=
  ∀ s dst src,
    view w (f s dst src).mem (taddr s dst) =
      op (view w s.mem (taddr s dst)) (view w s.mem (taddr s src)) ∧
    SameOutside s.mem (f s dst src).mem (taddr s dst) w ∧
    (f s dst src).gpr = s.gpr ∧ (f s dst src).STAB = s.STAB

/-- Accumulation `t[dst] |= t[src]`. -/
def accOp (old src : Nat) : Nat := old ||| src

/-- Plain transfer `t[dst] = t[src]`. -/
def xferOp (_old src : Nat) : Nat := src

/-- A sample tag state: register byte `i` holds `i + 1`, every page has
displacement `0x10000000`, shadow byte `a` holds `a mod 251`. -/
def sampleState : State :=
  ⟨fun i => i + 1, fun _ => 268435456, fun a => a % 251⟩

/-- Store of the `w`-byte value `v` (`w` = 1, 2 or 4) at cell `a`. -/
def wrw (w : Nat) (m : Nat → Nat) (a v : Nat) : Nat → Nat :=
  match w with
  | 1 => wr8 m a v
  | 2 => wr16 m a v
  | _ => wr32 m a v

/-- An instruction with two register operands. -/
def regRegIns (op : xed_iclass) (d r : REG) : INS :=
  ⟨op, [.reg d, .reg r], .INVALID, .INVALID, false, .INVALID, fun _ => 32, 4, fun _ => false⟩

/-- A sample run-time environment. -/
def sampleEnv : Env :=
  ⟨fun _ => 5, 134512640, 134512640, fun a => a % 7, true, true⟩

/-- Rule `f s dst src` exchanges the `w` shadow bytes of address `dst` with
the `w`-byte view at byte `sOff` of register slot `src`; every other register
byte, every other shadow byte and the segment table are unchanged. -/
def SwapsR2M (f : State → Nat → Nat → State) (w sOff : Nat) : Prop :=
  ∀ s dst src,
    view w (f s dst src).mem (taddr s dst) = view w s.gpr (4 * src + sOff) ∧
    view w (f s dst src).gpr (4 * src + sOff) = view w s.mem (taddr s dst) ∧
    SameOutside s.gpr (f s dst src).gpr (4 * src + sOff) w ∧
    SameOutside s.mem (f s dst src).mem (taddr s dst) w ∧
    (f s dst src).STAB = s.STAB

/-- After the rule, slot `d` holds the 32-bit tag `T`: byte 0 is `T` and
bytes 1..3 are 0. -/
def ZeroExtended32 (s' : State) (d T : Nat) : Prop :=
  gpr32 s' d = T ∧ gpr8 s' d 0 = T ∧ gpr8 s' d 1 = 0 ∧ gpr8 s' d 2 = 0 ∧
  gpr8 s' d 3 = 0

/-- After the rule, the low half of slot `d` holds the 16-bit tag `T` and
the upper 16 bits are 0. -/
def ZeroExtended32w (s' : State) (d T : Nat) : Prop :=
  gpr32 s' d = T ∧ gpr16 s' d 0 = T ∧ gpr16 s' d 1 = 0

/-- After the rule, byte 0 of slot `d` is `T`, byte 1 is 0 and bytes 2..3
are what they were in `s`. -/
def ZeroExtended16 (s s' : State) (d T : Nat) : Prop :=
  gpr8 s' d 0 = T ∧ gpr8 s' d 1 = 0 ∧
  s'.gpr (4 * d + 2) = s.gpr (4 * d + 2) ∧ s'.gpr (4 * d + 3) = s.gpr (4 * d + 3)

/-- Slot `r` of `s1` holds the 32-bit tag `T` and its narrower views are
the truncations of `T`: read directly, and as copied out by the 8- and
16-bit transfer rules that read slot `r`. -/
def NarrowViewsOf (s1 : State) (r T : Nat) : Prop :=
  gpr32 s1 r = T ∧
  gpr8 s1 r 0 = T % 256 ∧ gpr8 s1 r 1 = T / 256 % 256 ∧ gpr16 s1 r 0 = T % 65536 ∧
  ∀ d, gpr8 (r2r_xfer_opb_l s1 d r) d 0 = T % 256 ∧
    gpr8 (r2r_xfer_opb_ul s1 d r) d 1 = T % 256 ∧
    gpr8 (r2r_xfer_opb_u s1 d r) d 1 = T / 256 % 256 ∧
    gpr8 (r2r_xfer_opb_lu s1 d r) d 0 = T / 256 % 256 ∧
    gpr16 (r2r_xfer_opw s1 d r) d 0 = T % 65536

/-- State `s2` has the same bytes 1..3 in slot `r` as `s1`, so the upper 24
bits of the slot are still those of `T`. -/
def KeepsUpper24 (s1 s2 : State) (r T : Nat) : Prop :=
  gpr32 s2 r / 256 = T / 256 ∧
  s2.gpr (4 * r + 1) = s1.gpr (4 * r + 1) ∧
  s2.gpr (4 * r + 2) = s1.gpr (4 * r + 2) ∧
  s2.gpr (4 * r + 3) = s1.gpr (4 * r + 3)

/-- A write of only the low-8 view of slot `r` of `s1` (by `r2r_xfer_opb_l`,
`r2r_xfer_opb_lu`, `m2r_xfer_opb_l` or `r_clrb_l`) leaves the upper 24 bits
of the slot unchanged. -/
def Low8WriteKeepsUpper (s1 : State) (r T : Nat) : Prop :=
  ∀ x a,
    KeepsUpper24 s1 (r2r_xfer_opb_l s1 r x) r T ∧
    KeepsUpper24 s1 (r2r_xfer_opb_lu s1 r x) r T ∧
    KeepsUpper24 s1 (m2r_xfer_opb_l s1 r a) r T ∧
    KeepsUpper24 s1 (r_clrb_l s1 r) r T

/-- Exchange of two register views, `w` bytes at byte `dOff` of slot `d` and
at byte `rOff` of slot `r`: each holds the other's old tag, every other byte
of slots 0..7 and the shadow memory are unchanged. -/
def SwapsRegViews (s s' : State) (w d dOff r rOff : Nat) : Prop :=
  view w s'.gpr (4 * d + dOff) = view w s.gpr (4 * r + rOff) ∧
  view w s'.gpr (4 * r + rOff) = view w s.gpr (4 * d + dOff) ∧
  (∀ i, i < 32 → (i < 4 * d + dOff ∨ 4 * d + dOff + w ≤ i) →
      (i < 4 * r + rOff ∨ 4 * r + rOff + w ≤ i) → s'.gpr i = s.gpr i) ∧
  s'.mem = s.mem ∧ s'.STAB = s.STAB

/-- An instruction whose first operand is memory and whose second operand is
a register. -/
def memRegIns (op : xed_iclass) (r : REG) : INS :=
  ⟨op, [.mem, .reg r], .INVALID, .INVALID, false, .INVALID, fun _ => 32, 4, fun _ => false⟩

/-- A run-time environment in which `EAX`/`AX` differs from every other
register. -/
def sampleEnvNe : Env :=
  ⟨fun r => if r = .EAX ∨ r = .AX then 1 else 2, 134512640, 134512640, fun a => a % 7,
    true, true⟩

/-- After the rule, all four bytes of slot `d` hold the tag `T`. -/
def SignExtended32 (s' : State) (d T : Nat) : Prop :=
  gpr8 s' d 0 = T ∧ gpr8 s' d 1 = T ∧ gpr8 s' d 2 = T ∧ gpr8 s' d 3 = T ∧
  gpr32 s' d = T * 16843009

/-- After the rule, both 16-bit halves of slot `d` hold the 16-bit tag `T`. -/
def SignExtended32w (s' : State) (d T : Nat) : Prop :=
  gpr16 s' d 0 = T ∧ gpr16 s' d 1 = T

/-- After the rule, bytes 0 and 1 of slot `d` hold the tag `T` and bytes
2..3 are what they were in `s`. -/
def SignExtended16 (s s' : State) (d T : Nat) : Prop :=
  gpr8 s' d 0 = T ∧ gpr8 s' d 1 = T ∧
  s'.gpr (4 * d + 2) = s.gpr (4 * d + 2) ∧ s'.gpr (4 * d + 3) = s.gpr (4 * d + 3)

/-- The tag `T` has been ORed into the `w`-byte views (`w` = 2 or 4) of
slot 5 (EDX/DX) and of slot 7 (EAX/AX); every other register byte, the shadow
memory and the segment table are unchanged. -/
def TernaryWide (s s' : State) (w T : Nat) : Prop :=
  view w s'.gpr (4 * 5) = view w s.gpr (4 * 5) ||| T ∧
  view w s'.gpr (4 * 7) = view w s.gpr (4 * 7) ||| T ∧
  (∀ i, (i < 4 * 5 ∨ 4 * 5 + w ≤ i) → (i < 4 * 7 ∨ 4 * 7 + w ≤ i) → s'.gpr i = s.gpr i) ∧
  s'.mem = s.mem ∧ s'.STAB = s.STAB

/-- The tag `T` has been ORed into `AL` and `AH` (bytes 0 and 1 of slot 7);
every other register byte (slot 5 included), the shadow memory and the
segment table are unchanged. -/
def TernaryByte (s s' : State) (T : Nat) : Prop :=
  gpr8 s' 7 0 = gpr8 s 7 0 ||| T ∧
  gpr8 s' 7 1 = gpr8 s 7 1 ||| T ∧
  (∀ i, (i < 4 * 7 + 0 ∨ 4 * 7 + 0 + 1 ≤ i) → (i < 4 * 7 + 1 ∨ 4 * 7 + 1 + 1 ≤ i) →
    s'.gpr i = s.gpr i) ∧
  s'.mem = s.mem ∧ s'.STAB = s.STAB

/-- Rule `f s dst base index` sets the `w`-byte view of slot `dst` to the OR
of the views of slots `base` and `index`, changes nothing else and does not
depend on the shadow memory. -/
def LeaUpdates (f : State → Nat → Nat → Nat → State) (w : Nat) : Prop :=
  ∀ s dst base index,
    view w (f s dst base index).gpr (4 * dst) =
      view w s.gpr (4 * base) ||| view w s.gpr (4 * index) ∧
    SameOutside s.gpr (f s dst base index).gpr (4 * dst) w ∧
    (f s dst base index).mem = s.mem ∧ (f s dst base index).STAB = s.STAB ∧
    ∀ m, (f (set_mem s m) dst base index).gpr = (f s dst base index).gpr

/-- A LEA instruction `lea d, [base + index]`. -/
def leaIns (d base index : REG) : INS :=
  ⟨.LEA, [.reg d, .mem], base, index, false, .INVALID, fun _ => 32, 4, fun _ => false⟩

/-- Exchange-and-add of two register views, `w` bytes at byte `dOff` of slot
`d` and at byte `rOff` of slot `r`: the destination view holds the OR of both
old tags, the source view the destination's old tag; every other byte of
slots 0..7 and the shadow memory are unchanged. -/
def XaddsRegViews (s s' : State) (w d dOff r rOff : Nat) : Prop :=
  view w s'.gpr (4 * d + dOff) =
    view w s.gpr (4 * d + dOff) ||| view w s.gpr (4 * r + rOff) ∧
  view w s'.gpr (4 * r + rOff) = view w s.gpr (4 * d + dOff) ∧
  (∀ i, i < 32 → (i < 4 * d + dOff ∨ 4 * d + dOff + w ≤ i) →
      (i < 4 * r + rOff ∨ 4 * r + rOff + w ≤ i) → s'.gpr i = s.gpr i) ∧
  s'.mem = s.mem ∧ s'.STAB = s.STAB

/-- Rule `f s dst src` ORs the register view (byte `sOff` of slot `src`) into
the `w` shadow bytes of address `dst` and leaves the shadow bytes' old tag in
the register view; every other register byte, every other shadow byte and the
segment table are unchanged. -/
def XaddsR2M (f : State → Nat → Nat → State) (w sOff : Nat) : Prop :=
  ∀ s dst src,
    view w (f s dst src).mem (taddr s dst) =
      view w s.mem (taddr s dst) ||| view w s.gpr (4 * src + sOff) ∧
    view w (f s dst src).gpr (4 * src + sOff) = view w s.mem (taddr s dst) ∧
    SameOutside s.gpr (f s dst src).gpr (4 * src + sOff) w ∧
    SameOutside s.mem (f s dst src).mem (taddr s dst) w ∧
    (f s dst src).STAB = s.STAB

/-- A string move: operands 0 and 1 are memory, the repeat counter is `ECX`
and operand 5 is `EFLAGS`. -/
def movsIns (op : xed_iclass) (rep : Bool) : INS :=
  ⟨op, [.mem, .mem, .reg .EDI, .reg .ESI, .reg .ECX, .reg .EFLAGS], .ESI, .INVALID, rep, .ECX,
    fun _ => 32, 4, fun _ => false⟩

/-- What `ins_inspect` installs for a rep-prefixed string move with block
rule `blockRule`. -/
def repBindings (blockRule : AFUNPTR) (ins : INS) : List Binding :=
  [INS_InsertIfPredicatedCall .BEFORE .rep_predicate [.FIRST_REP_ITERATION],
   INS_InsertThenPredicatedCall .BEFORE blockRule
     [.MEMORYWRITE_EA, .MEMORYREAD_EA, .REG_VALUE (INS_RepCountRegister ins),
      .REG_VALUE (INS_OperandReg ins OP_5)]]

/-- Stores of `w`-byte values in a row: the list gives address and value of
each store, first store first. -/
def wrAll (w : Nat) (m : Nat → Nat) : List (Nat × Nat) → Nat → Nat
  | [] => m
  | p :: rest => wrAll w (wrw w m p.1 p.2) rest

/-- Rule `f s dst` saves the registers: for every slot `k` of 0..7 the `w`
shadow bytes at offset `w * k` from the translated address hold the low `w`
bytes of the slot, every other shadow byte is unchanged, and so are the
register tags and the segment table. -/
def SavesRegs (f : State → Nat → State) (w : Nat) : Prop :=
  ∀ s dst,
    (∀ k, k < 8 →
      view w (f s dst).mem (u32 (taddr s dst + w * k)) = view w s.gpr (4 * k)) ∧
    (∀ i, (∀ k, k < 8 →
        i < u32 (taddr s dst + w * k) ∨ u32 (taddr s dst + w * k) + w ≤ i) →
      (f s dst).mem i = s.mem i) ∧
    (f s dst).gpr = s.gpr ∧ (f s dst).STAB = s.STAB

/-- Rule `f s src` restores the registers: for every slot `k` of 0..7 other
than slot 3 the low `w` bytes of the slot hold the `w` shadow bytes at offset
`w * k` from the translated address, every other register byte (slot 3, the
scratch slot, the bytes above the low `w` of each slot) is unchanged, and so
are the shadow memory and the segment table. -/
def RestoresRegs (f : State → Nat → State) (w : Nat) : Prop :=
  ∀ s src,
    (∀ k, k < 8 → k ≠ 3 →
      view w (f s src).gpr (4 * k) = view w s.mem (u32 (taddr s src + w * k))) ∧
    (∀ i, (∀ k, k < 8 → k ≠ 3 → i < 4 * k ∨ 4 * k + w ≤ i) →
      (f s src).gpr i = s.gpr i) ∧
    (f s src).mem = s.mem ∧ (f s src).STAB = s.STAB

/-- The spec's reference for a repeated move with the direction flag clear:
`n` single-element moves `f`, one after the other, element `i` at addresses
`dst + i * w` and `src + i * w`. -/
def seq_moves (f : State → Nat → Nat → State) (w : Nat) (s : State) (dst src : Nat) :
    Nat → State
  | 0 => s
  | n + 1 => f (seq_moves f w s dst src n) (dst + n * w) (src + n * w)

/-- The `N` elements of `w` bytes that start at `dst` and at `src` lie in
contiguously mapped shadow memory (element `i` is translated to the shadow
address of element 0 plus `i * w`), and the two shadow ranges do not overlap. -/
def ForwardRanges (s : State) (dst src N w : Nat) : Prop :=
  (∀ i, i < N → taddr s (dst + i * w) = taddr s dst + i * w) ∧
  (∀ i, i < N → taddr s (src + i * w) = taddr s src + i * w) ∧
  (taddr s dst + N * w ≤ taddr s src ∨ taddr s src + N * w ≤ taddr s dst)

/-- The spec's reference for a repeated move with the direction flag set:
`n` single-element moves `f`, one after the other, element `i` at addresses
`dst - i * w` and `src - i * w`. -/
def seq_moves_back (f : State → Nat → Nat → State) (w : Nat) (s : State) (dst src : Nat) :
    Nat → State
  | 0 => s
  | n + 1 => f (seq_moves_back f w s dst src n) (dst - n * w) (src - n * w)

/-- The `N` elements of `w` bytes that go down from `dst` and from `src` lie
in contiguously mapped shadow memory (element `i` is translated to the shadow
address of element 0 minus `i * w`), and the two shadow ranges do not
overlap. -/
def BackwardRanges (s : State) (dst src N w : Nat) : Prop :=
  (∀ i, i < N → taddr s (dst - i * w) + i * w = taddr s dst) ∧
  (∀ i, i < N → taddr s (src - i * w) + i * w = taddr s src) ∧
  (taddr s dst + N * w ≤ taddr s src ∨ taddr s src + N * w ≤ taddr s dst)

/-- A tag state in which every page has displacement `0x10000000` and the
only tagged shadow byte is `0x18048001`, the shadow of program byte
`0x08048001`. -/
def taintedHigh : State :=
  ⟨fun _ => 0, fun _ => 268435456, fun a => if a = 402948097 then 1 else 0⟩

/-- Every register tag and every shadow-memory tag is 0. -/
def AllZero (s : State) : Prop :=
  (∀ i, rd8 s.gpr i = 0) ∧ (∀ a, rd8 s.mem a = 0)

/-- The tag state without any tag: every register and shadow byte is 0, every
page has displacement `0x10000000`. -/
def zeroState : State :=
  ⟨fun _ => 0, fun _ => 268435456, fun _ => 0⟩

/-! ## tagmap.c: image loading (`elf_load`, one segment per image) -/

/-- Page size, `PAGE_SZ`: 4 KB. -/
def PAGE_SZ : Nat := 1 <<< PAGE_SHIFT

/-- Virtual address of the page with segment-table index `indx`
(`STAB2VIRT`). -/
def STAB2VIRT (indx : Nat) : Nat := indx <<< PAGE_SHIFT

/-- Page alignment of a virtual address (`PAGE_ALIGN`): `vaddr & 0xFFFFF000`. -/
def PAGE_ALIGN (vaddr : Nat) : Nat := vaddr &&& 4294963200

/-- Path of the dynamic linker/loader (`DYNLDLNK`). -/
def DYNLDLNK : String := "/lib/ld-linux.so.2"

/-- Image types of the host (`IMG_TYPE`). -/
inductive IMG_TYPE where
  | STATIC
  | SHARED
  | SHAREDLIB
  | RELOCATABLE
  deriving DecidableEq, Repr

/-- A section of an image as the host describes it (`SEC`). -/
structure SEC where
  /-- Address of the section, `SEC_Address`. -/
  address : Nat
  /-- Size of the section in bytes, `SEC_Size`. -/
  size : Nat
  /-- Whether the section is writeable, `SEC_IsWriteable`. -/
  writeable : Bool
  /-- Whether the section is mapped, `SEC_Mapped`. -/
  mapped : Bool
  deriving DecidableEq, Repr

/-- Host query `SEC_Address`. -/
def SEC_Address (sec : SEC) : Nat := sec.address

/-- Host query `SEC_Size`. -/
def SEC_Size (sec : SEC) : Nat := sec.size

/-- Host query `SEC_IsWriteable`. -/
def SEC_IsWriteable (sec : SEC) : Bool := sec.writeable

/-- Host query `SEC_Mapped`. -/
def SEC_Mapped (sec : SEC) : Bool := sec.mapped

/-- A loaded image as the host describes it. -/
structure IMG where
  /-- Path of the image, `IMG_Name`. -/
  name : String
  /-- Lowest address of the image, `IMG_LowAddress`. -/
  low : Nat
  /-- Highest address of the image, `IMG_HighAddress`. -/
  high : Nat
  /-- Type of the image, `IMG_Type`. -/
  kind : IMG_TYPE
  /-- Sections of the image in the order `IMG_SecHead`, `SEC_Next` walks
  them. -/
  secs : List SEC

/-- Host query `IMG_Name`. -/
def IMG_Name (img : IMG) : String := img.name

/-- Host query `IMG_LowAddress`. -/
def IMG_LowAddress (img : IMG) : Nat := img.low

/-- Host query `IMG_HighAddress`. -/
def IMG_HighAddress (img : IMG) : Nat := img.high

/-- Host query `IMG_Type`. -/
def IMG_Type (img : IMG) : IMG_TYPE := img.kind

/-- Host query `IMG_SecHead`, with the sections that `SEC_Next` reaches from
it. -/
def IMG_SecHead (img : IMG) : List SEC := img.secs

/-- Global variables of `tagmap.c`: the segment table, the program break,
the flag that records that the dynamic linker/loader has been loaded, and the
two hard-coded segments. -/
structure Tagmap where
  /-- Segment table: one `uint32_t` displacement per page. -/
  STAB : Nat → Nat
  /-- Start of the program break. -/
  brk_start : Nat
  /-- End of the program break. -/
  brk_end : Nat
  /-- Non-zero once the dynamic linker/loader is in the address space. -/
  dynldlnk_loaded : Nat
  /-- Address of the no-access segment. -/
  null_seg : Nat
  /-- Address of the shared all-zero segment. -/
  zero_seg : Nat

/-- The `STAB setup` loop of `elf_load`:
`for (i = lo, j = 0; i <= hi; i++, j++) STAB[i] = (uint32_t)tseg - STAB2VIRT(i) + (j * PAGE_SZ)`,
iteration `j` handling entry `i = lo + j`, all in 32-bit unsigned arithmetic. -/
def stab_setup (tseg lo hi : Nat) (STAB : Nat → Nat) : Nat → Nat :=
  (List.range (hi + 1 - lo)).foldl
    (fun S j => Function.update S (lo + j)
      (u32 (u32 tseg + 4294967296 - u32 (STAB2VIRT (lo + j)) + u32 (j * PAGE_SZ))))
    STAB

/-- ELF image loading callback (`elf_load`, built without `TAGMAP_COLLAPSE`).
`mmap` is the host's allocator: the address of a fresh mapping of the length
asked for, or `none` for `MAP_FAILED`, after which `libdft_die` ends the
process (result `none`). -/
def elf_load (mmap : Nat → Option Nat) (tm : Tagmap) (img : IMG) : Option Tagmap :=
  if tm.dynldlnk_loaded = 1 then some tm
  else
    let slen := u32 (PAGE_ALIGN (IMG_HighAddress img) + 4294967296 -
      PAGE_ALIGN (IMG_LowAddress img) + PAGE_SZ)
    match mmap slen with
    | none => none
    | some tseg =>
      let STAB1 := stab_setup tseg (VIRT2STAB (IMG_LowAddress img))
        (VIRT2STAB (IMG_HighAddress img)) tm.STAB
      let brk := u32 (PAGE_ALIGN (IMG_HighAddress img) + PAGE_SZ)
      let brk_start1 := if tm.brk_end = 0 then brk else tm.brk_start
      let brk_end1 := if tm.brk_end = 0 then brk else tm.brk_end
      let loaded1 :=
        if IMG_Name img = DYNLDLNK ∨ IMG_Type img = IMG_TYPE.STATIC then 1
        else tm.dynldlnk_loaded
      some ⟨STAB1, brk_start1, brk_end1, loaded1, tm.null_seg, tm.zero_seg⟩

/-- A tagmap before any image is loaded: every table entry 0, no program
break yet. -/
def emptyTagmap : Tagmap := ⟨fun _ => 0, 0, 0, 0, 0, 0⟩

/-- A sample image that spans `0x08048000 .. 0x0805ffff`. -/
def sampleImg : IMG := ⟨"/bin/ls", 134512640, 134610943, .SHARED, []⟩

/-- Rule `f s r` clears the `w`-byte view at byte `off` of register slot `r`
and changes no other register byte, no shadow byte and no table entry. -/
def ClearsReg (f : State → Nat → State) (w off : Nat) : Prop :=
  ∀ s r,
    view w (f s r).gpr (4 * r + off) = 0 ∧
    SameOutside s.gpr (f s r).gpr (4 * r + off) w ∧
    (f s r).mem = s.mem ∧ (f s r).STAB = s.STAB

/-- Rule `f s addr` clears the `w` shadow bytes of address `addr` and changes
no other shadow byte, no register byte and no table entry. -/
def ClearsMem (f : State → Nat → State) (w : Nat) : Prop :=
  ∀ s addr,
    view w (f s addr).mem (taddr s addr) = 0 ∧
    SameOutside s.mem (f s addr).mem (taddr s addr) w ∧
    (f s addr).gpr = s.gpr ∧ (f s addr).STAB = s.STAB

/-- An instruction with one register operand. -/
def regIns (op : xed_iclass) (d : REG) : INS :=
  ⟨op, [.reg d], .INVALID, .INVALID, false, .INVALID, fun _ => 8, 1, fun _ => false⟩

/-- An instruction with a memory destination of `w` bits and an immediate
source. -/
def memImmIns (op : xed_iclass) (w : Nat) : INS :=
  ⟨op, [.mem, .imm], .INVALID, .INVALID, false, .INVALID, fun _ => w, BIT2BYTE w,
    fun _ => false⟩

/-- An instruction with a register destination and an immediate source. -/
def regImmIns (op : xed_iclass) (d : REG) : INS :=
  ⟨op, [.reg d, .imm], .INVALID, .INVALID, false, .INVALID, fun _ => 32, 4, fun _ => false⟩

/-- An instruction with a memory destination of `w` bits and a register
source. -/
def memSegIns (op : xed_iclass) (r : REG) (w : Nat) : INS :=
  ⟨op, [.mem, .reg r], .INVALID, .INVALID, false, .INVALID, fun _ => w, BIT2BYTE w,
    fun _ => false⟩

/-- State `s'` differs from `s` only in that the 32-bit tags of the register
slots listed in `slots` are 0. -/
def ClearsSlots (s s' : State) (slots : List Nat) : Prop :=
  (∀ r, r ∈ slots → gpr32 s' r = 0) ∧
  (∀ i, (∀ r, r ∈ slots → i < 4 * r ∨ 4 * r + 4 ≤ i) → s'.gpr i = s.gpr i) ∧
  s'.mem = s.mem ∧ s'.STAB = s.STAB

/-- An instruction without explicit operands. -/
def nullaryIns (op : xed_iclass) : INS :=
  ⟨op, [], .INVALID, .INVALID, false, .INVALID, fun _ => 32, 4, fun _ => false⟩

/-- An instruction with one memory operand of `w` bits. -/
def memIns (op : xed_iclass) (w : Nat) : INS :=
  ⟨op, [.mem], .INVALID, .INVALID, false, .INVALID, fun _ => w, BIT2BYTE w, fun _ => false⟩

/-- The conditional-set opcode classes `SETB` .. `SETZ`. -/
def isSetcc (op : xed_iclass) : Bool :=
  match op with
  | .SETB | .SETBE | .SETL | .SETLE | .SETNB | .SETNBE | .SETNL | .SETNLE
  | .SETNO | .SETNP | .SETNS | .SETNZ | .SETO | .SETP | .SETS | .SETZ => true
  | _ => false

/-! ## tagmap.c: ranged accessors -/

/-- Stack size, `STACK_SZ`: 8 MB. -/
def STACK_SZ : Nat := PAGE_SZ <<< 11

/-- Number of segment-table entries, `STAB_SIZE`: 1 M. -/
def STAB_SIZE : Nat := 1 <<< 20

/-- Userland starting address, `USER_START`. -/
def USER_START : Nat := 0

/-- Userland ending address, `USER_END`: `0xBFFFFFFF`. -/
def USER_END : Nat := 3221225471

/-- Kernel starting address, `KERN_START`: `0xC0000000`. -/
def KERN_START : Nat := 3221225472

/-- Kernel ending address, `KERN_END`: `0xFFFFFFFF`. -/
def KERN_END : Nat := 4294967295

/-- Address at which the stack segment starts, `STACK_SEG_ADDR`:
`KERN_START - STACK_SZ`. -/
def STACK_SEG_ADDR : Nat := KERN_START - STACK_SZ

/-- Modelled from the spec: `PROT_READ` of the host's `<sys/mman.h>`. -/
def PROT_READ : Nat := 1

/-- Modelled from the spec: `PROT_WRITE` of the host's `<sys/mman.h>`. -/
def PROT_WRITE : Nat := 2

/-- Modelled from the spec: `PROT_EXEC` of the host's `<sys/mman.h>`. -/
def PROT_EXEC : Nat := 4

/-- Host constant `PROT_NONE` of `<sys/mman.h>`. -/
def PROT_NONE : Nat := 0

/-- The operator `~` on a 32-bit `int`, in two's complement. -/
def cnot (x : Nat) : Nat := 4294967295 - x % 4294967296

/-- Protection passed to `mmap` for the segment table and the stack segment:
`PROT_READ | PROT_WRITE | ~PROT_EXEC`. -/
def prot_rw : Nat := PROT_READ ||| PROT_WRITE ||| cnot PROT_EXEC

/-- Protection passed to `mmap` for the zero segment:
`PROT_READ | ~PROT_WRITE | ~PROT_EXEC`. -/
def prot_zero : Nat := PROT_READ ||| cnot PROT_WRITE ||| cnot PROT_EXEC

/-- A loop `for (i = lo; i <= hi; i++) STAB[i] = (uint32_t)seg - STAB2VIRT(i)`
of `tagmap_alloc` and `elf_load`, iteration `j` handling entry `i = lo + j`,
in 32-bit unsigned arithmetic. -/
def stab_fill (seg lo hi : Nat) (STAB : Nat → Nat) : Nat → Nat :=
  (List.range (hi + 1 - lo)).foldl
    (fun S j => Function.update S (lo + j)
      (u32 (u32 seg + 4294967296 - u32 (STAB2VIRT (lo + j)))))
    STAB

/-- Initialisation of the segment table and of the hard-coded segments
(`tagmap_alloc`).  `mmap len prot` is the host's allocator (`none` for
`MAP_FAILED`); `vdso_start`, `vdso_end` are what `get_vdso` reads from
`/proc/<pid>/maps` (both 0 when there is no vDSO entry).  The result is `none`
when the routine returns 1, and the new globals when it returns 0; the fresh
segment table is zero filled. -/
def tagmap_alloc (mmap : Nat → Nat → Option Nat) (vdso_start vdso_end : Nat)
    (tm : Tagmap) : Option Tagmap :=
  match mmap (u32 (STAB_SIZE * 4)) prot_rw with
  | none => none
  | some _ =>
    match mmap STACK_SZ prot_rw with
    | none => none
    | some stack_seg =>
      match mmap PAGE_SZ prot_zero with
      | none => none
      | some zero_seg =>
        match mmap PAGE_SZ PROT_NONE with
        | none => none
        | some null_seg =>
          let STAB1 := stab_fill zero_seg (VIRT2STAB KERN_START) (VIRT2STAB KERN_END)
            (fun _ => 0)
          let STAB2 := stab_fill null_seg (VIRT2STAB USER_START)
            (VIRT2STAB (STACK_SEG_ADDR - 1)) STAB1
          let STAB3 := stab_setup stack_seg (VIRT2STAB STACK_SEG_ADDR) (VIRT2STAB USER_END)
            STAB2
          let STAB4 :=
            if vdso_start ≠ 0 then
              stab_fill zero_seg (VIRT2STAB vdso_start)
                (VIRT2STAB (u32 (vdso_end + 4294967295))) STAB3
            else STAB3
          some ⟨STAB4, tm.brk_start, tm.brk_end, tm.dynldlnk_loaded, null_seg, zero_seg⟩

/-- The pages the vDSO loop of `tagmap_alloc` rewrites, if it runs, are
outside the stack range `0xBF800000 .. 0xBFFFFFFF`. -/
def VdsoOffStack (vdso_start vdso_end : Nat) : Prop :=
  vdso_start = 0 ∨
  ∀ i, VIRT2STAB vdso_start ≤ i → i ≤ VIRT2STAB (u32 (vdso_end + 4294967295)) →
    i < VIRT2STAB STACK_SEG_ADDR ∨ VIRT2STAB USER_END < i

/-- A sample allocator: the segment table at `0x50000000`, the stack segment
at `0x60000000`, the zero segment at `0x70000000`, the null segment at
`0x70001000`. -/
def sampleMmap (len prot : Nat) : Option Nat :=
  if len = 4194304 then some 1342177280
  else if len = 8388608 then some 1610612736
  else if prot = 0 then some 1879052288
  else some 1879048192

/-- An allocator that grants a page-sized mapping only when it is requested
without access (`PROT_NONE`) or read-only (`PROT_READ`), and grants every
larger mapping. -/
def strictMmap (len prot : Nat) : Option Nat :=
  if len = PAGE_SZ then
    if prot = PROT_NONE then some 1879052288
    else if prot = PROT_READ then some 1879048192
    else none
  else if len = 4194304 then some 1342177280
  else some 1610612736

/-- A series of image loads: `elf_load` called once for each image, in order,
each call with the allocator the host offers at that time; `none` when a call
ends the process. -/
def elf_load_seq : Tagmap → List ((Nat → Option Nat) × IMG) → Option Tagmap
  | tm, [] => some tm
  | tm, c :: rest =>
    match elf_load c.1 tm c.2 with
    | none => none
    | some tm1 => elf_load_seq tm1 rest

/-- The dynamic linker/loader as an image at `0x40000000 .. 0x4001ffff`. -/
def loaderImg : IMG := ⟨"/lib/ld-linux.so.2", 1073741824, 1073872895, .SHAREDLIB, []⟩

/-! ## tagmap.c: image loading with `TAGMAP_COLLAPSE` -/

/-- The forward pass of the collapsed `elf_load` over the sections:
`for (sec = IMG_SecHead(img), lread = SEC_Invalid();
SEC_Valid(sec) && !SEC_IsWriteable(sec); sec = SEC_Next(sec))`, which keeps in
`lread` the last mapped section seen.  The result is the final `lread`
(`none` for `SEC_Invalid()`) and the sections from the final `sec` on (empty
when `sec` is not valid). -/
def leading_ro : List SEC → Option SEC → Option SEC × List SEC
  | [], lread => (lread, [])
  | sec :: rest, lread =>
    if SEC_IsWriteable sec then (lread, sec :: rest)
    else leading_ro rest (if SEC_Mapped sec then some sec else lread)

/-- ELF image loading callback (`elf_load`, built with `TAGMAP_COLLAPSE`):
the pages from the image's low address to the end of the last leading
read-only section are pointed at `zero_seg`, then the pages from the first
writeable section to the image's high address at a fresh segment.  `mmap` is
the host's allocator, `none` for `MAP_FAILED`, after which `libdft_die` ends
the process (result `none`).  When the forward pass runs off the end of the
sections, `SEC_IsWriteable` of the invalid section counts as false. -/
def elf_load_collapse (mmap : Nat → Option Nat) (tm : Tagmap) (img : IMG) :
    Option Tagmap :=
  if tm.dynldlnk_loaded = 1 then some tm
  else
    let pass := leading_ro (IMG_SecHead img) none
    let STAB1 :=
      match pass.1 with
      | some lread =>
        stab_fill tm.zero_seg (VIRT2STAB (IMG_LowAddress img))
          (VIRT2STAB (u32 (SEC_Address lread + SEC_Size lread + 4294967295))) tm.STAB
      | none => tm.STAB
    let brk := u32 (PAGE_ALIGN (IMG_HighAddress img) + PAGE_SZ)
    let brk_start1 := if tm.brk_end = 0 then brk else tm.brk_start
    let brk_end1 := if tm.brk_end = 0 then brk else tm.brk_end
    let loaded1 :=
      if IMG_Name img = DYNLDLNK ∨ IMG_Type img = IMG_TYPE.STATIC then 1
      else tm.dynldlnk_loaded
    match pass.2 with
    | sec :: _ =>
      if SEC_IsWriteable sec then
        let slen := u32 (PAGE_ALIGN (IMG_HighAddress img) + 4294967296 -
          PAGE_ALIGN (SEC_Address sec) + PAGE_SZ)
        match mmap slen with
        | none => none
        | some tseg =>
          let STAB2 := stab_setup tseg (VIRT2STAB (SEC_Address sec))
            (VIRT2STAB (IMG_HighAddress img)) STAB1
          some ⟨STAB2, brk_start1, brk_end1, loaded1, tm.null_seg, tm.zero_seg⟩
      else some ⟨STAB1, brk_start1, brk_end1, loaded1, tm.null_seg, tm.zero_seg⟩
    | [] => some ⟨STAB1, brk_start1, brk_end1, loaded1, tm.null_seg, tm.zero_seg⟩

/-- A tagmap whose zero segment is at `0x70000000`, before any image is
loaded. -/
def zeroSegTagmap : Tagmap := ⟨fun _ => 0, 0, 0, 0, 1879052288, 1879048192⟩

/-- An image `0x08048000 .. 0x08049fff` whose read-only section
`0x08048000 .. 0x080487ff` and first writeable section, at `0x08048900`, share
the page `0x08048`. -/
def sharedPageImg : IMG :=
  ⟨"/bin/omagic", 134512640, 134520831, .SHARED,
    [⟨134512640, 2048, false, true⟩, ⟨134514944, 4096, true, true⟩]⟩

/-- An image `0x08048000 .. 0x0804bfff` with a read-only section
`0x08048000 .. 0x08049fff` and a first writeable section at `0x0804af00`. -/
def splitImg : IMG :=
  ⟨"/bin/ls", 134512640, 134529023, .SHARED,
    [⟨134512640, 8192, false, true⟩, ⟨134524672, 4096, true, true⟩]⟩

/-- The opcode classes that have a case label in the `switch` of
`ins_inspect`. -/
def has_case_label : xed_iclass → Bool
  | .ADC | .ADD | .AND | .OR | .XOR | .SBB | .SUB
  | .BSF | .BSR | .MOV
  | .CMOVB | .CMOVBE | .CMOVL | .CMOVLE | .CMOVNB | .CMOVNBE | .CMOVNL | .CMOVNLE
  | .CMOVNO | .CMOVNP | .CMOVNS | .CMOVNZ | .CMOVO | .CMOVP | .CMOVS | .CMOVZ
  | .CBW | .CWD | .CWDE | .CDQ
  | .MOVSX | .MOVZX
  | .DIV | .IDIV | .MUL | .IMUL
  | .SETB | .SETBE | .SETL | .SETLE | .SETNB | .SETNBE | .SETNL | .SETNLE
  | .SETNO | .SETNP | .SETNS | .SETNZ | .SETO | .SETP | .SETS | .SETZ
  | .STMXCSR | .SMSW | .STR | .LAR | .RDPMC | .RDTSC | .CPUID | .LAHF
  | .CMPXCHG | .XCHG | .XADD
  | .XLAT | .LODSB | .LODSW | .LODSD | .STOSB | .STOSW | .STOSD
  | .MOVSD | .MOVSW | .MOVSB
  | .SALC
  | .RCL | .RCR | .ROL | .ROR | .SHL | .SAR | .SHR | .SHLD | .SHRD
  | .POP | .PUSH | .POPA | .POPAD | .PUSHA | .PUSHAD | .PUSHF | .PUSHFD
  | .CALL_NEAR | .LEAVE | .LEA
  | .CMPXCHG8B | .ENTER => true
  | _ => false

/-- The conditional-move opcode classes `CMOVB` .. `CMOVZ`. -/
def isCmovcc (op : xed_iclass) : Bool :=
  match op with
  | .CMOVB | .CMOVBE | .CMOVL | .CMOVLE | .CMOVNB | .CMOVNBE | .CMOVNL | .CMOVNLE
  | .CMOVNO | .CMOVNP | .CMOVNS | .CMOVNZ | .CMOVO | .CMOVP | .CMOVS | .CMOVZ => true
  | _ => false

/-- Every binding of the list satisfies `P`. -/
def AllB (P : Binding → Prop) (l : List Binding) : Prop := ∀ b, b ∈ l → P b

/-- A store-string instruction (`stosb`, `stosw`, `stosd`), with or without a
repeat prefix: the memory written at `[EDI]`, the accumulator, the counter
and the flags. -/
def stosIns (op : xed_iclass) (rep : Bool) : INS :=
  ⟨op, [.mem, .reg .EDI, .reg .EAX, .reg .ECX, .reg .EFLAGS], .EDI, .INVALID, rep, .ECX,
    fun _ => 32, 4, fun _ => false⟩

/-- A later iteration of a repeated instruction whose predicate holds: like
`sampleEnv`, but not the first iteration. -/
def laterIterationEnv : Env :=
  ⟨fun _ => 5, 134512640, 134512640, fun a => a % 7, false, true⟩

/-- State `s'` differs from `s` only in that the `w`-byte view at byte `dOff`
of register slot `d` now holds what the view at byte `rOff` of slot `r` held;
that source view, every other register byte, the shadow memory and the
segment table are unchanged. -/
def ExtendsInto (s s' : State) (w d dOff r rOff : Nat) : Prop :=
  view w s'.gpr (4 * d + dOff) = view w s.gpr (4 * r + rOff) ∧
  view w s'.gpr (4 * r + rOff) = view w s.gpr (4 * r + rOff) ∧
  SameOutside s.gpr s'.gpr (4 * d + dOff) w ∧
  s'.mem = s.mem ∧ s'.STAB = s.STAB

/-- An instruction without explicit operands whose implicit operands are the
accumulator and the data register (`cbw`, `cwd`, `cwde`, `cdq`). -/
def implicitIns (op : xed_iclass) : INS :=
  ⟨op, [.reg .EAX, .reg .EDX], .INVALID, .INVALID, false, .INVALID, fun _ => 32, 4,
    fun _ => true⟩

/-- The segment table after the three setup loops of `tagmap_alloc` (kernel
range, unmapped user range, stack range), before the vDSO is looked at. -/
def setup_table (stack_seg zero_seg null_seg : Nat) : Nat → Nat :=
  stab_setup stack_seg (VIRT2STAB STACK_SEG_ADDR) (VIRT2STAB USER_END)
    (stab_fill null_seg (VIRT2STAB USER_START) (VIRT2STAB (STACK_SEG_ADDR - 1))
      (stab_fill zero_seg (VIRT2STAB KERN_START) (VIRT2STAB KERN_END) (fun _ => 0)))

/-- Marker of the vDSO entry in `/proc/<pid>/maps`, `VDSO_STR`. -/
def VDSO_STR : String := "[vdso]"

/-- One line of `/proc/<pid>/maps` as `get_vdso` uses it: its text, and the
two addresses `sscanf` reads from it with the format `"%x-%x ..."`. -/
structure MapsLine where
  /-- The line as `fgets` returns it. -/
  text : String
  /-- First address read by `sscanf`. -/
  saddr : Nat
  /-- Second address read by `sscanf`. -/
  eaddr : Nat

/-- Whether `strstr(lbuf, VDSO_STR)` finds the marker in the line. -/
def has_vdso_str (l : MapsLine) : Bool :=
  decide (List.IsInfix VDSO_STR.toList l.text.toList)

/-- Probe for the vDSO (`get_vdso`): the start and end address of the first
line of `/proc/<pid>/maps` that contains `VDSO_STR`, and 0, 0 when there is no
such line.  The argument is `none` when the path cannot be assembled or the
file cannot be opened, and otherwise the lines read before the end of the file
or a read error. -/
def get_vdso : Option (List MapsLine) → Nat × Nat
  | none => (0, 0)
  | some lines =>
    match lines.find? has_vdso_str with
    | some l => (l.saddr, l.eaddr)
    | none => (0, 0)

/-- A `/proc/<pid>/maps` without a vDSO line. -/
def mapsNoVdso : List MapsLine :=
  [⟨"08048000-08060000 r-xp 00000000 08:01 1234 /bin/ls", 134512640, 134610944⟩,
   ⟨"bffdf000-c0000000 rw-p 00000000 00:00 0 [stack]", 3221090304, 3221225472⟩]

/-- A `/proc/<pid>/maps` with the vDSO at `0xb7fff000 .. 0xb8000000`. -/
def mapsVdso : List MapsLine :=
  [⟨"08048000-08060000 r-xp 00000000 08:01 1234 /bin/ls", 134512640, 134610944⟩,
   ⟨"b7fff000-b8000000 r-xp 00000000 00:00 0 [vdso]", 3087003648, 3087007744⟩,
   ⟨"bffdf000-c0000000 rw-p 00000000 00:00 0 [stack]", 3221090304, 3221225472⟩]

/-- Positions, in the argument list of an analysis routine, of the parameters
that carry a program data value rather than a register index or a memory
address: `dst_val` and `src_val` of the CMPXCHG probes, `count` and `eflags`
of the block moves, the flag of `rep_predicate`. -/
def dataParams : AFUNPTR → List Nat
  | ._cmpxchg_r2r_opl_fast | ._cmpxchg_r2r_opw_fast => [0, 2]
  | ._cmpxchg_m2r_opl_fast | ._cmpxchg_m2r_opw_fast => [0]
  | .m2m_xfer_opwn | .m2m_xfer_opbn | .m2m_xfer_opln => [2, 3]
  | .rep_predicate => [0]
  | _ => []

/-- Two argument lists for routine `fn` give the same operand bindings: they
have the same length and agree wherever `fn` takes a register index or a
memory address. -/
def SameBindings (fn : AFUNPTR) (a1 a2 : List Nat) : Prop :=
  a1.length = a2.length ∧ ∀ i, i < a1.length → i ∈ dataParams fn ∨ a1.get? i = a2.get? i

/-- The block-move rules `m2m_xfer_opwn`, `m2m_xfer_opbn`, `m2m_xfer_opln`. -/
def isBlockMove : AFUNPTR → Bool
  | .m2m_xfer_opwn | .m2m_xfer_opbn | .m2m_xfer_opln => true
  | _ => false

/-- The CMPXCHG probes and `rep_predicate`, the routines that return a value
to the host. -/
def returnsValue : AFUNPTR → Bool
  | ._cmpxchg_r2r_opl_fast | ._cmpxchg_r2r_opw_fast
  | ._cmpxchg_m2r_opl_fast | ._cmpxchg_m2r_opw_fast | .rep_predicate => true
  | _ => false

/-! ## Host page protection of the shadow memory -/

/-- Whether the host lets an access to the `w` bytes at shadow address `p`
through.  `prot q` is the protection of the page that holds shadow byte `q`,
as `mmap` set it, and `PROT_NONE` where nothing is mapped; `bit` is
`PROT_READ` for a load and `PROT_WRITE` for a store.  An access that is not
let through ends the process with a segmentation fault. -/
def access_ok (prot : Nat → Nat) (bit p w : Nat) : Bool :=
  (List.range w).all (fun i => prot (p + i) &&& bit != 0)

/-- Tag a byte (`tagmap_setb`) under the host's page protection: `none` when
the store faults, the state after the store otherwise. -/
def tagmap_setb_prot (prot : Nat → Nat) (s : State) (addr color : Nat) : Option State :=
  if access_ok prot PROT_WRITE (taddr s addr) 1 then some (tagmap_setb s addr color)
  else none

/-- Tag value of a byte (`tagmap_getb`) under the host's page protection:
`none` when the load faults. -/
def tagmap_getb_prot (prot : Nat → Nat) (s : State) (addr : Nat) : Option Nat :=
  if access_ok prot PROT_READ (taddr s addr) 1 then some (tagmap_getb s addr)
  else none

/-- Tag a word (`tagmap_setw`) under the host's page protection: `none` when
the store faults. -/
def tagmap_setw_prot (prot : Nat → Nat) (s : State) (addr color : Nat) : Option State :=
  if access_ok prot PROT_WRITE (taddr s addr) 2 then some (tagmap_setw s addr color)
  else none

/-- Tag value of a word (`tagmap_getw`) under the host's page protection:
`none` when the load faults. -/
def tagmap_getw_prot (prot : Nat → Nat) (s : State) (addr : Nat) : Option Nat :=
  if access_ok prot PROT_READ (taddr s addr) 2 then some (tagmap_getw s addr)
  else none

/-- Tag a long word (`tagmap_setl`) under the host's page protection: `none`
when the store faults. -/
def tagmap_setl_prot (prot : Nat → Nat) (s : State) (addr color : Nat) : Option State :=
  if access_ok prot PROT_WRITE (taddr s addr) 4 then some (tagmap_setl s addr color)
  else none

/-- Tag value of a long word (`tagmap_getl`) under the host's page
protection: `none` when the load faults. -/
def tagmap_getl_prot (prot : Nat → Nat) (s : State) (addr : Nat) : Option Nat :=
  if access_ok prot PROT_READ (taddr s addr) 4 then some (tagmap_getl s addr)
  else none

/-- Protection of the shadow memory right after `tagmap_alloc`: each of the
four mappings (null segment, zero segment, stack segment, segment table) has
the protection `mmap` was called with, and nothing else is mapped. -/
def alloc_prot (stab stack_seg zero_seg null_seg : Nat) (q : Nat) : Nat :=
  if null_seg ≤ q ∧ q < null_seg + PAGE_SZ then PROT_NONE
  else if zero_seg ≤ q ∧ q < zero_seg + PAGE_SZ then prot_zero
  else if stack_seg ≤ q ∧ q < stack_seg + STACK_SZ then prot_rw
  else if stab ≤ q ∧ q < stab + u32 (STAB_SIZE * 4) then prot_rw
  else PROT_NONE

/-- The tag state right after `tagmap_alloc` with the sample allocator and no
vDSO: the segment table of the three setup loops, clean registers and clean
shadow memory. -/
def allocState : State :=
  ⟨fun _ => 0, setup_table 1610612736 1879048192 1879052288, fun _ => 0⟩

/-! ## Store lemmas -/

theorem wr8_same (m : Nat → Nat) (a v : Nat) : wr8 m a v a = v % 256 := by
  simp [wr8]

theorem wr8_other (m : Nat → Nat) (a v i : Nat) (h : i ≠ a) : wr8 m a v i = m i := by
  simp [wr8, h]

theorem wr16_out (m : Nat → Nat) (a v i : Nat) (h : i < a ∨ a + 2 ≤ i) :
    wr16 m a v i = m i := by
  unfold wr16
  rw [wr8_other _ _ _ _ (by omega), wr8_other _ _ _ _ (by omega)]

theorem wr32_out (m : Nat → Nat) (a v i : Nat) (h : i < a ∨ a + 4 ≤ i) :
    wr32 m a v i = m i := by
  unfold wr32
  rw [wr16_out _ _ _ _ (by omega), wr16_out _ _ _ _ (by omega)]

theorem wr16_b0 (m : Nat → Nat) (a v : Nat) : wr16 m a v a = v % 256 := by
  unfold wr16
  rw [wr8_other _ _ _ _ (by omega), wr8_same]

theorem wr16_b1 (m : Nat → Nat) (a v : Nat) : wr16 m a v (a + 1) = v / 256 % 256 := by
  unfold wr16
  rw [wr8_same]

theorem wr32_b0 (m : Nat → Nat) (a v : Nat) : wr32 m a v a = v % 256 := by
  unfold wr32
  rw [wr16_out _ _ _ _ (by omega), wr16_b0]

theorem wr32_b1 (m : Nat → Nat) (a v : Nat) : wr32 m a v (a + 1) = v / 256 % 256 := by
  unfold wr32
  rw [wr16_out _ _ _ _ (by omega), wr16_b1]

theorem wr32_b2 (m : Nat → Nat) (a v : Nat) : wr32 m a v (a + 2) = v / 65536 % 256 := by
  unfold wr32
  rw [wr16_b0]

theorem wr32_b3 (m : Nat → Nat) (a v : Nat) :
    wr32 m a v (a + 3) = v / 16777216 % 256 := by
  unfold wr32
  rw [show a + 3 = a + 2 + 1 from rfl, wr16_b1]
  omega

theorem rd8_lt (m : Nat → Nat) (a : Nat) : rd8 m a < 256 := by
  unfold rd8; omega

theorem rd16_lt (m : Nat → Nat) (a : Nat) : rd16 m a < 65536 := by
  have h0 := rd8_lt m a
  have h1 := rd8_lt m (a + 1)
  unfold rd16; omega

theorem rd32_lt (m : Nat → Nat) (a : Nat) : rd32 m a < 4294967296 := by
  have h0 := rd16_lt m a
  have h1 := rd16_lt m (a + 2)
  unfold rd32; omega

theorem rd8_wr8_same (m : Nat → Nat) (a v : Nat) : rd8 (wr8 m a v) a = v % 256 := by
  simp [rd8, wr8_same]

theorem rd16_wr16_same (m : Nat → Nat) (a v : Nat) :
    rd16 (wr16 m a v) a = v % 65536 := by
  unfold rd16 rd8
  rw [wr16_b0, wr16_b1]
  omega

theorem rd32_wr32_same (m : Nat → Nat) (a v : Nat) :
    rd32 (wr32 m a v) a = v % 4294967296 := by
  unfold rd32 rd16 rd8
  rw [wr32_b0, wr32_b1, wr32_b2, show a + 2 + 1 = a + 3 from rfl, wr32_b3]
  omega

/-- A byte read sees only its own cell. -/
theorem rd8_congr (m n : Nat → Nat) (a : Nat) (h : n a = m a) : rd8 n a = rd8 m a := by
  unfold rd8; rw [h]

/-- A word read sees only its two cells. -/
theorem rd16_congr (m n : Nat → Nat) (a : Nat) (h0 : n a = m a)
    (h1 : n (a + 1) = m (a + 1)) : rd16 n a = rd16 m a := by
  unfold rd16 rd8; rw [h0, h1]

/-- A long read sees only its four cells. -/
theorem rd32_congr (m n : Nat → Nat) (a : Nat) (h0 : n a = m a)
    (h1 : n (a + 1) = m (a + 1)) (h2 : n (a + 2) = m (a + 2))
    (h3 : n (a + 3) = m (a + 3)) : rd32 n a = rd32 m a := by
  unfold rd32 rd16 rd8
  rw [h0, h1, h2, show a + 2 + 1 = a + 3 from rfl, h3]

/-! ## Set / get round trip on the flat store -/

/-- On the shadow store itself, without regard to page protection, a read at
the translated address right after a write of the same width returns the
value written. -/
theorem flat_set_get (s : State) (addr X : Nat) :
    (X < 256 → tagmap_getb (tagmap_setb s addr X) addr = X) ∧
    (X < 65536 → tagmap_getw (tagmap_setw s addr X) addr = X) ∧
    (X < 4294967296 → tagmap_getl (tagmap_setl s addr X) addr = X) ∧
    tagmap_getb (tagmap_setb s addr 0) addr = 0 ∧
    tagmap_getb (tagmap_setb s addr 1) addr = 1 ∧
    tagmap_getb (tagmap_setb s addr 255) addr = 255 := by
  have hb : ∀ v, tagmap_getb (tagmap_setb s addr v) addr = v % 256 := fun v =>
    rd8_wr8_same s.mem (taddr s addr) v
  have hw : ∀ v, tagmap_getw (tagmap_setw s addr v) addr = v % 65536 := fun v =>
    rd16_wr16_same s.mem (taddr s addr) v
  have hl : ∀ v, tagmap_getl (tagmap_setl s addr v) addr = v % 4294967296 := fun v =>
    rd32_wr32_same s.mem (taddr s addr) v
  refine ⟨fun h => ?_, fun h => ?_, fun h => ?_, ?_, ?_, ?_⟩
  · rw [hb]; omega
  · rw [hw]; omega
  · rw [hl]; omega
  · rw [hb]
  · rw [hb]
  · rw [hb]

/-! ## Update lemmas -/

theorem view_lt (w : Nat) (hw : w = 1 ∨ w = 2 ∨ w = 4) (m : Nat → Nat) (a : Nat) :
    view w m a < 2 ^ (8 * w) := by
  rcases hw with h | h | h <;> subst h
  · exact rd8_lt m a
  · exact rd16_lt m a
  · exact rd32_lt m a

theorem accOp_lt (w x y : Nat) (hx : x < 2 ^ (8 * w)) (hy : y < 2 ^ (8 * w)) :
    accOp x y < 2 ^ (8 * w) :=
  Nat.or_lt_two_pow hx hy

theorem xferOp_lt (w x y : Nat) (_hx : x < 2 ^ (8 * w)) (hy : y < 2 ^ (8 * w)) :
    xferOp x y < 2 ^ (8 * w) := hy

theorem wr8_view (m : Nat → Nat) (a v : Nat) (hv : v < 2 ^ (8 * 1)) :
    view 1 (wr8 m a v) a = v ∧ SameOutside m (wr8 m a v) a 1 := by
  refine ⟨?_, fun i hi => wr8_other m a v i (by omega)⟩
  show rd8 (wr8 m a v) a = v
  rw [rd8_wr8_same]; exact Nat.mod_eq_of_lt hv

theorem wr16_view (m : Nat → Nat) (a v : Nat) (hv : v < 2 ^ (8 * 2)) :
    view 2 (wr16 m a v) a = v ∧ SameOutside m (wr16 m a v) a 2 := by
  refine ⟨?_, fun i hi => wr16_out m a v i hi⟩
  show rd16 (wr16 m a v) a = v
  rw [rd16_wr16_same]; exact Nat.mod_eq_of_lt hv

theorem wr32_view (m : Nat → Nat) (a v : Nat) (hv : v < 2 ^ (8 * 4)) :
    view 4 (wr32 m a v) a = v ∧ SameOutside m (wr32 m a v) a 4 := by
  refine ⟨?_, fun i hi => wr32_out m a v i hi⟩
  show rd32 (wr32 m a v) a = v
  rw [rd32_wr32_same]; exact Nat.mod_eq_of_lt hv

theorem wrw_view (w : Nat) (hw : w = 1 ∨ w = 2 ∨ w = 4) (m : Nat → Nat) (a v : Nat)
    (hv : v < 2 ^ (8 * w)) :
    view w (wrw w m a v) a = v ∧ SameOutside m (wrw w m a v) a w := by
  rcases hw with h | h | h <;> subst h
  · exact wr8_view m a v hv
  · exact wr16_view m a v hv
  · exact wr32_view m a v hv

/-- A rule that assigns `op old src` to a register view is an `UpdatesR2R`. -/
theorem updatesR2R_of_eq (op : Nat → Nat → Nat) (w : Nat) (hw : w = 1 ∨ w = 2 ∨ w = 4)
    (hop : ∀ x y, x < 2 ^ (8 * w) → y < 2 ^ (8 * w) → op x y < 2 ^ (8 * w))
    (f : State → Nat → Nat → State) (dOff sOff : Nat)
    (hf : ∀ s dst src, f s dst src =
      (⟨wrw w s.gpr (4 * dst + dOff)
        (op (view w s.gpr (4 * dst + dOff)) (view w s.gpr (4 * src + sOff))), s.STAB, s.mem⟩ : State)) :
    UpdatesR2R op f w dOff sOff := by
  intro s dst src
  rw [hf]
  have h := wrw_view w hw s.gpr (4 * dst + dOff)
    (op (view w s.gpr (4 * dst + dOff)) (view w s.gpr (4 * src + sOff)))
    (hop _ _ (view_lt w hw _ _) (view_lt w hw _ _))
  exact ⟨h.1, h.2, rfl, rfl⟩

/-- A rule that assigns `op old src` (source in shadow memory) to a register
view is an `UpdatesM2R`. -/
theorem updatesM2R_of_eq (op : Nat → Nat → Nat) (w : Nat) (hw : w = 1 ∨ w = 2 ∨ w = 4)
    (hop : ∀ x y, x < 2 ^ (8 * w) → y < 2 ^ (8 * w) → op x y < 2 ^ (8 * w))
    (f : State → Nat → Nat → State) (dOff : Nat)
    (hf : ∀ s dst src, f s dst src =
      (⟨wrw w s.gpr (4 * dst + dOff)
        (op (view w s.gpr (4 * dst + dOff)) (view w s.mem (taddr s src))), s.STAB, s.mem⟩ : State)) :
    UpdatesM2R op f w dOff := by
  intro s dst src
  rw [hf]
  have h := wrw_view w hw s.gpr (4 * dst + dOff)
    (op (view w s.gpr (4 * dst + dOff)) (view w s.mem (taddr s src)))
    (hop _ _ (view_lt w hw _ _) (view_lt w hw _ _))
  exact ⟨h.1, h.2, rfl, rfl⟩

/-- A rule that assigns `op old src` (source a register view) to shadow bytes
is an `UpdatesR2M`. -/
theorem updatesR2M_of_eq (op : Nat → Nat → Nat) (w : Nat) (hw : w = 1 ∨ w = 2 ∨ w = 4)
    (hop : ∀ x y, x < 2 ^ (8 * w) → y < 2 ^ (8 * w) → op x y < 2 ^ (8 * w))
    (f : State → Nat → Nat → State) (sOff : Nat)
    (hf : ∀ s dst src, f s dst src =
      (⟨s.gpr, s.STAB, wrw w s.mem (taddr s dst)
        (op (view w s.mem (taddr s dst)) (view w s.gpr (4 * src + sOff)))⟩ : State)) :
    UpdatesR2M op f w sOff := by
  intro s dst src
  rw [hf]
  have h := wrw_view w hw s.mem (taddr s dst)
    (op (view w s.mem (taddr s dst)) (view w s.gpr (4 * src + sOff)))
    (hop _ _ (view_lt w hw _ _) (view_lt w hw _ _))
  exact ⟨h.1, h.2, rfl, rfl⟩

/-- A rule that assigns `op old src` (source in shadow memory) to shadow
bytes is an `UpdatesM2M`. -/
theorem updatesM2M_of_eq (op : Nat → Nat → Nat) (w : Nat) (hw : w = 1 ∨ w = 2 ∨ w = 4)
    (hop : ∀ x y, x < 2 ^ (8 * w) → y < 2 ^ (8 * w) → op x y < 2 ^ (8 * w))
    (f : State → Nat → Nat → State)
    (hf : ∀ s dst src, f s dst src =
      (⟨s.gpr, s.STAB, wrw w s.mem (taddr s dst)
        (op (view w s.mem (taddr s dst)) (view w s.mem (taddr s src)))⟩ : State)) :
    UpdatesM2M op f w := by
  intro s dst src
  rw [hf]
  have h := wrw_view w hw s.mem (taddr s dst)
    (op (view w s.mem (taddr s dst)) (view w s.mem (taddr s src)))
    (hop _ _ (view_lt w hw _ _) (view_lt w hw _ _))
  exact ⟨h.1, h.2, rfl, rfl⟩

/-! ## C2: accumulate rules -/

/-- C2: every accumulate rule (`r2r_binary_*`, `m2r_binary_*`,
`r2m_binary_*`) leaves in the destination view the bitwise OR of the
destination view's prior tag and the source view's prior tag, for every prior
state, and changes no register byte and no shadow byte outside the
destination view. -/
theorem binary_rules_accumulate :
    UpdatesR2R accOp r2r_binary_opb_l 1 0 0 ∧
    UpdatesR2R accOp r2r_binary_opb_u 1 1 1 ∧
    UpdatesR2R accOp r2r_binary_opb_lu 1 0 1 ∧
    UpdatesR2R accOp r2r_binary_opb_ul 1 1 0 ∧
    UpdatesR2R accOp r2r_binary_opw 2 0 0 ∧
    UpdatesR2R accOp r2r_binary_opl 4 0 0 ∧
    UpdatesM2R accOp m2r_binary_opb_u 1 1 ∧
    UpdatesM2R accOp m2r_binary_opb_l 1 0 ∧
    UpdatesM2R accOp m2r_binary_opw 2 0 ∧
    UpdatesM2R accOp m2r_binary_opl 4 0 ∧
    UpdatesR2M accOp r2m_binary_opb_u 1 1 ∧
    UpdatesR2M accOp r2m_binary_opb_l 1 0 ∧
    UpdatesR2M accOp r2m_binary_opw 2 0 ∧
    UpdatesR2M accOp r2m_binary_opl 4 0 := by
  refine ⟨?_, ?_, ?_, ?_, ?_, ?_, ?_, ?_, ?_, ?_, ?_, ?_, ?_, ?_⟩
  · exact updatesR2R_of_eq accOp 1 (by decide) (accOp_lt 1) _ 0 0 (fun _ _ _ => rfl)
  · exact updatesR2R_of_eq accOp 1 (by decide) (accOp_lt 1) _ 1 1 (fun _ _ _ => rfl)
  · exact updatesR2R_of_eq accOp 1 (by decide) (accOp_lt 1) _ 0 1 (fun _ _ _ => rfl)
  · exact updatesR2R_of_eq accOp 1 (by decide) (accOp_lt 1) _ 1 0 (fun _ _ _ => rfl)
  · exact updatesR2R_of_eq accOp 2 (by decide) (accOp_lt 2) _ 0 0 (fun _ _ _ => rfl)
  · exact updatesR2R_of_eq accOp 4 (by decide) (accOp_lt 4) _ 0 0 (fun _ _ _ => rfl)
  · exact updatesM2R_of_eq accOp 1 (by decide) (accOp_lt 1) _ 1 (fun _ _ _ => rfl)
  · exact updatesM2R_of_eq accOp 1 (by decide) (accOp_lt 1) _ 0 (fun _ _ _ => rfl)
  · exact updatesM2R_of_eq accOp 2 (by decide) (accOp_lt 2) _ 0 (fun _ _ _ => rfl)
  · exact updatesM2R_of_eq accOp 4 (by decide) (accOp_lt 4) _ 0 (fun _ _ _ => rfl)
  · exact updatesR2M_of_eq accOp 1 (by decide) (accOp_lt 1) _ 1 (fun _ _ _ => rfl)
  · exact updatesR2M_of_eq accOp 1 (by decide) (accOp_lt 1) _ 0 (fun _ _ _ => rfl)
  · exact updatesR2M_of_eq accOp 2 (by decide) (accOp_lt 2) _ 0 (fun _ _ _ => rfl)
  · exact updatesR2M_of_eq accOp 4 (by decide) (accOp_lt 4) _ 0 (fun _ _ _ => rfl)

/-! ## C3: plain transfer rules -/

/-- C3: every plain transfer rule (`r2r_xfer_*`, `m2r_xfer_*`, `r2m_xfer_*`,
`m2m_xfer_opb/opw/opl`) leaves in the destination view the source view's
prior tag at the same width (1, 2 or 4 bytes), for every prior state, and
changes no register byte and no shadow byte outside the destination view. -/
theorem xfer_rules_transfer :
    UpdatesR2R xferOp r2r_xfer_opb_l 1 0 0 ∧
    UpdatesR2R xferOp r2r_xfer_opb_u 1 1 1 ∧
    UpdatesR2R xferOp r2r_xfer_opb_lu 1 0 1 ∧
    UpdatesR2R xferOp r2r_xfer_opb_ul 1 1 0 ∧
    UpdatesR2R xferOp r2r_xfer_opw 2 0 0 ∧
    UpdatesR2R xferOp r2r_xfer_opl 4 0 0 ∧
    UpdatesM2R xferOp m2r_xfer_opb_u 1 1 ∧
    UpdatesM2R xferOp m2r_xfer_opb_l 1 0 ∧
    UpdatesM2R xferOp m2r_xfer_opw 2 0 ∧
    UpdatesM2R xferOp m2r_xfer_opl 4 0 ∧
    UpdatesR2M xferOp r2m_xfer_opb_u 1 1 ∧
    UpdatesR2M xferOp r2m_xfer_opb_l 1 0 ∧
    UpdatesR2M xferOp r2m_xfer_opw 2 0 ∧
    UpdatesR2M xferOp r2m_xfer_opl 4 0 ∧
    UpdatesM2M xferOp m2m_xfer_opb 1 ∧
    UpdatesM2M xferOp m2m_xfer_opw 2 ∧
    UpdatesM2M xferOp m2m_xfer_opl 4 := by
  refine ⟨?_, ?_, ?_, ?_, ?_, ?_, ?_, ?_, ?_, ?_, ?_, ?_, ?_, ?_, ?_, ?_, ?_⟩
  · exact updatesR2R_of_eq xferOp 1 (by decide) (xferOp_lt 1) _ 0 0 (fun _ _ _ => rfl)
  · exact updatesR2R_of_eq xferOp 1 (by decide) (xferOp_lt 1) _ 1 1 (fun _ _ _ => rfl)
  · exact updatesR2R_of_eq xferOp 1 (by decide) (xferOp_lt 1) _ 0 1 (fun _ _ _ => rfl)
  · exact updatesR2R_of_eq xferOp 1 (by decide) (xferOp_lt 1) _ 1 0 (fun _ _ _ => rfl)
  · exact updatesR2R_of_eq xferOp 2 (by decide) (xferOp_lt 2) _ 0 0 (fun _ _ _ => rfl)
  · exact updatesR2R_of_eq xferOp 4 (by decide) (xferOp_lt 4) _ 0 0 (fun _ _ _ => rfl)
  · exact updatesM2R_of_eq xferOp 1 (by decide) (xferOp_lt 1) _ 1 (fun _ _ _ => rfl)
  · exact updatesM2R_of_eq xferOp 1 (by decide) (xferOp_lt 1) _ 0 (fun _ _ _ => rfl)
  · exact updatesM2R_of_eq xferOp 2 (by decide) (xferOp_lt 2) _ 0 (fun _ _ _ => rfl)
  · exact updatesM2R_of_eq xferOp 4 (by decide) (xferOp_lt 4) _ 0 (fun _ _ _ => rfl)
  · exact updatesR2M_of_eq xferOp 1 (by decide) (xferOp_lt 1) _ 1 (fun _ _ _ => rfl)
  · exact updatesR2M_of_eq xferOp 1 (by decide) (xferOp_lt 1) _ 0 (fun _ _ _ => rfl)
  · exact updatesR2M_of_eq xferOp 2 (by decide) (xferOp_lt 2) _ 0 (fun _ _ _ => rfl)
  · exact updatesR2M_of_eq xferOp 4 (by decide) (xferOp_lt 4) _ 0 (fun _ _ _ => rfl)
  · exact updatesM2M_of_eq xferOp 1 (by decide) (xferOp_lt 1) _ (fun _ _ _ => rfl)
  · exact updatesM2M_of_eq xferOp 2 (by decide) (xferOp_lt 2) _ (fun _ _ _ => rfl)
  · exact updatesM2M_of_eq xferOp 4 (by decide) (xferOp_lt 4) _ (fun _ _ _ => rfl)

/-! ## C4: clear-register idiom -/

theorem reg_class_excl (r : REG) :
    (REG_is_gr32 r = true → REG_is_gr16 r = false ∧ REG_is_Upper8 r = false ∧
      REG_is_Lower8 r = false) ∧
    (REG_is_gr16 r = true → REG_is_gr32 r = false ∧ REG_is_Upper8 r = false ∧
      REG_is_Lower8 r = false) ∧
    (REG_is_Upper8 r = true → REG_is_gr32 r = false ∧ REG_is_gr16 r = false ∧
      REG_is_Lower8 r = false) ∧
    (REG_is_Lower8 r = true → REG_is_gr32 r = false ∧ REG_is_gr16 r = false ∧
      REG_is_Upper8 r = false) := by
  cases r <;> decide

theorem gpr32_r_clrl (s : State) (k : Nat) : gpr32 (r_clrl s k) k = 0 :=
  rd32_wr32_same s.gpr (4 * k) 0

theorem gpr16_r_clrw (s : State) (k : Nat) : gpr16 (r_clrw s k) k 0 = 0 :=
  rd16_wr16_same s.gpr (4 * k + 2 * 0) 0

theorem gpr8_r_clrb_u (s : State) (k : Nat) : gpr8 (r_clrb_u s k) k 1 = 0 :=
  rd8_wr8_same s.gpr (4 * k + 1) 0

theorem gpr8_r_clrb_l (s : State) (k : Nat) : gpr8 (r_clrb_l s k) k 0 = 0 :=
  rd8_wr8_same s.gpr (4 * k + 0) 0


/-- C4: for XOR, SUB and SBB whose two register operands are the same
register, `ins_inspect` installs exactly the clear rule that matches the
operand (`r_clrl`, `r_clrw`, `r_clrb_u` or `r_clrb_l`) and running it leaves
tag 0 in that register view whatever the prior state; for ADC, ADD, AND and
OR with identical operands it installs the accumulate rule. -/
theorem clear_idiom_selected (ix : RegIndx) (op : xed_iclass) (r : REG)
    (env : Env) (s : State) :
    ((op = .XOR ∨ op = .SUB ∨ op = .SBB) →
      (REG_is_gr32 r = true →
        ins_inspect ix (regRegIns op r r) =
          [INS_InsertCall .BEFORE .r_clrl [.UINT32 (ix.REG32_INDX r)]] ∧
        gpr32 (run env (ins_inspect ix (regRegIns op r r)) s) (ix.REG32_INDX r) = 0) ∧
      (REG_is_gr16 r = true →
        ins_inspect ix (regRegIns op r r) =
          [INS_InsertCall .BEFORE .r_clrw [.UINT32 (ix.REG16_INDX r)]] ∧
        gpr16 (run env (ins_inspect ix (regRegIns op r r)) s) (ix.REG16_INDX r) 0 = 0) ∧
      (REG_is_Upper8 r = true →
        ins_inspect ix (regRegIns op r r) =
          [INS_InsertCall .BEFORE .r_clrb_u [.UINT32 (ix.REG8_INDX r)]] ∧
        gpr8 (run env (ins_inspect ix (regRegIns op r r)) s) (ix.REG8_INDX r) 1 = 0) ∧
      (REG_is_Lower8 r = true →
        ins_inspect ix (regRegIns op r r) =
          [INS_InsertCall .BEFORE .r_clrb_l [.UINT32 (ix.REG8_INDX r)]] ∧
        gpr8 (run env (ins_inspect ix (regRegIns op r r)) s) (ix.REG8_INDX r) 0 = 0)) ∧
    ((op = .ADC ∨ op = .ADD ∨ op = .AND ∨ op = .OR) →
      (REG_is_gr32 r = true →
        ins_inspect ix (regRegIns op r r) = [INS_InsertCall .BEFORE .r2r_binary_opl
          [.UINT32 (ix.REG32_INDX r), .UINT32 (ix.REG32_INDX r)]]) ∧
      (REG_is_gr16 r = true →
        ins_inspect ix (regRegIns op r r) = [INS_InsertCall .BEFORE .r2r_binary_opw
          [.UINT32 (ix.REG16_INDX r), .UINT32 (ix.REG16_INDX r)]]) ∧
      (REG_is_Upper8 r = true →
        ins_inspect ix (regRegIns op r r) = [INS_InsertCall .BEFORE .r2r_binary_opb_u
          [.UINT32 (ix.REG8_INDX r), .UINT32 (ix.REG8_INDX r)]]) ∧
      (REG_is_Lower8 r = true →
        ins_inspect ix (regRegIns op r r) = [INS_InsertCall .BEFORE .r2r_binary_opb_l
          [.UINT32 (ix.REG8_INDX r), .UINT32 (ix.REG8_INDX r)]])) := by
  have hx := reg_class_excl r
  refine ⟨fun hop => ⟨fun h => ?_, fun h => ?_, fun h => ?_, fun h => ?_⟩,
    fun hop => ⟨fun h => ?_, fun h => ?_, fun h => ?_, fun h => ?_⟩⟩
  · have e : ins_inspect ix (regRegIns op r r) =
        [INS_InsertCall .BEFORE .r_clrl [.UINT32 (ix.REG32_INDX r)]] := by
      rcases hop with rfl | rfl | rfl <;>
        simp [ins_inspect, ins_inspect_binary, regRegIns, INS_OperandIsImmediate,
          INS_MemoryOperandCount, INS_OperandReg, OP_0, OP_1, h]
    rw [e]; exact ⟨rfl, gpr32_r_clrl s _⟩
  · obtain ⟨h32, hu, hl⟩ := hx.2.1 h
    have e : ins_inspect ix (regRegIns op r r) =
        [INS_InsertCall .BEFORE .r_clrw [.UINT32 (ix.REG16_INDX r)]] := by
      rcases hop with rfl | rfl | rfl <;>
        simp [ins_inspect, ins_inspect_binary, regRegIns, INS_OperandIsImmediate,
          INS_MemoryOperandCount, INS_OperandReg, OP_0, OP_1, h, h32]
    rw [e]; exact ⟨rfl, gpr16_r_clrw s _⟩
  · obtain ⟨h32, h16, hl⟩ := hx.2.2.1 h
    have e : ins_inspect ix (regRegIns op r r) =
        [INS_InsertCall .BEFORE .r_clrb_u [.UINT32 (ix.REG8_INDX r)]] := by
      rcases hop with rfl | rfl | rfl <;>
        simp [ins_inspect, ins_inspect_binary, regRegIns, INS_OperandIsImmediate,
          INS_MemoryOperandCount, INS_OperandReg, OP_0, OP_1, h, h32, h16]
    rw [e]; exact ⟨rfl, gpr8_r_clrb_u s _⟩
  · obtain ⟨h32, h16, hu⟩ := hx.2.2.2 h
    have e : ins_inspect ix (regRegIns op r r) =
        [INS_InsertCall .BEFORE .r_clrb_l [.UINT32 (ix.REG8_INDX r)]] := by
      rcases hop with rfl | rfl | rfl <;>
        simp [ins_inspect, ins_inspect_binary, regRegIns, INS_OperandIsImmediate,
          INS_MemoryOperandCount, INS_OperandReg, OP_0, OP_1, h32, h16, hu]
    rw [e]; exact ⟨rfl, gpr8_r_clrb_l s _⟩
  · rcases hop with rfl | rfl | rfl | rfl <;>
      simp [ins_inspect, ins_inspect_binary, regRegIns, INS_OperandIsImmediate,
        INS_MemoryOperandCount, INS_OperandReg, OP_0, OP_1, h]
  · obtain ⟨h32, hu, hl⟩ := hx.2.1 h
    rcases hop with rfl | rfl | rfl | rfl <;>
      simp [ins_inspect, ins_inspect_binary, regRegIns, INS_OperandIsImmediate,
        INS_MemoryOperandCount, INS_OperandReg, OP_0, OP_1, h, h32]
  · obtain ⟨h32, h16, hl⟩ := hx.2.2.1 h
    rcases hop with rfl | rfl | rfl | rfl <;>
      simp [ins_inspect, ins_inspect_binary, regRegIns, INS_OperandIsImmediate,
        INS_MemoryOperandCount, INS_OperandReg, OP_0, OP_1, h, h32, h16, hl]
  · obtain ⟨h32, h16, hu⟩ := hx.2.2.2 h
    rcases hop with rfl | rfl | rfl | rfl <;>
      simp [ins_inspect, ins_inspect_binary, regRegIns, INS_OperandIsImmediate,
        INS_MemoryOperandCount, INS_OperandReg, OP_0, OP_1, h, h32, h16, hu]

/-- Witness for C4 on `xor eax, eax` and `add eax, eax`. -/
theorem clear_idiom_selected_witness :
    (ins_inspect stdIndx (regRegIns .XOR .EAX .EAX) =
        [INS_InsertCall .BEFORE .r_clrl [.UINT32 7]] ∧
      gpr32 (run sampleEnv (ins_inspect stdIndx (regRegIns .XOR .EAX .EAX)) sampleState) 7
        = 0) ∧
    ins_inspect stdIndx (regRegIns .ADD .EAX .EAX) =
      [INS_InsertCall .BEFORE .r2r_binary_opl [.UINT32 7, .UINT32 7]] :=
  ⟨((clear_idiom_selected stdIndx .XOR .EAX sampleEnv sampleState).1 (Or.inl rfl)).1 rfl,
   ((clear_idiom_selected stdIndx .ADD .EAX sampleEnv sampleState).2
      (Or.inr (Or.inl rfl))).1 rfl⟩

/-! ## Views of one slot -/

/-- The bytes and halves of a 32-bit view are its little-endian digits. -/
theorem rd32_parts (m : Nat → Nat) (a T : Nat) (h : rd32 m a = T) :
    rd8 m a = T % 256 ∧ rd8 m (a + 1) = T / 256 % 256 ∧
    rd8 m (a + 2) = T / 65536 % 256 ∧ rd8 m (a + 3) = T / 16777216 ∧
    rd16 m a = T % 65536 ∧ rd16 m (a + 2) = T / 65536 := by
  have h0 := rd8_lt m a
  have h1 := rd8_lt m (a + 1)
  have h2 := rd8_lt m (a + 2)
  have h3 := rd8_lt m (a + 3)
  unfold rd32 rd16 at h
  unfold rd16
  rw [show a + 2 + 1 = a + 3 from rfl] at *
  omega

/-- A rule that stores each view into the other is a `SwapsR2M`. -/
theorem swapsR2M_of_eq (w : Nat) (hw : w = 1 ∨ w = 2 ∨ w = 4)
    (f : State → Nat → Nat → State) (sOff : Nat)
    (hf : ∀ s dst src, f s dst src =
      (⟨wrw w s.gpr (4 * src + sOff) (view w s.mem (taddr s dst)), s.STAB,
        wrw w s.mem (taddr s dst) (view w s.gpr (4 * src + sOff))⟩ : State)) :
    SwapsR2M f w sOff := by
  intro s dst src
  rw [hf]
  have hg := wrw_view w hw s.gpr (4 * src + sOff) (view w s.mem (taddr s dst))
    (view_lt w hw _ _)
  have hm := wrw_view w hw s.mem (taddr s dst) (view w s.gpr (4 * src + sOff))
    (view_lt w hw _ _)
  exact ⟨hm.1, hg.1, hg.2, hm.2, rfl⟩

/-! ## C7: register-memory exchange -/

/-- C7: `_xchg_r2m_opl`, `_xchg_r2m_opw`, `_xchg_r2m_opb_u` and
`_xchg_r2m_opb_l` are true swaps: afterwards the shadow bytes of the memory
operand hold the register view's old tag and the register view holds the
memory operand's old tag, for every prior state; all other register bytes and
shadow bytes are unchanged. -/
theorem xchg_r2m_swaps :
    SwapsR2M _xchg_r2m_opl 4 0 ∧ SwapsR2M _xchg_r2m_opw 2 0 ∧
    SwapsR2M _xchg_r2m_opb_u 1 1 ∧ SwapsR2M _xchg_r2m_opb_l 1 0 :=
  ⟨swapsR2M_of_eq 4 (by decide) _ 0 (fun _ _ _ => rfl),
   swapsR2M_of_eq 2 (by decide) _ 0 (fun _ _ _ => rfl),
   swapsR2M_of_eq 1 (by decide) _ 1 (fun _ _ _ => rfl),
   swapsR2M_of_eq 1 (by decide) _ 0 (fun _ _ _ => rfl)⟩

/-! ## C10: movzx -/

theorem zeroExtended32_set (s : State) (d T : Nat) (hT : T < 256) :
    ZeroExtended32 (set_gpr32 s d T) d T := by
  have h : rd32 (wr32 s.gpr (4 * d) T) (4 * d) = T := by
    rw [rd32_wr32_same]; omega
  obtain ⟨p0, p1, p2, p3, -, -⟩ := rd32_parts _ _ _ h
  exact ⟨h, p0.trans (by omega), p1.trans (by omega), p2.trans (by omega),
    p3.trans (by omega)⟩

theorem zeroExtended32w_set (s : State) (d T : Nat) (hT : T < 65536) :
    ZeroExtended32w (set_gpr32 s d T) d T := by
  have h : rd32 (wr32 s.gpr (4 * d) T) (4 * d) = T := by
    rw [rd32_wr32_same]; omega
  obtain ⟨-, -, -, -, q0, q1⟩ := rd32_parts _ _ _ h
  exact ⟨h, q0.trans (by omega), q1.trans (by omega)⟩

theorem zeroExtended16_set (s : State) (d T : Nat) (hT : T < 256) :
    ZeroExtended16 s (set_gpr16 s d 0 T) d T := by
  have b0 : rd8 (wr16 s.gpr (4 * d) T) (4 * d) = T := by
    unfold rd8; rw [wr16_b0]; omega
  have b1 : rd8 (wr16 s.gpr (4 * d) T) (4 * d + 1) = 0 := by
    unfold rd8; rw [wr16_b1]; omega
  exact ⟨b0, b1, wr16_out _ (4 * d) _ _ (by omega), wr16_out _ (4 * d) _ _ (by omega)⟩

/-- C10: the 8-to-32-bit `movzx` rules leave in slot `d` the 32-bit tag whose
byte 0 is the source byte's tag and whose bytes 1..3 are 0 (a source tag
0x03 in `AL` gives 0x00000003 in `EAX`); the 16-to-32-bit rules copy the
source's 16-bit tag into the low half and zero the upper 16 bits; the
16-bit-destination rules set byte 0 to the source byte's tag, byte 1 to 0 and
leave bytes 2..3 of slot `d` unchanged. -/
theorem movzx_zero_extends (s : State) (d r a : Nat) :
    ZeroExtended32 (_movzx_r2r_oplb_l s d r) d (gpr8 s r 0) ∧
    ZeroExtended32 (_movzx_r2r_oplb_u s d r) d (gpr8 s r 1) ∧
    ZeroExtended32 (_movzx_m2r_oplb s d a) d (tagmap_getb s a) ∧
    (gpr8 s 7 0 = 3 → gpr32 (_movzx_r2r_oplb_l s 7 7) 7 = 3) ∧
    ZeroExtended32w (_movzx_r2r_oplw s d r) d (gpr16 s r 0) ∧
    ZeroExtended32w (_movzx_m2r_oplw s d a) d (tagmap_getw s a) ∧
    ZeroExtended16 s (_movzx_r2r_opwb_l s d r) d (gpr8 s r 0) ∧
    ZeroExtended16 s (_movzx_r2r_opwb_u s d r) d (gpr8 s r 1) ∧
    ZeroExtended16 s (_movzx_m2r_opwb s d a) d (tagmap_getb s a) := by
  refine ⟨?_, ?_, ?_, ?_, ?_, ?_, ?_, ?_, ?_⟩
  · exact zeroExtended32_set s d _ (rd8_lt _ _)
  · exact zeroExtended32_set s d _ (rd8_lt _ _)
  · exact zeroExtended32_set s d _ (rd8_lt _ _)
  · intro h
    have e : gpr32 (_movzx_r2r_oplb_l s 7 7) 7 = gpr8 s 7 0 :=
      (zeroExtended32_set s 7 (gpr8 s 7 0) (rd8_lt _ _)).1
    rw [e, h]
  · exact zeroExtended32w_set s d _ (rd16_lt _ _)
  · exact zeroExtended32w_set s d _ (rd16_lt _ _)
  · exact zeroExtended16_set s d _ (rd8_lt _ _)
  · exact zeroExtended16_set s d _ (rd8_lt _ _)
  · exact zeroExtended16_set s d _ (rd8_lt _ _)

/-- Witness for C10: `AL` tagged 0x03, `movzx eax, al`. -/
theorem movzx_zero_extends_witness :
    gpr32 (_movzx_r2r_oplb_l (set_gpr8 sampleState 7 0 3) 7 7) 7 = 3 :=
  (movzx_zero_extends (set_gpr8 sampleState 7 0 3) 7 7 0).2.2.2.1 (by decide)

/-! ## C5: register aliasing -/

theorem rd32_wr8_low (m : Nat → Nat) (a v : Nat) :
    rd32 (wr8 m a v) a / 256 = rd32 m a / 256 := by
  have h1 : wr8 m a v (a + 1) = m (a + 1) := wr8_other _ _ _ _ (by omega)
  have h2 : wr8 m a v (a + 2) = m (a + 2) := wr8_other _ _ _ _ (by omega)
  have h3 : wr8 m a v (a + 2 + 1) = m (a + 2 + 1) := wr8_other _ _ _ _ (by omega)
  unfold rd32 rd16 rd8
  rw [h1, h2, h3, wr8_same]
  omega

theorem narrowViewsOf_of (s1 : State) (r T : Nat) (h : gpr32 s1 r = T) :
    NarrowViewsOf s1 r T := by
  obtain ⟨p0, p1, -, -, q0, -⟩ := rd32_parts s1.gpr (4 * r) T h
  have b0 : gpr8 s1 r 0 = T % 256 := p0
  have b1 : gpr8 s1 r 1 = T / 256 % 256 := p1
  have w0 : gpr16 s1 r 0 = T % 65536 := q0
  refine ⟨h, b0, b1, w0, fun d => ⟨?_, ?_, ?_, ?_, ?_⟩⟩
  · exact (rd8_wr8_same s1.gpr (4 * d + 0) (gpr8 s1 r 0)).trans (by rw [b0]; omega)
  · exact (rd8_wr8_same s1.gpr (4 * d + 1) (gpr8 s1 r 0)).trans (by rw [b0]; omega)
  · exact (rd8_wr8_same s1.gpr (4 * d + 1) (gpr8 s1 r 1)).trans (by rw [b1]; omega)
  · exact (rd8_wr8_same s1.gpr (4 * d + 0) (gpr8 s1 r 1)).trans (by rw [b1]; omega)
  · exact (rd16_wr16_same s1.gpr (4 * d + 2 * 0) (gpr16 s1 r 0)).trans (by rw [w0]; omega)

theorem low8WriteKeepsUpper_of (s1 : State) (r T : Nat) (h : gpr32 s1 r = T) :
    Low8WriteKeepsUpper s1 r T := by
  have key : ∀ v, KeepsUpper24 s1 (set_gpr8 s1 r 0 v) r T := by
    intro v
    refine ⟨?_, wr8_other _ _ _ _ (by omega), wr8_other _ _ _ _ (by omega),
      wr8_other _ _ _ _ (by omega)⟩
    rw [← h]
    exact rd32_wr8_low s1.gpr (4 * r) v
  intro x a
  exact ⟨key _, key _, key _, key _⟩

theorem gpr32_set_gpr32 (s : State) (r v : Nat) (hv : v < 4294967296) :
    gpr32 (set_gpr32 s r v) r = v :=
  (rd32_wr32_same s.gpr (4 * r) v).trans (Nat.mod_eq_of_lt hv)

/-- C5: after a 32-bit write that sets slot `r` to tag `T` (`r2r_xfer_opl`
or `m2r_xfer_opl`), the low-8 view of `r` reads byte 0 of `T`, the high-8
view byte 1 of `T` and the 16-bit view the low 16 bits of `T`, also as
observed by the 8- and 16-bit transfer rules that read slot `r`; and a
following write of only the low-8 view of `r` (`r2r_xfer_opb_l`,
`r2r_xfer_opb_lu`, `m2r_xfer_opb_l` or `r_clrb_l`) leaves the upper 24 bits
of slot `r` unchanged. -/
theorem register_aliasing (s : State) (r src a : Nat) :
    (NarrowViewsOf (r2r_xfer_opl s r src) r (gpr32 s src) ∧
      Low8WriteKeepsUpper (r2r_xfer_opl s r src) r (gpr32 s src)) ∧
    (NarrowViewsOf (m2r_xfer_opl s r a) r (tagmap_getl s a) ∧
      Low8WriteKeepsUpper (m2r_xfer_opl s r a) r (tagmap_getl s a)) := by
  have h1 : gpr32 (r2r_xfer_opl s r src) r = gpr32 s src :=
    gpr32_set_gpr32 s r _ (rd32_lt _ _)
  have h2 : gpr32 (m2r_xfer_opl s r a) r = tagmap_getl s a :=
    gpr32_set_gpr32 s r _ (rd32_lt _ _)
  exact ⟨⟨narrowViewsOf_of _ _ _ h1, low8WriteKeepsUpper_of _ _ _ h1⟩,
    ⟨narrowViewsOf_of _ _ _ h2, low8WriteKeepsUpper_of _ _ _ h2⟩⟩

/-! ## C6: register-register exchange -/

theorem wrw_out (w : Nat) (hw : w = 1 ∨ w = 2 ∨ w = 4) (m : Nat → Nat) (a v : Nat) :
    SameOutside m (wrw w m a v) a w := by
  rcases hw with h | h | h <;> subst h
  · exact fun i hi => wr8_other m a v i (by omega)
  · exact fun i hi => wr16_out m a v i hi
  · exact fun i hi => wr32_out m a v i hi

theorem view_congr (w : Nat) (hw : w = 1 ∨ w = 2 ∨ w = 4) (m n : Nat → Nat) (b : Nat)
    (h : ∀ i, b ≤ i → i < b + w → n i = m i) : view w n b = view w m b := by
  rcases hw with h1 | h1 | h1 <;> subst h1
  · exact rd8_congr m n b (h b (by omega) (by omega))
  · exact rd16_congr m n b (h b (by omega) (by omega)) (h (b + 1) (by omega) (by omega))
  · exact rd32_congr m n b (h b (by omega) (by omega)) (h (b + 1) (by omega) (by omega))
      (h (b + 2) (by omega) (by omega)) (h (b + 3) (by omega) (by omega))

theorem view_wrw_disj (w : Nat) (hw : w = 1 ∨ w = 2 ∨ w = 4) (m : Nat → Nat)
    (a v b : Nat) (h : a + w ≤ b ∨ b + w ≤ a) :
    view w (wrw w m a v) b = view w m b :=
  view_congr w hw m _ b (fun i h1 h2 => wrw_out w hw m a v i (by omega))

theorem view_wrw_same (w : Nat) (hw : w = 1 ∨ w = 2 ∨ w = 4) (m : Nat → Nat)
    (a b : Nat) (n : Nat → Nat) : view w (wrw w m a (view w n b)) a = view w n b :=
  (wrw_view w hw m a _ (view_lt w hw n b)).1

/-- Three transfers through a temporary view `t` exchange the views `a` and
`b` (equal or disjoint, both disjoint from `t`). -/
theorem swap_via_temp (w : Nat) (hw : w = 1 ∨ w = 2 ∨ w = 4) (m : Nat → Nat)
    (t a b : Nat) (hta : t + w ≤ a ∨ a + w ≤ t) (htb : t + w ≤ b ∨ b + w ≤ t)
    (hab : a = b ∨ a + w ≤ b ∨ b + w ≤ a) :
    view w (wrw w (wrw w (wrw w m t (view w m a)) a
        (view w (wrw w m t (view w m a)) b)) b
        (view w (wrw w (wrw w m t (view w m a)) a
          (view w (wrw w m t (view w m a)) b)) t)) a = view w m b ∧
    view w (wrw w (wrw w (wrw w m t (view w m a)) a
        (view w (wrw w m t (view w m a)) b)) b
        (view w (wrw w (wrw w m t (view w m a)) a
          (view w (wrw w m t (view w m a)) b)) t)) b = view w m a ∧
    ∀ i, (i < t ∨ t + w ≤ i) → (i < a ∨ a + w ≤ i) → (i < b ∨ b + w ≤ i) →
      wrw w (wrw w (wrw w m t (view w m a)) a
        (view w (wrw w m t (view w m a)) b)) b
        (view w (wrw w (wrw w m t (view w m a)) a
          (view w (wrw w m t (view w m a)) b)) t) i = m i := by
  have e1b : view w (wrw w m t (view w m a)) b = view w m b :=
    view_wrw_disj w hw m t _ b (by omega)
  have e1t : view w (wrw w m t (view w m a)) t = view w m a :=
    view_wrw_same w hw m t a m
  rw [e1b]
  have e2t : view w (wrw w (wrw w m t (view w m a)) a (view w m b)) t = view w m a := by
    rw [view_wrw_disj w hw _ a _ t (by omega)]; exact e1t
  rw [e2t]
  have e2a : view w (wrw w (wrw w m t (view w m a)) a (view w m b)) a = view w m b :=
    view_wrw_same w hw _ a b m
  refine ⟨?_, view_wrw_same w hw _ b a m, ?_⟩
  · rcases hab with h | h
    · subst h
      rw [view_wrw_same w hw _ a a m]
    · rw [view_wrw_disj w hw _ b _ a (by omega)]; exact e2a
  · intro i hit hia hib
    rw [wrw_out w hw _ b _ i hib, wrw_out w hw _ a _ i hia, wrw_out w hw _ t _ i hit]

/-- The three transfers installed for a register-register XCHG swap the two
register views. -/
theorem swapsRegViews_of_eq (w : Nat) (hw : w = 1 ∨ w = 2 ∨ w = 4) (s s' : State)
    (d dOff r rOff tOff : Nat) (hd : d < 8) (hr : r < 8)
    (hab : 4 * d + dOff = 4 * r + rOff ∨ 4 * d + dOff + w ≤ 4 * r + rOff ∨
      4 * r + rOff + w ≤ 4 * d + dOff)
    (hs : s' = (⟨wrw w (wrw w (wrw w s.gpr (4 * 8 + tOff) (view w s.gpr (4 * d + dOff)))
        (4 * d + dOff)
        (view w (wrw w s.gpr (4 * 8 + tOff) (view w s.gpr (4 * d + dOff))) (4 * r + rOff)))
        (4 * r + rOff)
        (view w (wrw w (wrw w s.gpr (4 * 8 + tOff) (view w s.gpr (4 * d + dOff)))
          (4 * d + dOff)
          (view w (wrw w s.gpr (4 * 8 + tOff) (view w s.gpr (4 * d + dOff)))
            (4 * r + rOff))) (4 * 8 + tOff)), s.STAB, s.mem⟩ : State))
    (hdo : dOff + w ≤ 4) (hro : rOff + w ≤ 4) :
    SwapsRegViews s s' w d dOff r rOff := by
  subst hs
  obtain ⟨h1, h2, h3⟩ := swap_via_temp w hw s.gpr (4 * 8 + tOff) (4 * d + dOff)
    (4 * r + rOff) (by omega) (by omega) hab
  exact ⟨h1, h2, fun i hi hid hir => h3 i (by omega) hid hir, rfl, rfl⟩

/-- C6: the three-transfer sequence `ins_inspect` installs for a
register-register XCHG (scratch slot 8 <- dst, dst <- src, src <- scratch) is
a true swap at every width (32-bit, 16-bit and the four 8-bit low/high
combinations): afterwards the destination view holds the source view's old
tag and the source view the destination view's old tag, every other byte of
slots 0..7 is unchanged, for all tag values, also when both operands name the
same register or two byte views of one slot. -/
theorem xchg_r2r_swaps (ix : RegIndx) (rd rs : REG) (env : Env) (s : State) :
    (REG_is_gr32 rd = true → REG_is_gr32 rs = true →
      ix.REG32_INDX rd < 8 → ix.REG32_INDX rs < 8 →
      SwapsRegViews s (run env (ins_inspect ix (regRegIns .XCHG rd rs)) s)
        4 (ix.REG32_INDX rd) 0 (ix.REG32_INDX rs) 0) ∧
    (REG_is_gr16 rd = true → REG_is_gr16 rs = true →
      ix.REG16_INDX rd < 8 → ix.REG16_INDX rs < 8 →
      SwapsRegViews s (run env (ins_inspect ix (regRegIns .XCHG rd rs)) s)
        2 (ix.REG16_INDX rd) 0 (ix.REG16_INDX rs) 0) ∧
    (REG_is_Lower8 rd = true → REG_is_Lower8 rs = true →
      ix.REG8_INDX rd < 8 → ix.REG8_INDX rs < 8 →
      SwapsRegViews s (run env (ins_inspect ix (regRegIns .XCHG rd rs)) s)
        1 (ix.REG8_INDX rd) 0 (ix.REG8_INDX rs) 0) ∧
    (REG_is_Upper8 rd = true → REG_is_Upper8 rs = true →
      ix.REG8_INDX rd < 8 → ix.REG8_INDX rs < 8 →
      SwapsRegViews s (run env (ins_inspect ix (regRegIns .XCHG rd rs)) s)
        1 (ix.REG8_INDX rd) 1 (ix.REG8_INDX rs) 1) ∧
    (REG_is_Lower8 rd = true → REG_is_Upper8 rs = true →
      ix.REG8_INDX rd < 8 → ix.REG8_INDX rs < 8 →
      SwapsRegViews s (run env (ins_inspect ix (regRegIns .XCHG rd rs)) s)
        1 (ix.REG8_INDX rd) 0 (ix.REG8_INDX rs) 1) ∧
    (REG_is_Upper8 rd = true → REG_is_Lower8 rs = true →
      ix.REG8_INDX rd < 8 → ix.REG8_INDX rs < 8 →
      SwapsRegViews s (run env (ins_inspect ix (regRegIns .XCHG rd rs)) s)
        1 (ix.REG8_INDX rd) 1 (ix.REG8_INDX rs) 0) := by
  have hxd := reg_class_excl rd
  have hxs := reg_class_excl rs
  refine ⟨fun hd hs kd ks => ?_, fun hd hs kd ks => ?_, fun hd hs kd ks => ?_,
    fun hd hs kd ks => ?_, fun hd hs kd ks => ?_, fun hd hs kd ks => ?_⟩
  · have e : ins_inspect ix (regRegIns .XCHG rd rs) =
        xchg_via_scratch .r2r_xfer_opl .r2r_xfer_opl .r2r_xfer_opl
          (ix.REG32_INDX rd) (ix.REG32_INDX rs) := by
      simp [ins_inspect, ins_inspect_xchg, regRegIns, INS_MemoryOperandCount,
        INS_OperandReg, OP_0, OP_1, hd]
    rw [e]
    exact swapsRegViews_of_eq 4 (by decide) s _ _ 0 _ 0 0 kd ks (by omega) rfl
      (by omega) (by omega)
  · obtain ⟨h32, -, -⟩ := hxd.2.1 hd
    have e : ins_inspect ix (regRegIns .XCHG rd rs) =
        xchg_via_scratch .r2r_xfer_opw .r2r_xfer_opw .r2r_xfer_opw
          (ix.REG16_INDX rd) (ix.REG16_INDX rs) := by
      simp [ins_inspect, ins_inspect_xchg, regRegIns, INS_MemoryOperandCount,
        INS_OperandReg, OP_0, OP_1, hd, h32]
    rw [e]
    exact swapsRegViews_of_eq 2 (by decide) s _ _ 0 _ 0 0 kd ks (by omega) rfl
      (by omega) (by omega)
  · obtain ⟨h32, h16, hu⟩ := hxd.2.2.2 hd
    have e : ins_inspect ix (regRegIns .XCHG rd rs) =
        xchg_via_scratch .r2r_xfer_opb_l .r2r_xfer_opb_l .r2r_xfer_opb_l
          (ix.REG8_INDX rd) (ix.REG8_INDX rs) := by
      simp [ins_inspect, ins_inspect_xchg, regRegIns, INS_MemoryOperandCount,
        INS_OperandReg, OP_0, OP_1, REG_is_gr8, hd, hs, h32, h16]
    rw [e]
    exact swapsRegViews_of_eq 1 (by decide) s _ _ 0 _ 0 0 kd ks (by omega) rfl
      (by omega) (by omega)
  · obtain ⟨h32, h16, hl⟩ := hxd.2.2.1 hd
    have e : ins_inspect ix (regRegIns .XCHG rd rs) =
        xchg_via_scratch .r2r_xfer_opb_u .r2r_xfer_opb_u .r2r_xfer_opb_u
          (ix.REG8_INDX rd) (ix.REG8_INDX rs) := by
      simp [ins_inspect, ins_inspect_xchg, regRegIns, INS_MemoryOperandCount,
        INS_OperandReg, OP_0, OP_1, REG_is_gr8, hd, hs, h32, h16, hl]
    rw [e]
    exact swapsRegViews_of_eq 1 (by decide) s _ _ 1 _ 1 1 kd ks (by omega) rfl
      (by omega) (by omega)
  · obtain ⟨h32, h16, hu⟩ := hxd.2.2.2 hd
    obtain ⟨-, -, hsl⟩ := hxs.2.2.1 hs
    have e : ins_inspect ix (regRegIns .XCHG rd rs) =
        xchg_via_scratch .r2r_xfer_opb_l .r2r_xfer_opb_lu .r2r_xfer_opb_ul
          (ix.REG8_INDX rd) (ix.REG8_INDX rs) := by
      simp [ins_inspect, ins_inspect_xchg, regRegIns, INS_MemoryOperandCount,
        INS_OperandReg, OP_0, OP_1, REG_is_gr8, hd, hs, h32, h16, hu, hsl]
    rw [e]
    exact swapsRegViews_of_eq 1 (by decide) s _ _ 0 _ 1 0 kd ks (by omega) rfl
      (by omega) (by omega)
  · obtain ⟨h32, h16, hl⟩ := hxd.2.2.1 hd
    obtain ⟨-, -, hsu⟩ := hxs.2.2.2 hs
    have e : ins_inspect ix (regRegIns .XCHG rd rs) =
        xchg_via_scratch .r2r_xfer_opb_u .r2r_xfer_opb_ul .r2r_xfer_opb_lu
          (ix.REG8_INDX rd) (ix.REG8_INDX rs) := by
      simp [ins_inspect, ins_inspect_xchg, regRegIns, INS_MemoryOperandCount,
        INS_OperandReg, OP_0, OP_1, REG_is_gr8, hd, hs, h32, h16, hl, hsu]
    rw [e]
    exact swapsRegViews_of_eq 1 (by decide) s _ _ 1 _ 0 1 kd ks (by omega) rfl
      (by omega) (by omega)

/-- Witness for C6: `xchg eax, eax`, `xchg bx, cx`, `xchg al, ah`. -/
theorem xchg_r2r_swaps_witness :
    SwapsRegViews sampleState
      (run sampleEnv (ins_inspect stdIndx (regRegIns .XCHG .EAX .EAX)) sampleState)
      4 7 0 7 0 ∧
    SwapsRegViews sampleState
      (run sampleEnv (ins_inspect stdIndx (regRegIns .XCHG .BX .CX)) sampleState)
      2 4 0 6 0 ∧
    SwapsRegViews sampleState
      (run sampleEnv (ins_inspect stdIndx (regRegIns .XCHG .AL .AH)) sampleState)
      1 7 0 7 1 :=
  ⟨(xchg_r2r_swaps stdIndx .EAX .EAX sampleEnv sampleState).1 rfl rfl
      (by decide) (by decide),
   (xchg_r2r_swaps stdIndx .BX .CX sampleEnv sampleState).2.1 rfl rfl
      (by decide) (by decide),
   (xchg_r2r_swaps stdIndx .AL .AH sampleEnv sampleState).2.2.2.2.1 rfl rfl
      (by decide) (by decide)⟩

/-! ## Register-vector lemmas -/

theorem gpr32_set_gpr32_same (s : State) (r v : Nat) :
    gpr32 (set_gpr32 s r v) r = v % 4294967296 :=
  rd32_wr32_same s.gpr (4 * r) v

theorem gpr32_set_gpr32_ne (s : State) (r v k : Nat) (h : k ≠ r) :
    gpr32 (set_gpr32 s r v) k = gpr32 s k :=
  rd32_congr _ _ _ (wr32_out _ _ _ _ (by omega)) (wr32_out _ _ _ _ (by omega))
    (wr32_out _ _ _ _ (by omega)) (wr32_out _ _ _ _ (by omega))

theorem gpr16_set_gpr32_ne (s : State) (r v k h : Nat) (hk : k ≠ r) (hh : h < 2) :
    gpr16 (set_gpr32 s r v) k h = gpr16 s k h :=
  rd16_congr _ _ _ (wr32_out _ _ _ _ (by omega)) (wr32_out _ _ _ _ (by omega))

theorem gpr16_set_gpr32_same (s : State) (r v : Nat) :
    gpr16 (set_gpr32 s r v) r 0 = v % 65536 := by
  have h := rd32_wr32_same s.gpr (4 * r) v
  exact (rd32_parts _ _ _ h).2.2.2.2.1.trans (by omega)

theorem gpr16_set_gpr16_same (s : State) (r v : Nat) :
    gpr16 (set_gpr16 s r 0 v) r 0 = v % 65536 :=
  rd16_wr16_same s.gpr (4 * r + 2 * 0) v

theorem gpr16_set_gpr16_hi (s : State) (r v : Nat) :
    gpr16 (set_gpr16 s r 0 v) r 1 = gpr16 s r 1 :=
  rd16_congr _ _ _ (wr16_out _ _ _ _ (by omega)) (wr16_out _ _ _ _ (by omega))

theorem gpr16_set_gpr16_ne (s : State) (r v k h : Nat) (hk : k ≠ r) (hh : h < 2) :
    gpr16 (set_gpr16 s r 0 v) k h = gpr16 s k h :=
  rd16_congr _ _ _ (wr16_out _ _ _ _ (by omega)) (wr16_out _ _ _ _ (by omega))

theorem gpr32_set_gpr16_ne (s : State) (r v k : Nat) (hk : k ≠ r) :
    gpr32 (set_gpr16 s r 0 v) k = gpr32 s k :=
  rd32_congr _ _ _ (wr16_out _ _ _ _ (by omega)) (wr16_out _ _ _ _ (by omega))
    (wr16_out _ _ _ _ (by omega)) (wr16_out _ _ _ _ (by omega))

theorem gpr32_lt (s : State) (r : Nat) : gpr32 s r < 4294967296 := rd32_lt _ _

theorem gpr16_lt (s : State) (r h : Nat) : gpr16 s r h < 65536 := rd16_lt _ _

theorem gpr32_mod (s : State) (r : Nat) : gpr32 s r % 4294967296 = gpr32 s r :=
  Nat.mod_eq_of_lt (gpr32_lt s r)

theorem gpr16_mod (s : State) (r h : Nat) : gpr16 s r h % 65536 = gpr16 s r h :=
  Nat.mod_eq_of_lt (gpr16_lt s r h)

/-- The 32-bit slot is made of its two halves. -/
theorem gpr32_halves (s : State) (r : Nat) :
    gpr32 s r = gpr16 s r 0 + 65536 * gpr16 s r 1 := rfl

/-- An `If`/`Then` pair runs the second routine exactly when the first
returns non-zero. -/
theorem run_if_then (env : Env) (f g : AFUNPTR) (a b : List IARG) (s : State) :
    run env [INS_InsertIfCall .BEFORE f a, INS_InsertThenCall .BEFORE g b] s =
      if (invoke env f (a.map (IARG.value env)) s).2 ≠ 0 then
        (invoke env g (b.map (IARG.value env))
          (invoke env f (a.map (IARG.value env)) s).1).1
      else (invoke env f (a.map (IARG.value env)) s).1 := by
  simp only [run, List.foldl, step, INS_InsertIfCall, INS_InsertThenCall]
  split <;> rfl

/-! ## CMPXCHG: the two phases at rule level -/

theorem cmpxchg_r2r_opl_fast_tags (s : State) (dv sv d r : Nat) (hd : d < 8)
    (hr : r < 8) :
    gpr32 (_cmpxchg_r2r_opl_fast s dv d sv).1 7 = gpr32 s d ∧
    gpr32 (_cmpxchg_r2r_opl_fast s dv d sv).1 8 = gpr32 s 7 ∧
    gpr32 (_cmpxchg_r2r_opl_fast s dv d sv).1 d = gpr32 s d ∧
    (r ≠ 7 → gpr32 (_cmpxchg_r2r_opl_fast s dv d sv).1 r = gpr32 s r) := by
  have e : (_cmpxchg_r2r_opl_fast s dv d sv).1 =
      set_gpr32 (set_gpr32 s 8 (gpr32 s 7)) 7 (gpr32 (set_gpr32 s 8 (gpr32 s 7)) d) := rfl
  rw [e, gpr32_set_gpr32_ne s 8 _ d (by omega)]
  have h7 : gpr32 (set_gpr32 (set_gpr32 s 8 (gpr32 s 7)) 7 (gpr32 s d)) 7 = gpr32 s d := by
    rw [gpr32_set_gpr32_same, gpr32_mod]
  refine ⟨h7, ?_, ?_, fun h => ?_⟩
  · rw [gpr32_set_gpr32_ne _ 7 _ 8 (by omega), gpr32_set_gpr32_same, gpr32_mod]
  · by_cases hd7 : d = 7
    · subst hd7; exact h7
    · rw [gpr32_set_gpr32_ne _ 7 _ d hd7, gpr32_set_gpr32_ne _ 8 _ d (by omega)]
  · rw [gpr32_set_gpr32_ne _ 7 _ r h, gpr32_set_gpr32_ne _ 8 _ r (by omega)]

theorem cmpxchg_r2r_opl_slow_tags (s : State) (d r : Nat) (hr : r < 8) :
    gpr32 (_cmpxchg_r2r_opl_slow s d r) d =
      (if r = 7 then gpr32 s 8 else gpr32 s r) ∧
    (d ≠ 7 → gpr32 (_cmpxchg_r2r_opl_slow s d r) 7 = gpr32 s 8) := by
  have e : _cmpxchg_r2r_opl_slow s d r =
      set_gpr32 (set_gpr32 s 7 (gpr32 s 8)) d (gpr32 (set_gpr32 s 7 (gpr32 s 8)) r) := rfl
  rw [e]
  refine ⟨?_, fun h => ?_⟩
  · rw [gpr32_set_gpr32_same, gpr32_mod]
    by_cases hr7 : r = 7
    · subst hr7; rw [gpr32_set_gpr32_same, gpr32_mod]; simp
    · rw [gpr32_set_gpr32_ne _ 7 _ r hr7]; simp [hr7]
  · rw [gpr32_set_gpr32_ne _ d _ 7 (by omega), gpr32_set_gpr32_same, gpr32_mod]

theorem cmpxchg_r2r_opw_fast_tags (s : State) (dv sv d r : Nat) (hd : d < 8)
    (hr : r < 8) :
    gpr16 (_cmpxchg_r2r_opw_fast s dv d sv).1 7 0 = gpr16 s d 0 ∧
    gpr16 (_cmpxchg_r2r_opw_fast s dv d sv).1 7 1 = gpr16 s 7 1 ∧
    gpr32 (_cmpxchg_r2r_opw_fast s dv d sv).1 8 = gpr32 s 7 ∧
    gpr16 (_cmpxchg_r2r_opw_fast s dv d sv).1 d 0 = gpr16 s d 0 ∧
    (r ≠ 7 → gpr32 (_cmpxchg_r2r_opw_fast s dv d sv).1 r = gpr32 s r) := by
  have e : (_cmpxchg_r2r_opw_fast s dv d sv).1 =
      set_gpr16 (set_gpr32 s 8 (gpr32 s 7)) 7 0
        (gpr16 (set_gpr32 s 8 (gpr32 s 7)) d 0) := rfl
  rw [e, gpr16_set_gpr32_ne s 8 _ d 0 (by omega) (by omega)]
  have h7 : gpr16 (set_gpr16 (set_gpr32 s 8 (gpr32 s 7)) 7 0 (gpr16 s d 0)) 7 0 =
      gpr16 s d 0 := by
    rw [gpr16_set_gpr16_same, gpr16_mod]
  refine ⟨h7, ?_, ?_, ?_, fun h => ?_⟩
  · rw [gpr16_set_gpr16_hi, gpr16_set_gpr32_ne s 8 _ 7 1 (by omega) (by omega)]
  · rw [gpr32_set_gpr16_ne _ 7 _ 8 (by omega), gpr32_set_gpr32_same, gpr32_mod]
  · by_cases hd7 : d = 7
    · subst hd7; exact h7
    · rw [gpr16_set_gpr16_ne _ 7 _ d 0 hd7 (by omega),
        gpr16_set_gpr32_ne s 8 _ d 0 (by omega) (by omega)]
  · rw [gpr32_set_gpr16_ne _ 7 _ r h, gpr32_set_gpr32_ne _ 8 _ r (by omega)]

theorem cmpxchg_r2r_opw_slow_tags (s : State) (d r : Nat) (hr : r < 8) :
    gpr16 (_cmpxchg_r2r_opw_slow s d r) d 0 =
      (if r = 7 then gpr16 s 8 0 else gpr16 s r 0) ∧
    (d ≠ 7 → gpr32 (_cmpxchg_r2r_opw_slow s d r) 7 = gpr32 s 8) := by
  have e : _cmpxchg_r2r_opw_slow s d r =
      set_gpr16 (set_gpr32 s 7 (gpr32 s 8)) d 0
        (gpr16 (set_gpr32 s 7 (gpr32 s 8)) r 0) := rfl
  rw [e]
  refine ⟨?_, fun h => ?_⟩
  · rw [gpr16_set_gpr16_same, gpr16_mod]
    by_cases hr7 : r = 7
    · subst hr7
      rw [gpr16_set_gpr32_same, if_pos rfl, gpr32_halves]
      have := gpr16_lt s 8 0
      omega
    · rw [gpr16_set_gpr32_ne _ 7 _ r 0 hr7 (by omega)]; simp [hr7]
  · rw [gpr32_set_gpr16_ne _ d _ 7 (by omega), gpr32_set_gpr32_same, gpr32_mod]

theorem cmpxchg_m2r_opl_fast_tags (data : Nat → Nat) (s : State) (dv ea r : Nat)
    (hr : r < 8) :
    gpr32 (_cmpxchg_m2r_opl_fast data s dv ea).1 7 = tagmap_getl s ea ∧
    gpr32 (_cmpxchg_m2r_opl_fast data s dv ea).1 8 = gpr32 s 7 ∧
    (_cmpxchg_m2r_opl_fast data s dv ea).1.mem = s.mem ∧
    (_cmpxchg_m2r_opl_fast data s dv ea).1.STAB = s.STAB ∧
    (r ≠ 7 → gpr32 (_cmpxchg_m2r_opl_fast data s dv ea).1 r = gpr32 s r) := by
  have e : (_cmpxchg_m2r_opl_fast data s dv ea).1 =
      set_gpr32 (set_gpr32 s 8 (gpr32 s 7)) 7 (tagmap_getl s ea) := rfl
  rw [e]
  refine ⟨?_, ?_, rfl, rfl, fun h => ?_⟩
  · rw [gpr32_set_gpr32_same]; exact Nat.mod_eq_of_lt (rd32_lt _ _)
  · rw [gpr32_set_gpr32_ne _ 7 _ 8 (by omega), gpr32_set_gpr32_same, gpr32_mod]
  · rw [gpr32_set_gpr32_ne _ 7 _ r h, gpr32_set_gpr32_ne _ 8 _ r (by omega)]

theorem cmpxchg_r2m_opl_slow_tags (s : State) (ea r : Nat) :
    tagmap_getl (_cmpxchg_r2m_opl_slow s ea r) ea =
      (if r = 7 then gpr32 s 8 else gpr32 s r) ∧
    gpr32 (_cmpxchg_r2m_opl_slow s ea r) 7 = gpr32 s 8 := by
  have e : _cmpxchg_r2m_opl_slow s ea r =
      st32 (set_gpr32 s 7 (gpr32 s 8)) (taddr s ea)
        (gpr32 (set_gpr32 s 7 (gpr32 s 8)) r) := rfl
  rw [e]
  refine ⟨?_, ?_⟩
  · have h : tagmap_getl (st32 (set_gpr32 s 7 (gpr32 s 8)) (taddr s ea)
          (gpr32 (set_gpr32 s 7 (gpr32 s 8)) r)) ea =
        gpr32 (set_gpr32 s 7 (gpr32 s 8)) r % 4294967296 :=
      rd32_wr32_same s.mem (taddr s ea) _
    rw [h, gpr32_mod]
    by_cases hr7 : r = 7
    · subst hr7; rw [gpr32_set_gpr32_same, gpr32_mod, if_pos rfl]
    · rw [gpr32_set_gpr32_ne _ 7 _ r hr7, if_neg hr7]
  · exact (gpr32_set_gpr32_same s 7 _).trans (gpr32_mod s 8)

theorem cmpxchg_m2r_opw_fast_tags (data : Nat → Nat) (s : State) (dv ea r : Nat)
    (hr : r < 8) :
    gpr16 (_cmpxchg_m2r_opw_fast data s dv ea).1 7 0 = tagmap_getw s ea ∧
    gpr16 (_cmpxchg_m2r_opw_fast data s dv ea).1 7 1 = gpr16 s 7 1 ∧
    gpr32 (_cmpxchg_m2r_opw_fast data s dv ea).1 8 = gpr32 s 7 ∧
    (_cmpxchg_m2r_opw_fast data s dv ea).1.mem = s.mem ∧
    (_cmpxchg_m2r_opw_fast data s dv ea).1.STAB = s.STAB ∧
    (r ≠ 7 → gpr32 (_cmpxchg_m2r_opw_fast data s dv ea).1 r = gpr32 s r) := by
  have e : (_cmpxchg_m2r_opw_fast data s dv ea).1 =
      set_gpr16 (set_gpr32 s 8 (gpr32 s 7)) 7 0 (tagmap_getw s ea) := rfl
  rw [e]
  refine ⟨?_, ?_, ?_, rfl, rfl, fun h => ?_⟩
  · rw [gpr16_set_gpr16_same]; exact Nat.mod_eq_of_lt (rd16_lt _ _)
  · rw [gpr16_set_gpr16_hi, gpr16_set_gpr32_ne s 8 _ 7 1 (by omega) (by omega)]
  · rw [gpr32_set_gpr16_ne _ 7 _ 8 (by omega), gpr32_set_gpr32_same, gpr32_mod]
  · rw [gpr32_set_gpr16_ne _ 7 _ r h, gpr32_set_gpr32_ne _ 8 _ r (by omega)]

theorem cmpxchg_r2m_opw_slow_tags (s : State) (ea r : Nat) :
    tagmap_getw (_cmpxchg_r2m_opw_slow s ea r) ea =
      (if r = 7 then gpr16 s 8 0 else gpr16 s r 0) ∧
    gpr32 (_cmpxchg_r2m_opw_slow s ea r) 7 = gpr32 s 8 := by
  have e : _cmpxchg_r2m_opw_slow s ea r =
      st16 (set_gpr32 s 7 (gpr32 s 8)) (taddr s ea)
        (gpr16 (set_gpr32 s 7 (gpr32 s 8)) r 0) := rfl
  rw [e]
  refine ⟨?_, ?_⟩
  · have h : tagmap_getw (st16 (set_gpr32 s 7 (gpr32 s 8)) (taddr s ea)
          (gpr16 (set_gpr32 s 7 (gpr32 s 8)) r 0)) ea =
        gpr16 (set_gpr32 s 7 (gpr32 s 8)) r 0 % 65536 :=
      rd16_wr16_same s.mem (taddr s ea) _
    rw [h, gpr16_mod]
    by_cases hr7 : r = 7
    · subst hr7
      rw [gpr16_set_gpr32_same, if_pos rfl, gpr32_halves]
      have := gpr16_lt s 8 0
      omega
    · rw [gpr16_set_gpr32_ne _ 7 _ r 0 hr7 (by omega), if_neg hr7]
  · exact (gpr32_set_gpr32_same s 7 _).trans (gpr32_mod s 8)

/-! ## What `ins_inspect` installs for CMPXCHG -/

theorem ins_inspect_cmpxchg_r2r_opl (ix : RegIndx) (rd rs : REG)
    (hd : REG_is_gr32 rd = true) :
    ins_inspect ix (regRegIns .CMPXCHG rd rs) =
      [INS_InsertIfCall .BEFORE ._cmpxchg_r2r_opl_fast
         [.REG_VALUE .EAX, .UINT32 (ix.REG32_INDX rd), .REG_VALUE rd],
       INS_InsertThenCall .BEFORE ._cmpxchg_r2r_opl_slow
         [.UINT32 (ix.REG32_INDX rd), .UINT32 (ix.REG32_INDX rs)]] := by
  simp [ins_inspect, ins_inspect_cmpxchg, regRegIns, INS_MemoryOperandCount,
    INS_OperandReg, OP_0, OP_1, hd]

theorem ins_inspect_cmpxchg_r2r_opw (ix : RegIndx) (rd rs : REG)
    (hd : REG_is_gr16 rd = true) :
    ins_inspect ix (regRegIns .CMPXCHG rd rs) =
      [INS_InsertIfCall .BEFORE ._cmpxchg_r2r_opw_fast
         [.REG_VALUE .AX, .UINT32 (ix.REG16_INDX rd), .REG_VALUE rd],
       INS_InsertThenCall .BEFORE ._cmpxchg_r2r_opw_slow
         [.UINT32 (ix.REG16_INDX rd), .UINT32 (ix.REG16_INDX rs)]] := by
  have h32 := ((reg_class_excl rd).2.1 hd).1
  simp [ins_inspect, ins_inspect_cmpxchg, regRegIns, INS_MemoryOperandCount,
    INS_OperandReg, OP_0, OP_1, hd, h32]

theorem ins_inspect_cmpxchg_m_opl (ix : RegIndx) (rs : REG)
    (hs : REG_is_gr32 rs = true) :
    ins_inspect ix (memRegIns .CMPXCHG rs) =
      [INS_InsertIfCall .BEFORE ._cmpxchg_m2r_opl_fast [.REG_VALUE .EAX, .MEMORYREAD_EA],
       INS_InsertThenCall .BEFORE ._cmpxchg_r2m_opl_slow
         [.MEMORYWRITE_EA, .UINT32 (ix.REG32_INDX rs)]] := by
  simp [ins_inspect, ins_inspect_cmpxchg, memRegIns, INS_MemoryOperandCount,
    INS_OperandReg, OP_1, hs]

theorem ins_inspect_cmpxchg_m_opw (ix : RegIndx) (rs : REG)
    (hs : REG_is_gr16 rs = true) :
    ins_inspect ix (memRegIns .CMPXCHG rs) =
      [INS_InsertIfCall .BEFORE ._cmpxchg_m2r_opw_fast [.REG_VALUE .AX, .MEMORYREAD_EA],
       INS_InsertThenCall .BEFORE ._cmpxchg_r2m_opw_slow
         [.MEMORYWRITE_EA, .UINT32 (ix.REG16_INDX rs)]] := by
  have h32 := ((reg_class_excl rs).2.1 hs).1
  simp [ins_inspect, ins_inspect_cmpxchg, memRegIns, INS_MemoryOperandCount,
    INS_OperandReg, OP_1, hs, h32]

theorem cmpxchg_r2r_opl_fast_ret (s : State) (dv src sv : Nat) :
    (_cmpxchg_r2r_opl_fast s dv src sv).2 =
      if dv % 4294967296 = sv % 4294967296 then 1 else 0 := rfl

theorem cmpxchg_r2r_opw_fast_ret (s : State) (dv src sv : Nat) :
    (_cmpxchg_r2r_opw_fast s dv src sv).2 =
      if dv % 65536 = sv % 65536 then 1 else 0 := rfl

theorem cmpxchg_m2r_opl_fast_ret (data : Nat → Nat) (s : State) (dv src : Nat) :
    (_cmpxchg_m2r_opl_fast data s dv src).2 =
      if dv % 4294967296 = rd32 data src then 1 else 0 := rfl

theorem cmpxchg_m2r_opw_fast_ret (data : Nat → Nat) (s : State) (dv src : Nat) :
    (_cmpxchg_m2r_opw_fast data s dv src).2 =
      if dv % 65536 = rd16 data src then 1 else 0 := rfl

theorem run_cmpxchg_r2r_opl (ix : RegIndx) (rd rs : REG) (env : Env) (s : State)
    (hd : REG_is_gr32 rd = true) :
    run env (ins_inspect ix (regRegIns .CMPXCHG rd rs)) s =
      if env.reg .EAX % 4294967296 = env.reg rd % 4294967296 then
        _cmpxchg_r2r_opl_slow
          (_cmpxchg_r2r_opl_fast s (env.reg .EAX) (ix.REG32_INDX rd) (env.reg rd)).1
          (ix.REG32_INDX rd) (ix.REG32_INDX rs)
      else
        (_cmpxchg_r2r_opl_fast s (env.reg .EAX) (ix.REG32_INDX rd) (env.reg rd)).1 := by
  rw [ins_inspect_cmpxchg_r2r_opl ix rd rs hd, run_if_then]
  show (if (_cmpxchg_r2r_opl_fast s (env.reg .EAX) (ix.REG32_INDX rd) (env.reg rd)).2 ≠ 0
    then _ else _) = _
  rw [cmpxchg_r2r_opl_fast_ret]
  by_cases h : env.reg .EAX % 4294967296 = env.reg rd % 4294967296
  · rw [if_pos h, if_pos h, if_pos (by decide)]; rfl
  · rw [if_neg h, if_neg h, if_neg (by decide)]; rfl

theorem run_cmpxchg_r2r_opw (ix : RegIndx) (rd rs : REG) (env : Env) (s : State)
    (hd : REG_is_gr16 rd = true) :
    run env (ins_inspect ix (regRegIns .CMPXCHG rd rs)) s =
      if env.reg .AX % 65536 = env.reg rd % 65536 then
        _cmpxchg_r2r_opw_slow
          (_cmpxchg_r2r_opw_fast s (env.reg .AX) (ix.REG16_INDX rd) (env.reg rd)).1
          (ix.REG16_INDX rd) (ix.REG16_INDX rs)
      else
        (_cmpxchg_r2r_opw_fast s (env.reg .AX) (ix.REG16_INDX rd) (env.reg rd)).1 := by
  rw [ins_inspect_cmpxchg_r2r_opw ix rd rs hd, run_if_then]
  show (if (_cmpxchg_r2r_opw_fast s (env.reg .AX) (ix.REG16_INDX rd) (env.reg rd)).2 ≠ 0
    then _ else _) = _
  rw [cmpxchg_r2r_opw_fast_ret]
  by_cases h : env.reg .AX % 65536 = env.reg rd % 65536
  · rw [if_pos h, if_pos h, if_pos (by decide)]; rfl
  · rw [if_neg h, if_neg h, if_neg (by decide)]; rfl

theorem run_cmpxchg_m_opl (ix : RegIndx) (rs : REG) (env : Env) (s : State)
    (hs : REG_is_gr32 rs = true) :
    run env (ins_inspect ix (memRegIns .CMPXCHG rs)) s =
      if env.reg .EAX % 4294967296 = rd32 env.data env.read_ea then
        _cmpxchg_r2m_opl_slow
          (_cmpxchg_m2r_opl_fast env.data s (env.reg .EAX) env.read_ea).1
          env.write_ea (ix.REG32_INDX rs)
      else
        (_cmpxchg_m2r_opl_fast env.data s (env.reg .EAX) env.read_ea).1 := by
  rw [ins_inspect_cmpxchg_m_opl ix rs hs, run_if_then]
  show (if (_cmpxchg_m2r_opl_fast env.data s (env.reg .EAX) env.read_ea).2 ≠ 0
    then _ else _) = _
  rw [cmpxchg_m2r_opl_fast_ret]
  by_cases h : env.reg .EAX % 4294967296 = rd32 env.data env.read_ea
  · rw [if_pos h, if_pos h, if_pos (by decide)]; rfl
  · rw [if_neg h, if_neg h, if_neg (by decide)]; rfl

theorem run_cmpxchg_m_opw (ix : RegIndx) (rs : REG) (env : Env) (s : State)
    (hs : REG_is_gr16 rs = true) :
    run env (ins_inspect ix (memRegIns .CMPXCHG rs)) s =
      if env.reg .AX % 65536 = rd16 env.data env.read_ea then
        _cmpxchg_r2m_opw_slow
          (_cmpxchg_m2r_opw_fast env.data s (env.reg .AX) env.read_ea).1
          env.write_ea (ix.REG16_INDX rs)
      else
        (_cmpxchg_m2r_opw_fast env.data s (env.reg .AX) env.read_ea).1 := by
  rw [ins_inspect_cmpxchg_m_opw ix rs hs, run_if_then]
  show (if (_cmpxchg_m2r_opw_fast env.data s (env.reg .AX) env.read_ea).2 ≠ 0
    then _ else _) = _
  rw [cmpxchg_m2r_opw_fast_ret]
  by_cases h : env.reg .AX % 65536 = rd16 env.data env.read_ea
  · rw [if_pos h, if_pos h, if_pos (by decide)]; rfl
  · rw [if_neg h, if_neg h, if_neg (by decide)]; rfl

/-! ## C8: cmpxchg, the comparison succeeds -/

/-- C8 as stated fails: for `cmpxchg ebx, ecx` with `EAX` equal to `EBX` (the
probe returns 1 and the second phase runs) the accumulator ends with its own
prior tag `A0`, which here differs from the destination's prior tag `D0`;
the destination does end with the source's tag `S0`. -/
theorem cmpxchg_succeeds_counterexample :
    sampleEnv.reg .EAX % 4294967296 = sampleEnv.reg .EBX % 4294967296 ∧
    gpr32 (run sampleEnv (ins_inspect stdIndx (regRegIns .CMPXCHG .EBX .ECX)) sampleState) 4
      = gpr32 sampleState 6 ∧
    gpr32 (run sampleEnv (ins_inspect stdIndx (regRegIns .CMPXCHG .EBX .ECX)) sampleState) 7
      = gpr32 sampleState 7 ∧
    gpr32 (run sampleEnv (ins_inspect stdIndx (regRegIns .CMPXCHG .EBX .ECX)) sampleState) 7
      ≠ gpr32 sampleState 4 := by
  decide

/-- C8, amended: when the data comparison succeeds (the probe returns
non-zero and the second phase runs), the destination ends with the source's
prior tag `S0` and the accumulator (slot 7) ends with its own prior tag `A0`,
restored from the scratch slot, unless the destination is the accumulator
itself (which then holds `S0`); for the 32- and 16-bit register-register and
register-memory forms. -/
theorem cmpxchg_compare_succeeds (ix : RegIndx) (rd rs : REG) (env : Env) (s : State) :
    (REG_is_gr32 rd = true → REG_is_gr32 rs = true →
      ix.REG32_INDX rd < 8 → ix.REG32_INDX rs < 8 →
      env.reg .EAX % 4294967296 = env.reg rd % 4294967296 →
      gpr32 (run env (ins_inspect ix (regRegIns .CMPXCHG rd rs)) s) (ix.REG32_INDX rd)
        = gpr32 s (ix.REG32_INDX rs) ∧
      (ix.REG32_INDX rd ≠ 7 →
        gpr32 (run env (ins_inspect ix (regRegIns .CMPXCHG rd rs)) s) 7 = gpr32 s 7)) ∧
    (REG_is_gr16 rd = true → REG_is_gr16 rs = true →
      ix.REG16_INDX rd < 8 → ix.REG16_INDX rs < 8 →
      env.reg .AX % 65536 = env.reg rd % 65536 →
      gpr16 (run env (ins_inspect ix (regRegIns .CMPXCHG rd rs)) s) (ix.REG16_INDX rd) 0
        = gpr16 s (ix.REG16_INDX rs) 0 ∧
      (ix.REG16_INDX rd ≠ 7 →
        gpr32 (run env (ins_inspect ix (regRegIns .CMPXCHG rd rs)) s) 7 = gpr32 s 7)) ∧
    (REG_is_gr32 rs = true → ix.REG32_INDX rs < 8 →
      env.reg .EAX % 4294967296 = rd32 env.data env.read_ea →
      tagmap_getl (run env (ins_inspect ix (memRegIns .CMPXCHG rs)) s) env.write_ea
        = gpr32 s (ix.REG32_INDX rs) ∧
      gpr32 (run env (ins_inspect ix (memRegIns .CMPXCHG rs)) s) 7 = gpr32 s 7) ∧
    (REG_is_gr16 rs = true → ix.REG16_INDX rs < 8 →
      env.reg .AX % 65536 = rd16 env.data env.read_ea →
      tagmap_getw (run env (ins_inspect ix (memRegIns .CMPXCHG rs)) s) env.write_ea
        = gpr16 s (ix.REG16_INDX rs) 0 ∧
      gpr32 (run env (ins_inspect ix (memRegIns .CMPXCHG rs)) s) 7 = gpr32 s 7) := by
  refine ⟨fun hd _ kd ks hc => ?_, fun hd _ kd ks hc => ?_, fun hs ks hc => ?_,
    fun hs ks hc => ?_⟩
  · rw [run_cmpxchg_r2r_opl ix rd rs env s hd, if_pos hc]
    obtain ⟨-, f8, -, fr⟩ := cmpxchg_r2r_opl_fast_tags s (env.reg .EAX) (env.reg rd)
      (ix.REG32_INDX rd) (ix.REG32_INDX rs) kd ks
    obtain ⟨g1, g2⟩ := cmpxchg_r2r_opl_slow_tags
      (_cmpxchg_r2r_opl_fast s (env.reg .EAX) (ix.REG32_INDX rd) (env.reg rd)).1
      (ix.REG32_INDX rd) (ix.REG32_INDX rs) ks
    refine ⟨?_, fun h7 => (g2 h7).trans f8⟩
    rw [g1]
    by_cases hr7 : ix.REG32_INDX rs = 7
    · rw [if_pos hr7, f8, hr7]
    · rw [if_neg hr7, fr hr7]
  · rw [run_cmpxchg_r2r_opw ix rd rs env s hd, if_pos hc]
    obtain ⟨-, -, f8, -, fr⟩ := cmpxchg_r2r_opw_fast_tags s (env.reg .AX) (env.reg rd)
      (ix.REG16_INDX rd) (ix.REG16_INDX rs) kd ks
    obtain ⟨g1, g2⟩ := cmpxchg_r2r_opw_slow_tags
      (_cmpxchg_r2r_opw_fast s (env.reg .AX) (ix.REG16_INDX rd) (env.reg rd)).1
      (ix.REG16_INDX rd) (ix.REG16_INDX rs) ks
    refine ⟨?_, fun h7 => (g2 h7).trans f8⟩
    rw [g1]
    by_cases hr7 : ix.REG16_INDX rs = 7
    · rw [if_pos hr7, hr7]
      have e8 := (rd32_parts _ _ _ f8).2.2.2.2.1
      have e7 := (rd32_parts s.gpr (4 * 7) _ rfl).2.2.2.2.1
      exact e8.trans e7.symm
    · rw [if_neg hr7]
      have er := (rd32_parts _ _ _ (fr hr7)).2.2.2.2.1
      have e0 := (rd32_parts s.gpr (4 * ix.REG16_INDX rs) _ rfl).2.2.2.2.1
      exact er.trans e0.symm
  · rw [run_cmpxchg_m_opl ix rs env s hs, if_pos hc]
    obtain ⟨-, f8, -, -, fr⟩ := cmpxchg_m2r_opl_fast_tags env.data s (env.reg .EAX)
      env.read_ea (ix.REG32_INDX rs) ks
    obtain ⟨g1, g2⟩ := cmpxchg_r2m_opl_slow_tags
      (_cmpxchg_m2r_opl_fast env.data s (env.reg .EAX) env.read_ea).1
      env.write_ea (ix.REG32_INDX rs)
    refine ⟨?_, g2.trans f8⟩
    rw [g1]
    by_cases hr7 : ix.REG32_INDX rs = 7
    · rw [if_pos hr7, f8, hr7]
    · rw [if_neg hr7, fr hr7]
  · rw [run_cmpxchg_m_opw ix rs env s hs, if_pos hc]
    obtain ⟨-, -, f8, -, -, fr⟩ := cmpxchg_m2r_opw_fast_tags env.data s (env.reg .AX)
      env.read_ea (ix.REG16_INDX rs) ks
    obtain ⟨g1, g2⟩ := cmpxchg_r2m_opw_slow_tags
      (_cmpxchg_m2r_opw_fast env.data s (env.reg .AX) env.read_ea).1
      env.write_ea (ix.REG16_INDX rs)
    refine ⟨?_, g2.trans f8⟩
    rw [g1]
    by_cases hr7 : ix.REG16_INDX rs = 7
    · rw [if_pos hr7, hr7]
      have e8 := (rd32_parts _ _ _ f8).2.2.2.2.1
      have e7 := (rd32_parts s.gpr (4 * 7) _ rfl).2.2.2.2.1
      exact e8.trans e7.symm
    · rw [if_neg hr7]
      have er := (rd32_parts _ _ _ (fr hr7)).2.2.2.2.1
      have e0 := (rd32_parts s.gpr (4 * ix.REG16_INDX rs) _ rfl).2.2.2.2.1
      exact er.trans e0.symm

/-- Witness for the amended C8: `cmpxchg ebx, ecx` and `cmpxchg [mem], ecx`
with a succeeding comparison. -/
theorem cmpxchg_compare_succeeds_witness :
    (gpr32 (run sampleEnv (ins_inspect stdIndx (regRegIns .CMPXCHG .EBX .ECX)) sampleState) 4
        = gpr32 sampleState 6 ∧
      (4 ≠ 7 →
        gpr32 (run sampleEnv (ins_inspect stdIndx (regRegIns .CMPXCHG .EBX .ECX))
          sampleState) 7 = gpr32 sampleState 7)) ∧
    (tagmap_getl (run ⟨fun _ => 84148994, 0, 0, fun a => a + 2, true, true⟩
        (ins_inspect stdIndx (memRegIns .CMPXCHG .ECX)) sampleState) 0
        = gpr32 sampleState 6 ∧
      gpr32 (run ⟨fun _ => 84148994, 0, 0, fun a => a + 2, true, true⟩
        (ins_inspect stdIndx (memRegIns .CMPXCHG .ECX)) sampleState) 7
        = gpr32 sampleState 7) :=
  ⟨(cmpxchg_compare_succeeds stdIndx .EBX .ECX sampleEnv sampleState).1 rfl rfl
      (by decide) (by decide) (by decide),
   (cmpxchg_compare_succeeds stdIndx .EBX .ECX ⟨fun _ => 84148994, 0, 0, fun a => a + 2, true, true⟩
      sampleState).2.2.1 rfl (by decide) (by decide)⟩

/-! ## C9: cmpxchg, the comparison fails -/

/-- C9 as stated fails: for `cmpxchg ebx, eax` with `EAX` different from
`EBX` (the probe returns 0, only the probe runs) the source register is the
accumulator itself, and its tag is overwritten by the destination's prior tag
`D0`, so the source tag does not stay unchanged. -/
theorem cmpxchg_fails_counterexample :
    sampleEnvNe.reg .EAX % 4294967296 ≠ sampleEnvNe.reg .EBX % 4294967296 ∧
    gpr32 (run sampleEnvNe (ins_inspect stdIndx (regRegIns .CMPXCHG .EBX .EAX)) sampleState)
      (stdIndx.REG32_INDX .EAX) = gpr32 sampleState (stdIndx.REG32_INDX .EBX) ∧
    gpr32 (run sampleEnvNe (ins_inspect stdIndx (regRegIns .CMPXCHG .EBX .EAX)) sampleState)
      (stdIndx.REG32_INDX .EAX) ≠ gpr32 sampleState (stdIndx.REG32_INDX .EAX) := by
  decide

/-- C9, amended: when the data comparison fails (the probe returns 0, so
only the probe runs), the accumulator (slot 7, its low 16 bits in the 16-bit
forms) ends with the destination's prior tag `D0`, the destination is
unchanged, and the source tag is unchanged unless the source register is the
accumulator itself; in the 16-bit forms the upper 16 bits of slot 7 keep
their prior tags. -/
theorem cmpxchg_compare_fails (ix : RegIndx) (rd rs : REG) (env : Env) (s : State) :
    (REG_is_gr32 rd = true → REG_is_gr32 rs = true →
      ix.REG32_INDX rd < 8 → ix.REG32_INDX rs < 8 →
      env.reg .EAX % 4294967296 ≠ env.reg rd % 4294967296 →
      gpr32 (run env (ins_inspect ix (regRegIns .CMPXCHG rd rs)) s) 7
        = gpr32 s (ix.REG32_INDX rd) ∧
      gpr32 (run env (ins_inspect ix (regRegIns .CMPXCHG rd rs)) s) (ix.REG32_INDX rd)
        = gpr32 s (ix.REG32_INDX rd) ∧
      (ix.REG32_INDX rs ≠ 7 →
        gpr32 (run env (ins_inspect ix (regRegIns .CMPXCHG rd rs)) s) (ix.REG32_INDX rs)
          = gpr32 s (ix.REG32_INDX rs))) ∧
    (REG_is_gr16 rd = true → REG_is_gr16 rs = true →
      ix.REG16_INDX rd < 8 → ix.REG16_INDX rs < 8 →
      env.reg .AX % 65536 ≠ env.reg rd % 65536 →
      gpr16 (run env (ins_inspect ix (regRegIns .CMPXCHG rd rs)) s) 7 0
        = gpr16 s (ix.REG16_INDX rd) 0 ∧
      gpr16 (run env (ins_inspect ix (regRegIns .CMPXCHG rd rs)) s) (ix.REG16_INDX rd) 0
        = gpr16 s (ix.REG16_INDX rd) 0 ∧
      gpr16 (run env (ins_inspect ix (regRegIns .CMPXCHG rd rs)) s) 7 1 = gpr16 s 7 1 ∧
      (ix.REG16_INDX rs ≠ 7 →
        gpr32 (run env (ins_inspect ix (regRegIns .CMPXCHG rd rs)) s) (ix.REG16_INDX rs)
          = gpr32 s (ix.REG16_INDX rs))) ∧
    (REG_is_gr32 rs = true → ix.REG32_INDX rs < 8 →
      env.reg .EAX % 4294967296 ≠ rd32 env.data env.read_ea →
      gpr32 (run env (ins_inspect ix (memRegIns .CMPXCHG rs)) s) 7
        = tagmap_getl s env.read_ea ∧
      (run env (ins_inspect ix (memRegIns .CMPXCHG rs)) s).mem = s.mem ∧
      (ix.REG32_INDX rs ≠ 7 →
        gpr32 (run env (ins_inspect ix (memRegIns .CMPXCHG rs)) s) (ix.REG32_INDX rs)
          = gpr32 s (ix.REG32_INDX rs))) ∧
    (REG_is_gr16 rs = true → ix.REG16_INDX rs < 8 →
      env.reg .AX % 65536 ≠ rd16 env.data env.read_ea →
      gpr16 (run env (ins_inspect ix (memRegIns .CMPXCHG rs)) s) 7 0
        = tagmap_getw s env.read_ea ∧
      (run env (ins_inspect ix (memRegIns .CMPXCHG rs)) s).mem = s.mem ∧
      gpr16 (run env (ins_inspect ix (memRegIns .CMPXCHG rs)) s) 7 1 = gpr16 s 7 1 ∧
      (ix.REG16_INDX rs ≠ 7 →
        gpr32 (run env (ins_inspect ix (memRegIns .CMPXCHG rs)) s) (ix.REG16_INDX rs)
          = gpr32 s (ix.REG16_INDX rs))) := by
  refine ⟨fun hd _ kd ks hc => ?_, fun hd _ kd ks hc => ?_, fun hs ks hc => ?_,
    fun hs ks hc => ?_⟩
  · rw [run_cmpxchg_r2r_opl ix rd rs env s hd, if_neg hc]
    obtain ⟨f7, -, fd, fr⟩ := cmpxchg_r2r_opl_fast_tags s (env.reg .EAX) (env.reg rd)
      (ix.REG32_INDX rd) (ix.REG32_INDX rs) kd ks
    exact ⟨f7, fd, fr⟩
  · rw [run_cmpxchg_r2r_opw ix rd rs env s hd, if_neg hc]
    obtain ⟨f7, fh, -, fd, fr⟩ := cmpxchg_r2r_opw_fast_tags s (env.reg .AX) (env.reg rd)
      (ix.REG16_INDX rd) (ix.REG16_INDX rs) kd ks
    exact ⟨f7, fd, fh, fr⟩
  · rw [run_cmpxchg_m_opl ix rs env s hs, if_neg hc]
    obtain ⟨f7, -, fm, -, fr⟩ := cmpxchg_m2r_opl_fast_tags env.data s (env.reg .EAX)
      env.read_ea (ix.REG32_INDX rs) ks
    exact ⟨f7, fm, fr⟩
  · rw [run_cmpxchg_m_opw ix rs env s hs, if_neg hc]
    obtain ⟨f7, fh, -, fm, -, fr⟩ := cmpxchg_m2r_opw_fast_tags env.data s (env.reg .AX)
      env.read_ea (ix.REG16_INDX rs) ks
    exact ⟨f7, fm, fh, fr⟩

/-- Witness for the amended C9: `cmpxchg ebx, ecx` and `cmpxchg bx, cx` with
a failing comparison. -/
theorem cmpxchg_compare_fails_witness :
    (gpr32 (run sampleEnvNe (ins_inspect stdIndx (regRegIns .CMPXCHG .EBX .ECX)) sampleState) 7
        = gpr32 sampleState 4 ∧
      gpr32 (run sampleEnvNe (ins_inspect stdIndx (regRegIns .CMPXCHG .EBX .ECX))
        sampleState) 4 = gpr32 sampleState 4 ∧
      (6 ≠ 7 →
        gpr32 (run sampleEnvNe (ins_inspect stdIndx (regRegIns .CMPXCHG .EBX .ECX))
          sampleState) 6 = gpr32 sampleState 6)) ∧
    (gpr16 (run sampleEnvNe (ins_inspect stdIndx (regRegIns .CMPXCHG .BX .CX)) sampleState) 7 0
        = gpr16 sampleState 4 0 ∧
      gpr16 (run sampleEnvNe (ins_inspect stdIndx (regRegIns .CMPXCHG .BX .CX))
        sampleState) 4 0 = gpr16 sampleState 4 0 ∧
      gpr16 (run sampleEnvNe (ins_inspect stdIndx (regRegIns .CMPXCHG .BX .CX))
        sampleState) 7 1 = gpr16 sampleState 7 1 ∧
      (6 ≠ 7 →
        gpr32 (run sampleEnvNe (ins_inspect stdIndx (regRegIns .CMPXCHG .BX .CX))
          sampleState) 6 = gpr32 sampleState 6)) :=
  ⟨(cmpxchg_compare_fails stdIndx .EBX .ECX sampleEnvNe sampleState).1 rfl rfl
      (by decide) (by decide) (by decide),
   (cmpxchg_compare_fails stdIndx .BX .CX sampleEnvNe sampleState).2.1 rfl rfl
      (by decide) (by decide) (by decide)⟩

/-! ## C11: movsx -/

theorem signExtended32_set (s : State) (d T : Nat) (hT : T < 256) :
    SignExtended32
      (set_gpr8 (set_gpr8 (set_gpr8 (set_gpr8 s d 0 T) d 1 T) d 2 T) d 3 T) d T := by
  have c0 : (set_gpr8 (set_gpr8 (set_gpr8 (set_gpr8 s d 0 T) d 1 T) d 2 T) d 3 T).gpr
      (4 * d + 0) = T := by
    show wr8 (wr8 (wr8 (wr8 s.gpr (4 * d + 0) T) (4 * d + 1) T) (4 * d + 2) T)
      (4 * d + 3) T (4 * d + 0) = T
    rw [wr8_other _ _ _ _ (by omega), wr8_other _ _ _ _ (by omega),
      wr8_other _ _ _ _ (by omega), wr8_same]
    exact Nat.mod_eq_of_lt hT
  have c1 : (set_gpr8 (set_gpr8 (set_gpr8 (set_gpr8 s d 0 T) d 1 T) d 2 T) d 3 T).gpr
      (4 * d + 1) = T := by
    show wr8 (wr8 (wr8 (wr8 s.gpr (4 * d + 0) T) (4 * d + 1) T) (4 * d + 2) T)
      (4 * d + 3) T (4 * d + 1) = T
    rw [wr8_other _ _ _ _ (by omega), wr8_other _ _ _ _ (by omega), wr8_same]
    exact Nat.mod_eq_of_lt hT
  have c2 : (set_gpr8 (set_gpr8 (set_gpr8 (set_gpr8 s d 0 T) d 1 T) d 2 T) d 3 T).gpr
      (4 * d + 2) = T := by
    show wr8 (wr8 (wr8 (wr8 s.gpr (4 * d + 0) T) (4 * d + 1) T) (4 * d + 2) T)
      (4 * d + 3) T (4 * d + 2) = T
    rw [wr8_other _ _ _ _ (by omega), wr8_same]
    exact Nat.mod_eq_of_lt hT
  have c3 : (set_gpr8 (set_gpr8 (set_gpr8 (set_gpr8 s d 0 T) d 1 T) d 2 T) d 3 T).gpr
      (4 * d + 3) = T := by
    show wr8 (wr8 (wr8 (wr8 s.gpr (4 * d + 0) T) (4 * d + 1) T) (4 * d + 2) T)
      (4 * d + 3) T (4 * d + 3) = T
    rw [wr8_same]
    exact Nat.mod_eq_of_lt hT
  have b0 : gpr8 (set_gpr8 (set_gpr8 (set_gpr8 (set_gpr8 s d 0 T) d 1 T) d 2 T) d 3 T)
      d 0 = T := by
    show rd8 _ (4 * d + 0) = T
    unfold rd8; rw [c0]; exact Nat.mod_eq_of_lt hT
  have b1 : gpr8 (set_gpr8 (set_gpr8 (set_gpr8 (set_gpr8 s d 0 T) d 1 T) d 2 T) d 3 T)
      d 1 = T := by
    show rd8 _ (4 * d + 1) = T
    unfold rd8; rw [c1]; exact Nat.mod_eq_of_lt hT
  have b2 : gpr8 (set_gpr8 (set_gpr8 (set_gpr8 (set_gpr8 s d 0 T) d 1 T) d 2 T) d 3 T)
      d 2 = T := by
    show rd8 _ (4 * d + 2) = T
    unfold rd8; rw [c2]; exact Nat.mod_eq_of_lt hT
  have b3 : gpr8 (set_gpr8 (set_gpr8 (set_gpr8 (set_gpr8 s d 0 T) d 1 T) d 2 T) d 3 T)
      d 3 = T := by
    show rd8 _ (4 * d + 3) = T
    unfold rd8; rw [c3]; exact Nat.mod_eq_of_lt hT
  refine ⟨b0, b1, b2, b3, ?_⟩
  have e : gpr32 (set_gpr8 (set_gpr8 (set_gpr8 (set_gpr8 s d 0 T) d 1 T) d 2 T) d 3 T) d
      = gpr8 (set_gpr8 (set_gpr8 (set_gpr8 (set_gpr8 s d 0 T) d 1 T) d 2 T) d 3 T) d 0
      + 256 * gpr8 (set_gpr8 (set_gpr8 (set_gpr8 (set_gpr8 s d 0 T) d 1 T) d 2 T) d 3 T)
        d 1
      + 65536 * (gpr8 (set_gpr8 (set_gpr8 (set_gpr8 (set_gpr8 s d 0 T) d 1 T) d 2 T) d 3 T)
        d 2
      + 256 * gpr8 (set_gpr8 (set_gpr8 (set_gpr8 (set_gpr8 s d 0 T) d 1 T) d 2 T) d 3 T)
        d 3) := rfl
  rw [e, b0, b1, b2, b3]
  omega

theorem signExtended32w_set (s : State) (d T : Nat) (hT : T < 65536) :
    SignExtended32w (set_gpr16 (set_gpr16 s d 0 T) d 1 T) d T := by
  refine ⟨?_, ?_⟩
  · have h : gpr16 (set_gpr16 (set_gpr16 s d 0 T) d 1 T) d 0 = gpr16 (set_gpr16 s d 0 T) d 0 :=
      rd16_congr _ _ _ (wr16_out _ _ _ _ (by omega)) (wr16_out _ _ _ _ (by omega))
    rw [h, gpr16_set_gpr16_same]
    exact Nat.mod_eq_of_lt hT
  · exact (rd16_wr16_same _ (4 * d + 2 * 1) T).trans (Nat.mod_eq_of_lt hT)

theorem signExtended16_set (s : State) (d T : Nat) (hT : T < 256) :
    SignExtended16 s (set_gpr8 (set_gpr8 s d 0 T) d 1 T) d T := by
  have c0 : wr8 (wr8 s.gpr (4 * d + 0) T) (4 * d + 1) T (4 * d + 0) = T := by
    rw [wr8_other _ _ _ _ (by omega), wr8_same]; exact Nat.mod_eq_of_lt hT
  have c1 : wr8 (wr8 s.gpr (4 * d + 0) T) (4 * d + 1) T (4 * d + 1) = T := by
    rw [wr8_same]; exact Nat.mod_eq_of_lt hT
  refine ⟨?_, ?_, ?_, ?_⟩
  · show rd8 (wr8 (wr8 s.gpr (4 * d + 0) T) (4 * d + 1) T) (4 * d + 0) = T
    unfold rd8; rw [c0]; exact Nat.mod_eq_of_lt hT
  · show rd8 (wr8 (wr8 s.gpr (4 * d + 0) T) (4 * d + 1) T) (4 * d + 1) = T
    unfold rd8; rw [c1]; exact Nat.mod_eq_of_lt hT
  · show wr8 (wr8 s.gpr (4 * d + 0) T) (4 * d + 1) T (4 * d + 2) = s.gpr (4 * d + 2)
    rw [wr8_other _ _ _ _ (by omega), wr8_other _ _ _ _ (by omega)]
  · show wr8 (wr8 s.gpr (4 * d + 0) T) (4 * d + 1) T (4 * d + 3) = s.gpr (4 * d + 3)
    rw [wr8_other _ _ _ _ (by omega), wr8_other _ _ _ _ (by omega)]

/-- C11: the 8-to-32-bit `movsx` rules set all four bytes of slot `d` to the
source byte's tag (a source tag 0x05 in `AL` gives 0x05050505 in `EAX`); the
16-to-32-bit rules set both 16-bit halves of slot `d` to the source's 16-bit
tag; the 16-bit-destination rules set bytes 0 and 1 of slot `d` to the source
byte's tag and leave bytes 2..3 unchanged. -/
theorem movsx_sign_extends (s : State) (d r a : Nat) :
    SignExtended32 (_movsx_r2r_oplb_l s d r) d (gpr8 s r 0) ∧
    SignExtended32 (_movsx_r2r_oplb_u s d r) d (gpr8 s r 1) ∧
    SignExtended32 (_movsx_m2r_oplb s d a) d (tagmap_getb s a) ∧
    (gpr8 s 7 0 = 5 → gpr32 (_movsx_r2r_oplb_l s 7 7) 7 = 84215045) ∧
    SignExtended32w (_movsx_r2r_oplw s d r) d (gpr16 s r 0) ∧
    SignExtended32w (_movsx_m2r_oplw s d a) d (tagmap_getw s a) ∧
    SignExtended16 s (_movsx_r2r_opwb_l s d r) d (gpr8 s r 0) ∧
    SignExtended16 s (_movsx_r2r_opwb_u s d r) d (gpr8 s r 1) ∧
    SignExtended16 s (_movsx_m2r_opwb s d a) d (tagmap_getb s a) := by
  refine ⟨?_, ?_, ?_, ?_, ?_, ?_, ?_, ?_, ?_⟩
  · exact signExtended32_set s d _ (rd8_lt _ _)
  · exact signExtended32_set s d _ (rd8_lt _ _)
  · exact signExtended32_set s d _ (rd8_lt _ _)
  · intro h
    have e : gpr32 (_movsx_r2r_oplb_l s 7 7) 7 = gpr8 s 7 0 * 16843009 :=
      (signExtended32_set s 7 (gpr8 s 7 0) (rd8_lt _ _)).2.2.2.2
    rw [e, h]
  · exact signExtended32w_set s d _ (rd16_lt _ _)
  · exact signExtended32w_set s d _ (rd16_lt _ _)
  · exact signExtended16_set s d _ (rd8_lt _ _)
  · exact signExtended16_set s d _ (rd8_lt _ _)
  · exact signExtended16_set s d _ (rd8_lt _ _)

/-- Witness for C11: `AL` tagged 0x05, `movsx eax, al`. -/
theorem movsx_sign_extends_witness :
    gpr32 (_movsx_r2r_oplb_l (set_gpr8 sampleState 7 0 5) 7 7) 7 = 84215045 :=
  (movsx_sign_extends (set_gpr8 sampleState 7 0 5) 7 7 0).2.2.2.1 (by decide)

/-! ## C15: ternary rules -/

/-- ORing `T` into two disjoint views, one after the other. -/
theorem or_into_two (w : Nat) (hw : w = 1 ∨ w = 2 ∨ w = 4) (m : Nat → Nat)
    (a b T : Nat) (hab : a + w ≤ b ∨ b + w ≤ a) (hT : T < 2 ^ (8 * w)) :
    view w (wrw w (wrw w m a (view w m a ||| T)) b
      (view w (wrw w m a (view w m a ||| T)) b ||| T)) a = view w m a ||| T ∧
    view w (wrw w (wrw w m a (view w m a ||| T)) b
      (view w (wrw w m a (view w m a ||| T)) b ||| T)) b = view w m b ||| T ∧
    ∀ i, (i < a ∨ a + w ≤ i) → (i < b ∨ b + w ≤ i) →
      wrw w (wrw w m a (view w m a ||| T)) b
        (view w (wrw w m a (view w m a ||| T)) b ||| T) i = m i := by
  have e1 : view w (wrw w m a (view w m a ||| T)) b = view w m b :=
    view_wrw_disj w hw m a _ b hab
  have ba : view w m a ||| T < 2 ^ (8 * w) := Nat.or_lt_two_pow (view_lt w hw m a) hT
  have bb : view w m b ||| T < 2 ^ (8 * w) := Nat.or_lt_two_pow (view_lt w hw m b) hT
  rw [e1]
  refine ⟨?_, (wrw_view w hw _ b _ bb).1, fun i hia hib => ?_⟩
  · rw [view_wrw_disj w hw _ b _ a (by omega)]
    exact (wrw_view w hw m a _ ba).1
  · rw [wrw_out w hw _ b _ i hib, wrw_out w hw m a _ i hia]

theorem ternaryWide_of_eq (w : Nat) (hw : w = 2 ∨ w = 4) (s s' : State) (T : Nat)
    (hT : T < 2 ^ (8 * w))
    (hs : s' = (⟨wrw w (wrw w s.gpr (4 * 5) (view w s.gpr (4 * 5) ||| T)) (4 * 7)
      (view w (wrw w s.gpr (4 * 5) (view w s.gpr (4 * 5) ||| T)) (4 * 7) ||| T),
      s.STAB, s.mem⟩ : State)) :
    TernaryWide s s' w T := by
  subst hs
  have hw' : w = 1 ∨ w = 2 ∨ w = 4 := Or.inr hw
  obtain ⟨h1, h2, h3⟩ := or_into_two w hw' s.gpr (4 * 5) (4 * 7) T
    (by rcases hw with h | h <;> omega) hT
  exact ⟨h1, h2, h3, rfl, rfl⟩

theorem ternaryByte_of_eq (s s' : State) (T : Nat) (hT : T < 2 ^ (8 * 1))
    (hs : s' = (⟨wrw 1 (wrw 1 s.gpr (4 * 7 + 0) (view 1 s.gpr (4 * 7 + 0) ||| T))
      (4 * 7 + 1)
      (view 1 (wrw 1 s.gpr (4 * 7 + 0) (view 1 s.gpr (4 * 7 + 0) ||| T)) (4 * 7 + 1) ||| T),
      s.STAB, s.mem⟩ : State)) :
    TernaryByte s s' T := by
  subst hs
  obtain ⟨h1, h2, h3⟩ := or_into_two 1 (by decide) s.gpr (4 * 7 + 0) (4 * 7 + 1) T
    (by omega) hT
  exact ⟨h1, h2, h3, rfl, rfl⟩

/-- C15: `r2r_ternary_opl` / `r2r_ternary_opw` and `m2r_ternary_opl` /
`m2r_ternary_opw` OR the source operand's tag, as it was before the call,
into both slot 5 (EDX/DX) and slot 7 (EAX/AX) at the operand width, also when
the source register is slot 5 or slot 7; the 8-bit forms OR the source byte's
tag into both `AL` and `AH` and leave slot 5 unchanged; nothing else
changes. -/
theorem ternary_rules (s : State) (src a : Nat) :
    TernaryWide s (r2r_ternary_opl s src) 4 (gpr32 s src) ∧
    TernaryWide s (r2r_ternary_opw s src) 2 (gpr16 s src 0) ∧
    TernaryWide s (m2r_ternary_opl s a) 4 (tagmap_getl s a) ∧
    TernaryWide s (m2r_ternary_opw s a) 2 (tagmap_getw s a) ∧
    TernaryByte s (r2r_ternary_opb_l s src) (gpr8 s src 0) ∧
    TernaryByte s (r2r_ternary_opb_u s src) (gpr8 s src 1) ∧
    TernaryByte s (m2r_ternary_opb s a) (tagmap_getb s a) :=
  ⟨ternaryWide_of_eq 4 (by decide) s _ _ (rd32_lt _ _) rfl,
   ternaryWide_of_eq 2 (by decide) s _ _ (rd16_lt _ _) rfl,
   ternaryWide_of_eq 4 (by decide) s _ _ (rd32_lt _ _) rfl,
   ternaryWide_of_eq 2 (by decide) s _ _ (rd16_lt _ _) rfl,
   ternaryByte_of_eq s _ _ (rd8_lt _ _) rfl,
   ternaryByte_of_eq s _ _ (rd8_lt _ _) rfl,
   ternaryByte_of_eq s _ _ (rd8_lt _ _) rfl⟩

/-! ## C17: lea -/

theorem leaUpdates_of_eq (w : Nat) (hw : w = 1 ∨ w = 2 ∨ w = 4)
    (f : State → Nat → Nat → Nat → State)
    (hf : ∀ s dst base index, f s dst base index =
      (⟨wrw w s.gpr (4 * dst) (view w s.gpr (4 * base) ||| view w s.gpr (4 * index)),
        s.STAB, s.mem⟩ : State)) :
    LeaUpdates f w := by
  intro s dst base index
  have h := wrw_view w hw s.gpr (4 * dst)
    (view w s.gpr (4 * base) ||| view w s.gpr (4 * index))
    (Nat.or_lt_two_pow (view_lt w hw _ _) (view_lt w hw _ _))
  refine ⟨?_, ?_, ?_, ?_, fun m => ?_⟩
  · rw [hf]; exact h.1
  · rw [hf]; exact h.2
  · rw [hf]
  · rw [hf]
  · rw [hf, hf]; rfl

/-- C17: `_lea_r2r_opl` and `_lea_r2r_opw` set `t[dst] = t[base] | t[index]`
at 32 / 16 bits without reading shadow memory; and for LEA `ins_inspect`
installs exactly one rule: a clear of the destination when neither a base nor
an index register is present, a plain transfer from the one register present
when only a base or only an index exists, and the lea rule when both
exist. -/
theorem lea_rule_selected (ix : RegIndx) (ins : INS) (h : ins.opcode = .LEA) :
    LeaUpdates _lea_r2r_opl 4 ∧ LeaUpdates _lea_r2r_opw 2 ∧
    (INS_MemoryBaseReg ins = REG_INVALID → INS_MemoryIndexReg ins = REG_INVALID →
      ins_inspect ix ins =
        [if REG_is_gr32 (INS_OperandReg ins OP_0) then
          INS_InsertCall .BEFORE .r_clrl [.UINT32 (ix.REG32_INDX (INS_OperandReg ins OP_0))]
        else
          INS_InsertCall .BEFORE .r_clrw [.UINT32 (ix.REG16_INDX (INS_OperandReg ins OP_0))]]) ∧
    (INS_MemoryBaseReg ins ≠ REG_INVALID → INS_MemoryIndexReg ins = REG_INVALID →
      ins_inspect ix ins =
        [if REG_is_gr32 (INS_OperandReg ins OP_0) then
          INS_InsertCall .BEFORE .r2r_xfer_opl
            [.UINT32 (ix.REG32_INDX (INS_OperandReg ins OP_0)),
             .UINT32 (ix.REG32_INDX (INS_MemoryBaseReg ins))]
        else
          INS_InsertCall .BEFORE .r2r_xfer_opw
            [.UINT32 (ix.REG16_INDX (INS_OperandReg ins OP_0)),
             .UINT32 (ix.REG16_INDX (INS_MemoryBaseReg ins))]]) ∧
    (INS_MemoryBaseReg ins = REG_INVALID → INS_MemoryIndexReg ins ≠ REG_INVALID →
      ins_inspect ix ins =
        [if REG_is_gr32 (INS_OperandReg ins OP_0) then
          INS_InsertCall .BEFORE .r2r_xfer_opl
            [.UINT32 (ix.REG32_INDX (INS_OperandReg ins OP_0)),
             .UINT32 (ix.REG32_INDX (INS_MemoryIndexReg ins))]
        else
          INS_InsertCall .BEFORE .r2r_xfer_opw
            [.UINT32 (ix.REG16_INDX (INS_OperandReg ins OP_0)),
             .UINT32 (ix.REG16_INDX (INS_MemoryIndexReg ins))]]) ∧
    (INS_MemoryBaseReg ins ≠ REG_INVALID → INS_MemoryIndexReg ins ≠ REG_INVALID →
      ins_inspect ix ins =
        [if REG_is_gr32 (INS_OperandReg ins OP_0) then
          INS_InsertCall .BEFORE ._lea_r2r_opl
            [.UINT32 (ix.REG32_INDX (INS_OperandReg ins OP_0)),
             .UINT32 (ix.REG32_INDX (INS_MemoryBaseReg ins)),
             .UINT32 (ix.REG32_INDX (INS_MemoryIndexReg ins))]
        else
          INS_InsertCall .BEFORE ._lea_r2r_opw
            [.UINT32 (ix.REG16_INDX (INS_OperandReg ins OP_0)),
             .UINT32 (ix.REG16_INDX (INS_MemoryBaseReg ins)),
             .UINT32 (ix.REG16_INDX (INS_MemoryIndexReg ins))]]) := by
  have e : ins_inspect ix ins = ins_inspect_lea ix ins := by
    simp [ins_inspect, h]
  refine ⟨leaUpdates_of_eq 4 (by decide) _ (fun _ _ _ _ => rfl),
    leaUpdates_of_eq 2 (by decide) _ (fun _ _ _ _ => rfl),
    fun hb hi => ?_, fun hb hi => ?_, fun hb hi => ?_, fun hb hi => ?_⟩
  · rw [e]; unfold ins_inspect_lea
    by_cases hg : REG_is_gr32 (INS_OperandReg ins OP_0) = true <;> simp [hb, hi, hg]
  · rw [e]; unfold ins_inspect_lea
    by_cases hg : REG_is_gr32 (INS_OperandReg ins OP_0) = true <;> simp [hb, hi, hg]
  · rw [e]; unfold ins_inspect_lea
    by_cases hg : REG_is_gr32 (INS_OperandReg ins OP_0) = true <;> simp [hb, hi, hg]
  · rw [e]; unfold ins_inspect_lea
    by_cases hg : REG_is_gr32 (INS_OperandReg ins OP_0) = true <;> simp [hb, hi, hg]

/-- Witness for C17: `lea eax, [ebx + ecx]` and `lea eax, [disp]`. -/
theorem lea_rule_selected_witness :
    ins_inspect stdIndx (leaIns .EAX .EBX .ECX) =
      [INS_InsertCall .BEFORE ._lea_r2r_opl [.UINT32 7, .UINT32 4, .UINT32 6]] ∧
    ins_inspect stdIndx (leaIns .EAX .INVALID .INVALID) =
      [INS_InsertCall .BEFORE .r_clrl [.UINT32 7]] :=
  ⟨(lea_rule_selected stdIndx (leaIns .EAX .EBX .ECX) rfl).2.2.2.2.2 (by decide)
      (by decide),
   (lea_rule_selected stdIndx (leaIns .EAX .INVALID .INVALID) rfl).2.2.1 rfl rfl⟩

/-! ## C16: xadd -/

/-- A plain call appended to a list of bindings runs on the state the list
leaves behind. -/
theorem run_append_call (env : Env) (l : List Binding) (f : AFUNPTR) (a : List IARG)
    (s : State) :
    run env (l ++ [INS_InsertCall .BEFORE f a]) s =
      (invoke env f (a.map (IARG.value env)) (run env l s)).1 := by
  simp [run, List.foldl_append, step, INS_InsertCall]

theorem xaddsR2M_of_eq (w : Nat) (hw : w = 1 ∨ w = 2 ∨ w = 4)
    (f : State → Nat → Nat → State) (sOff : Nat)
    (hf : ∀ s dst src, f s dst src =
      (⟨wrw w s.gpr (4 * src + sOff) (view w s.mem (taddr s dst)), s.STAB,
        wrw w s.mem (taddr s dst)
          (view w s.mem (taddr s dst) ||| view w s.gpr (4 * src + sOff))⟩ : State)) :
    XaddsR2M f w sOff := by
  intro s dst src
  rw [hf]
  have hg := wrw_view w hw s.gpr (4 * src + sOff) (view w s.mem (taddr s dst))
    (view_lt w hw _ _)
  have hm := wrw_view w hw s.mem (taddr s dst)
    (view w s.mem (taddr s dst) ||| view w s.gpr (4 * src + sOff))
    (Nat.or_lt_two_pow (view_lt w hw _ _) (view_lt w hw _ _))
  exact ⟨hm.1, hg.1, hg.2, hm.2, rfl⟩

/-- An accumulate on the swapped views gives the exchange-and-add. -/
theorem xaddsRegViews_of_swap (w : Nat) (hw : w = 1 ∨ w = 2 ∨ w = 4) (s s1 s2 : State)
    (d dOff r rOff : Nat) (h1 : SwapsRegViews s s1 w d dOff r rOff)
    (hab : 4 * d + dOff = 4 * r + rOff ∨ 4 * d + dOff + w ≤ 4 * r + rOff ∨
      4 * r + rOff + w ≤ 4 * d + dOff)
    (h2 : s2 = (⟨wrw w s1.gpr (4 * d + dOff)
      (accOp (view w s1.gpr (4 * d + dOff)) (view w s1.gpr (4 * r + rOff))),
      s1.STAB, s1.mem⟩ : State)) :
    XaddsRegViews s s2 w d dOff r rOff := by
  subst h2
  obtain ⟨sd, sr, sf, sm, st⟩ := h1
  have hv := wrw_view w hw s1.gpr (4 * d + dOff)
    (accOp (view w s1.gpr (4 * d + dOff)) (view w s1.gpr (4 * r + rOff)))
    (accOp_lt w _ _ (view_lt w hw _ _) (view_lt w hw _ _))
  have e1 : view w (wrw w s1.gpr (4 * d + dOff)
      (accOp (view w s1.gpr (4 * d + dOff)) (view w s1.gpr (4 * r + rOff))))
      (4 * d + dOff) =
      view w s.gpr (4 * d + dOff) ||| view w s.gpr (4 * r + rOff) := by
    rw [hv.1, sd, sr]; exact Nat.lor_comm _ _
  refine ⟨e1, ?_, fun i hi hid hir => ?_, sm, st⟩
  · rcases hab with hEq | hDis
    · have e2 : view w (wrw w s1.gpr (4 * d + dOff)
          (accOp (view w s1.gpr (4 * d + dOff)) (view w s1.gpr (4 * r + rOff))))
          (4 * r + rOff) =
          view w (wrw w s1.gpr (4 * d + dOff)
          (accOp (view w s1.gpr (4 * d + dOff)) (view w s1.gpr (4 * r + rOff))))
          (4 * d + dOff) := by rw [hEq]
      have e3 : view w s.gpr (4 * d + dOff) ||| view w s.gpr (4 * r + rOff) =
          view w s.gpr (4 * d + dOff) := by rw [hEq]; exact Nat.or_self _
      exact e2.trans (e1.trans e3)
    · rw [view_wrw_disj w hw _ _ _ _ (by omega)]; exact sr
  · exact (hv.2 i hid).trans (sf i hi hid hir)

/-- C16: for register-register XADD at every width the four bindings
`ins_inspect` installs (the three XCHG transfers through scratch slot 8, then
the accumulate rule on dst, src) give `t[dst] = old t[dst] | old t[src]` and
`t[src] = old t[dst]`; the register-memory rules `_xadd_r2m_opl`, `_opw`,
`_opb_u`, `_opb_l` give `t[mem] = old t[mem] | old t[reg view]` and
`t[reg view] = old t[mem]`. -/
theorem xadd_rules (ix : RegIndx) (rd rs : REG) (env : Env) (s : State) :
    (REG_is_gr32 rd = true → REG_is_gr32 rs = true →
      ix.REG32_INDX rd < 8 → ix.REG32_INDX rs < 8 →
      XaddsRegViews s (run env (ins_inspect ix (regRegIns .XADD rd rs)) s)
        4 (ix.REG32_INDX rd) 0 (ix.REG32_INDX rs) 0) ∧
    (REG_is_gr16 rd = true → REG_is_gr16 rs = true →
      ix.REG16_INDX rd < 8 → ix.REG16_INDX rs < 8 →
      XaddsRegViews s (run env (ins_inspect ix (regRegIns .XADD rd rs)) s)
        2 (ix.REG16_INDX rd) 0 (ix.REG16_INDX rs) 0) ∧
    (REG_is_Lower8 rd = true → REG_is_Lower8 rs = true →
      ix.REG8_INDX rd < 8 → ix.REG8_INDX rs < 8 →
      XaddsRegViews s (run env (ins_inspect ix (regRegIns .XADD rd rs)) s)
        1 (ix.REG8_INDX rd) 0 (ix.REG8_INDX rs) 0) ∧
    (REG_is_Upper8 rd = true → REG_is_Upper8 rs = true →
      ix.REG8_INDX rd < 8 → ix.REG8_INDX rs < 8 →
      XaddsRegViews s (run env (ins_inspect ix (regRegIns .XADD rd rs)) s)
        1 (ix.REG8_INDX rd) 1 (ix.REG8_INDX rs) 1) ∧
    (REG_is_Lower8 rd = true → REG_is_Upper8 rs = true →
      ix.REG8_INDX rd < 8 → ix.REG8_INDX rs < 8 →
      XaddsRegViews s (run env (ins_inspect ix (regRegIns .XADD rd rs)) s)
        1 (ix.REG8_INDX rd) 0 (ix.REG8_INDX rs) 1) ∧
    (REG_is_Upper8 rd = true → REG_is_Lower8 rs = true →
      ix.REG8_INDX rd < 8 → ix.REG8_INDX rs < 8 →
      XaddsRegViews s (run env (ins_inspect ix (regRegIns .XADD rd rs)) s)
        1 (ix.REG8_INDX rd) 1 (ix.REG8_INDX rs) 0) ∧
    XaddsR2M _xadd_r2m_opl 4 0 ∧ XaddsR2M _xadd_r2m_opw 2 0 ∧
    XaddsR2M _xadd_r2m_opb_u 1 1 ∧ XaddsR2M _xadd_r2m_opb_l 1 0 := by
  have hxd := reg_class_excl rd
  have hxs := reg_class_excl rs
  refine ⟨fun hd hs kd ks => ?_, fun hd hs kd ks => ?_, fun hd hs kd ks => ?_,
    fun hd hs kd ks => ?_, fun hd hs kd ks => ?_, fun hd hs kd ks => ?_,
    xaddsR2M_of_eq 4 (by decide) _ 0 (fun _ _ _ => rfl),
    xaddsR2M_of_eq 2 (by decide) _ 0 (fun _ _ _ => rfl),
    xaddsR2M_of_eq 1 (by decide) _ 1 (fun _ _ _ => rfl),
    xaddsR2M_of_eq 1 (by decide) _ 0 (fun _ _ _ => rfl)⟩
  · have e : ins_inspect ix (regRegIns .XADD rd rs) =
        xchg_via_scratch .r2r_xfer_opl .r2r_xfer_opl .r2r_xfer_opl
          (ix.REG32_INDX rd) (ix.REG32_INDX rs) ++
        [INS_InsertCall .BEFORE .r2r_binary_opl
          [.UINT32 (ix.REG32_INDX rd), .UINT32 (ix.REG32_INDX rs)]] := by
      simp [ins_inspect, ins_inspect_xadd, regRegIns, INS_MemoryOperandCount,
        INS_OperandReg, OP_0, OP_1, hd]
    rw [e, run_append_call]
    exact xaddsRegViews_of_swap 4 (by decide) s _ _ _ 0 _ 0
      (swapsRegViews_of_eq 4 (by decide) s _ _ 0 _ 0 0 kd ks (by omega) rfl
        (by omega) (by omega)) (by omega) rfl
  · obtain ⟨h32, -, -⟩ := hxd.2.1 hd
    have e : ins_inspect ix (regRegIns .XADD rd rs) =
        xchg_via_scratch .r2r_xfer_opw .r2r_xfer_opw .r2r_xfer_opw
          (ix.REG16_INDX rd) (ix.REG16_INDX rs) ++
        [INS_InsertCall .BEFORE .r2r_binary_opw
          [.UINT32 (ix.REG16_INDX rd), .UINT32 (ix.REG16_INDX rs)]] := by
      simp [ins_inspect, ins_inspect_xadd, regRegIns, INS_MemoryOperandCount,
        INS_OperandReg, OP_0, OP_1, hd, h32]
    rw [e, run_append_call]
    exact xaddsRegViews_of_swap 2 (by decide) s _ _ _ 0 _ 0
      (swapsRegViews_of_eq 2 (by decide) s _ _ 0 _ 0 0 kd ks (by omega) rfl
        (by omega) (by omega)) (by omega) rfl
  · obtain ⟨h32, h16, hu⟩ := hxd.2.2.2 hd
    have e : ins_inspect ix (regRegIns .XADD rd rs) =
        xchg_via_scratch .r2r_xfer_opb_l .r2r_xfer_opb_l .r2r_xfer_opb_l
          (ix.REG8_INDX rd) (ix.REG8_INDX rs) ++
        [INS_InsertCall .BEFORE .r2r_binary_opb_l
          [.UINT32 (ix.REG8_INDX rd), .UINT32 (ix.REG8_INDX rs)]] := by
      simp [ins_inspect, ins_inspect_xadd, regRegIns, INS_MemoryOperandCount,
        INS_OperandReg, OP_0, OP_1, REG_is_gr8, hd, hs, h32, h16]
    rw [e, run_append_call]
    exact xaddsRegViews_of_swap 1 (by decide) s _ _ _ 0 _ 0
      (swapsRegViews_of_eq 1 (by decide) s _ _ 0 _ 0 0 kd ks (by omega) rfl
        (by omega) (by omega)) (by omega) rfl
  · obtain ⟨h32, h16, hl⟩ := hxd.2.2.1 hd
    have e : ins_inspect ix (regRegIns .XADD rd rs) =
        xchg_via_scratch .r2r_xfer_opb_u .r2r_xfer_opb_u .r2r_xfer_opb_u
          (ix.REG8_INDX rd) (ix.REG8_INDX rs) ++
        [INS_InsertCall .BEFORE .r2r_binary_opb_u
          [.UINT32 (ix.REG8_INDX rd), .UINT32 (ix.REG8_INDX rs)]] := by
      simp [ins_inspect, ins_inspect_xadd, regRegIns, INS_MemoryOperandCount,
        INS_OperandReg, OP_0, OP_1, REG_is_gr8, hd, hs, h32, h16, hl]
    rw [e, run_append_call]
    exact xaddsRegViews_of_swap 1 (by decide) s _ _ _ 1 _ 1
      (swapsRegViews_of_eq 1 (by decide) s _ _ 1 _ 1 1 kd ks (by omega) rfl
        (by omega) (by omega)) (by omega) rfl
  · obtain ⟨h32, h16, hu⟩ := hxd.2.2.2 hd
    obtain ⟨-, -, hsl⟩ := hxs.2.2.1 hs
    have e : ins_inspect ix (regRegIns .XADD rd rs) =
        xchg_via_scratch .r2r_xfer_opb_l .r2r_xfer_opb_lu .r2r_xfer_opb_ul
          (ix.REG8_INDX rd) (ix.REG8_INDX rs) ++
        [INS_InsertCall .BEFORE .r2r_binary_opb_lu
          [.UINT32 (ix.REG8_INDX rd), .UINT32 (ix.REG8_INDX rs)]] := by
      simp [ins_inspect, ins_inspect_xadd, regRegIns, INS_MemoryOperandCount,
        INS_OperandReg, OP_0, OP_1, REG_is_gr8, hd, hs, h32, h16, hu, hsl]
    rw [e, run_append_call]
    exact xaddsRegViews_of_swap 1 (by decide) s _ _ _ 0 _ 1
      (swapsRegViews_of_eq 1 (by decide) s _ _ 0 _ 1 0 kd ks (by omega) rfl
        (by omega) (by omega)) (by omega) rfl
  · obtain ⟨h32, h16, hl⟩ := hxd.2.2.1 hd
    obtain ⟨-, -, hsu⟩ := hxs.2.2.2 hs
    have e : ins_inspect ix (regRegIns .XADD rd rs) =
        xchg_via_scratch .r2r_xfer_opb_u .r2r_xfer_opb_ul .r2r_xfer_opb_lu
          (ix.REG8_INDX rd) (ix.REG8_INDX rs) ++
        [INS_InsertCall .BEFORE .r2r_binary_opb_ul
          [.UINT32 (ix.REG8_INDX rd), .UINT32 (ix.REG8_INDX rs)]] := by
      simp [ins_inspect, ins_inspect_xadd, regRegIns, INS_MemoryOperandCount,
        INS_OperandReg, OP_0, OP_1, REG_is_gr8, hd, hs, h32, h16, hl, hsu]
    rw [e, run_append_call]
    exact xaddsRegViews_of_swap 1 (by decide) s _ _ _ 1 _ 0
      (swapsRegViews_of_eq 1 (by decide) s _ _ 1 _ 0 1 kd ks (by omega) rfl
        (by omega) (by omega)) (by omega) rfl

/-- Witness for C16: `xadd ebx, ecx`, `xadd al, ah`, `xadd eax, eax`. -/
theorem xadd_rules_witness :
    XaddsRegViews sampleState
      (run sampleEnv (ins_inspect stdIndx (regRegIns .XADD .EBX .ECX)) sampleState)
      4 4 0 6 0 ∧
    XaddsRegViews sampleState
      (run sampleEnv (ins_inspect stdIndx (regRegIns .XADD .AL .AH)) sampleState)
      1 7 0 7 1 ∧
    XaddsRegViews sampleState
      (run sampleEnv (ins_inspect stdIndx (regRegIns .XADD .EAX .EAX)) sampleState)
      4 7 0 7 0 :=
  ⟨(xadd_rules stdIndx .EBX .ECX sampleEnv sampleState).1 rfl rfl (by decide) (by decide),
   (xadd_rules stdIndx .AL .AH sampleEnv sampleState).2.2.2.2.1 rfl rfl
      (by decide) (by decide),
   (xadd_rules stdIndx .EAX .EAX sampleEnv sampleState).1 rfl rfl (by decide) (by decide)⟩

/-! ## C14: first-iteration gating of the string moves -/

theorem ins_inspect_movs_rep (blockRule rule : AFUNPTR) (ins : INS) (h : ins.rep = true) :
    ins_inspect_movs blockRule rule ins = repBindings blockRule ins := by
  simp [ins_inspect_movs, INS_RepPrefix, h, repBindings]

theorem ins_inspect_movs_norep (blockRule rule : AFUNPTR) (ins : INS) (h : ins.rep = false) :
    ins_inspect_movs blockRule rule ins =
      [INS_InsertCall .BEFORE rule [.MEMORYWRITE_EA, .MEMORYREAD_EA]] := by
  simp [ins_inspect_movs, INS_RepPrefix, h]

/-- The gate `rep_predicate` lets the `Then` routine run exactly on the first
iteration of a repetition whose predicate holds. -/
theorem run_rep_gate (env : Env) (g : AFUNPTR) (ins : INS) (s : State) :
    run env (repBindings g ins) s =
      if env.predicate = true ∧ env.first_rep = true then
        (invoke env g [env.write_ea, env.read_ea, env.reg (INS_RepCountRegister ins),
          env.reg (INS_OperandReg ins OP_5)] s).1
      else s := by
  have e1 : invoke env .rep_predicate
      ([IARG.FIRST_REP_ITERATION].map (IARG.value env)) s =
      (s, rep_predicate (decide ((if env.first_rep then 1 else 0) ≠ 0))) := rfl
  have e2 : ([IARG.MEMORYWRITE_EA, IARG.MEMORYREAD_EA,
      IARG.REG_VALUE (INS_RepCountRegister ins),
      IARG.REG_VALUE (INS_OperandReg ins OP_5)].map (IARG.value env)) =
      [env.write_ea, env.read_ea, env.reg (INS_RepCountRegister ins),
        env.reg (INS_OperandReg ins OP_5)] := rfl
  simp only [repBindings, run, List.foldl, step, INS_InsertIfPredicatedCall,
    INS_InsertThenPredicatedCall, e1, e2]
  cases hp : env.predicate <;> cases hf : env.first_rep <;> simp [rep_predicate]

/-- C14: for a rep-prefixed MOVSB, MOVSW or MOVSD `ins_inspect` installs
`rep_predicate`, fed the first-repetition flag, as the If-gate and the block
rule `m2m_xfer_opbn` / `opwn` / `opln` as the Then-call; `rep_predicate`
returns non-zero exactly when its argument is true; so the block rule runs on
the first iteration (of an instruction whose predicate holds) and the state is
untouched on every later iteration.  Without a rep prefix the single-element
rule `m2m_xfer_opb` / `opw` / `opl` is installed unconditionally. -/
theorem movs_first_iteration_gating (ix : RegIndx) (ins : INS) (env : Env) (s : State) :
    (∀ b : Bool, rep_predicate b ≠ 0 ↔ b = true) ∧
    (ins.opcode = .MOVSB →
      (ins.rep = true →
        ins_inspect ix ins = repBindings .m2m_xfer_opbn ins ∧
        (env.first_rep = false → run env (ins_inspect ix ins) s = s) ∧
        (env.first_rep = true → env.predicate = true →
          run env (ins_inspect ix ins) s =
            m2m_xfer_opbn s env.write_ea env.read_ea (env.reg (INS_RepCountRegister ins))
              (env.reg (INS_OperandReg ins OP_5)))) ∧
      (ins.rep = false →
        ins_inspect ix ins =
          [INS_InsertCall .BEFORE .m2m_xfer_opb [.MEMORYWRITE_EA, .MEMORYREAD_EA]] ∧
        run env (ins_inspect ix ins) s = m2m_xfer_opb s env.write_ea env.read_ea)) ∧
    (ins.opcode = .MOVSW →
      (ins.rep = true →
        ins_inspect ix ins = repBindings .m2m_xfer_opwn ins ∧
        (env.first_rep = false → run env (ins_inspect ix ins) s = s) ∧
        (env.first_rep = true → env.predicate = true →
          run env (ins_inspect ix ins) s =
            m2m_xfer_opwn s env.write_ea env.read_ea (env.reg (INS_RepCountRegister ins))
              (env.reg (INS_OperandReg ins OP_5)))) ∧
      (ins.rep = false →
        ins_inspect ix ins =
          [INS_InsertCall .BEFORE .m2m_xfer_opw [.MEMORYWRITE_EA, .MEMORYREAD_EA]] ∧
        run env (ins_inspect ix ins) s = m2m_xfer_opw s env.write_ea env.read_ea)) ∧
    (ins.opcode = .MOVSD →
      (ins.rep = true →
        ins_inspect ix ins = repBindings .m2m_xfer_opln ins ∧
        (env.first_rep = false → run env (ins_inspect ix ins) s = s) ∧
        (env.first_rep = true → env.predicate = true →
          run env (ins_inspect ix ins) s =
            m2m_xfer_opln s env.write_ea env.read_ea (env.reg (INS_RepCountRegister ins))
              (env.reg (INS_OperandReg ins OP_5)))) ∧
      (ins.rep = false →
        ins_inspect ix ins =
          [INS_InsertCall .BEFORE .m2m_xfer_opl [.MEMORYWRITE_EA, .MEMORYREAD_EA]] ∧
        run env (ins_inspect ix ins) s = m2m_xfer_opl s env.write_ea env.read_ea)) := by
  refine ⟨fun b => by cases b <;> simp [rep_predicate], fun ho => ?_, fun ho => ?_,
    fun ho => ?_⟩
  · have e : ins_inspect ix ins = ins_inspect_movs .m2m_xfer_opbn .m2m_xfer_opb ins := by
      simp [ins_inspect, ho]
    refine ⟨fun hr => ?_, fun hr => ?_⟩
    · rw [e, ins_inspect_movs_rep _ _ _ hr, run_rep_gate]
      refine ⟨rfl, fun hf => ?_, fun hf hp => ?_⟩
      · rw [if_neg (by simp [hf])]
      · rw [if_pos ⟨hp, hf⟩]; rfl
    · rw [e, ins_inspect_movs_norep _ _ _ hr]
      exact ⟨rfl, rfl⟩
  · have e : ins_inspect ix ins = ins_inspect_movs .m2m_xfer_opwn .m2m_xfer_opw ins := by
      simp [ins_inspect, ho]
    refine ⟨fun hr => ?_, fun hr => ?_⟩
    · rw [e, ins_inspect_movs_rep _ _ _ hr, run_rep_gate]
      refine ⟨rfl, fun hf => ?_, fun hf hp => ?_⟩
      · rw [if_neg (by simp [hf])]
      · rw [if_pos ⟨hp, hf⟩]; rfl
    · rw [e, ins_inspect_movs_norep _ _ _ hr]
      exact ⟨rfl, rfl⟩
  · have e : ins_inspect ix ins = ins_inspect_movs .m2m_xfer_opln .m2m_xfer_opl ins := by
      simp [ins_inspect, ho]
    refine ⟨fun hr => ?_, fun hr => ?_⟩
    · rw [e, ins_inspect_movs_rep _ _ _ hr, run_rep_gate]
      refine ⟨rfl, fun hf => ?_, fun hf hp => ?_⟩
      · rw [if_neg (by simp [hf])]
      · rw [if_pos ⟨hp, hf⟩]; rfl
    · rw [e, ins_inspect_movs_norep _ _ _ hr]
      exact ⟨rfl, rfl⟩

/-- Witness for C14: `rep movsw` on a later iteration, `rep movsd` on the
first iteration, and `movsb` without a prefix. -/
theorem movs_first_iteration_gating_witness :
    run (⟨fun _ => 5, 134512640, 134512644, fun a => a % 7, false, true⟩ : Env)
        (ins_inspect stdIndx (movsIns .MOVSW true)) sampleState = sampleState ∧
    run sampleEnv (ins_inspect stdIndx (movsIns .MOVSD true)) sampleState =
      m2m_xfer_opln sampleState 134512640 134512640 5 5 ∧
    run sampleEnv (ins_inspect stdIndx (movsIns .MOVSB false)) sampleState =
      m2m_xfer_opb sampleState 134512640 134512640 :=
  ⟨((movs_first_iteration_gating stdIndx (movsIns .MOVSW true)
      ⟨fun _ => 5, 134512640, 134512644, fun a => a % 7, false, true⟩ sampleState).2.2.1
      rfl).1 rfl |>.2.1 rfl,
   ((movs_first_iteration_gating stdIndx (movsIns .MOVSD true) sampleEnv
      sampleState).2.2.2 rfl).1 rfl |>.2.2 rfl rfl,
   (((movs_first_iteration_gating stdIndx (movsIns .MOVSB false) sampleEnv
      sampleState).2.1 rfl).2 rfl).2⟩

/-! ## C18: pusha / popa -/

theorem taddr_lt (s : State) (a : Nat) : taddr s a < 4294967296 :=
  Nat.mod_lt _ (by decide)

theorem wrAll_out (w : Nat) (hw : w = 1 ∨ w = 2 ∨ w = 4) (l : List (Nat × Nat)) :
    ∀ (m : Nat → Nat) (i : Nat), (∀ p ∈ l, i < p.1 ∨ p.1 + w ≤ i) →
      wrAll w m l i = m i := by
  induction l with
  | nil => intro m i _; rfl
  | cons p rest ih =>
    intro m i h
    show wrAll w (wrw w m p.1 p.2) rest i = m i
    rw [ih _ i (fun q hq => h q (List.mem_cons_of_mem _ hq))]
    exact wrw_out w hw m p.1 p.2 i (h p (List.mem_cons_self _ _))

theorem wrAll_view (w : Nat) (hw : w = 1 ∨ w = 2 ∨ w = 4) (l : List (Nat × Nat)) :
    ∀ (m : Nat → Nat),
      l.Pairwise (fun p q => p.1 + w ≤ q.1 ∨ q.1 + w ≤ p.1) →
      ∀ p ∈ l, p.2 < 2 ^ (8 * w) → view w (wrAll w m l) p.1 = p.2 := by
  induction l with
  | nil => intro m _ p hp; cases hp
  | cons q rest ih =>
    intro m hpw p hp hv
    rw [List.pairwise_cons] at hpw
    show view w (wrAll w (wrw w m q.1 q.2) rest) p.1 = p.2
    rcases List.mem_cons.1 hp with hq | hr
    · subst hq
      rw [view_congr w hw (wrw w m p.1 p.2) _ p.1 (fun i h1 h2 =>
        wrAll_out w hw rest _ i (fun r hr => by have := hpw.1 r hr; omega))]
      exact (wrw_view w hw m p.1 p.2 hv).1
    · exact ih _ hpw.2 p hr hv

theorem savesRegs_of_eq (w : Nat) (hw : w = 2 ∨ w = 4) (f : State → Nat → State)
    (hf : ∀ s dst, f s dst = (⟨s.gpr, s.STAB, wrAll w s.mem
      [(taddr s dst, view w s.gpr (4 * 0)),
       (u32 (taddr s dst + w * 1), view w s.gpr (4 * 1)),
       (u32 (taddr s dst + w * 2), view w s.gpr (4 * 2)),
       (u32 (taddr s dst + w * 3), view w s.gpr (4 * 3)),
       (u32 (taddr s dst + w * 4), view w s.gpr (4 * 4)),
       (u32 (taddr s dst + w * 5), view w s.gpr (4 * 5)),
       (u32 (taddr s dst + w * 6), view w s.gpr (4 * 6)),
       (u32 (taddr s dst + w * 7), view w s.gpr (4 * 7))]⟩ : State)) :
    SavesRegs f w := by
  intro s dst
  rw [hf]
  have hw3 : w = 1 ∨ w = 2 ∨ w = 4 := Or.inr hw
  have ht := taddr_lt s dst
  have h0 : u32 (taddr s dst + w * 0) = taddr s dst := by
    unfold u32; rw [Nat.mul_zero, Nat.add_zero]; exact Nat.mod_eq_of_lt ht
  generalize taddr s dst = t at ht h0 ⊢
  have hpw : List.Pairwise (fun p q : Nat × Nat => p.1 + w ≤ q.1 ∨ q.1 + w ≤ p.1)
      [(t, view w s.gpr (4 * 0)),
       (u32 (t + w * 1), view w s.gpr (4 * 1)),
       (u32 (t + w * 2), view w s.gpr (4 * 2)),
       (u32 (t + w * 3), view w s.gpr (4 * 3)),
       (u32 (t + w * 4), view w s.gpr (4 * 4)),
       (u32 (t + w * 5), view w s.gpr (4 * 5)),
       (u32 (t + w * 6), view w s.gpr (4 * 6)),
       (u32 (t + w * 7), view w s.gpr (4 * 7))] := by
    simp only [List.pairwise_cons, List.mem_cons, List.mem_singleton, forall_eq_or_imp,
      forall_eq, List.not_mem_nil, false_implies, implies_true, List.Pairwise.nil,
      and_true, u32]
    rcases hw with h | h <;> subst h <;> omega
  have key := wrAll_view w hw3 _ s.mem hpw
  refine ⟨fun k hk => ?_, fun i hi => ?_, rfl, rfl⟩
  · have hk8 : k = 0 ∨ k = 1 ∨ k = 2 ∨ k = 3 ∨ k = 4 ∨ k = 5 ∨ k = 6 ∨ k = 7 := by omega
    rcases hk8 with h | h | h | h | h | h | h | h <;> subst h
    · rw [h0]
      exact key (t, view w s.gpr (4 * 0)) (by simp) (view_lt w hw3 _ _)
    · exact key (u32 (t + w * 1), view w s.gpr (4 * 1)) (by simp) (view_lt w hw3 _ _)
    · exact key (u32 (t + w * 2), view w s.gpr (4 * 2)) (by simp) (view_lt w hw3 _ _)
    · exact key (u32 (t + w * 3), view w s.gpr (4 * 3)) (by simp) (view_lt w hw3 _ _)
    · exact key (u32 (t + w * 4), view w s.gpr (4 * 4)) (by simp) (view_lt w hw3 _ _)
    · exact key (u32 (t + w * 5), view w s.gpr (4 * 5)) (by simp) (view_lt w hw3 _ _)
    · exact key (u32 (t + w * 6), view w s.gpr (4 * 6)) (by simp) (view_lt w hw3 _ _)
    · exact key (u32 (t + w * 7), view w s.gpr (4 * 7)) (by simp) (view_lt w hw3 _ _)
  · refine wrAll_out w hw3 _ s.mem i (fun p hp => ?_)
    simp only [List.mem_cons, List.mem_singleton, List.not_mem_nil, or_false] at hp
    have i0 := hi 0 (by omega)
    rw [h0] at i0
    rcases hp with h | h | h | h | h | h | h | h <;> subst h
    · exact i0
    · exact hi 1 (by omega)
    · exact hi 2 (by omega)
    · exact hi 3 (by omega)
    · exact hi 4 (by omega)
    · exact hi 5 (by omega)
    · exact hi 6 (by omega)
    · exact hi 7 (by omega)

theorem restoresRegs_of_eq (w : Nat) (hw : w = 2 ∨ w = 4) (f : State → Nat → State)
    (hf : ∀ s src, f s src = (⟨wrAll w s.gpr
      [(4 * 0, view w s.mem (taddr s src)),
       (4 * 1, view w s.mem (u32 (taddr s src + w * 1))),
       (4 * 2, view w s.mem (u32 (taddr s src + w * 2))),
       (4 * 4, view w s.mem (u32 (taddr s src + w * 4))),
       (4 * 5, view w s.mem (u32 (taddr s src + w * 5))),
       (4 * 6, view w s.mem (u32 (taddr s src + w * 6))),
       (4 * 7, view w s.mem (u32 (taddr s src + w * 7)))], s.STAB, s.mem⟩ : State)) :
    RestoresRegs f w := by
  intro s src
  rw [hf]
  have hw3 : w = 1 ∨ w = 2 ∨ w = 4 := Or.inr hw
  have ht := taddr_lt s src
  have h0 : u32 (taddr s src + w * 0) = taddr s src := by
    unfold u32; rw [Nat.mul_zero, Nat.add_zero]; exact Nat.mod_eq_of_lt ht
  generalize taddr s src = t at ht h0 ⊢
  have hpw : List.Pairwise (fun p q : Nat × Nat => p.1 + w ≤ q.1 ∨ q.1 + w ≤ p.1)
      [(4 * 0, view w s.mem t),
       (4 * 1, view w s.mem (u32 (t + w * 1))),
       (4 * 2, view w s.mem (u32 (t + w * 2))),
       (4 * 4, view w s.mem (u32 (t + w * 4))),
       (4 * 5, view w s.mem (u32 (t + w * 5))),
       (4 * 6, view w s.mem (u32 (t + w * 6))),
       (4 * 7, view w s.mem (u32 (t + w * 7)))] := by
    simp only [List.pairwise_cons, List.mem_cons, List.mem_singleton, forall_eq_or_imp,
      forall_eq, List.not_mem_nil, false_implies, implies_true, List.Pairwise.nil,
      and_true]
    rcases hw with h | h <;> subst h <;> omega
  have key := wrAll_view w hw3 _ s.gpr hpw
  refine ⟨fun k hk hk3 => ?_, fun i hi => ?_, rfl, rfl⟩
  · have hk8 : k = 0 ∨ k = 1 ∨ k = 2 ∨ k = 4 ∨ k = 5 ∨ k = 6 ∨ k = 7 := by omega
    rcases hk8 with h | h | h | h | h | h | h <;> subst h
    · rw [h0]
      exact key (4 * 0, view w s.mem t) (by simp) (view_lt w hw3 _ _)
    · exact key (4 * 1, view w s.mem (u32 (t + w * 1))) (by simp) (view_lt w hw3 _ _)
    · exact key (4 * 2, view w s.mem (u32 (t + w * 2))) (by simp) (view_lt w hw3 _ _)
    · exact key (4 * 4, view w s.mem (u32 (t + w * 4))) (by simp) (view_lt w hw3 _ _)
    · exact key (4 * 5, view w s.mem (u32 (t + w * 5))) (by simp) (view_lt w hw3 _ _)
    · exact key (4 * 6, view w s.mem (u32 (t + w * 6))) (by simp) (view_lt w hw3 _ _)
    · exact key (4 * 7, view w s.mem (u32 (t + w * 7))) (by simp) (view_lt w hw3 _ _)
  · refine wrAll_out w hw3 _ s.gpr i (fun p hp => ?_)
    simp only [List.mem_cons, List.mem_singleton, List.not_mem_nil, or_false] at hp
    rcases hp with h | h | h | h | h | h | h <;> subst h
    · exact hi 0 (by omega) (by omega)
    · exact hi 1 (by omega) (by omega)
    · exact hi 2 (by omega) (by omega)
    · exact hi 4 (by omega) (by omega)
    · exact hi 5 (by omega) (by omega)
    · exact hi 6 (by omega) (by omega)
    · exact hi 7 (by omega) (by omega)

theorem r2m_save_opl_saves : SavesRegs r2m_save_opl 4 :=
  savesRegs_of_eq 4 (by decide) _ (fun _ _ => rfl)

theorem m2r_restore_opl_restores : RestoresRegs m2r_restore_opl 4 :=
  restoresRegs_of_eq 4 (by decide) _ (fun _ _ => rfl)

theorem r2m_save_opw_saves : SavesRegs r2m_save_opw 2 :=
  savesRegs_of_eq 2 (by decide) _ (fun _ _ => rfl)

theorem m2r_restore_opw_restores : RestoresRegs m2r_restore_opw 2 :=
  restoresRegs_of_eq 2 (by decide) _ (fun _ _ => rfl)

/-- C18: `r2m_save_opl` copies the tags of slots 0..7 (EDI, ESI, EBP, ESP,
EBX, EDX, ECX, EAX in that order) to the eight 4-byte shadow locations at
offsets 0, 4, ..., 28 from the translated destination address and changes no
register tag; `m2r_restore_opl` copies the shadow locations at offsets 0, 4, 8,
16, 20, 24, 28 into slots 0, 1, 2, 4, 5, 6, 7 and leaves slot 3 (ESP) and the
shadow memory unchanged; `r2m_save_opw` / `m2r_restore_opw` do the same with a
2-byte stride on the low 16 bits of each slot, and leave the upper 16 bits of
every slot unchanged. -/
theorem pusha_popa_rules (s : State) (a k : Nat) :
    SavesRegs r2m_save_opl 4 ∧ RestoresRegs m2r_restore_opl 4 ∧
    SavesRegs r2m_save_opw 2 ∧ RestoresRegs m2r_restore_opw 2 ∧
    gpr32 (m2r_restore_opl s a) 3 = gpr32 s 3 ∧
    gpr16 (m2r_restore_opw s a) 3 0 = gpr16 s 3 0 ∧
    gpr16 (m2r_restore_opw s a) k 1 = gpr16 s k 1 ∧
    gpr16 (r2m_save_opw s a) k 1 = gpr16 s k 1 ∧
    [REG.EDI, .ESI, .EBP, .ESP, .EBX, .EDX, .ECX, .EAX].map slotOf =
      [0, 1, 2, 3, 4, 5, 6, 7] := by
  have sl := r2m_save_opl_saves
  have rl := m2r_restore_opl_restores
  have sw := r2m_save_opw_saves
  have rw2 := m2r_restore_opw_restores
  refine ⟨sl, rl, sw, rw2, ?_, ?_, ?_, ?_, rfl⟩
  · exact view_congr 4 (by decide) s.gpr _ (4 * 3) (fun i h1 h2 =>
      (rl s a).2.1 i (fun j hj hj3 => by omega))
  · exact view_congr 2 (by decide) s.gpr _ (4 * 3 + 2 * 0) (fun i h1 h2 =>
      (rw2 s a).2.1 i (fun j hj hj3 => by omega))
  · exact view_congr 2 (by decide) s.gpr _ (4 * k + 2 * 1) (fun i h1 h2 =>
      (rw2 s a).2.1 i (fun j hj hj3 => by omega))
  · show rd16 (r2m_save_opw s a).gpr (4 * k + 2 * 1) = rd16 s.gpr (4 * k + 2 * 1)
    rw [(sw s a).2.2.1]

/-! ## C12: repeated block move, direction flag clear -/

/-- Cell by cell, storing a `w`-byte view copies its bytes. -/
theorem wrw_view_cell (w : Nat) (hw : w = 1 ∨ w = 2 ∨ w = 4) (m n : Nat → Nat)
    (a b i : Nat) :
    wrw w m a (view w n b) i =
      if a ≤ i ∧ i < a + w then rd8 n (b + (i - a)) else m i := by
  have q0 := rd8_lt n b
  have q1 := rd8_lt n (b + 1)
  rcases hw with h | h | h <;> subst h
  · show wr8 m a (rd8 n b) i = _
    by_cases hi : i = a
    · subst hi
      rw [if_pos (by omega), wr8_same, Nat.sub_self, Nat.add_zero]
      exact Nat.mod_eq_of_lt q0
    · rw [if_neg (by omega)]; exact wr8_other _ _ _ _ hi
  · show wr16 m a (rd16 n b) i = _
    by_cases h0 : i = a
    · subst h0
      rw [if_pos (by omega), wr16_b0, Nat.sub_self, Nat.add_zero]
      unfold rd16; omega
    · by_cases h1 : i = a + 1
      · subst h1
        rw [if_pos (by omega), wr16_b1, show a + 1 - a = 1 by omega]
        unfold rd16; omega
      · rw [if_neg (by omega)]; exact wr16_out _ _ _ _ (by omega)
  · show wr32 m a (rd32 n b) i = _
    obtain ⟨p0, p1, p2, p3, -, -⟩ := rd32_parts n b _ rfl
    have q3 := rd8_lt n (b + 3)
    by_cases h0 : i = a
    · subst h0
      rw [if_pos (by omega), wr32_b0, Nat.sub_self, Nat.add_zero]; exact p0.symm
    · by_cases h1 : i = a + 1
      · subst h1
        rw [if_pos (by omega), wr32_b1, show a + 1 - a = 1 by omega]; exact p1.symm
      · by_cases h2 : i = a + 2
        · subst h2
          rw [if_pos (by omega), wr32_b2, show a + 2 - a = 2 by omega]; exact p2.symm
        · by_cases h3 : i = a + 3
          · subst h3
            rw [if_pos (by omega), wr32_b3, show a + 3 - a = 3 by omega, ← p3]
            exact Nat.mod_eq_of_lt q3
          · rw [if_neg (by omega)]; exact wr32_out _ _ _ _ (by omega)

theorem memcpy_zero (m : Nat → Nat) (d s : Nat) : memcpy m d s 0 = m := by
  funext i
  unfold memcpy
  rw [if_neg (by omega)]

/-- One more element: a block copy of `k` bytes followed by a `w`-byte move
of the next element is a block copy of `k + w` bytes, when the source bytes
of that element are outside the bytes already written. -/
theorem memcpy_snoc (w : Nat) (hw : w = 1 ∨ w = 2 ∨ w = 4) (m : Nat → Nat)
    (d s k : Nat) (h : d + k ≤ s ∨ s + k + w ≤ d) :
    wrw w (memcpy m d s k) (d + k) (view w (memcpy m d s k) (s + k)) =
      memcpy m d s (k + w) := by
  have e : view w (memcpy m d s k) (s + k) = view w m (s + k) :=
    view_congr w hw m _ (s + k) (fun i h1 h2 => by
      unfold memcpy; rw [if_neg (by omega)])
  rw [e]
  funext i
  rw [wrw_view_cell w hw]
  unfold memcpy
  by_cases h1 : d + k ≤ i ∧ i < d + k + w
  · rw [if_pos h1, if_pos (by omega), show s + k + (i - (d + k)) = s + (i - d) by omega]
  · rw [if_neg h1]
    by_cases h2 : d ≤ i ∧ i < d + k
    · rw [if_pos h2, if_pos (by omega)]
    · rw [if_neg h2, if_neg (by omega)]

/-- Sequential moves over well-mapped, non-overlapping ranges amount to one
block copy. -/
theorem seq_moves_eq (w : Nat) (hw : w = 1 ∨ w = 2 ∨ w = 4)
    (f : State → Nat → Nat → State)
    (hf : ∀ s d r, f s d r =
      (⟨s.gpr, s.STAB, wrw w s.mem (taddr s d) (view w s.mem (taddr s r))⟩ : State))
    (s : State) (dst src N : Nat) (hr : ForwardRanges s dst src N w) :
    ∀ n, n ≤ N → seq_moves f w s dst src n =
      set_mem s (memcpy s.mem (taddr s dst) (taddr s src) (n * w)) := by
  obtain ⟨hd, hs, hdis⟩ := hr
  intro n
  induction n with
  | zero =>
    intro _
    rw [Nat.zero_mul, memcpy_zero]; rfl
  | succ n ih =>
    intro hn
    have hle : (n + 1) * w ≤ N * w := Nat.mul_le_mul_right w hn
    have hsm : (n + 1) * w = n * w + w := Nat.succ_mul n w
    show f (seq_moves f w s dst src n) (dst + n * w) (src + n * w) = _
    rw [ih (by omega), hf]
    show (⟨s.gpr, s.STAB, wrw w (memcpy s.mem (taddr s dst) (taddr s src) (n * w))
      (taddr s (dst + n * w))
      (view w (memcpy s.mem (taddr s dst) (taddr s src) (n * w))
        (taddr s (src + n * w)))⟩ : State) = _
    rw [hd n (by omega), hs n (by omega),
      memcpy_snoc w hw s.mem _ _ _ (by omega), hsm]
    rfl

theorem shl_no_wrap (N k w : Nat) (hk : 2 ^ k = w) (h : N * w < 4294967296) :
    u32 (N <<< k) = N * w := by
  unfold u32
  rw [Nat.shiftLeft_eq, hk]
  exact Nat.mod_eq_of_lt h

theorem forward_count_lt (s : State) (dst src N w : Nat) (hr : ForwardRanges s dst src N w) :
    N * w < 4294967296 := by
  have h1 := taddr_lt s dst
  have h2 := taddr_lt s src
  have h3 := hr.2.2
  omega

/-- C12: with EFLAGS.DF = 0, for every element count `N` and source and
destination shadow ranges that do not overlap and are contiguously mapped, the
block rules `m2m_xfer_opbn`, `m2m_xfer_opwn`, `m2m_xfer_opln` give the same
state as `N` sequential single-element moves `m2m_xfer_opb` / `opw` / `opl` at
`dst + i * w`, `src + i * w` (`w` = 1, 2, 4); with `N = 0` the state is
unchanged. -/
theorem block_move_forward (s : State) (dst src N eflags : Nat)
    (hdf : EFLAGS_DF eflags = 0) :
    (ForwardRanges s dst src N 1 →
      m2m_xfer_opbn s dst src N eflags = seq_moves m2m_xfer_opb 1 s dst src N) ∧
    (ForwardRanges s dst src N 2 →
      m2m_xfer_opwn s dst src N eflags = seq_moves m2m_xfer_opw 2 s dst src N) ∧
    (ForwardRanges s dst src N 4 →
      m2m_xfer_opln s dst src N eflags = seq_moves m2m_xfer_opl 4 s dst src N) ∧
    m2m_xfer_opbn s dst src 0 eflags = s ∧
    m2m_xfer_opwn s dst src 0 eflags = s ∧
    m2m_xfer_opln s dst src 0 eflags = s := by
  refine ⟨fun hr => ?_, fun hr => ?_, fun hr => ?_, ?_, ?_, ?_⟩
  · rw [seq_moves_eq 1 (by decide) m2m_xfer_opb (fun _ _ _ => rfl) s dst src N hr N
      (Nat.le_refl _)]
    unfold m2m_xfer_opbn
    rw [if_pos hdf]
    have e : u32 N = N * 1 := by
      have := forward_count_lt s dst src N 1 hr
      unfold u32; omega
    rw [e]
  · rw [seq_moves_eq 2 (by decide) m2m_xfer_opw (fun _ _ _ => rfl) s dst src N hr N
      (Nat.le_refl _)]
    unfold m2m_xfer_opwn
    rw [if_pos hdf, shl_no_wrap N 1 2 rfl (forward_count_lt s dst src N 2 hr)]
  · rw [seq_moves_eq 4 (by decide) m2m_xfer_opl (fun _ _ _ => rfl) s dst src N hr N
      (Nat.le_refl _)]
    unfold m2m_xfer_opln
    rw [if_pos hdf, shl_no_wrap N 2 4 rfl (forward_count_lt s dst src N 4 hr)]
  · unfold m2m_xfer_opbn
    rw [if_pos hdf, show u32 0 = 0 from rfl, memcpy_zero]; rfl
  · unfold m2m_xfer_opwn
    rw [if_pos hdf, show u32 (0 <<< 1) = 0 from rfl, memcpy_zero]; rfl
  · unfold m2m_xfer_opln
    rw [if_pos hdf, show u32 (0 <<< 2) = 0 from rfl, memcpy_zero]; rfl

/-- Witness for C12: `rep movsw` of three words from 0x08048000 to
0x08048040 with the direction flag clear. -/
theorem block_move_forward_witness :
    m2m_xfer_opwn sampleState 134512704 134512640 3 0 =
      seq_moves m2m_xfer_opw 2 sampleState 134512704 134512640 3 :=
  (block_move_forward sampleState 134512704 134512640 3 0 (by decide)).2.1
    ⟨by decide, by decide, by decide⟩

/-! ## C13: repeated block move, direction flag set -/

/-- One more element below: a `w = 1` move of the byte under a block copy of
`k` bytes is a block copy of `k + 1` bytes that starts one byte lower. -/
theorem memcpy_cons_byte (m : Nat → Nat) (d s k : Nat) (h : d + 1 + k ≤ s ∨ s + 1 + k ≤ d + 1) :
    wr8 (memcpy m (d + 1) (s + 1) k) d (rd8 (memcpy m (d + 1) (s + 1) k) s) =
      memcpy m d s (k + 1) := by
  have e : rd8 (memcpy m (d + 1) (s + 1) k) s = rd8 m s :=
    rd8_congr m _ s (by unfold memcpy; rw [if_neg (by omega)])
  rw [e]
  funext i
  unfold memcpy
  by_cases h0 : i = d
  · subst h0
    rw [wr8_same, if_pos (by omega), Nat.sub_self, Nat.add_zero]
    exact Nat.mod_eq_of_lt (rd8_lt _ _)
  · rw [wr8_other _ _ _ _ h0]
    by_cases h1 : d + 1 ≤ i ∧ i < d + 1 + k
    · rw [if_pos h1, if_pos (by omega),
        show s + 1 + (i - (d + 1)) = s + (i - d) by omega]
    · rw [if_neg h1, if_neg (by omega)]

/-- Sequential byte moves going down over well-mapped, non-overlapping
ranges amount to one block copy that ends at the first element. -/
theorem seq_moves_back_byte (s : State) (dst src N : Nat)
    (hr : BackwardRanges s dst src N 1) :
    ∀ n, n ≤ N → seq_moves_back m2m_xfer_opb 1 s dst src n =
      set_mem s (memcpy s.mem (taddr s dst + 1 - n) (taddr s src + 1 - n) n) := by
  obtain ⟨hd, hs, hdis⟩ := hr
  intro n
  induction n with
  | zero =>
    intro _
    rw [memcpy_zero]; rfl
  | succ n ih =>
    intro hn
    have h1 := hd n (by omega)
    have h2 := hs n (by omega)
    rw [Nat.mul_one] at h1 h2
    show m2m_xfer_opb (seq_moves_back m2m_xfer_opb 1 s dst src n) (dst - n * 1)
      (src - n * 1) = _
    rw [ih (by omega), Nat.mul_one]
    show (⟨s.gpr, s.STAB,
      wr8 (memcpy s.mem (taddr s dst + 1 - n) (taddr s src + 1 - n) n) (taddr s (dst - n))
        (rd8 (memcpy s.mem (taddr s dst + 1 - n) (taddr s src + 1 - n) n)
          (taddr s (src - n)))⟩ : State) = _
    rw [show taddr s dst + 1 - n = taddr s (dst - n) + 1 by omega,
      show taddr s src + 1 - n = taddr s (src - n) + 1 by omega,
      memcpy_cons_byte s.mem _ _ n (by omega),
      show taddr s dst + 1 - (n + 1) = taddr s (dst - n) by omega,
      show taddr s src + 1 - (n + 1) = taddr s (src - n) by omega]
    rfl

/-- With EFLAGS.DF = 1 the byte rule `m2m_xfer_opbn` does agree with `N`
sequential byte moves going down from `dst`, `src`. -/
theorem m2m_xfer_opbn_backward (s : State) (dst src N eflags : Nat)
    (hdf : EFLAGS_DF eflags ≠ 0) (hN : 1 ≤ N) (hr : BackwardRanges s dst src N 1) :
    m2m_xfer_opbn s dst src N eflags = seq_moves_back m2m_xfer_opb 1 s dst src N := by
  rw [seq_moves_back_byte s dst src N hr N (Nat.le_refl _)]
  have h1 := hr.1 (N - 1) (by omega)
  have h2 := hr.2.1 (N - 1) (by omega)
  have h3 := hr.2.2
  have t1 := taddr_lt s dst
  have t2 := taddr_lt s src
  unfold m2m_xfer_opbn
  rw [if_neg hdf]
  have eN : u32 N = N := by unfold u32; omega
  rw [eN]
  have e1 : u32 (taddr s dst + 4294967296 - N + 1) = taddr s dst + 1 - N := by
    unfold u32; omega
  have e2 : u32 (taddr s src + 4294967296 - N + 1) = taddr s src + 1 - N := by
    unfold u32; omega
  rw [e1, e2]

/-- C13, the code at a failing input: one word (one double word) moved with
EFLAGS.DF = 1 from `0x08048000` to `0x08048040`, the source's second byte
being the only tagged byte (the ranges are contiguously mapped and do not
overlap).  The sequential single-element move tags the second destination
byte; the block rules `m2m_xfer_opwn` and `m2m_xfer_opln`
copy the bytes `dst - 1 .. dst` (`dst - 3 .. dst`) instead and leave it
untagged, while they overwrite the byte below the destination. -/
theorem block_move_backward_diverges :
    EFLAGS_DF 1024 = 1024 ∧
    BackwardRanges taintedHigh 134512704 134512640 1 2 ∧
    BackwardRanges taintedHigh 134512704 134512640 1 4 ∧
    tagmap_getb (seq_moves_back m2m_xfer_opw 2 taintedHigh 134512704 134512640 1)
      134512705 = 1 ∧
    tagmap_getb (m2m_xfer_opwn taintedHigh 134512704 134512640 1 1024) 134512705 = 0 ∧
    tagmap_getb (seq_moves_back m2m_xfer_opl 4 taintedHigh 134512704 134512640 1)
      134512705 = 1 ∧
    tagmap_getb (m2m_xfer_opln taintedHigh 134512704 134512640 1 1024) 134512705 = 0 ∧
    m2m_xfer_opwn taintedHigh 134512704 134512640 1 1024 ≠
      seq_moves_back m2m_xfer_opw 2 taintedHigh 134512704 134512640 1 ∧
    m2m_xfer_opln taintedHigh 134512704 134512640 1 1024 ≠
      seq_moves_back m2m_xfer_opl 4 taintedHigh 134512704 134512640 1 := by
  refine ⟨by decide, ⟨by decide, by decide, by decide⟩, ⟨by decide, by decide, by decide⟩,
    by decide, by decide, by decide, by decide, fun h => ?_, fun h => ?_⟩
  · exact absurd (congrArg (fun t => tagmap_getb t 134512705) h) (by decide)
  · exact absurd (congrArg (fun t => tagmap_getb t 134512705) h) (by decide)

/-! ## C19: no taint from nothing -/

theorem rd8_wr8_zero (m : Nat → Nat) (a i : Nat) (h : ∀ j, rd8 m j = 0) :
    rd8 (wr8 m a 0) i = 0 := by
  unfold rd8 wr8
  by_cases hi : i = a
  · rw [if_pos hi]
  · rw [if_neg hi]; exact h i

theorem rd8_wr16_zero (m : Nat → Nat) (a i : Nat) (h : ∀ j, rd8 m j = 0) :
    rd8 (wr16 m a 0) i = 0 :=
  rd8_wr8_zero _ _ i (fun j => rd8_wr8_zero m a j h)

theorem rd8_wr32_zero (m : Nat → Nat) (a i : Nat) (h : ∀ j, rd8 m j = 0) :
    rd8 (wr32 m a 0) i = 0 :=
  rd8_wr16_zero _ _ i (fun j => rd8_wr16_zero m a j h)

theorem rd16_zero (m : Nat → Nat) (a : Nat) (h : ∀ j, rd8 m j = 0) : rd16 m a = 0 := by
  unfold rd16; rw [h, h]

theorem rd32_zero (m : Nat → Nat) (a : Nat) (h : ∀ j, rd8 m j = 0) : rd32 m a = 0 := by
  unfold rd32; rw [rd16_zero m _ h, rd16_zero m _ h]

theorem gpr8_zero (s : State) (r k : Nat) (h : AllZero s) : gpr8 s r k = 0 := h.1 _

theorem gpr16_zero (s : State) (r k : Nat) (h : AllZero s) : gpr16 s r k = 0 :=
  rd16_zero _ _ h.1

theorem gpr32_zero (s : State) (r : Nat) (h : AllZero s) : gpr32 s r = 0 :=
  rd32_zero _ _ h.1

theorem ld8_zero (s : State) (p : Nat) (h : AllZero s) : ld8 s p = 0 := h.2 _

theorem ld16_zero (s : State) (p : Nat) (h : AllZero s) : ld16 s p = 0 :=
  rd16_zero _ _ h.2

theorem ld32_zero (s : State) (p : Nat) (h : AllZero s) : ld32 s p = 0 :=
  rd32_zero _ _ h.2

theorem lor_zero (a b : Nat) (ha : a = 0) (hb : b = 0) : a ||| b = 0 := by
  rw [ha, hb]; rfl

theorem tag_zero : TAG_ZERO = 0 := rfl

theorem az_set_gpr8 (s : State) (r k v : Nat) (h : AllZero s) (hv : v = 0) :
    AllZero (set_gpr8 s r k v) := by
  subst hv
  exact ⟨fun i => rd8_wr8_zero _ _ i h.1, h.2⟩

theorem az_set_gpr16 (s : State) (r k v : Nat) (h : AllZero s) (hv : v = 0) :
    AllZero (set_gpr16 s r k v) := by
  subst hv
  exact ⟨fun i => rd8_wr16_zero _ _ i h.1, h.2⟩

theorem az_set_gpr32 (s : State) (r v : Nat) (h : AllZero s) (hv : v = 0) :
    AllZero (set_gpr32 s r v) := by
  subst hv
  exact ⟨fun i => rd8_wr32_zero _ _ i h.1, h.2⟩

theorem az_st8 (s : State) (p v : Nat) (h : AllZero s) (hv : v = 0) :
    AllZero (st8 s p v) := by
  subst hv
  exact ⟨h.1, fun i => rd8_wr8_zero _ _ i h.2⟩

theorem az_st16 (s : State) (p v : Nat) (h : AllZero s) (hv : v = 0) :
    AllZero (st16 s p v) := by
  subst hv
  exact ⟨h.1, fun i => rd8_wr16_zero _ _ i h.2⟩

theorem az_st32 (s : State) (p v : Nat) (h : AllZero s) (hv : v = 0) :
    AllZero (st32 s p v) := by
  subst hv
  exact ⟨h.1, fun i => rd8_wr32_zero _ _ i h.2⟩

theorem az_memcpy (s : State) (d r n : Nat) (h : AllZero s) :
    AllZero (set_mem s (memcpy s.mem d r n)) := by
  refine ⟨h.1, fun i => ?_⟩
  show (if d ≤ i ∧ i < d + n then rd8 s.mem (r + (i - d)) else s.mem i) % 256 = 0
  by_cases hi : d ≤ i ∧ i < d + n
  · rw [if_pos hi]
    exact (Nat.mod_eq_of_lt (rd8_lt _ _)).trans (h.2 _)
  · rw [if_neg hi]; exact h.2 i

theorem az_ite (c : Prop) (inst : Decidable c) (a b : State) (ha : AllZero a)
    (hb : AllZero b) : AllZero (if c then a else b) := by
  by_cases hc : c
  · rw [if_pos hc]; exact ha
  · rw [if_neg hc]; exact hb

/-- Zero tags are kept by an `invoke` on this argument shape: routines without operands. -/
theorem invoke_zero_0 (env : Env) (fn : AFUNPTR) (s : State) (h : AllZero s) :
    AllZero (invoke env fn [] s).1 := by
  cases fn <;> (
    unfold invoke
    dsimp only
    try simp only [_cwde, r_clrl4, r_clrl2]
    repeat' (first
      | with_reducible exact h
      | with_reducible exact tag_zero
      | with_reducible apply az_set_gpr8
      | with_reducible apply az_set_gpr16
      | with_reducible apply az_set_gpr32
      | with_reducible apply az_st8
      | with_reducible apply az_st16
      | with_reducible apply az_st32
      | with_reducible apply az_memcpy
      | with_reducible apply az_ite
      | with_reducible apply lor_zero
      | with_reducible apply gpr8_zero
      | with_reducible apply gpr16_zero))

/-- Zero tags are kept by an `invoke` on this argument shape: routines with one operand. -/
theorem invoke_zero_1 (env : Env) (fn : AFUNPTR) (a : Nat) (s : State) (h : AllZero s) :
    AllZero (invoke env fn [a] s).1 := by
  cases fn <;> (
    unfold invoke
    dsimp only
    try simp only [r_clrl, r_clrw, r_clrb_u, r_clrb_l, r2r_ternary_opb_u, r2r_ternary_opb_l,
      r2r_ternary_opw, r2r_ternary_opl, m2r_ternary_opb, m2r_ternary_opw, m2r_ternary_opl,
      m2r_restore_opw, m2r_restore_opl, r2m_save_opw, r2m_save_opl, tagmap_clrb, tagmap_clrw,
      tagmap_clrl]
    repeat' (first
      | with_reducible exact h
      | with_reducible exact tag_zero
      | with_reducible apply az_set_gpr8
      | with_reducible apply az_set_gpr16
      | with_reducible apply az_set_gpr32
      | with_reducible apply az_st8
      | with_reducible apply az_st16
      | with_reducible apply az_st32
      | with_reducible apply az_memcpy
      | with_reducible apply az_ite
      | with_reducible apply lor_zero
      | with_reducible apply gpr8_zero
      | with_reducible apply gpr16_zero
      | with_reducible apply gpr32_zero
      | with_reducible apply ld8_zero
      | with_reducible apply ld16_zero
      | with_reducible apply ld32_zero))

/-- Zero tags are kept by an `invoke` on this argument shape: routines with two operands. -/
theorem invoke_zero_2 (env : Env) (fn : AFUNPTR) (a b : Nat) (s : State) (h : AllZero s) :
    AllZero (invoke env fn [a, b] s).1 := by
  cases fn <;> (
    unfold invoke
    dsimp only
    try simp only [_cmpxchg_r2r_opl_slow, _cmpxchg_r2r_opw_slow, _cmpxchg_m2r_opl_fast,
      _cmpxchg_r2m_opl_slow, _cmpxchg_m2r_opw_fast, _cmpxchg_r2m_opw_slow, _xchg_r2m_opl,
      _xchg_r2m_opw, _xchg_r2m_opb_u, _xchg_r2m_opb_l, r2r_binary_opb_ul, r2r_binary_opb_lu,
      r2r_binary_opb_u, r2r_binary_opb_l, r2r_binary_opw, r2r_binary_opl, m2r_binary_opb_u,
      m2r_binary_opb_l, m2r_binary_opw, m2r_binary_opl, r2m_binary_opb_u, r2m_binary_opb_l,
      r2m_binary_opw, r2m_binary_opl, r2r_xfer_opb_ul, r2r_xfer_opb_lu, r2r_xfer_opb_u,
      r2r_xfer_opb_l, r2r_xfer_opw, r2r_xfer_opl, _movsx_r2r_opwb_u, _movsx_r2r_opwb_l,
      _movsx_r2r_oplb_u, _movsx_r2r_oplb_l, _movsx_r2r_oplw, _movsx_m2r_opwb,
      _movsx_m2r_oplb, _movsx_m2r_oplw, _movzx_r2r_opwb_u, _movzx_r2r_opwb_l,
      _movzx_r2r_oplb_u, _movzx_r2r_oplb_l, _movzx_r2r_oplw, _movzx_m2r_opwb,
      _movzx_m2r_oplb, _movzx_m2r_oplw, _xadd_r2m_opl, _xadd_r2m_opw, _xadd_r2m_opb_u,
      _xadd_r2m_opb_l, m2r_xfer_opb_u, m2r_xfer_opb_l, m2r_xfer_opw, m2r_xfer_opl,
      r2m_xfer_opb_u, r2m_xfer_opb_l, r2m_xfer_opw, r2m_xfer_opl, m2m_xfer_opw,
      m2m_xfer_opb, m2m_xfer_opl]
    repeat' (first
      | with_reducible exact h
      | with_reducible exact tag_zero
      | with_reducible apply az_set_gpr8
      | with_reducible apply az_set_gpr16
      | with_reducible apply az_set_gpr32
      | with_reducible apply az_st8
      | with_reducible apply az_st16
      | with_reducible apply az_st32
      | with_reducible apply az_memcpy
      | with_reducible apply az_ite
      | with_reducible apply lor_zero
      | with_reducible apply gpr8_zero
      | with_reducible apply gpr16_zero
      | with_reducible apply gpr32_zero
      | with_reducible apply ld8_zero
      | with_reducible apply ld16_zero
      | with_reducible apply ld32_zero))

/-- Zero tags are kept by an `invoke` on this argument shape: routines with three operands. -/
theorem invoke_zero_3 (env : Env) (fn : AFUNPTR) (a b c : Nat) (s : State) (h : AllZero s) :
    AllZero (invoke env fn [a, b, c] s).1 := by
  cases fn <;> (
    unfold invoke
    dsimp only
    try simp only [_cmpxchg_r2r_opl_fast, _cmpxchg_r2r_opw_fast, _lea_r2r_opw, _lea_r2r_opl]
    repeat' (first
      | with_reducible exact h
      | with_reducible exact tag_zero
      | with_reducible apply az_set_gpr8
      | with_reducible apply az_set_gpr16
      | with_reducible apply az_set_gpr32
      | with_reducible apply az_st8
      | with_reducible apply az_st16
      | with_reducible apply az_st32
      | with_reducible apply az_memcpy
      | with_reducible apply az_ite
      | with_reducible apply lor_zero
      | with_reducible apply gpr8_zero
      | with_reducible apply gpr16_zero
      | with_reducible apply gpr32_zero))

/-- Zero tags are kept by an `invoke` on this argument shape: routines with four operands. -/
theorem invoke_zero_4 (env : Env) (fn : AFUNPTR) (a b c d : Nat) (s : State) (h : AllZero s) :
    AllZero (invoke env fn [a, b, c, d] s).1 := by
  cases fn <;> (
    unfold invoke
    dsimp only
    try simp only [m2m_xfer_opwn, m2m_xfer_opbn, m2m_xfer_opln]
    repeat' (first
      | with_reducible exact h
      | with_reducible exact tag_zero
      | with_reducible apply az_set_gpr8
      | with_reducible apply az_set_gpr16
      | with_reducible apply az_set_gpr32
      | with_reducible apply az_st8
      | with_reducible apply az_st16
      | with_reducible apply az_st32
      | with_reducible apply az_memcpy
      | with_reducible apply az_ite))

/-- Zero tags are kept by an `invoke` on this argument shape: no routine takes five operands or more. -/
theorem invoke_zero_5 (env : Env) (fn : AFUNPTR) (a b c d e : Nat) (l : List Nat)
    (s : State) (h : AllZero s) :
    AllZero (invoke env fn (a :: b :: c :: d :: e :: l) s).1 := by
  cases fn <;> exact h

theorem invoke_zero (env : Env) (fn : AFUNPTR) (args : List Nat) (s : State)
    (h : AllZero s) : AllZero (invoke env fn args s).1 := by
  rcases args with _ | ⟨a, _ | ⟨b, _ | ⟨c, _ | ⟨d, _ | ⟨e, l⟩⟩⟩⟩⟩
  · exact invoke_zero_0 env fn s h
  · exact invoke_zero_1 env fn a s h
  · exact invoke_zero_2 env fn a b s h
  · exact invoke_zero_3 env fn a b c s h
  · exact invoke_zero_4 env fn a b c d s h
  · exact invoke_zero_5 env fn a b c d e l s h

theorem step_zero (env : Env) (acc : State × Nat) (b : Binding) (h : AllZero acc.1) :
    AllZero (step env acc b).1 := by
  unfold step
  cases b.how
  · exact invoke_zero env _ _ _ h
  · exact invoke_zero env _ _ _ h
  · show AllZero (if acc.2 ≠ 0 then _ else acc).1
    split
    · exact invoke_zero env _ _ _ h
    · exact h
  · show AllZero (if env.predicate = true then _ else acc).1
    split
    · exact invoke_zero env _ _ _ h
    · exact h
  · show AllZero (if env.predicate = true then _ else (acc.1, 0)).1
    split
    · exact invoke_zero env _ _ _ h
    · exact h
  · show AllZero (if env.predicate = true ∧ acc.2 ≠ 0 then _ else acc).1
    split
    · exact invoke_zero env _ _ _ h
    · exact h

theorem foldl_step_zero (env : Env) (bs : List Binding) :
    ∀ acc : State × Nat, AllZero acc.1 → AllZero (bs.foldl (step env) acc).1 := by
  induction bs with
  | nil => intro acc h; exact h
  | cons b rest ih => intro acc h; exact ih _ (step_zero env acc b h)

/-- C19: if every register tag and every shadow-memory tag is 0, then after
any routine of the rule library, called on any operand values, every register
tag and every shadow-memory tag is still 0; the same holds for any list of
bindings run in a row. -/
theorem zero_propagation (env : Env) (s : State) (h : AllZero s) :
    (∀ (fn : AFUNPTR) (args : List Nat), AllZero (invoke env fn args s).1) ∧
    (∀ bs : List Binding, AllZero (run env bs s)) :=
  ⟨fun fn args => invoke_zero env fn args s h,
   fun bs => foldl_step_zero env bs (s, 0) h⟩

/-- Witness for C19: on the state without tags, `add eax, ebx`, a PUSHAD and
a `rep movsd` leave no tag. -/
theorem zero_propagation_witness :
    AllZero zeroState ∧
    AllZero (invoke sampleEnv .r2r_binary_opl [7, 4] zeroState).1 ∧
    AllZero (invoke sampleEnv .r2m_save_opl [134512640] zeroState).1 ∧
    AllZero (run sampleEnv (ins_inspect stdIndx (movsIns .MOVSD true)) zeroState) :=
  ⟨⟨fun _ => rfl, fun _ => rfl⟩,
   (zero_propagation sampleEnv zeroState ⟨fun _ => rfl, fun _ => rfl⟩).1 _ _,
   (zero_propagation sampleEnv zeroState ⟨fun _ => rfl, fun _ => rfl⟩).1 _ _,
   (zero_propagation sampleEnv zeroState ⟨fun _ => rfl, fun _ => rfl⟩).2 _⟩

/-! ## C20: one tag segment per loaded image -/

theorem page_align_eq (x : Nat) (h : x < 4294967296) :
    PAGE_ALIGN x = x / 4096 * 4096 := by
  unfold PAGE_ALIGN
  apply Nat.eq_of_testBit_eq
  intro k
  rw [Nat.testBit_and, show (4294963200 : Nat) = 2 ^ 12 * (2 ^ 20 - 1) by norm_num,
    Nat.mul_comm (x / 4096) 4096, show (4096 : Nat) = 2 ^ 12 by norm_num,
    Nat.testBit_mul_pow_two, Nat.testBit_mul_pow_two, Nat.testBit_two_pow_sub_one,
    ← Nat.shiftRight_eq_div_pow, Nat.testBit_shiftRight]
  by_cases hk : 12 ≤ k
  · rw [show 12 + (k - 12) = k by omega]
    by_cases hk2 : k - 12 < 20
    · simp [hk, hk2]
    · have hx : x.testBit k = false :=
        Nat.testBit_lt_two_pow (Nat.lt_of_lt_of_le h
          (Nat.pow_le_pow_right (by decide : 0 < 2) (by omega : 32 ≤ k)))
      simp [hk, hk2, hx]
  · simp [hk]

theorem virt2stab_eq (a : Nat) : VIRT2STAB a = a / 4096 := by
  unfold VIRT2STAB PAGE_SHIFT
  rw [Nat.shiftRight_eq_div_pow]

theorem stab2virt_eq (i : Nat) : STAB2VIRT i = i * 4096 := by
  unfold STAB2VIRT PAGE_SHIFT
  rw [Nat.shiftLeft_eq]

/-- The entries a run of `n` iterations of the setup loop leaves. -/
theorem foldl_update_range (f : Nat → Nat) (lo : Nat) (S : Nat → Nat) (n p : Nat) :
    (List.range n).foldl (fun S j => Function.update S (lo + j) (f j)) S p =
      if lo ≤ p ∧ p < lo + n then f (p - lo) else S p := by
  induction n with
  | zero => rw [if_neg (by omega)]; rfl
  | succ n ih =>
    rw [List.range_succ, List.foldl_append]
    simp only [List.foldl_cons, List.foldl_nil]
    by_cases hp : p = lo + n
    · subst hp
      rw [Function.update_same, if_pos (by omega), Nat.add_sub_cancel_left]
    · rw [Function.update_noteq hp, ih]
      by_cases h1 : lo ≤ p ∧ p < lo + n
      · rw [if_pos h1, if_pos (by omega)]
      · rw [if_neg h1, if_neg (by omega)]

theorem stab_setup_apply (tseg lo hi : Nat) (S : Nat → Nat) (p : Nat) :
    stab_setup tseg lo hi S p =
      if lo ≤ p ∧ p ≤ hi then
        u32 (u32 tseg + 4294967296 - u32 (STAB2VIRT p) + u32 ((p - lo) * PAGE_SZ))
      else S p := by
  unfold stab_setup
  rw [foldl_update_range (fun j =>
    u32 (u32 tseg + 4294967296 - u32 (STAB2VIRT (lo + j)) + u32 (j * PAGE_SZ)))]
  by_cases h : lo ≤ p ∧ p ≤ hi
  · rw [if_pos h, if_pos (by omega)]
    show u32 (u32 tseg + 4294967296 - u32 (STAB2VIRT (lo + (p - lo))) +
      u32 ((p - lo) * PAGE_SZ)) = _
    rw [show lo + (p - lo) = p by omega]
  · rw [if_neg h, if_neg (by omega)]

/-- C20: when `elf_load` processes an image with low address `L` and high
address `H` (`L <= H`) and the new segment is mapped at `tseg` with length
`slen = PAGE_ALIGN(H) - PAGE_ALIGN(L) + PAGE_SZ`, it returns a tagmap in which
every address `a` of `L .. H` has the shadow address
`(a + STAB[a >> 12]) mod 2^32 = tseg + (a - PAGE_ALIGN(L))`, inside
`[tseg, tseg + slen)`, and the table entries of the pages outside
`[L >> 12, H >> 12]` are unchanged. -/
theorem elf_load_maps_image (mmap : Nat → Option Nat) (tm : Tagmap) (img : IMG) (tseg : Nat)
    (hLH : img.low ≤ img.high) (hH : img.high < 4294967296)
    (hld : tm.dynldlnk_loaded ≠ 1)
    (hmap : mmap (u32 (PAGE_ALIGN img.high + 4294967296 - PAGE_ALIGN img.low + PAGE_SZ)) =
      some tseg)
    (hext : tseg + (PAGE_ALIGN img.high - PAGE_ALIGN img.low + PAGE_SZ) ≤ 4294967296) :
    ∃ tm1, elf_load mmap tm img = some tm1 ∧
      (∀ a, img.low ≤ a → a ≤ img.high →
        u32 (a + tm1.STAB (VIRT2STAB a)) = tseg + (a - PAGE_ALIGN img.low) ∧
        tseg ≤ u32 (a + tm1.STAB (VIRT2STAB a)) ∧
        u32 (a + tm1.STAB (VIRT2STAB a)) <
          tseg + (PAGE_ALIGN img.high - PAGE_ALIGN img.low + PAGE_SZ)) ∧
      (∀ p, p < VIRT2STAB img.low ∨ VIRT2STAB img.high < p → tm1.STAB p = tm.STAB p) := by
  have hL : img.low < 4294967296 := by omega
  have eL := page_align_eq img.low hL
  have eH := page_align_eq img.high hH
  have eP : PAGE_SZ = 4096 := rfl
  refine ⟨_, by
    unfold elf_load
    rw [if_neg hld]
    show (match mmap (u32 (PAGE_ALIGN img.high + 4294967296 - PAGE_ALIGN img.low +
      PAGE_SZ)) with
      | none => none
      | some tseg => _) = _
    rw [hmap], ?_, ?_⟩
  · intro a h1 h2
    have key : u32 (a + stab_setup tseg (VIRT2STAB img.low) (VIRT2STAB img.high) tm.STAB
        (VIRT2STAB a)) = tseg + (a - PAGE_ALIGN img.low) := by
      rw [stab_setup_apply, if_pos (by rw [virt2stab_eq, virt2stab_eq, virt2stab_eq]; omega),
        stab2virt_eq, virt2stab_eq, virt2stab_eq, eP, eL]
      rw [eL, eH, eP] at hext
      unfold u32
      omega
    show u32 (a + stab_setup tseg (VIRT2STAB img.low) (VIRT2STAB img.high) tm.STAB
        (VIRT2STAB a)) = _ ∧ tseg ≤ u32 (a + stab_setup tseg (VIRT2STAB img.low)
        (VIRT2STAB img.high) tm.STAB (VIRT2STAB a)) ∧ u32 (a + stab_setup tseg
        (VIRT2STAB img.low) (VIRT2STAB img.high) tm.STAB (VIRT2STAB a)) < _
    rw [key, eL, eH, eP]
    omega
  · intro p hp
    show stab_setup tseg (VIRT2STAB img.low) (VIRT2STAB img.high) tm.STAB p = _
    rw [stab_setup_apply, if_neg (by omega)]

/-- Witness for C20: an image at `0x08048000 .. 0x0805ffff` whose segment is
mapped at `0x40000000`. -/
theorem elf_load_maps_image_witness :
    ∃ tm1, elf_load (fun _ => some 1073741824) emptyTagmap sampleImg = some tm1 ∧
      (∀ a, sampleImg.low ≤ a → a ≤ sampleImg.high →
        u32 (a + tm1.STAB (VIRT2STAB a)) = 1073741824 + (a - PAGE_ALIGN sampleImg.low) ∧
        1073741824 ≤ u32 (a + tm1.STAB (VIRT2STAB a)) ∧
        u32 (a + tm1.STAB (VIRT2STAB a)) <
          1073741824 + (PAGE_ALIGN sampleImg.high - PAGE_ALIGN sampleImg.low + PAGE_SZ)) ∧
      (∀ p, p < VIRT2STAB sampleImg.low ∨ VIRT2STAB sampleImg.high < p →
        tm1.STAB p = emptyTagmap.STAB p) :=
  elf_load_maps_image (fun _ => some 1073741824) emptyTagmap sampleImg 1073741824
    (by decide) (by decide) (by decide) rfl (by decide)

/-! ## Single bindings at run time -/

theorem run_nil (env : Env) (s : State) : run env [] s = s := rfl

theorem run_call (env : Env) (f : AFUNPTR) (a : List IARG) (s : State) :
    run env [INS_InsertCall .BEFORE f a] s = (invoke env f (a.map (IARG.value env)) s).1 := rfl

theorem run_predicated (env : Env) (f : AFUNPTR) (a : List IARG) (s : State) :
    run env [INS_InsertPredicatedCall .BEFORE f a] s =
      if env.predicate = true then (invoke env f (a.map (IARG.value env)) s).1 else s := by
  show (step env (s, 0) (INS_InsertPredicatedCall .BEFORE f a)).1 = _
  unfold step
  show (if env.predicate = true then _ else (s, 0)).1 = _
  split <;> rfl

theorem clearsReg_of_eq (w : Nat) (hw : w = 1 ∨ w = 2 ∨ w = 4) (f : State → Nat → State)
    (off : Nat)
    (hf : ∀ s r, f s r = (⟨wrw w s.gpr (4 * r + off) 0, s.STAB, s.mem⟩ : State)) :
    ClearsReg f w off := by
  intro s r
  rw [hf]
  have h := wrw_view w hw s.gpr (4 * r + off) 0 (Nat.pos_pow_of_pos _ (by decide))
  exact ⟨h.1, h.2, rfl, rfl⟩

theorem clearsMem_of_eq (w : Nat) (hw : w = 1 ∨ w = 2 ∨ w = 4) (f : State → Nat → State)
    (hf : ∀ s a, f s a = (⟨s.gpr, s.STAB, wrw w s.mem (taddr s a) 0⟩ : State)) :
    ClearsMem f w := by
  intro s a
  rw [hf]
  have h := wrw_view w hw s.mem (taddr s a) 0 (Nat.pos_pow_of_pos _ (by decide))
  exact ⟨h.1, h.2, rfl, rfl⟩

/-! ## C30: unsupported forms -/

/-- C30: for RCL, RCR, ROL, ROR, SHL, SAR, SHR, SHLD, SHRD, CMPXCHG8B and
ENTER, whatever the operands, `ins_inspect` installs no rule, so running the
instrumentation of such an instruction leaves every register tag, every
shadow-memory tag and the segment table unchanged. -/
theorem unsupported_forms_install_nothing (ix : RegIndx) (ins : INS) (env : Env) (s : State)
    (h : ins.opcode = .RCL ∨ ins.opcode = .RCR ∨ ins.opcode = .ROL ∨ ins.opcode = .ROR ∨
      ins.opcode = .SHL ∨ ins.opcode = .SAR ∨ ins.opcode = .SHR ∨ ins.opcode = .SHLD ∨
      ins.opcode = .SHRD ∨ ins.opcode = .CMPXCHG8B ∨ ins.opcode = .ENTER) :
    ins_inspect ix ins = [] ∧ run env (ins_inspect ix ins) s = s := by
  have e : ins_inspect ix ins = [] := by
    rcases h with h | h | h | h | h | h | h | h | h | h | h <;> simp [ins_inspect, h]
  rw [e]
  exact ⟨rfl, rfl⟩

/-- Witness for C30: `shl eax, cl`, `shld` on a memory destination and
`cmpxchg8b`. -/
theorem unsupported_forms_install_nothing_witness :
    run sampleEnv (ins_inspect stdIndx (regRegIns .SHL .EAX .CL)) sampleState = sampleState ∧
    run sampleEnv (ins_inspect stdIndx (memRegIns .SHLD .EBX)) sampleState = sampleState ∧
    ins_inspect stdIndx (memImmIns .CMPXCHG8B 64) = [] :=
  ⟨(unsupported_forms_install_nothing stdIndx (regRegIns .SHL .EAX .CL) sampleEnv sampleState
      (by decide)).2,
   (unsupported_forms_install_nothing stdIndx (memRegIns .SHLD .EBX) sampleEnv sampleState
      (by decide)).2,
   (unsupported_forms_install_nothing stdIndx (memImmIns .CMPXCHG8B 64) sampleEnv sampleState
      (by decide)).1⟩

/-! ## C28: byte-pair rule selection -/

theorem reg8_not_seg (r : REG) (h : REG_is_gr8 r = true) : REG_is_seg r = false := by
  cases r <;> first | rfl | exact absurd h (by decide)

/-- The 8-bit register-register branch of the ADC .. SUB case, outside the
clear idiom. -/
theorem ins_inspect_binary_bytes (ix : RegIndx) (op : xed_iclass) (rd rs : REG)
    (hop : op = .ADC ∨ op = .ADD ∨ op = .AND ∨ op = .OR ∨ op = .XOR ∨ op = .SBB ∨ op = .SUB)
    (hidiom : ¬ ((op = .XOR ∨ op = .SUB ∨ op = .SBB) ∧ rd = rs))
    (hd : REG_is_gr8 rd = true) :
    ins_inspect ix (regRegIns op rd rs) =
      if REG_is_Lower8 rd && REG_is_Lower8 rs then
        [INS_InsertCall .BEFORE .r2r_binary_opb_l
          [.UINT32 (ix.REG8_INDX rd), .UINT32 (ix.REG8_INDX rs)]]
      else if REG_is_Upper8 rd && REG_is_Upper8 rs then
        [INS_InsertCall .BEFORE .r2r_binary_opb_u
          [.UINT32 (ix.REG8_INDX rd), .UINT32 (ix.REG8_INDX rs)]]
      else if REG_is_Lower8 rd then
        [INS_InsertCall .BEFORE .r2r_binary_opb_lu
          [.UINT32 (ix.REG8_INDX rd), .UINT32 (ix.REG8_INDX rs)]]
      else
        [INS_InsertCall .BEFORE .r2r_binary_opb_ul
          [.UINT32 (ix.REG8_INDX rd), .UINT32 (ix.REG8_INDX rs)]] := by
  have h32 : REG_is_gr32 rd = false := by
    cases rd <;> first | rfl | exact absurd hd (by decide)
  have h16 : REG_is_gr16 rd = false := by
    cases rd <;> first | rfl | exact absurd hd (by decide)
  have hne : (op = .XOR ∨ op = .SUB ∨ op = .SBB) → rd ≠ rs := fun h1 h2 => hidiom ⟨h1, h2⟩
  rcases hop with h | h | h | h | h | h | h <;> subst h <;>
    simp [ins_inspect, ins_inspect_binary, regRegIns, INS_OperandIsImmediate,
      INS_MemoryOperandCount, INS_OperandReg, OP_0, OP_1, h32, h16, hne]

/-- The 8-bit register-register branch of the BSF / BSR / MOV case. -/
theorem ins_inspect_mov_bytes (ix : RegIndx) (op : xed_iclass) (rd rs : REG)
    (hop : op = .MOV ∨ op = .BSF ∨ op = .BSR)
    (hd : REG_is_gr8 rd = true) (hs : REG_is_gr8 rs = true) :
    ins_inspect ix (regRegIns op rd rs) =
      if REG_is_Lower8 rd && REG_is_Lower8 rs then
        [INS_InsertCall .BEFORE .r2r_xfer_opb_l
          [.UINT32 (ix.REG8_INDX rd), .UINT32 (ix.REG8_INDX rs)]]
      else if REG_is_Upper8 rd && REG_is_Upper8 rs then
        [INS_InsertCall .BEFORE .r2r_xfer_opb_u
          [.UINT32 (ix.REG8_INDX rd), .UINT32 (ix.REG8_INDX rs)]]
      else if REG_is_Lower8 rd then
        [INS_InsertCall .BEFORE .r2r_xfer_opb_lu
          [.UINT32 (ix.REG8_INDX rd), .UINT32 (ix.REG8_INDX rs)]]
      else
        [INS_InsertCall .BEFORE .r2r_xfer_opb_ul
          [.UINT32 (ix.REG8_INDX rd), .UINT32 (ix.REG8_INDX rs)]] := by
  have h32 : REG_is_gr32 rd = false := by
    cases rd <;> first | rfl | exact absurd hd (by decide)
  have h16 : REG_is_gr16 rd = false := by
    cases rd <;> first | rfl | exact absurd hd (by decide)
  have hseg := reg8_not_seg rs hs
  rcases hop with h | h | h <;> subst h <;>
    simp [ins_inspect, ins_inspect_mov, regRegIns, INS_OperandIsImmediate, INS_OperandIsReg,
      INS_MemoryOperandCount, INS_OperandReg, OP_0, OP_1, h32, h16, hd, hseg]

/-- C28: for MOV (and BSF / BSR, which share its case) and for ADC, ADD, AND,
OR, XOR, SBB, SUB outside the clear idiom, with two 8-bit register operands,
`ins_inspect` installs exactly the rule whose destination and source views
match the operands: low / low gives `*_opb_l`, high / high `*_opb_u`, low
destination / high source `*_opb_lu`, high destination / low source
`*_opb_ul`, each bound to (slot of dst, slot of src) in that order. -/
theorem byte_pair_rule_selected (ix : RegIndx) (op : xed_iclass) (rd rs : REG) :
    ((op = .ADC ∨ op = .ADD ∨ op = .AND ∨ op = .OR ∨ op = .XOR ∨ op = .SBB ∨ op = .SUB) →
      ¬ ((op = .XOR ∨ op = .SUB ∨ op = .SBB) ∧ rd = rs) →
      (REG_is_Lower8 rd = true → REG_is_Lower8 rs = true →
        ins_inspect ix (regRegIns op rd rs) = [INS_InsertCall .BEFORE .r2r_binary_opb_l
          [.UINT32 (ix.REG8_INDX rd), .UINT32 (ix.REG8_INDX rs)]]) ∧
      (REG_is_Upper8 rd = true → REG_is_Upper8 rs = true →
        ins_inspect ix (regRegIns op rd rs) = [INS_InsertCall .BEFORE .r2r_binary_opb_u
          [.UINT32 (ix.REG8_INDX rd), .UINT32 (ix.REG8_INDX rs)]]) ∧
      (REG_is_Lower8 rd = true → REG_is_Upper8 rs = true →
        ins_inspect ix (regRegIns op rd rs) = [INS_InsertCall .BEFORE .r2r_binary_opb_lu
          [.UINT32 (ix.REG8_INDX rd), .UINT32 (ix.REG8_INDX rs)]]) ∧
      (REG_is_Upper8 rd = true → REG_is_Lower8 rs = true →
        ins_inspect ix (regRegIns op rd rs) = [INS_InsertCall .BEFORE .r2r_binary_opb_ul
          [.UINT32 (ix.REG8_INDX rd), .UINT32 (ix.REG8_INDX rs)]])) ∧
    ((op = .MOV ∨ op = .BSF ∨ op = .BSR) →
      (REG_is_Lower8 rd = true → REG_is_Lower8 rs = true →
        ins_inspect ix (regRegIns op rd rs) = [INS_InsertCall .BEFORE .r2r_xfer_opb_l
          [.UINT32 (ix.REG8_INDX rd), .UINT32 (ix.REG8_INDX rs)]]) ∧
      (REG_is_Upper8 rd = true → REG_is_Upper8 rs = true →
        ins_inspect ix (regRegIns op rd rs) = [INS_InsertCall .BEFORE .r2r_xfer_opb_u
          [.UINT32 (ix.REG8_INDX rd), .UINT32 (ix.REG8_INDX rs)]]) ∧
      (REG_is_Lower8 rd = true → REG_is_Upper8 rs = true →
        ins_inspect ix (regRegIns op rd rs) = [INS_InsertCall .BEFORE .r2r_xfer_opb_lu
          [.UINT32 (ix.REG8_INDX rd), .UINT32 (ix.REG8_INDX rs)]]) ∧
      (REG_is_Upper8 rd = true → REG_is_Lower8 rs = true →
        ins_inspect ix (regRegIns op rd rs) = [INS_InsertCall .BEFORE .r2r_xfer_opb_ul
          [.UINT32 (ix.REG8_INDX rd), .UINT32 (ix.REG8_INDX rs)]])) := by
  have hx := reg_class_excl rd
  have hy := reg_class_excl rs
  refine ⟨fun hop hid => ⟨fun hd hs => ?_, fun hd hs => ?_, fun hd hs => ?_, fun hd hs => ?_⟩,
    fun hop => ⟨fun hd hs => ?_, fun hd hs => ?_, fun hd hs => ?_, fun hd hs => ?_⟩⟩
  · rw [ins_inspect_binary_bytes ix op rd rs hop hid (by simp [REG_is_gr8, hd])]
    simp [hd, hs]
  · rw [ins_inspect_binary_bytes ix op rd rs hop hid (by simp [REG_is_gr8, hd])]
    simp [hd, hs, (hx.2.2.1 hd).2.2, (hy.2.2.1 hs).2.2]
  · rw [ins_inspect_binary_bytes ix op rd rs hop hid (by simp [REG_is_gr8, hd])]
    simp [hd, hs, (hx.2.2.2 hd).2.2, (hy.2.2.1 hs).2.2]
  · rw [ins_inspect_binary_bytes ix op rd rs hop hid (by simp [REG_is_gr8, hd])]
    simp [hd, hs, (hx.2.2.1 hd).2.2, (hy.2.2.2 hs).2.2]
  · rw [ins_inspect_mov_bytes ix op rd rs hop (by simp [REG_is_gr8, hd])
      (by simp [REG_is_gr8, hs])]
    simp [hd, hs]
  · rw [ins_inspect_mov_bytes ix op rd rs hop (by simp [REG_is_gr8, hd])
      (by simp [REG_is_gr8, hs])]
    simp [hd, hs, (hx.2.2.1 hd).2.2, (hy.2.2.1 hs).2.2]
  · rw [ins_inspect_mov_bytes ix op rd rs hop (by simp [REG_is_gr8, hd])
      (by simp [REG_is_gr8, hs])]
    simp [hd, hs, (hx.2.2.2 hd).2.2, (hy.2.2.1 hs).2.2]
  · rw [ins_inspect_mov_bytes ix op rd rs hop (by simp [REG_is_gr8, hd])
      (by simp [REG_is_gr8, hs])]
    simp [hd, hs, (hx.2.2.1 hd).2.2, (hy.2.2.2 hs).2.2]

/-- Witness for C28: `add al, bh`, `xor ch, ah`, `mov dh, cl`. -/
theorem byte_pair_rule_selected_witness :
    ins_inspect stdIndx (regRegIns .ADD .AL .BH) =
      [INS_InsertCall .BEFORE .r2r_binary_opb_lu [.UINT32 7, .UINT32 4]] ∧
    ins_inspect stdIndx (regRegIns .XOR .CH .AH) =
      [INS_InsertCall .BEFORE .r2r_binary_opb_u [.UINT32 6, .UINT32 7]] ∧
    ins_inspect stdIndx (regRegIns .MOV .DH .CL) =
      [INS_InsertCall .BEFORE .r2r_xfer_opb_ul [.UINT32 5, .UINT32 6]] :=
  ⟨((byte_pair_rule_selected stdIndx .ADD .AL .BH).1 (by decide) (by decide)).2.2.1 rfl rfl,
   ((byte_pair_rule_selected stdIndx .XOR .CH .AH).1 (by decide) (by decide)).2.1 rfl rfl,
   ((byte_pair_rule_selected stdIndx .MOV .DH .CL).2 (by decide)).2.2.2 rfl rfl⟩

/-! ## C27: MOV from an immediate or a segment register -/

/-- The branch of the BSF / BSR / MOV case taken when the second operand is
an immediate or a segment register. -/
theorem ins_inspect_mov_clear (ix : RegIndx) (ins : INS)
    (hop : ins.opcode = .MOV ∨ ins.opcode = .BSF ∨ ins.opcode = .BSR)
    (hsrc : INS_OperandIsImmediate ins OP_1 = true ∨
      (INS_OperandIsReg ins OP_1 = true ∧ REG_is_seg (INS_OperandReg ins OP_1) = true)) :
    ins_inspect ix ins =
      if INS_OperandIsMemory ins OP_0 then
        if INS_OperandWidth ins OP_0 = MEM_LONG_LEN then
          [INS_InsertCall .BEFORE .tagmap_clrl [.MEMORYWRITE_EA]]
        else if INS_OperandWidth ins OP_0 = MEM_WORD_LEN then
          [INS_InsertCall .BEFORE .tagmap_clrw [.MEMORYWRITE_EA]]
        else if INS_OperandWidth ins OP_0 = MEM_BYTE_LEN then
          [INS_InsertCall .BEFORE .tagmap_clrb [.MEMORYWRITE_EA]]
        else
          []
      else if INS_OperandIsReg ins OP_0 then
        if REG_is_gr32 (INS_OperandReg ins OP_0) then
          [INS_InsertCall .BEFORE .r_clrl [.UINT32 (ix.REG32_INDX (INS_OperandReg ins OP_0))]]
        else if REG_is_gr16 (INS_OperandReg ins OP_0) then
          [INS_InsertCall .BEFORE .r_clrw [.UINT32 (ix.REG16_INDX (INS_OperandReg ins OP_0))]]
        else if REG_is_Upper8 (INS_OperandReg ins OP_0) then
          [INS_InsertCall .BEFORE .r_clrb_u [.UINT32 (ix.REG8_INDX (INS_OperandReg ins OP_0))]]
        else
          [INS_InsertCall .BEFORE .r_clrb_l [.UINT32 (ix.REG8_INDX (INS_OperandReg ins OP_0))]]
      else
        [] := by
  have hc : (INS_OperandIsImmediate ins OP_1 ||
      (INS_OperandIsReg ins OP_1 && REG_is_seg (INS_OperandReg ins OP_1))) = true := by
    rcases hsrc with h | ⟨h1, h2⟩
    · rw [h]; rfl
    · rw [h1, h2]; simp
  have e : ins_inspect ix ins = ins_inspect_mov ix ins := by
    rcases hop with h | h | h <;> simp [ins_inspect, h]
  rw [e]
  unfold ins_inspect_mov
  rw [if_pos hc]

/-- C27: for MOV (and BSF / BSR, which share its case) whose second operand
is an immediate or a segment register, `ins_inspect` installs a clear of the
destination matched to its width and kind: `tagmap_clrl` / `tagmap_clrw` /
`tagmap_clrb` on the written address for a 32- / 16- / 8-bit memory
destination, `r_clrl` / `r_clrw` / `r_clrb_u` / `r_clrb_l` on the slot of a
32-bit / 16-bit / high-8 / low-8 register destination.  Running it makes the
destination's tag 0 and changes nothing else. -/
theorem mov_clears_destination (ix : RegIndx) (ins : INS) (env : Env) (s : State)
    (hop : ins.opcode = .MOV ∨ ins.opcode = .BSF ∨ ins.opcode = .BSR)
    (hsrc : INS_OperandIsImmediate ins OP_1 = true ∨
      (INS_OperandIsReg ins OP_1 = true ∧ REG_is_seg (INS_OperandReg ins OP_1) = true)) :
    (INS_OperandIsMemory ins OP_0 = true → INS_OperandWidth ins OP_0 = 32 →
      ins_inspect ix ins = [INS_InsertCall .BEFORE .tagmap_clrl [.MEMORYWRITE_EA]] ∧
      run env (ins_inspect ix ins) s = tagmap_clrl s env.write_ea) ∧
    (INS_OperandIsMemory ins OP_0 = true → INS_OperandWidth ins OP_0 = 16 →
      ins_inspect ix ins = [INS_InsertCall .BEFORE .tagmap_clrw [.MEMORYWRITE_EA]] ∧
      run env (ins_inspect ix ins) s = tagmap_clrw s env.write_ea) ∧
    (INS_OperandIsMemory ins OP_0 = true → INS_OperandWidth ins OP_0 = 8 →
      ins_inspect ix ins = [INS_InsertCall .BEFORE .tagmap_clrb [.MEMORYWRITE_EA]] ∧
      run env (ins_inspect ix ins) s = tagmap_clrb s env.write_ea) ∧
    (INS_OperandIsMemory ins OP_0 = false → INS_OperandIsReg ins OP_0 = true →
      REG_is_gr32 (INS_OperandReg ins OP_0) = true →
      ins_inspect ix ins =
        [INS_InsertCall .BEFORE .r_clrl [.UINT32 (ix.REG32_INDX (INS_OperandReg ins OP_0))]] ∧
      run env (ins_inspect ix ins) s = r_clrl s (ix.REG32_INDX (INS_OperandReg ins OP_0))) ∧
    (INS_OperandIsMemory ins OP_0 = false → INS_OperandIsReg ins OP_0 = true →
      REG_is_gr16 (INS_OperandReg ins OP_0) = true →
      ins_inspect ix ins =
        [INS_InsertCall .BEFORE .r_clrw [.UINT32 (ix.REG16_INDX (INS_OperandReg ins OP_0))]] ∧
      run env (ins_inspect ix ins) s = r_clrw s (ix.REG16_INDX (INS_OperandReg ins OP_0))) ∧
    (INS_OperandIsMemory ins OP_0 = false → INS_OperandIsReg ins OP_0 = true →
      REG_is_Upper8 (INS_OperandReg ins OP_0) = true →
      ins_inspect ix ins =
        [INS_InsertCall .BEFORE .r_clrb_u [.UINT32 (ix.REG8_INDX (INS_OperandReg ins OP_0))]] ∧
      run env (ins_inspect ix ins) s = r_clrb_u s (ix.REG8_INDX (INS_OperandReg ins OP_0))) ∧
    (INS_OperandIsMemory ins OP_0 = false → INS_OperandIsReg ins OP_0 = true →
      REG_is_Lower8 (INS_OperandReg ins OP_0) = true →
      ins_inspect ix ins =
        [INS_InsertCall .BEFORE .r_clrb_l [.UINT32 (ix.REG8_INDX (INS_OperandReg ins OP_0))]] ∧
      run env (ins_inspect ix ins) s = r_clrb_l s (ix.REG8_INDX (INS_OperandReg ins OP_0))) ∧
    ClearsMem tagmap_clrl 4 ∧ ClearsMem tagmap_clrw 2 ∧ ClearsMem tagmap_clrb 1 ∧
    ClearsReg r_clrl 4 0 ∧ ClearsReg r_clrw 2 0 ∧ ClearsReg r_clrb_u 1 1 ∧
    ClearsReg r_clrb_l 1 0 := by
  have e := ins_inspect_mov_clear ix ins hop hsrc
  have hx := reg_class_excl (INS_OperandReg ins OP_0)
  refine ⟨fun hm hw => ?_, fun hm hw => ?_, fun hm hw => ?_, fun hm hr hc => ?_,
    fun hm hr hc => ?_, fun hm hr hc => ?_, fun hm hr hc => ?_,
    clearsMem_of_eq 4 (by decide) _ (fun _ _ => rfl),
    clearsMem_of_eq 2 (by decide) _ (fun _ _ => rfl),
    clearsMem_of_eq 1 (by decide) _ (fun _ _ => rfl),
    clearsReg_of_eq 4 (by decide) _ 0 (fun _ _ => rfl),
    clearsReg_of_eq 2 (by decide) _ 0 (fun _ _ => rfl),
    clearsReg_of_eq 1 (by decide) _ 1 (fun _ _ => rfl),
    clearsReg_of_eq 1 (by decide) _ 0 (fun _ _ => rfl)⟩
  · have e1 : ins_inspect ix ins = [INS_InsertCall .BEFORE .tagmap_clrl [.MEMORYWRITE_EA]] := by
      rw [e]; simp [hm, hw, MEM_LONG_LEN]
    rw [e1]; exact ⟨rfl, rfl⟩
  · have e1 : ins_inspect ix ins = [INS_InsertCall .BEFORE .tagmap_clrw [.MEMORYWRITE_EA]] := by
      rw [e]; simp [hm, hw, MEM_LONG_LEN, MEM_WORD_LEN]
    rw [e1]; exact ⟨rfl, rfl⟩
  · have e1 : ins_inspect ix ins = [INS_InsertCall .BEFORE .tagmap_clrb [.MEMORYWRITE_EA]] := by
      rw [e]; simp [hm, hw, MEM_LONG_LEN, MEM_WORD_LEN, MEM_BYTE_LEN]
    rw [e1]; exact ⟨rfl, rfl⟩
  · have e1 : ins_inspect ix ins =
        [INS_InsertCall .BEFORE .r_clrl [.UINT32 (ix.REG32_INDX (INS_OperandReg ins OP_0))]] := by
      rw [e]; simp [hm, hr, hc]
    rw [e1]; exact ⟨rfl, rfl⟩
  · have e1 : ins_inspect ix ins =
        [INS_InsertCall .BEFORE .r_clrw [.UINT32 (ix.REG16_INDX (INS_OperandReg ins OP_0))]] := by
      rw [e]; simp [hm, hr, hc, (hx.2.1 hc).1]
    rw [e1]; exact ⟨rfl, rfl⟩
  · have e1 : ins_inspect ix ins =
        [INS_InsertCall .BEFORE .r_clrb_u [.UINT32 (ix.REG8_INDX (INS_OperandReg ins OP_0))]] := by
      rw [e]; simp [hm, hr, hc, (hx.2.2.1 hc).1, (hx.2.2.1 hc).2.1]
    rw [e1]; exact ⟨rfl, rfl⟩
  · have e1 : ins_inspect ix ins =
        [INS_InsertCall .BEFORE .r_clrb_l [.UINT32 (ix.REG8_INDX (INS_OperandReg ins OP_0))]] := by
      rw [e]; simp [hm, hr, (hx.2.2.2 hc).1, (hx.2.2.2 hc).2.1, (hx.2.2.2 hc).2.2]
    rw [e1]; exact ⟨rfl, rfl⟩

/-- Witness for C27: `mov word ptr [m], imm`, `mov [m], ds` (16 bits) and
`mov bh, imm`. -/
theorem mov_clears_destination_witness :
    run sampleEnv (ins_inspect stdIndx (memImmIns .MOV 16)) sampleState =
      tagmap_clrw sampleState 134512640 ∧
    ins_inspect stdIndx (memSegIns .MOV .SEG_DS 16) =
      [INS_InsertCall .BEFORE .tagmap_clrw [.MEMORYWRITE_EA]] ∧
    run sampleEnv (ins_inspect stdIndx (regImmIns .MOV .BH)) sampleState =
      r_clrb_u sampleState 4 :=
  ⟨((mov_clears_destination stdIndx (memImmIns .MOV 16) sampleEnv sampleState
      (Or.inl rfl) (Or.inl rfl)).2.1 rfl rfl).2,
   ((mov_clears_destination stdIndx (memSegIns .MOV .SEG_DS 16) sampleEnv sampleState
      (Or.inl rfl) (Or.inr ⟨rfl, rfl⟩)).2.1 rfl rfl).1,
   ((mov_clears_destination stdIndx (regImmIns .MOV .BH) sampleEnv sampleState
      (Or.inl rfl) (Or.inl rfl)).2.2.2.2.2.1 rfl rfl rfl).2⟩

/-! ## C29: clearing instructions -/

theorem ins_inspect_setcc_eq (ix : RegIndx) (ins : INS) (h : isSetcc ins.opcode = true) :
    ins_inspect ix ins = ins_inspect_setcc ix ins := by
  cases ho : ins.opcode <;> rw [ho] at h <;>
    first
    | (simp [isSetcc] at h; done)
    | simp [ins_inspect, ho]

theorem r_clrl2_clears (s : State) : ClearsSlots s (r_clrl2 s) [5, 7] := by
  have e : r_clrl2 s = (⟨wrAll 4 s.gpr [(4 * 5, 0), (4 * 7, 0)], s.STAB, s.mem⟩ : State) := rfl
  rw [e]
  have hpw : List.Pairwise (fun p q : Nat × Nat => p.1 + 4 ≤ q.1 ∨ q.1 + 4 ≤ p.1)
      [(4 * 5, 0), (4 * 7, 0)] := by
    simp only [List.pairwise_cons, List.mem_cons, List.mem_singleton, forall_eq_or_imp,
      forall_eq, List.not_mem_nil, false_implies, implies_true, List.Pairwise.nil, and_true]
    omega
  have key := wrAll_view 4 (by decide) _ s.gpr hpw
  refine ⟨fun r hr => ?_, fun i hi => ?_, rfl, rfl⟩
  · simp only [List.mem_cons, List.mem_singleton, List.not_mem_nil, or_false] at hr
    rcases hr with h | h <;> subst h
    · exact key (4 * 5, 0) (by simp) (by decide)
    · exact key (4 * 7, 0) (by simp) (by decide)
  · refine wrAll_out 4 (by decide) _ s.gpr i (fun p hp => ?_)
    simp only [List.mem_cons, List.mem_singleton, List.not_mem_nil, or_false] at hp
    rcases hp with h | h <;> subst h
    · exact hi 5 (by simp)
    · exact hi 7 (by simp)

theorem r_clrl4_clears (s : State) : ClearsSlots s (r_clrl4 s) [4, 5, 6, 7] := by
  have e : r_clrl4 s = (⟨wrAll 4 s.gpr [(4 * 4, 0), (4 * 5, 0), (4 * 6, 0), (4 * 7, 0)],
      s.STAB, s.mem⟩ : State) := rfl
  rw [e]
  have hpw : List.Pairwise (fun p q : Nat × Nat => p.1 + 4 ≤ q.1 ∨ q.1 + 4 ≤ p.1)
      [(4 * 4, 0), (4 * 5, 0), (4 * 6, 0), (4 * 7, 0)] := by
    simp only [List.pairwise_cons, List.mem_cons, List.mem_singleton, forall_eq_or_imp,
      forall_eq, List.not_mem_nil, false_implies, implies_true, List.Pairwise.nil, and_true]
    omega
  have key := wrAll_view 4 (by decide) _ s.gpr hpw
  refine ⟨fun r hr => ?_, fun i hi => ?_, rfl, rfl⟩
  · simp only [List.mem_cons, List.mem_singleton, List.not_mem_nil, or_false] at hr
    rcases hr with h | h | h | h <;> subst h
    · exact key (4 * 4, 0) (by simp) (by decide)
    · exact key (4 * 5, 0) (by simp) (by decide)
    · exact key (4 * 6, 0) (by simp) (by decide)
    · exact key (4 * 7, 0) (by simp) (by decide)
  · refine wrAll_out 4 (by decide) _ s.gpr i (fun p hp => ?_)
    simp only [List.mem_cons, List.mem_singleton, List.not_mem_nil, or_false] at hp
    rcases hp with h | h | h | h <;> subst h
    · exact hi 4 (by simp)
    · exact hi 5 (by simp)
    · exact hi 6 (by simp)
    · exact hi 7 (by simp)

/-- C29: for every SETcc class `ins_inspect` installs a byte clear of the
destination (`r_clrb_u` or `r_clrb_l` for a register, `tagmap_clrb` for
memory) with `INS_InsertPredicatedCall`, so that it runs only when the
instruction's predicate holds; for STMXCSR, SMSW, STR, LAR, LAHF, SALC,
RDTSC / RDPMC and CPUID it installs an unconditional clear (LAHF: byte 1 of
the slot of AH; SALC: byte 0 of the slot of AL; RDTSC / RDPMC: slots 5 and 7;
CPUID: slots 4, 5, 6, 7); each installed rule forces exactly those tags to 0
and leaves all other tags unchanged. -/
theorem clearing_instructions (ix : RegIndx) (ins : INS) (env : Env) (s : State) :
    (isSetcc ins.opcode = true →
      (INS_MemoryOperandCount ins = 0 → REG_is_Upper8 (INS_OperandReg ins OP_0) = true →
        ins_inspect ix ins =
          [INS_InsertPredicatedCall .BEFORE .r_clrb_u
            [.UINT32 (ix.REG8_INDX (INS_OperandReg ins OP_0))]] ∧
        run env (ins_inspect ix ins) s =
          if env.predicate = true then r_clrb_u s (ix.REG8_INDX (INS_OperandReg ins OP_0))
          else s) ∧
      (INS_MemoryOperandCount ins = 0 → REG_is_Upper8 (INS_OperandReg ins OP_0) = false →
        ins_inspect ix ins =
          [INS_InsertPredicatedCall .BEFORE .r_clrb_l
            [.UINT32 (ix.REG8_INDX (INS_OperandReg ins OP_0))]] ∧
        run env (ins_inspect ix ins) s =
          if env.predicate = true then r_clrb_l s (ix.REG8_INDX (INS_OperandReg ins OP_0))
          else s) ∧
      (INS_MemoryOperandCount ins ≠ 0 →
        ins_inspect ix ins = [INS_InsertPredicatedCall .BEFORE .tagmap_clrb [.MEMORYWRITE_EA]] ∧
        run env (ins_inspect ix ins) s =
          if env.predicate = true then tagmap_clrb s env.write_ea else s)) ∧
    (ins.opcode = .STMXCSR →
      ins_inspect ix ins = [INS_InsertCall .BEFORE .tagmap_clrl [.MEMORYWRITE_EA]] ∧
      run env (ins_inspect ix ins) s = tagmap_clrl s env.write_ea) ∧
    (ins.opcode = .SMSW ∨ ins.opcode = .STR →
      (INS_MemoryOperandCount ins = 0 → REG_is_gr16 (INS_OperandReg ins OP_0) = true →
        run env (ins_inspect ix ins) s = r_clrw s (ix.REG16_INDX (INS_OperandReg ins OP_0))) ∧
      (INS_MemoryOperandCount ins = 0 → REG_is_gr16 (INS_OperandReg ins OP_0) = false →
        run env (ins_inspect ix ins) s = r_clrl s (ix.REG32_INDX (INS_OperandReg ins OP_0))) ∧
      (INS_MemoryOperandCount ins ≠ 0 →
        run env (ins_inspect ix ins) s = tagmap_clrw s env.write_ea)) ∧
    (ins.opcode = .LAR →
      (REG_is_gr16 (INS_OperandReg ins OP_0) = true →
        run env (ins_inspect ix ins) s = r_clrw s (ix.REG16_INDX (INS_OperandReg ins OP_0))) ∧
      (REG_is_gr16 (INS_OperandReg ins OP_0) = false →
        run env (ins_inspect ix ins) s =
          r_clrl s (ix.REG32_INDX (INS_OperandReg ins OP_0)))) ∧
    (ins.opcode = .LAHF →
      run env (ins_inspect ix ins) s = r_clrb_u s (ix.REG8_INDX .AH)) ∧
    (ins.opcode = .SALC →
      run env (ins_inspect ix ins) s = r_clrb_l s (ix.REG8_INDX .AL)) ∧
    (ins.opcode = .RDTSC ∨ ins.opcode = .RDPMC →
      ClearsSlots s (run env (ins_inspect ix ins) s) [5, 7]) ∧
    (ins.opcode = .CPUID →
      ClearsSlots s (run env (ins_inspect ix ins) s) [4, 5, 6, 7]) ∧
    ClearsMem tagmap_clrl 4 ∧ ClearsMem tagmap_clrw 2 ∧ ClearsMem tagmap_clrb 1 ∧
    ClearsReg r_clrl 4 0 ∧ ClearsReg r_clrw 2 0 ∧ ClearsReg r_clrb_u 1 1 ∧
    ClearsReg r_clrb_l 1 0 ∧
    stdIndx.REG8_INDX .AH = 7 ∧ stdIndx.REG8_INDX .AL = 7 := by
  refine ⟨fun hop => ⟨fun hm hu => ?_, fun hm hu => ?_, fun hm => ?_⟩, fun hop => ?_,
    fun hop => ⟨fun hm hc => ?_, fun hm hc => ?_, fun hm => ?_⟩,
    fun hop => ⟨fun hc => ?_, fun hc => ?_⟩, fun hop => ?_, fun hop => ?_, fun hop => ?_,
    fun hop => ?_,
    clearsMem_of_eq 4 (by decide) _ (fun _ _ => rfl),
    clearsMem_of_eq 2 (by decide) _ (fun _ _ => rfl),
    clearsMem_of_eq 1 (by decide) _ (fun _ _ => rfl),
    clearsReg_of_eq 4 (by decide) _ 0 (fun _ _ => rfl),
    clearsReg_of_eq 2 (by decide) _ 0 (fun _ _ => rfl),
    clearsReg_of_eq 1 (by decide) _ 1 (fun _ _ => rfl),
    clearsReg_of_eq 1 (by decide) _ 0 (fun _ _ => rfl), rfl, rfl⟩
  · have e : ins_inspect ix ins = [INS_InsertPredicatedCall .BEFORE .r_clrb_u
        [.UINT32 (ix.REG8_INDX (INS_OperandReg ins OP_0))]] := by
      rw [ins_inspect_setcc_eq ix ins hop]; simp [ins_inspect_setcc, hm, hu]
    rw [e, run_predicated]; exact ⟨rfl, rfl⟩
  · have e : ins_inspect ix ins = [INS_InsertPredicatedCall .BEFORE .r_clrb_l
        [.UINT32 (ix.REG8_INDX (INS_OperandReg ins OP_0))]] := by
      rw [ins_inspect_setcc_eq ix ins hop]; simp [ins_inspect_setcc, hm, hu]
    rw [e, run_predicated]; exact ⟨rfl, rfl⟩
  · have e : ins_inspect ix ins =
        [INS_InsertPredicatedCall .BEFORE .tagmap_clrb [.MEMORYWRITE_EA]] := by
      rw [ins_inspect_setcc_eq ix ins hop]; simp [ins_inspect_setcc, hm]
    rw [e, run_predicated]; exact ⟨rfl, rfl⟩
  · have e : ins_inspect ix ins = [INS_InsertCall .BEFORE .tagmap_clrl [.MEMORYWRITE_EA]] := by
      simp [ins_inspect, hop]
    rw [e]; exact ⟨rfl, rfl⟩
  · have e : ins_inspect ix ins =
        [INS_InsertCall .BEFORE .r_clrw [.UINT32 (ix.REG16_INDX (INS_OperandReg ins OP_0))]] := by
      rcases hop with h | h <;> simp [ins_inspect, h, ins_inspect_smsw, hm, hc]
    rw [e]; rfl
  · have e : ins_inspect ix ins =
        [INS_InsertCall .BEFORE .r_clrl [.UINT32 (ix.REG32_INDX (INS_OperandReg ins OP_0))]] := by
      rcases hop with h | h <;> simp [ins_inspect, h, ins_inspect_smsw, hm, hc]
    rw [e]; rfl
  · have e : ins_inspect ix ins = [INS_InsertCall .BEFORE .tagmap_clrw [.MEMORYWRITE_EA]] := by
      rcases hop with h | h <;> simp [ins_inspect, h, ins_inspect_smsw, hm]
    rw [e]; rfl
  · have e : ins_inspect ix ins =
        [INS_InsertCall .BEFORE .r_clrw [.UINT32 (ix.REG16_INDX (INS_OperandReg ins OP_0))]] := by
      simp [ins_inspect, hop, ins_inspect_lar, hc]
    rw [e]; rfl
  · have e : ins_inspect ix ins =
        [INS_InsertCall .BEFORE .r_clrl [.UINT32 (ix.REG32_INDX (INS_OperandReg ins OP_0))]] := by
      simp [ins_inspect, hop, ins_inspect_lar, hc]
    rw [e]; rfl
  · have e : ins_inspect ix ins =
        [INS_InsertCall .BEFORE .r_clrb_u [.UINT32 (ix.REG8_INDX .AH)]] := by
      simp [ins_inspect, hop]
    rw [e]; rfl
  · have e : ins_inspect ix ins =
        [INS_InsertCall .BEFORE .r_clrb_l [.UINT32 (ix.REG8_INDX .AL)]] := by
      simp [ins_inspect, hop]
    rw [e]; rfl
  · have e : ins_inspect ix ins = [INS_InsertCall .BEFORE .r_clrl2 []] := by
      rcases hop with h | h <;> simp [ins_inspect, h]
    rw [e]; exact r_clrl2_clears s
  · have e : ins_inspect ix ins = [INS_InsertCall .BEFORE .r_clrl4 []] := by
      simp [ins_inspect, hop]
    rw [e]; exact r_clrl4_clears s

/-- Witness for C29: `setz bh` with the predicate false and true, `setnz` on
memory, `rdtsc` and `cpuid`. -/
theorem clearing_instructions_witness :
    run (⟨fun _ => 5, 134512640, 134512640, fun a => a % 7, true, false⟩ : Env)
      (ins_inspect stdIndx (regIns .SETZ .BH)) sampleState = sampleState ∧
    run sampleEnv (ins_inspect stdIndx (regIns .SETZ .BH)) sampleState =
      r_clrb_u sampleState 4 ∧
    run sampleEnv (ins_inspect stdIndx (memIns .SETNZ 8)) sampleState =
      tagmap_clrb sampleState 134512640 ∧
    ClearsSlots sampleState
      (run sampleEnv (ins_inspect stdIndx (nullaryIns .RDTSC)) sampleState) [5, 7] ∧
    ClearsSlots sampleState
      (run sampleEnv (ins_inspect stdIndx (nullaryIns .CPUID)) sampleState) [4, 5, 6, 7] :=
  ⟨(((clearing_instructions stdIndx (regIns .SETZ .BH)
        ⟨fun _ => 5, 134512640, 134512640, fun a => a % 7, true, false⟩ sampleState).1
        rfl).1 rfl rfl).2,
   (((clearing_instructions stdIndx (regIns .SETZ .BH) sampleEnv sampleState).1
        rfl).1 rfl rfl).2,
   (((clearing_instructions stdIndx (memIns .SETNZ 8) sampleEnv sampleState).1
        rfl).2.2 (by decide)).2,
   (clearing_instructions stdIndx (nullaryIns .RDTSC) sampleEnv
        sampleState).2.2.2.2.2.2.1 (Or.inl rfl),
   (clearing_instructions stdIndx (nullaryIns .CPUID) sampleEnv
        sampleState).2.2.2.2.2.2.2.1 rfl⟩

/-! ## C26: ranged set / clear -/

theorem stab_fill_apply (seg lo hi : Nat) (S : Nat → Nat) (p : Nat) :
    stab_fill seg lo hi S p =
      if lo ≤ p ∧ p ≤ hi then u32 (u32 seg + 4294967296 - u32 (STAB2VIRT p)) else S p := by
  unfold stab_fill
  rw [foldl_update_range (fun j => u32 (u32 seg + 4294967296 - u32 (STAB2VIRT (lo + j))))]
  by_cases h : lo ≤ p ∧ p ≤ hi
  · rw [if_pos h, if_pos (by omega)]
    show u32 (u32 seg + 4294967296 - u32 (STAB2VIRT (lo + (p - lo)))) = _
    rw [show lo + (p - lo) = p by omega]
  · rw [if_neg h, if_neg (by omega)]

/-- What `tagmap_alloc` returns when the four mappings succeed. -/
theorem tagmap_alloc_eq (mmap : Nat → Nat → Option Nat) (vs ve : Nat) (tm : Tagmap)
    (stab stack_seg zero_seg null_seg : Nat)
    (h1 : mmap (u32 (STAB_SIZE * 4)) prot_rw = some stab)
    (h2 : mmap STACK_SZ prot_rw = some stack_seg)
    (h3 : mmap PAGE_SZ prot_zero = some zero_seg)
    (h4 : mmap PAGE_SZ PROT_NONE = some null_seg) :
    tagmap_alloc mmap vs ve tm =
      some ⟨if vs ≠ 0 then
          stab_fill zero_seg (VIRT2STAB vs) (VIRT2STAB (u32 (ve + 4294967295)))
            (stab_setup stack_seg (VIRT2STAB STACK_SEG_ADDR) (VIRT2STAB USER_END)
              (stab_fill null_seg (VIRT2STAB USER_START) (VIRT2STAB (STACK_SEG_ADDR - 1))
                (stab_fill zero_seg (VIRT2STAB KERN_START) (VIRT2STAB KERN_END)
                  (fun _ => 0))))
        else
          stab_setup stack_seg (VIRT2STAB STACK_SEG_ADDR) (VIRT2STAB USER_END)
            (stab_fill null_seg (VIRT2STAB USER_START) (VIRT2STAB (STACK_SEG_ADDR - 1))
              (stab_fill zero_seg (VIRT2STAB KERN_START) (VIRT2STAB KERN_END)
                (fun _ => 0))),
        tm.brk_start, tm.brk_end, tm.dynldlnk_loaded, null_seg, zero_seg⟩ := by
  unfold tagmap_alloc
  rw [h1]
  dsimp only
  rw [h2]
  dsimp only
  rw [h3]
  dsimp only
  rw [h4]

theorem stab_bounds :
    VIRT2STAB KERN_START = 786432 ∧ VIRT2STAB KERN_END = 1048575 ∧
    VIRT2STAB USER_START = 0 ∧ VIRT2STAB (STACK_SEG_ADDR - 1) = 784383 ∧
    VIRT2STAB STACK_SEG_ADDR = 784384 ∧ VIRT2STAB USER_END = 786431 ∧
    STACK_SEG_ADDR = 3212836864 ∧ STACK_SZ = 8388608 ∧ PAGE_SZ = 4096 := by
  decide

/-- The table `tagmap_alloc` builds, at a page of the kernel range. -/
theorem alloc_table_kernel (vs ve stack_seg zero_seg null_seg p : Nat)
    (h1 : 786432 ≤ p) (h2 : p ≤ 1048575) :
    (if vs ≠ 0 then
        stab_fill zero_seg (VIRT2STAB vs) (VIRT2STAB (u32 (ve + 4294967295)))
          (stab_setup stack_seg (VIRT2STAB STACK_SEG_ADDR) (VIRT2STAB USER_END)
            (stab_fill null_seg (VIRT2STAB USER_START) (VIRT2STAB (STACK_SEG_ADDR - 1))
              (stab_fill zero_seg (VIRT2STAB KERN_START) (VIRT2STAB KERN_END)
                (fun _ => 0))))
      else
        stab_setup stack_seg (VIRT2STAB STACK_SEG_ADDR) (VIRT2STAB USER_END)
          (stab_fill null_seg (VIRT2STAB USER_START) (VIRT2STAB (STACK_SEG_ADDR - 1))
            (stab_fill zero_seg (VIRT2STAB KERN_START) (VIRT2STAB KERN_END)
              (fun _ => 0)))) p =
      u32 (u32 zero_seg + 4294967296 - u32 (STAB2VIRT p)) := by
  obtain ⟨b1, b2, b3, b4, b5, b6, -, -, -⟩ := stab_bounds
  have inner : stab_setup stack_seg (VIRT2STAB STACK_SEG_ADDR) (VIRT2STAB USER_END)
      (stab_fill null_seg (VIRT2STAB USER_START) (VIRT2STAB (STACK_SEG_ADDR - 1))
        (stab_fill zero_seg (VIRT2STAB KERN_START) (VIRT2STAB KERN_END)
          (fun _ => 0))) p = u32 (u32 zero_seg + 4294967296 - u32 (STAB2VIRT p)) := by
    rw [stab_setup_apply, b5, b6, if_neg (by omega), stab_fill_apply, b3, b4,
      if_neg (by omega), stab_fill_apply, b1, b2, if_pos ⟨h1, h2⟩]
  by_cases hv : vs ≠ 0
  · rw [if_pos hv, stab_fill_apply]
    by_cases hp : VIRT2STAB vs ≤ p ∧ p ≤ VIRT2STAB (u32 (ve + 4294967295))
    · rw [if_pos hp]
    · rw [if_neg hp]; exact inner
  · rw [if_neg hv]; exact inner

/-- The table `tagmap_alloc` builds, at a page of the stack range, when the
vDSO loop stays off the stack range. -/
theorem alloc_table_stack (vs ve stack_seg zero_seg null_seg p : Nat)
    (hv : VdsoOffStack vs ve) (h1 : 784384 ≤ p) (h2 : p ≤ 786431) :
    (if vs ≠ 0 then
        stab_fill zero_seg (VIRT2STAB vs) (VIRT2STAB (u32 (ve + 4294967295)))
          (stab_setup stack_seg (VIRT2STAB STACK_SEG_ADDR) (VIRT2STAB USER_END)
            (stab_fill null_seg (VIRT2STAB USER_START) (VIRT2STAB (STACK_SEG_ADDR - 1))
              (stab_fill zero_seg (VIRT2STAB KERN_START) (VIRT2STAB KERN_END)
                (fun _ => 0))))
      else
        stab_setup stack_seg (VIRT2STAB STACK_SEG_ADDR) (VIRT2STAB USER_END)
          (stab_fill null_seg (VIRT2STAB USER_START) (VIRT2STAB (STACK_SEG_ADDR - 1))
            (stab_fill zero_seg (VIRT2STAB KERN_START) (VIRT2STAB KERN_END)
              (fun _ => 0)))) p =
      u32 (u32 stack_seg + 4294967296 - u32 (STAB2VIRT p) +
        u32 ((p - 784384) * PAGE_SZ)) := by
  obtain ⟨-, -, -, -, b5, b6, -, -, -⟩ := stab_bounds
  have inner : stab_setup stack_seg (VIRT2STAB STACK_SEG_ADDR) (VIRT2STAB USER_END)
      (stab_fill null_seg (VIRT2STAB USER_START) (VIRT2STAB (STACK_SEG_ADDR - 1))
        (stab_fill zero_seg (VIRT2STAB KERN_START) (VIRT2STAB KERN_END)
          (fun _ => 0))) p = u32 (u32 stack_seg + 4294967296 - u32 (STAB2VIRT p) +
        u32 ((p - 784384) * PAGE_SZ)) := by
    rw [stab_setup_apply, b5, b6, if_pos ⟨h1, h2⟩]
  by_cases hz : vs ≠ 0
  · rw [if_pos hz, stab_fill_apply]
    rcases hv with h0 | hall
    · exact absurd h0 hz
    · by_cases hp : VIRT2STAB vs ≤ p ∧ p ≤ VIRT2STAB (u32 (ve + 4294967295))
      · have := hall p hp.1 hp.2
        rw [b5, b6] at this
        omega
      · rw [if_neg hp]; exact inner
  · rw [if_neg hz]; exact inner

/-! ## C22: the kernel range resolves into the zero segment -/

/-- C22: when the four mappings of `tagmap_alloc` succeed, it returns a
tagmap in which every address `a` of the kernel range
`0xC0000000 .. 0xFFFFFFFF` has the shadow address
`(a + STAB[a >> 12]) mod 2^32 = zero_seg + (a mod 4096)`, inside the
`PAGE_SZ` bytes of the zero segment. -/
theorem kernel_range_zero_seg (mmap : Nat → Nat → Option Nat) (vs ve : Nat) (tm : Tagmap)
    (stab stack_seg zero_seg null_seg : Nat)
    (h1 : mmap (u32 (STAB_SIZE * 4)) prot_rw = some stab)
    (h2 : mmap STACK_SZ prot_rw = some stack_seg)
    (h3 : mmap PAGE_SZ prot_zero = some zero_seg)
    (h4 : mmap PAGE_SZ PROT_NONE = some null_seg)
    (hz : zero_seg + PAGE_SZ ≤ 4294967296) :
    ∃ tm1, tagmap_alloc mmap vs ve tm = some tm1 ∧ tm1.zero_seg = zero_seg ∧
      ∀ a, 3221225472 ≤ a → a ≤ 4294967295 →
        u32 (a + tm1.STAB (VIRT2STAB a)) = zero_seg + a % 4096 ∧
        zero_seg ≤ u32 (a + tm1.STAB (VIRT2STAB a)) ∧
        u32 (a + tm1.STAB (VIRT2STAB a)) < zero_seg + PAGE_SZ := by
  refine ⟨_, tagmap_alloc_eq mmap vs ve tm stab stack_seg zero_seg null_seg h1 h2 h3 h4,
    rfl, fun a ha1 ha2 => ?_⟩
  have eP : PAGE_SZ = 4096 := rfl
  rw [eP] at hz
  have key : u32 (a + u32 (u32 zero_seg + 4294967296 - u32 (STAB2VIRT (VIRT2STAB a)))) =
      zero_seg + a % 4096 := by
    rw [stab2virt_eq, virt2stab_eq]
    unfold u32
    omega
  have e := alloc_table_kernel vs ve stack_seg zero_seg null_seg (VIRT2STAB a)
    (by rw [virt2stab_eq]; omega) (by rw [virt2stab_eq]; omega)
  refine ⟨(congrArg (fun x => u32 (a + x)) e).trans key, ?_, ?_⟩
  · rw [(congrArg (fun x => u32 (a + x)) e).trans key]; omega
  · rw [(congrArg (fun x => u32 (a + x)) e).trans key, eP]; omega

/-- Witness for C22: the sample allocator, a vDSO at
`0xffffe000 .. 0xfffff000`. -/
theorem kernel_range_zero_seg_witness :
    ∃ tm1, tagmap_alloc sampleMmap 4294959104 4294963200 emptyTagmap = some tm1 ∧
      tm1.zero_seg = 1879048192 ∧
      ∀ a, 3221225472 ≤ a → a ≤ 4294967295 →
        u32 (a + tm1.STAB (VIRT2STAB a)) = 1879048192 + a % 4096 ∧
        1879048192 ≤ u32 (a + tm1.STAB (VIRT2STAB a)) ∧
        u32 (a + tm1.STAB (VIRT2STAB a)) < 1879048192 + PAGE_SZ :=
  kernel_range_zero_seg sampleMmap 4294959104 4294963200 emptyTagmap 1342177280 1610612736
    1879048192 1879052288 rfl rfl rfl rfl (by decide)

/-! ## C23: the stack range resolves into the stack segment -/

/-- C23: when the four mappings of `tagmap_alloc` succeed and the vDSO, if
found, does not lie in the stack range, every address `a` of
`0xBF800000 .. 0xBFFFFFFF` has the shadow address
`(a + STAB[a >> 12]) mod 2^32 = stack_seg + (a - 0xBF800000)`, inside the
`STACK_SZ` bytes of the stack segment, and two distinct addresses of the range
have distinct shadow bytes. -/
theorem stack_range_stack_seg (mmap : Nat → Nat → Option Nat) (vs ve : Nat) (tm : Tagmap)
    (stab stack_seg zero_seg null_seg : Nat)
    (h1 : mmap (u32 (STAB_SIZE * 4)) prot_rw = some stab)
    (h2 : mmap STACK_SZ prot_rw = some stack_seg)
    (h3 : mmap PAGE_SZ prot_zero = some zero_seg)
    (h4 : mmap PAGE_SZ PROT_NONE = some null_seg)
    (hs : stack_seg + STACK_SZ ≤ 4294967296)
    (hv : VdsoOffStack vs ve) :
    ∃ tm1, tagmap_alloc mmap vs ve tm = some tm1 ∧
      (∀ a, 3212836864 ≤ a → a ≤ 3221225471 →
        u32 (a + tm1.STAB (VIRT2STAB a)) = stack_seg + (a - 3212836864) ∧
        stack_seg ≤ u32 (a + tm1.STAB (VIRT2STAB a)) ∧
        u32 (a + tm1.STAB (VIRT2STAB a)) < stack_seg + STACK_SZ) ∧
      (∀ a b, 3212836864 ≤ a → a ≤ 3221225471 → 3212836864 ≤ b → b ≤ 3221225471 →
        a ≠ b → u32 (a + tm1.STAB (VIRT2STAB a)) ≠ u32 (b + tm1.STAB (VIRT2STAB b))) := by
  have eP : PAGE_SZ = 4096 := rfl
  have eS : STACK_SZ = 8388608 := rfl
  rw [eS] at hs
  have key : ∀ a, 3212836864 ≤ a → a ≤ 3221225471 →
      u32 (a + (if vs ≠ 0 then
        stab_fill zero_seg (VIRT2STAB vs) (VIRT2STAB (u32 (ve + 4294967295)))
          (stab_setup stack_seg (VIRT2STAB STACK_SEG_ADDR) (VIRT2STAB USER_END)
            (stab_fill null_seg (VIRT2STAB USER_START) (VIRT2STAB (STACK_SEG_ADDR - 1))
              (stab_fill zero_seg (VIRT2STAB KERN_START) (VIRT2STAB KERN_END)
                (fun _ => 0))))
      else
        stab_setup stack_seg (VIRT2STAB STACK_SEG_ADDR) (VIRT2STAB USER_END)
          (stab_fill null_seg (VIRT2STAB USER_START) (VIRT2STAB (STACK_SEG_ADDR - 1))
            (stab_fill zero_seg (VIRT2STAB KERN_START) (VIRT2STAB KERN_END)
              (fun _ => 0)))) (VIRT2STAB a)) = stack_seg + (a - 3212836864) := by
    intro a ha1 ha2
    rw [alloc_table_stack vs ve stack_seg zero_seg null_seg (VIRT2STAB a) hv
      (by rw [virt2stab_eq]; omega) (by rw [virt2stab_eq]; omega),
      stab2virt_eq, virt2stab_eq, eP]
    unfold u32
    omega
  refine ⟨_, tagmap_alloc_eq mmap vs ve tm stab stack_seg zero_seg null_seg h1 h2 h3 h4,
    fun a ha1 ha2 => ?_, fun a b ha1 ha2 hb1 hb2 hab => ?_⟩
  · refine ⟨key a ha1 ha2, ?_, ?_⟩
    · rw [key a ha1 ha2]; omega
    · rw [key a ha1 ha2, eS]; omega
  · rw [key a ha1 ha2, key b hb1 hb2]; omega

/-- Witness for C23: the sample allocator, a vDSO at
`0xffffe000 .. 0xfffff000`. -/
theorem stack_range_stack_seg_witness :
    ∃ tm1, tagmap_alloc sampleMmap 4294959104 4294963200 emptyTagmap = some tm1 ∧
      (∀ a, 3212836864 ≤ a → a ≤ 3221225471 →
        u32 (a + tm1.STAB (VIRT2STAB a)) = 1610612736 + (a - 3212836864) ∧
        1610612736 ≤ u32 (a + tm1.STAB (VIRT2STAB a)) ∧
        u32 (a + tm1.STAB (VIRT2STAB a)) < 1610612736 + STACK_SZ) ∧
      (∀ a b, 3212836864 ≤ a → a ≤ 3221225471 → 3212836864 ≤ b → b ≤ 3221225471 →
        a ≠ b → u32 (a + tm1.STAB (VIRT2STAB a)) ≠ u32 (b + tm1.STAB (VIRT2STAB b))) :=
  stack_range_stack_seg sampleMmap 4294959104 4294963200 emptyTagmap 1342177280 1610612736
    1879048192 1879052288 rfl rfl rfl rfl (by decide)
    (Or.inr (fun i h1 h2 => Or.inr (by
      have e1 : VIRT2STAB 4294959104 = 1048574 := by decide
      have e2 : VIRT2STAB USER_END = 786431 := by decide
      rw [e1] at h1
      rw [e2]
      omega)))

/-! ## C24: the protection requested for the zero segment -/

/-- C24, the code evaluated: the protection `tagmap_alloc` passes to `mmap`
for the zero segment, `PROT_READ | ~PROT_WRITE | ~PROT_EXEC`, is `0xFFFFFFFF`:
the read bit is set, but so are the write bit and the execute bit.  An
allocator that grants page mappings only without access or read-only refuses
it, so `tagmap_alloc` fails there, while it succeeds with an allocator that
grants every request. -/
theorem zero_seg_protection_value :
    prot_zero = 4294967295 ∧
    prot_zero &&& PROT_READ = PROT_READ ∧
    prot_zero &&& PROT_WRITE = PROT_WRITE ∧
    prot_zero &&& PROT_EXEC = PROT_EXEC ∧
    prot_zero ≠ PROT_READ ∧
    tagmap_alloc strictMmap 0 0 emptyTagmap = none ∧
    (tagmap_alloc sampleMmap 0 0 emptyTagmap).isSome = true ∧
    sampleMmap PAGE_SZ 4294967295 = some 1879048192 := by
  refine ⟨by decide, by decide, by decide, by decide, by decide, rfl, rfl, rfl⟩

/-! ## C25: loader detection -/

/-- With the loader flag set, `elf_load` returns at once. -/
theorem elf_load_loaded (mmap : Nat → Option Nat) (tm : Tagmap) (img : IMG)
    (h : tm.dynldlnk_loaded = 1) : elf_load mmap tm img = some tm := by
  unfold elf_load
  rw [if_pos h]

theorem elf_load_seq_loaded (tm : Tagmap) (h : tm.dynldlnk_loaded = 1) :
    ∀ later : List ((Nat → Option Nat) × IMG), elf_load_seq tm later = some tm := by
  intro later
  induction later with
  | nil => rfl
  | cons c rest ih =>
    show (match elf_load c.1 tm c.2 with
      | none => none
      | some tm1 => elf_load_seq tm1 rest) = _
    rw [elf_load_loaded c.1 tm c.2 h]
    exact ih

/-- What `elf_load` returns when the loader flag is not set and the mapping
succeeds. -/
theorem elf_load_eq (mmap : Nat → Option Nat) (tm : Tagmap) (img : IMG) (tseg : Nat)
    (hld : tm.dynldlnk_loaded ≠ 1)
    (hmap : mmap (u32 (PAGE_ALIGN img.high + 4294967296 - PAGE_ALIGN img.low + PAGE_SZ)) =
      some tseg) :
    elf_load mmap tm img =
      some ⟨stab_setup tseg (VIRT2STAB img.low) (VIRT2STAB img.high) tm.STAB,
        if tm.brk_end = 0 then u32 (PAGE_ALIGN img.high + PAGE_SZ) else tm.brk_start,
        if tm.brk_end = 0 then u32 (PAGE_ALIGN img.high + PAGE_SZ) else tm.brk_end,
        if IMG_Name img = DYNLDLNK ∨ IMG_Type img = IMG_TYPE.STATIC then 1
        else tm.dynldlnk_loaded,
        tm.null_seg, tm.zero_seg⟩ := by
  unfold elf_load
  rw [if_neg hld]
  show (match mmap (u32 (PAGE_ALIGN img.high + 4294967296 - PAGE_ALIGN img.low +
    PAGE_SZ)) with
    | none => none
    | some tseg => _) = _
  rw [hmap]
  rfl

/-- C25: while the loader flag is not set, a call of `elf_load` (whose mapping
succeeds) does rewrite the table entries of the image it is given; when that
image is named `/lib/ld-linux.so.2` or is of static type the flag becomes 1,
and from then on every call of `elf_load`, for any image and allocator, and
every series of such calls returns the tagmap unchanged (no table entry,
`brk_start` or `brk_end` changes); for any other image the flag keeps its
value. -/
theorem loader_detection (mmap : Nat → Option Nat) (tm : Tagmap) (img : IMG) (tseg : Nat)
    (hld : tm.dynldlnk_loaded ≠ 1)
    (hmap : mmap (u32 (PAGE_ALIGN img.high + 4294967296 - PAGE_ALIGN img.low + PAGE_SZ)) =
      some tseg) :
    ∃ tm1, elf_load mmap tm img = some tm1 ∧
      (∀ i, VIRT2STAB img.low ≤ i → i ≤ VIRT2STAB img.high →
        tm1.STAB i = u32 (u32 tseg + 4294967296 - u32 (STAB2VIRT i) +
          u32 ((i - VIRT2STAB img.low) * PAGE_SZ))) ∧
      (IMG_Name img = DYNLDLNK ∨ IMG_Type img = IMG_TYPE.STATIC →
        tm1.dynldlnk_loaded = 1 ∧
        (∀ (mmap2 : Nat → Option Nat) (img2 : IMG), elf_load mmap2 tm1 img2 = some tm1) ∧
        (∀ later : List ((Nat → Option Nat) × IMG), elf_load_seq tm1 later = some tm1)) ∧
      (¬ (IMG_Name img = DYNLDLNK ∨ IMG_Type img = IMG_TYPE.STATIC) →
        tm1.dynldlnk_loaded = tm.dynldlnk_loaded) := by
  refine ⟨_, elf_load_eq mmap tm img tseg hld hmap, fun i h1 h2 => ?_, fun hl => ?_,
    fun hl => ?_⟩
  · show stab_setup tseg (VIRT2STAB img.low) (VIRT2STAB img.high) tm.STAB i = _
    rw [stab_setup_apply, if_pos ⟨h1, h2⟩]
  · have e : (if IMG_Name img = DYNLDLNK ∨ IMG_Type img = IMG_TYPE.STATIC then 1
        else tm.dynldlnk_loaded) = 1 := if_pos hl
    exact ⟨e, fun mmap2 img2 => elf_load_loaded mmap2 _ img2 e,
      elf_load_seq_loaded _ e⟩
  · exact if_neg hl

/-- Witness for C25: the dynamic linker/loader is loaded into an empty tagmap;
afterwards the sample image changes nothing. -/
theorem loader_detection_witness :
    ∃ tm1, elf_load (fun _ => some 1342177280) emptyTagmap loaderImg = some tm1 ∧
      tm1.dynldlnk_loaded = 1 ∧
      elf_load (fun _ => some 1610612736) tm1 sampleImg = some tm1 ∧
      tm1.STAB 262144 = 268435456 := by
  obtain ⟨tm1, h1, h2, h3, -⟩ := loader_detection (fun _ => some 1342177280) emptyTagmap
    loaderImg 1342177280 (by decide) rfl
  exact ⟨tm1, h1, (h3 (Or.inl (by decide))).1, (h3 (Or.inl (by decide))).2.1 _ _,
    (h2 262144 (by decide) (by decide)).trans (by decide)⟩

/-! ## C21: collapsed mode -/

/-- What the collapsed `elf_load` returns when the loader flag is not set, the
forward pass ends with a last read-only section and a writeable section, and
the mapping succeeds. -/
theorem elf_load_collapse_eq (mmap : Nat → Option Nat) (tm : Tagmap) (img : IMG)
    (lread wsec : SEC) (rest : List SEC) (tseg : Nat)
    (hld : tm.dynldlnk_loaded ≠ 1)
    (hpass : leading_ro img.secs none = (some lread, wsec :: rest))
    (hw : wsec.writeable = true)
    (hmap : mmap (u32 (PAGE_ALIGN img.high + 4294967296 - PAGE_ALIGN wsec.address +
      PAGE_SZ)) = some tseg) :
    elf_load_collapse mmap tm img =
      some ⟨stab_setup tseg (VIRT2STAB wsec.address) (VIRT2STAB img.high)
          (stab_fill tm.zero_seg (VIRT2STAB img.low)
            (VIRT2STAB (u32 (lread.address + lread.size + 4294967295))) tm.STAB),
        if tm.brk_end = 0 then u32 (PAGE_ALIGN img.high + PAGE_SZ) else tm.brk_start,
        if tm.brk_end = 0 then u32 (PAGE_ALIGN img.high + PAGE_SZ) else tm.brk_end,
        if IMG_Name img = DYNLDLNK ∨ IMG_Type img = IMG_TYPE.STATIC then 1
        else tm.dynldlnk_loaded,
        tm.null_seg, tm.zero_seg⟩ := by
  unfold elf_load_collapse
  rw [if_neg hld]
  have hp : leading_ro (IMG_SecHead img) none = (some lread, wsec :: rest) := hpass
  simp only [hp]
  have hw2 : SEC_IsWriteable wsec = true := hw
  rw [if_pos hw2]
  have hm : mmap (u32 (PAGE_ALIGN (IMG_HighAddress img) + 4294967296 -
      PAGE_ALIGN (SEC_Address wsec) + PAGE_SZ)) = some tseg := hmap
  simp only [hm]
  rfl

/-- The forward pass stops at a writeable section. -/
theorem leading_ro_stop (l : List SEC) :
    ∀ (x y : Option SEC) (sec : SEC) (rest : List SEC),
      leading_ro l x = (y, sec :: rest) → sec.writeable = true := by
  induction l with
  | nil => intro x y sec rest h; cases h
  | cons s tl ih =>
    intro x y sec rest h
    unfold leading_ro at h
    by_cases hs : SEC_IsWriteable s = true
    · rw [if_pos hs] at h
      have e : s = sec := (List.cons.inj (Prod.mk.inj h).2).1
      rw [← e]; exact hs
    · rw [if_neg hs] at h
      exact ih _ _ _ _ h

/-- C21, as stated, fails when the last leading read-only section and the
first writeable section share a page: the second loop of `elf_load` points
that page at the fresh segment, so the image's low address `0x08048000`, a
byte of the read-only section, resolves to the start of the fresh segment
(`0x50000000`) and not into the zero segment (`0x70000000 .. 0x70000fff`). -/
theorem collapse_shared_page_counterexample :
    leading_ro sharedPageImg.secs none =
      (some ⟨134512640, 2048, false, true⟩, [⟨134514944, 4096, true, true⟩]) ∧
    ∃ tm1, elf_load_collapse (fun _ => some 1342177280) zeroSegTagmap sharedPageImg =
        some tm1 ∧
      tm1.zero_seg = 1879048192 ∧
      sharedPageImg.low ≤ 134512640 ∧ 134512640 ≤ 134512640 + 2048 - 1 ∧
      u32 (134512640 + tm1.STAB (VIRT2STAB 134512640)) = 1342177280 ∧
      ¬ (1879048192 ≤ 1342177280 ∧ 1342177280 < 1879048192 + PAGE_SZ) := by
  refine ⟨by decide, _, elf_load_collapse_eq (fun _ => some 1342177280) zeroSegTagmap
    sharedPageImg ⟨134512640, 2048, false, true⟩ ⟨134514944, 4096, true, true⟩ []
    1342177280 (by decide) (by decide) rfl rfl, rfl, by decide, by decide, ?_, by decide⟩
  have key : u32 (134512640 + stab_setup 1342177280 (VIRT2STAB 134514944)
      (VIRT2STAB 134520831)
      (stab_fill 1879048192 (VIRT2STAB 134512640)
        (VIRT2STAB (u32 (134512640 + 2048 + 4294967295))) (fun _ => 0))
      (VIRT2STAB 134512640)) = 1342177280 := by
    rw [stab_setup_apply, if_pos (by decide)]
    decide
  exact key

/-- C21, amended: when the collapsed `elf_load` processes an image whose
forward pass ends with a last mapped read-only section `lread` and a first
writeable section `wsec`, and the fresh segment is mapped at `tseg`, then
every address `a` from the image's low address to the last byte of `lread`
whose page lies below the page of `wsec` resolves into the zero segment, at
`zero_seg + (a mod 4096)`, and every address from `wsec`'s address to the
image's high address resolves into the fresh segment, at
`tseg + (a - PAGE_ALIGN(wsec address))`. -/
theorem collapse_maps_image (mmap : Nat → Option Nat) (tm : Tagmap) (img : IMG)
    (lread wsec : SEC) (rest : List SEC) (tseg : Nat)
    (hld : tm.dynldlnk_loaded ≠ 1)
    (hpass : leading_ro img.secs none = (some lread, wsec :: rest))
    (hH : img.high < 4294967296) (hW : wsec.address ≤ img.high)
    (hsz : 1 ≤ lread.size) (hE : lread.address + lread.size ≤ 4294967296)
    (hmap : mmap (u32 (PAGE_ALIGN img.high + 4294967296 - PAGE_ALIGN wsec.address +
      PAGE_SZ)) = some tseg)
    (hext : tseg + (PAGE_ALIGN img.high - PAGE_ALIGN wsec.address + PAGE_SZ) ≤ 4294967296)
    (hz : tm.zero_seg + PAGE_SZ ≤ 4294967296) :
    ∃ tm1, elf_load_collapse mmap tm img = some tm1 ∧ tm1.zero_seg = tm.zero_seg ∧
      (∀ a, img.low ≤ a → a ≤ lread.address + lread.size - 1 →
        VIRT2STAB a < VIRT2STAB wsec.address →
        u32 (a + tm1.STAB (VIRT2STAB a)) = tm.zero_seg + a % 4096 ∧
        tm.zero_seg ≤ u32 (a + tm1.STAB (VIRT2STAB a)) ∧
        u32 (a + tm1.STAB (VIRT2STAB a)) < tm.zero_seg + PAGE_SZ) ∧
      (∀ a, wsec.address ≤ a → a ≤ img.high →
        u32 (a + tm1.STAB (VIRT2STAB a)) = tseg + (a - PAGE_ALIGN wsec.address) ∧
        tseg ≤ u32 (a + tm1.STAB (VIRT2STAB a)) ∧
        u32 (a + tm1.STAB (VIRT2STAB a)) <
          tseg + (PAGE_ALIGN img.high - PAGE_ALIGN wsec.address + PAGE_SZ)) := by
  have hw := leading_ro_stop img.secs none (some lread) wsec rest hpass
  have eP : PAGE_SZ = 4096 := rfl
  have eW := page_align_eq wsec.address (by omega)
  have eH := page_align_eq img.high hH
  rw [eP] at hz
  rw [eW, eH, eP] at hext
  have eE : u32 (lread.address + lread.size + 4294967295) =
      lread.address + lread.size - 1 := by
    unfold u32; omega
  refine ⟨_, elf_load_collapse_eq mmap tm img lread wsec rest tseg hld hpass hw hmap, rfl,
    fun a h1 h2 h3 => ?_, fun a h1 h2 => ?_⟩
  · have key : u32 (a + stab_setup tseg (VIRT2STAB wsec.address) (VIRT2STAB img.high)
        (stab_fill tm.zero_seg (VIRT2STAB img.low)
          (VIRT2STAB (u32 (lread.address + lread.size + 4294967295))) tm.STAB)
        (VIRT2STAB a)) = tm.zero_seg + a % 4096 := by
      rw [stab_setup_apply, if_neg (by omega), stab_fill_apply, eE,
        if_pos (by rw [virt2stab_eq, virt2stab_eq, virt2stab_eq]; omega),
        stab2virt_eq, virt2stab_eq]
      unfold u32
      omega
    refine ⟨key, ?_, ?_⟩
    · show tm.zero_seg ≤ u32 (a + stab_setup tseg (VIRT2STAB wsec.address)
        (VIRT2STAB img.high) (stab_fill tm.zero_seg (VIRT2STAB img.low)
          (VIRT2STAB (u32 (lread.address + lread.size + 4294967295))) tm.STAB)
        (VIRT2STAB a))
      rw [key]; omega
    · show u32 (a + stab_setup tseg (VIRT2STAB wsec.address)
        (VIRT2STAB img.high) (stab_fill tm.zero_seg (VIRT2STAB img.low)
          (VIRT2STAB (u32 (lread.address + lread.size + 4294967295))) tm.STAB)
        (VIRT2STAB a)) < _
      rw [key, eP]; omega
  · have key : u32 (a + stab_setup tseg (VIRT2STAB wsec.address) (VIRT2STAB img.high)
        (stab_fill tm.zero_seg (VIRT2STAB img.low)
          (VIRT2STAB (u32 (lread.address + lread.size + 4294967295))) tm.STAB)
        (VIRT2STAB a)) = tseg + (a - PAGE_ALIGN wsec.address) := by
      rw [stab_setup_apply,
        if_pos (by rw [virt2stab_eq, virt2stab_eq, virt2stab_eq]; omega),
        stab2virt_eq, virt2stab_eq, virt2stab_eq, eP, eW]
      unfold u32
      omega
    refine ⟨key, ?_, ?_⟩
    · show tseg ≤ u32 (a + stab_setup tseg (VIRT2STAB wsec.address)
        (VIRT2STAB img.high) (stab_fill tm.zero_seg (VIRT2STAB img.low)
          (VIRT2STAB (u32 (lread.address + lread.size + 4294967295))) tm.STAB)
        (VIRT2STAB a))
      rw [key]; omega
    · show u32 (a + stab_setup tseg (VIRT2STAB wsec.address)
        (VIRT2STAB img.high) (stab_fill tm.zero_seg (VIRT2STAB img.low)
          (VIRT2STAB (u32 (lread.address + lread.size + 4294967295))) tm.STAB)
        (VIRT2STAB a)) < _
      rw [key, eW, eH, eP]; omega

/-- Witness for C21: an image whose read-only section ends two pages below
its first writeable section. -/
theorem collapse_maps_image_witness :
    ∃ tm1, elf_load_collapse (fun _ => some 1342177280) zeroSegTagmap splitImg = some tm1 ∧
      tm1.zero_seg = zeroSegTagmap.zero_seg ∧
      (∀ a, splitImg.low ≤ a → a ≤ 134512640 + 8192 - 1 →
        VIRT2STAB a < VIRT2STAB 134524672 →
        u32 (a + tm1.STAB (VIRT2STAB a)) = zeroSegTagmap.zero_seg + a % 4096 ∧
        zeroSegTagmap.zero_seg ≤ u32 (a + tm1.STAB (VIRT2STAB a)) ∧
        u32 (a + tm1.STAB (VIRT2STAB a)) < zeroSegTagmap.zero_seg + PAGE_SZ) ∧
      (∀ a, 134524672 ≤ a → a ≤ splitImg.high →
        u32 (a + tm1.STAB (VIRT2STAB a)) = 1342177280 + (a - PAGE_ALIGN 134524672) ∧
        1342177280 ≤ u32 (a + tm1.STAB (VIRT2STAB a)) ∧
        u32 (a + tm1.STAB (VIRT2STAB a)) <
          1342177280 + (PAGE_ALIGN splitImg.high - PAGE_ALIGN 134524672 + PAGE_SZ)) :=
  collapse_maps_image (fun _ => some 1342177280) zeroSegTagmap splitImg
    ⟨134512640, 8192, false, true⟩ ⟨134524672, 4096, true, true⟩ [] 1342177280
    (by decide) (by decide) (by decide) (by decide) (by decide) (by decide) rfl
    (by decide) (by decide)

/-! ## C31, C32: the classifier as a whole -/

theorem allB_nil (P : Binding → Prop) : AllB P [] := by
  intro b hb; cases hb

theorem allB_cons (P : Binding → Prop) (b : Binding) (l : List Binding) (h : P b)
    (hl : AllB P l) : AllB P (b :: l) := by
  intro c hc
  rcases List.mem_cons.mp hc with e | e
  · rw [e]; exact h
  · exact hl c e

theorem allB_append (P : Binding → Prop) (l1 l2 : List Binding) (h1 : AllB P l1)
    (h2 : AllB P l2) : AllB P (l1 ++ l2) := by
  intro c hc
  rcases List.mem_append.mp hc with e | e
  · exact h1 c e
  · exact h2 c e

theorem allB_ite (P : Binding → Prop) (c : Prop) [Decidable c] (l1 l2 : List Binding)
    (h1 : AllB P l1) (h2 : AllB P l2) : AllB P (if c then l1 else l2) := by
  by_cases h : c
  · rw [if_pos h]; exact h1
  · rw [if_neg h]; exact h2

theorem before_binary (ix : RegIndx) (ins : INS) :
    AllB (fun b => b.ipoint = .BEFORE) (ins_inspect_binary ix ins) := by
  unfold ins_inspect_binary
  dsimp only
  repeat' (first
    | exact allB_nil _
    | apply allB_ite
    | refine allB_cons _ _ _ (by rfl) ?_
    | split)

theorem before_mov (ix : RegIndx) (ins : INS) :
    AllB (fun b => b.ipoint = .BEFORE) (ins_inspect_mov ix ins) := by
  unfold ins_inspect_mov
  dsimp only
  repeat' (first
    | exact allB_nil _
    | apply allB_ite
    | refine allB_cons _ _ _ (by rfl) ?_)

theorem before_cmov (ix : RegIndx) (ins : INS) :
    AllB (fun b => b.ipoint = .BEFORE) (ins_inspect_cmov ix ins) := by
  unfold ins_inspect_cmov
  dsimp only
  repeat' (first
    | exact allB_nil _
    | apply allB_ite
    | refine allB_cons _ _ _ (by rfl) ?_)

theorem before_movsx (ix : RegIndx) (ins : INS) :
    AllB (fun b => b.ipoint = .BEFORE) (ins_inspect_movsx ix ins) := by
  unfold ins_inspect_movsx
  dsimp only
  repeat' (first
    | exact allB_nil _
    | apply allB_ite
    | refine allB_cons _ _ _ (by rfl) ?_)

theorem before_movzx (ix : RegIndx) (ins : INS) :
    AllB (fun b => b.ipoint = .BEFORE) (ins_inspect_movzx ix ins) := by
  unfold ins_inspect_movzx
  dsimp only
  repeat' (first
    | exact allB_nil _
    | apply allB_ite
    | refine allB_cons _ _ _ (by rfl) ?_)

theorem before_mul (ix : RegIndx) (ins : INS) :
    AllB (fun b => b.ipoint = .BEFORE) (ins_inspect_mul ix ins) := by
  unfold ins_inspect_mul
  dsimp only
  repeat' (first
    | exact allB_nil _
    | apply allB_ite
    | refine allB_cons _ _ _ (by rfl) ?_)

theorem before_imul (ix : RegIndx) (ins : INS) :
    AllB (fun b => b.ipoint = .BEFORE) (ins_inspect_imul ix ins) := by
  unfold ins_inspect_imul
  dsimp only
  repeat' (first
    | exact allB_nil _
    | apply allB_ite
    | refine allB_cons _ _ _ (by rfl) ?_)

theorem before_setcc (ix : RegIndx) (ins : INS) :
    AllB (fun b => b.ipoint = .BEFORE) (ins_inspect_setcc ix ins) := by
  unfold ins_inspect_setcc
  dsimp only
  repeat' (first
    | exact allB_nil _
    | apply allB_ite
    | refine allB_cons _ _ _ (by rfl) ?_)

theorem before_smsw (ix : RegIndx) (ins : INS) :
    AllB (fun b => b.ipoint = .BEFORE) (ins_inspect_smsw ix ins) := by
  unfold ins_inspect_smsw
  dsimp only
  repeat' (first
    | exact allB_nil _
    | apply allB_ite
    | refine allB_cons _ _ _ (by rfl) ?_)

theorem before_lar (ix : RegIndx) (ins : INS) :
    AllB (fun b => b.ipoint = .BEFORE) (ins_inspect_lar ix ins) := by
  unfold ins_inspect_lar
  dsimp only
  repeat' (first
    | exact allB_nil _
    | apply allB_ite
    | refine allB_cons _ _ _ (by rfl) ?_)

theorem before_cmpxchg (ix : RegIndx) (ins : INS) :
    AllB (fun b => b.ipoint = .BEFORE) (ins_inspect_cmpxchg ix ins) := by
  unfold ins_inspect_cmpxchg
  dsimp only
  repeat' (first
    | exact allB_nil _
    | apply allB_ite
    | refine allB_cons _ _ _ (by rfl) ?_)

theorem before_xchg (ix : RegIndx) (ins : INS) :
    AllB (fun b => b.ipoint = .BEFORE) (ins_inspect_xchg ix ins) := by
  unfold ins_inspect_xchg xchg_via_scratch
  dsimp only
  repeat' (first
    | exact allB_nil _
    | apply allB_ite
    | refine allB_cons _ _ _ (by rfl) ?_)

theorem before_xadd (ix : RegIndx) (ins : INS) :
    AllB (fun b => b.ipoint = .BEFORE) (ins_inspect_xadd ix ins) := by
  unfold ins_inspect_xadd xchg_via_scratch
  dsimp only
  repeat' (first
    | exact allB_nil _
    | apply allB_ite
    | apply allB_append
    | refine allB_cons _ _ _ (by rfl) ?_)

theorem before_pop (ix : RegIndx) (ins : INS) :
    AllB (fun b => b.ipoint = .BEFORE) (ins_inspect_pop ix ins) := by
  unfold ins_inspect_pop
  dsimp only
  repeat' (first
    | exact allB_nil _
    | apply allB_ite
    | refine allB_cons _ _ _ (by rfl) ?_)

theorem before_push (ix : RegIndx) (ins : INS) :
    AllB (fun b => b.ipoint = .BEFORE) (ins_inspect_push ix ins) := by
  unfold ins_inspect_push
  dsimp only
  repeat' (first
    | exact allB_nil _
    | apply allB_ite
    | refine allB_cons _ _ _ (by rfl) ?_)

theorem before_call_near (ins : INS) :
    AllB (fun b => b.ipoint = .BEFORE) (ins_inspect_call_near ins) := by
  unfold ins_inspect_call_near
  dsimp only
  repeat' (first
    | exact allB_nil _
    | apply allB_ite
    | refine allB_cons _ _ _ (by rfl) ?_)

theorem before_leave (ix : RegIndx) (ins : INS) :
    AllB (fun b => b.ipoint = .BEFORE) (ins_inspect_leave ix ins) := by
  unfold ins_inspect_leave
  dsimp only
  repeat' (first
    | exact allB_nil _
    | apply allB_ite
    | refine allB_cons _ _ _ (by rfl) ?_)

theorem before_lea (ix : RegIndx) (ins : INS) :
    AllB (fun b => b.ipoint = .BEFORE) (ins_inspect_lea ix ins) := by
  unfold ins_inspect_lea
  dsimp only
  repeat' (first
    | exact allB_nil _
    | apply allB_ite
    | apply allB_append
    | refine allB_cons _ _ _ (by rfl) ?_)

theorem before_movs (blockRule rule : AFUNPTR) (ins : INS) :
    AllB (fun b => b.ipoint = .BEFORE) (ins_inspect_movs blockRule rule ins) := by
  unfold ins_inspect_movs
  repeat' (first
    | exact allB_nil _
    | apply allB_ite
    | refine allB_cons _ _ _ (by rfl) ?_)

theorem before_ins_inspect (ix : RegIndx) (ins : INS) :
    AllB (fun b => b.ipoint = .BEFORE) (ins_inspect ix ins) := by
  have key : ∀ op, ins.opcode = op → AllB (fun b => b.ipoint = .BEFORE) (ins_inspect ix ins) := by
    intro op ho
    cases op <;> simp only [ins_inspect, INS_Opcode, ho, xed_iclass.rank, Nat.le_zero_eq,
        OfNat.ofNat_ne_zero, ge_iff_le, Nat.not_ofNat_le_one, or_self, if_false,
        one_ne_zero, le_refl, or_true, if_true, true_or, Nat.zero_le,
        le_add_iff_nonneg_right, ite_self] <;>
      first
      | with_reducible exact allB_nil _
      | with_reducible exact before_binary ix ins
      | with_reducible exact before_mov ix ins
      | with_reducible exact before_cmov ix ins
      | with_reducible exact before_movsx ix ins
      | with_reducible exact before_movzx ix ins
      | with_reducible exact before_mul ix ins
      | with_reducible exact before_imul ix ins
      | with_reducible exact before_setcc ix ins
      | with_reducible exact before_smsw ix ins
      | with_reducible exact before_lar ix ins
      | with_reducible exact before_cmpxchg ix ins
      | with_reducible exact before_xchg ix ins
      | with_reducible exact before_xadd ix ins
      | with_reducible exact before_movs _ _ ins
      | with_reducible exact before_pop ix ins
      | with_reducible exact before_push ix ins
      | with_reducible exact before_call_near ins
      | with_reducible exact before_leave ix ins
      | with_reducible exact before_lea ix ins
      | exact allB_cons _ _ _ (by rfl) (allB_nil _)
  exact key _ rfl

theorem ins_inspect_cmov_eq (ix : RegIndx) (ins : INS) (h : isCmovcc ins.opcode = true) :
    ins_inspect ix ins = ins_inspect_cmov ix ins := by
  cases ho : ins.opcode <;> rw [ho] at h <;>
    first
    | (simp [isCmovcc] at h; done)
    | simp [ins_inspect, ho]

theorem predicated_cmov (ix : RegIndx) (ins : INS) :
    AllB (fun b => b.how = .PredicatedCall) (ins_inspect_cmov ix ins) := by
  unfold ins_inspect_cmov
  dsimp only
  repeat' (first
    | exact allB_nil _
    | apply allB_ite
    | refine allB_cons _ _ _ (by rfl) ?_)

theorem predicated_setcc (ix : RegIndx) (ins : INS) :
    AllB (fun b => b.how = .PredicatedCall) (ins_inspect_setcc ix ins) := by
  unfold ins_inspect_setcc
  dsimp only
  repeat' (first
    | exact allB_nil _
    | apply allB_ite
    | refine allB_cons _ _ _ (by rfl) ?_)

theorem foldl_step_predicated (env : Env) (hp : env.predicate = false) (l : List Binding)
    (hl : AllB (fun b => b.how = .PredicatedCall) l) (acc : State × Nat) :
    l.foldl (step env) acc = acc := by
  induction l generalizing acc with
  | nil => rfl
  | cons b rest ih =>
    have hb : b.how = .PredicatedCall := hl b (List.mem_cons_self _ _)
    have e : step env acc b = acc := by
      unfold step
      rw [hb]
      simp [hp]
    rw [List.foldl_cons, e]
    exact ih (fun c hc => hl c (List.mem_cons_of_mem _ hc)) acc

/-- C31: unknown opcode classes are ignored.  For an opcode value at or below
`XED_ICLASS_INVALID` or at or above `XED_ICLASS_LAST`, and for every value
that has no case label in the `switch`, `ins_inspect` returns with an empty
list of bindings, so that running what it installed leaves every tag state
as it is. -/
theorem unknown_opcode_ignored (ix : RegIndx) (ins : INS) (env : Env) (s : State)
    (h : (INS_Opcode ins).rank ≤ xed_iclass.rank .INVALID ∨
      (INS_Opcode ins).rank ≥ xed_iclass.rank .LAST ∨
      has_case_label (INS_Opcode ins) = false) :
    ins_inspect ix ins = [] ∧ run env (ins_inspect ix ins) s = s := by
  have e : ins_inspect ix ins = [] := by
    rcases h with h | h | h
    · unfold ins_inspect; dsimp only; rw [if_pos (Or.inl h)]
    · unfold ins_inspect; dsimp only; rw [if_pos (Or.inr h)]
    · simp only [INS_Opcode] at h
      cases ho : ins.opcode <;> rw [ho] at h <;>
        first
        | (cases h; done)
        | simp [ins_inspect, ho]
  rw [e]
  exact ⟨rfl, rfl⟩

/-- Witness for C31: the bound `XED_ICLASS_LAST` itself, the value two past
it, and an opcode class without a case label. -/
theorem unknown_opcode_ignored_witness :
    (ins_inspect stdIndx (regRegIns .LAST .EAX .EBX) = [] ∧
      run sampleEnv (ins_inspect stdIndx (regRegIns .LAST .EAX .EBX)) sampleState =
        sampleState) ∧
    (ins_inspect stdIndx (regRegIns (.beyond 1) .EAX .EBX) = [] ∧
      run sampleEnv (ins_inspect stdIndx (regRegIns (.beyond 1) .EAX .EBX)) sampleState =
        sampleState) ∧
    (ins_inspect stdIndx (regRegIns (.other 7) .EAX .EBX) = [] ∧
      run sampleEnv (ins_inspect stdIndx (regRegIns (.other 7) .EAX .EBX)) sampleState =
        sampleState) :=
  ⟨unknown_opcode_ignored stdIndx (regRegIns .LAST .EAX .EBX) sampleEnv sampleState
      (Or.inr (Or.inl (by decide))),
   unknown_opcode_ignored stdIndx (regRegIns (.beyond 1) .EAX .EBX) sampleEnv sampleState
      (Or.inr (Or.inl (by decide))),
   unknown_opcode_ignored stdIndx (regRegIns (.other 7) .EAX .EBX) sampleEnv sampleState
      (Or.inr (Or.inr rfl))⟩

/-- C32: every binding `ins_inspect` produces, for every instruction, has
insertion point `IPOINT_BEFORE`; every binding produced for a conditional
move (CMOVcc) or a conditional set (SETcc) is made with
`INS_InsertPredicatedCall`, so that nothing runs when the instruction's
predicate does not hold. -/
theorem bindings_before_and_predicated (ix : RegIndx) (ins : INS) :
    (∀ b, b ∈ ins_inspect ix ins → b.ipoint = .BEFORE) ∧
    (isCmovcc (INS_Opcode ins) = true ∨ isSetcc (INS_Opcode ins) = true →
      (∀ b, b ∈ ins_inspect ix ins → b.how = .PredicatedCall) ∧
      ∀ env s, env.predicate = false → run env (ins_inspect ix ins) s = s) := by
  refine ⟨before_ins_inspect ix ins, fun h => ?_⟩
  have hall : AllB (fun b => b.how = .PredicatedCall) (ins_inspect ix ins) := by
    rcases h with h | h
    · rw [ins_inspect_cmov_eq ix ins h]; exact predicated_cmov ix ins
    · rw [ins_inspect_setcc_eq ix ins h]; exact predicated_setcc ix ins
  exact ⟨hall, fun env s hp => by
    unfold run
    rw [foldl_step_predicated env hp _ hall]⟩

/-- Witness for C32: `cmovz eax, ebx`, `setnz [m]` and `rep movsd`. -/
theorem bindings_before_and_predicated_witness :
    ((∀ b, b ∈ ins_inspect stdIndx (regRegIns .CMOVZ .EAX .EBX) → b.how = .PredicatedCall) ∧
      ∀ env s, env.predicate = false →
        run env (ins_inspect stdIndx (regRegIns .CMOVZ .EAX .EBX)) s = s) ∧
    ((∀ b, b ∈ ins_inspect stdIndx (memIns .SETNZ 8) → b.how = .PredicatedCall) ∧
      ∀ env s, env.predicate = false →
        run env (ins_inspect stdIndx (memIns .SETNZ 8)) s = s) ∧
    (∀ b, b ∈ ins_inspect stdIndx (movsIns .MOVSD true) → b.ipoint = .BEFORE) :=
  ⟨(bindings_before_and_predicated stdIndx (regRegIns .CMOVZ .EAX .EBX)).2 (Or.inl rfl),
   (bindings_before_and_predicated stdIndx (memIns .SETNZ 8)).2 (Or.inr rfl),
   (bindings_before_and_predicated stdIndx (movsIns .MOVSD true)).1⟩

/-! ## C36: store-string instructions -/

/-- Counterexample for C36 as stated: for `rep stosb` the classifier installs
one predicated transfer and no `rep_predicate` gate, and on an iteration that
is not the first one the transfer still runs: the tag of the byte written
goes from 226 to 29, the tag of AL. -/
theorem stos_rep_counterexample :
    INS_RepPrefix (stosIns .STOSB true) = true ∧
    laterIterationEnv.first_rep = false ∧
    ins_inspect stdIndx (stosIns .STOSB true) =
      [INS_InsertPredicatedCall .BEFORE .r2m_xfer_opb_l [.MEMORYWRITE_EA, .UINT32 7]] ∧
    tagmap_getb sampleState 134512640 = 226 ∧
    tagmap_getb (run laterIterationEnv (ins_inspect stdIndx (stosIns .STOSB true)) sampleState)
      134512640 = 29 := by
  refine ⟨rfl, rfl, rfl, by decide, by decide⟩

/-- C36 (amended): for STOSB, STOSW and STOSD, rep-prefixed or not, the
classifier installs exactly one predicated call of the single-element rule
(`r2m_xfer_opb_l`, `r2m_xfer_opw`, `r2m_xfer_opl`) on the address written and
AL / AX / EAX, without a first-iteration gate and without a bulk rule (those
branches are compiled out).  The rule therefore runs at every iteration whose
predicate holds, first or not, and each run copies the accumulator's tag to
the element written and changes nothing else. -/
theorem stos_per_iteration (ix : RegIndx) (ins : INS) (env : Env) (s : State) :
    (INS_Opcode ins = .STOSB →
      ins_inspect ix ins =
        [INS_InsertPredicatedCall .BEFORE .r2m_xfer_opb_l
          [.MEMORYWRITE_EA, .UINT32 (ix.REG8_INDX .AL)]] ∧
      run env (ins_inspect ix ins) s =
        if env.predicate = true then r2m_xfer_opb_l s env.write_ea (ix.REG8_INDX .AL)
        else s) ∧
    (INS_Opcode ins = .STOSW →
      ins_inspect ix ins =
        [INS_InsertPredicatedCall .BEFORE .r2m_xfer_opw
          [.MEMORYWRITE_EA, .UINT32 (ix.REG16_INDX .AX)]] ∧
      run env (ins_inspect ix ins) s =
        if env.predicate = true then r2m_xfer_opw s env.write_ea (ix.REG16_INDX .AX)
        else s) ∧
    (INS_Opcode ins = .STOSD →
      ins_inspect ix ins =
        [INS_InsertPredicatedCall .BEFORE .r2m_xfer_opl
          [.MEMORYWRITE_EA, .UINT32 (ix.REG32_INDX .EAX)]] ∧
      run env (ins_inspect ix ins) s =
        if env.predicate = true then r2m_xfer_opl s env.write_ea (ix.REG32_INDX .EAX)
        else s) ∧
    UpdatesR2M xferOp r2m_xfer_opb_l 1 0 ∧
    UpdatesR2M xferOp r2m_xfer_opw 2 0 ∧
    UpdatesR2M xferOp r2m_xfer_opl 4 0 := by
  refine ⟨fun h => ?_, fun h => ?_, fun h => ?_,
    updatesR2M_of_eq xferOp 1 (by decide) (xferOp_lt 1) _ 0 (fun _ _ _ => rfl),
    updatesR2M_of_eq xferOp 2 (by decide) (xferOp_lt 2) _ 0 (fun _ _ _ => rfl),
    updatesR2M_of_eq xferOp 4 (by decide) (xferOp_lt 4) _ 0 (fun _ _ _ => rfl)⟩
  · have e : ins_inspect ix ins = [INS_InsertPredicatedCall .BEFORE .r2m_xfer_opb_l
        [.MEMORYWRITE_EA, .UINT32 (ix.REG8_INDX .AL)]] := by
      simp only [INS_Opcode] at h
      simp [ins_inspect, h]
    rw [e, run_predicated]
    exact ⟨rfl, rfl⟩
  · have e : ins_inspect ix ins = [INS_InsertPredicatedCall .BEFORE .r2m_xfer_opw
        [.MEMORYWRITE_EA, .UINT32 (ix.REG16_INDX .AX)]] := by
      simp only [INS_Opcode] at h
      simp [ins_inspect, h]
    rw [e, run_predicated]
    exact ⟨rfl, rfl⟩
  · have e : ins_inspect ix ins = [INS_InsertPredicatedCall .BEFORE .r2m_xfer_opl
        [.MEMORYWRITE_EA, .UINT32 (ix.REG32_INDX .EAX)]] := by
      simp only [INS_Opcode] at h
      simp [ins_inspect, h]
    rw [e, run_predicated]
    exact ⟨rfl, rfl⟩

/-- Witness for C36: `rep stosd` on an iteration that is not the first one,
and `stosw` without a prefix. -/
theorem stos_per_iteration_witness :
    (ins_inspect stdIndx (stosIns .STOSD true) =
        [INS_InsertPredicatedCall .BEFORE .r2m_xfer_opl [.MEMORYWRITE_EA, .UINT32 7]] ∧
      run laterIterationEnv (ins_inspect stdIndx (stosIns .STOSD true)) sampleState =
        r2m_xfer_opl sampleState 134512640 7) ∧
    (ins_inspect stdIndx (stosIns .STOSW false) =
        [INS_InsertPredicatedCall .BEFORE .r2m_xfer_opw [.MEMORYWRITE_EA, .UINT32 7]] ∧
      run sampleEnv (ins_inspect stdIndx (stosIns .STOSW false)) sampleState =
        r2m_xfer_opw sampleState 134512640 7) :=
  ⟨(stos_per_iteration stdIndx (stosIns .STOSD true) laterIterationEnv sampleState).2.2.1 rfl,
   (stos_per_iteration stdIndx (stosIns .STOSW false) sampleEnv sampleState).2.1 rfl⟩

/-! ## C37: implicit-operand sign extension -/

theorem extendsInto_of_updates (f : State → Nat → Nat → State) (w dOff sOff : Nat)
    (hw : w = 1 ∨ w = 2 ∨ w = 4) (hU : UpdatesR2R xferOp f w dOff sOff) (s : State)
    (d r : Nat)
    (hpos : 4 * d + dOff = 4 * r + sOff ∨ 4 * r + sOff + w ≤ 4 * d + dOff ∨
      4 * d + dOff + w ≤ 4 * r + sOff) :
    ExtendsInto s (f s d r) w d dOff r sOff := by
  have h := hU s d r
  refine ⟨h.1, ?_, h.2.1, h.2.2.1, h.2.2.2⟩
  rcases hpos with e | e | e
  · rw [← e]; rw [h.1]; show view w s.gpr (4 * r + sOff) = view w s.gpr (4 * d + dOff)
    rw [e]
  · exact view_congr w hw _ _ _ (fun i h1 h2 => h.2.1 i (by omega))
  · exact view_congr w hw _ _ _ (fun i h1 h2 => h.2.1 i (by omega))

theorem cwde_extends (s : State) : ExtendsInto s (_cwde s) 2 7 2 7 0 := by
  have e : _cwde s = (⟨wrw 2 s.gpr (4 * 7 + 2) (view 2 s.gpr (4 * 7 + 0)), s.STAB, s.mem⟩ :
      State) := rfl
  rw [e]
  have h := wrw_view 2 (by decide) s.gpr (4 * 7 + 2) (view 2 s.gpr (4 * 7 + 0))
    (view_lt 2 (by decide) _ _)
  exact ⟨h.1, view_congr 2 (by decide) _ _ _ (fun i h1 h2 => h.2 i (by omega)), h.2, rfl, rfl⟩

/-- C37: the classifier binds CBW to `r2r_xfer_opb_ul` on (AH, AL), CWD to
`r2r_xfer_opw` on (DX, AX), CDQ to `r2r_xfer_opl` on (EDX, EAX) and CWDE to
`_cwde`.  After the rule has run, the destination view (AH, DX, EDX, the
upper half of slot 7) holds the prior tag of the source view (AL, AX, EAX,
the lower half of slot 7); the source view, every other register byte, the
shadow memory and the segment table are unchanged. -/
theorem implicit_sign_extension (ix : RegIndx) (ins : INS) (env : Env) (s : State) :
    (INS_Opcode ins = .CBW →
      ins_inspect ix ins =
        [INS_InsertCall .BEFORE .r2r_xfer_opb_ul
          [.UINT32 (ix.REG8_INDX .AH), .UINT32 (ix.REG8_INDX .AL)]] ∧
      ExtendsInto s (run env (ins_inspect ix ins) s) 1
        (ix.REG8_INDX .AH) 1 (ix.REG8_INDX .AL) 0) ∧
    (INS_Opcode ins = .CWD →
      ins_inspect ix ins =
        [INS_InsertCall .BEFORE .r2r_xfer_opw
          [.UINT32 (ix.REG16_INDX .DX), .UINT32 (ix.REG16_INDX .AX)]] ∧
      ExtendsInto s (run env (ins_inspect ix ins) s) 2
        (ix.REG16_INDX .DX) 0 (ix.REG16_INDX .AX) 0) ∧
    (INS_Opcode ins = .CDQ →
      ins_inspect ix ins =
        [INS_InsertCall .BEFORE .r2r_xfer_opl
          [.UINT32 (ix.REG32_INDX .EDX), .UINT32 (ix.REG32_INDX .EAX)]] ∧
      ExtendsInto s (run env (ins_inspect ix ins) s) 4
        (ix.REG32_INDX .EDX) 0 (ix.REG32_INDX .EAX) 0) ∧
    (INS_Opcode ins = .CWDE →
      ins_inspect ix ins = [INS_InsertCall .BEFORE ._cwde []] ∧
      ExtendsInto s (run env (ins_inspect ix ins) s) 2 7 2 7 0) := by
  refine ⟨fun h => ?_, fun h => ?_, fun h => ?_, fun h => ?_⟩
  · have e : ins_inspect ix ins = [INS_InsertCall .BEFORE .r2r_xfer_opb_ul
        [.UINT32 (ix.REG8_INDX .AH), .UINT32 (ix.REG8_INDX .AL)]] := by
      simp only [INS_Opcode] at h
      simp [ins_inspect, h]
    rw [e, run_call]
    exact ⟨rfl, extendsInto_of_updates r2r_xfer_opb_ul 1 1 0 (by decide)
      (updatesR2R_of_eq xferOp 1 (by decide) (xferOp_lt 1) _ 1 0 (fun _ _ _ => rfl)) s _ _
      (by omega)⟩
  · have e : ins_inspect ix ins = [INS_InsertCall .BEFORE .r2r_xfer_opw
        [.UINT32 (ix.REG16_INDX .DX), .UINT32 (ix.REG16_INDX .AX)]] := by
      simp only [INS_Opcode] at h
      simp [ins_inspect, h]
    rw [e, run_call]
    exact ⟨rfl, extendsInto_of_updates r2r_xfer_opw 2 0 0 (by decide)
      (updatesR2R_of_eq xferOp 2 (by decide) (xferOp_lt 2) _ 0 0 (fun _ _ _ => rfl)) s _ _
      (by omega)⟩
  · have e : ins_inspect ix ins = [INS_InsertCall .BEFORE .r2r_xfer_opl
        [.UINT32 (ix.REG32_INDX .EDX), .UINT32 (ix.REG32_INDX .EAX)]] := by
      simp only [INS_Opcode] at h
      simp [ins_inspect, h]
    rw [e, run_call]
    exact ⟨rfl, extendsInto_of_updates r2r_xfer_opl 4 0 0 (by decide)
      (updatesR2R_of_eq xferOp 4 (by decide) (xferOp_lt 4) _ 0 0 (fun _ _ _ => rfl)) s _ _
      (by omega)⟩
  · have e : ins_inspect ix ins = [INS_InsertCall .BEFORE ._cwde []] := by
      simp only [INS_Opcode] at h
      simp [ins_inspect, h]
    rw [e, run_call]
    exact ⟨rfl, cwde_extends s⟩

/-- Witness for C37: `cbw`, `cwd`, `cdq` and `cwde` on the sample state, with
AH and AL in slot 7, DX / EDX in slot 5 and AX / EAX in slot 7. -/
theorem implicit_sign_extension_witness :
    ExtendsInto sampleState (run sampleEnv (ins_inspect stdIndx (implicitIns .CBW)) sampleState)
      1 7 1 7 0 ∧
    ExtendsInto sampleState (run sampleEnv (ins_inspect stdIndx (implicitIns .CWD)) sampleState)
      2 5 0 7 0 ∧
    ExtendsInto sampleState (run sampleEnv (ins_inspect stdIndx (implicitIns .CDQ)) sampleState)
      4 5 0 7 0 ∧
    ExtendsInto sampleState (run sampleEnv (ins_inspect stdIndx (implicitIns .CWDE)) sampleState)
      2 7 2 7 0 :=
  ⟨((implicit_sign_extension stdIndx (implicitIns .CBW) sampleEnv sampleState).1 rfl).2,
   ((implicit_sign_extension stdIndx (implicitIns .CWD) sampleEnv sampleState).2.1 rfl).2,
   ((implicit_sign_extension stdIndx (implicitIns .CDQ) sampleEnv sampleState).2.2.1 rfl).2,
   ((implicit_sign_extension stdIndx (implicitIns .CWDE) sampleEnv sampleState).2.2.2 rfl).2⟩

/-! ## C35: the CMPXCHG probe on its own -/

/-- C35: for every prior state, every register slot `src` (0..7) and all data
values, `_cmpxchg_r2r_opl_fast` stores the prior 32-bit tag of slot 7 in the
scratch slot 8, sets slot 7 to the prior tag of slot `src`, changes no other
register byte, no shadow byte and no table entry, and returns 1 when
`dst_val == src_val` (compared as `uint32_t`) and 0 otherwise; the tag state
after the call does not depend on the two data values.  The 16-bit probe
stashes all 32 bits of slot 7 but overwrites only the low 16 bits of slot 7,
and compares the two values as `uint16_t`. -/
theorem cmpxchg_fast_probe (s : State) (dst_val src src_val : Nat) (hsrc : src < 8) :
    (gpr32 (_cmpxchg_r2r_opl_fast s dst_val src src_val).1 8 = gpr32 s 7 ∧
      gpr32 (_cmpxchg_r2r_opl_fast s dst_val src src_val).1 7 = gpr32 s src ∧
      (∀ i, i < 28 ∨ 36 ≤ i →
        (_cmpxchg_r2r_opl_fast s dst_val src src_val).1.gpr i = s.gpr i) ∧
      (_cmpxchg_r2r_opl_fast s dst_val src src_val).1.mem = s.mem ∧
      (_cmpxchg_r2r_opl_fast s dst_val src src_val).1.STAB = s.STAB ∧
      (_cmpxchg_r2r_opl_fast s dst_val src src_val).2 =
        (if dst_val % 4294967296 = src_val % 4294967296 then 1 else 0) ∧
      ∀ dv sv, (_cmpxchg_r2r_opl_fast s dv src sv).1 =
        (_cmpxchg_r2r_opl_fast s dst_val src src_val).1) ∧
    (gpr32 (_cmpxchg_r2r_opw_fast s dst_val src src_val).1 8 = gpr32 s 7 ∧
      gpr16 (_cmpxchg_r2r_opw_fast s dst_val src src_val).1 7 0 = gpr16 s src 0 ∧
      gpr16 (_cmpxchg_r2r_opw_fast s dst_val src src_val).1 7 1 = gpr16 s 7 1 ∧
      (∀ i, i < 28 ∨ (30 ≤ i ∧ i < 32) ∨ 36 ≤ i →
        (_cmpxchg_r2r_opw_fast s dst_val src src_val).1.gpr i = s.gpr i) ∧
      (_cmpxchg_r2r_opw_fast s dst_val src src_val).1.mem = s.mem ∧
      (_cmpxchg_r2r_opw_fast s dst_val src src_val).1.STAB = s.STAB ∧
      (_cmpxchg_r2r_opw_fast s dst_val src src_val).2 =
        (if dst_val % 65536 = src_val % 65536 then 1 else 0) ∧
      ∀ dv sv, (_cmpxchg_r2r_opw_fast s dv src sv).1 =
        (_cmpxchg_r2r_opw_fast s dst_val src src_val).1) := by
  have hl := cmpxchg_r2r_opl_fast_tags s dst_val src_val src 0 hsrc (by omega)
  have hw := cmpxchg_r2r_opw_fast_tags s dst_val src_val src 0 hsrc (by omega)
  refine ⟨⟨hl.2.1, hl.1, fun i hi => ?_, rfl, rfl, rfl, fun _ _ => rfl⟩,
    ⟨hw.2.2.1, hw.1, hw.2.1, fun i hi => ?_, rfl, rfl, rfl, fun _ _ => rfl⟩⟩
  · show wr32 (wr32 s.gpr (4 * 8) (gpr32 s 7)) (4 * 7) _ i = s.gpr i
    rw [wr32_out _ _ _ _ (by omega), wr32_out _ _ _ _ (by omega)]
  · show wr16 (wr32 s.gpr (4 * 8) (gpr32 s 7)) (4 * 7 + 2 * 0) _ i = s.gpr i
    rw [wr16_out _ _ _ _ (by omega), wr32_out _ _ _ _ (by omega)]

/-- Witness for C35: the probe on the sample state with source slot 4 (EBX)
and the data values 5 and 6. -/
theorem cmpxchg_fast_probe_witness :
    gpr32 (_cmpxchg_r2r_opl_fast sampleState 5 4 6).1 8 = gpr32 sampleState 7 ∧
    gpr32 (_cmpxchg_r2r_opl_fast sampleState 5 4 6).1 7 = gpr32 sampleState 4 ∧
    (_cmpxchg_r2r_opl_fast sampleState 5 4 6).2 = 0 ∧
    gpr16 (_cmpxchg_r2r_opw_fast sampleState 5 4 6).1 7 1 = gpr16 sampleState 7 1 :=
  ⟨(cmpxchg_fast_probe sampleState 5 4 6 (by decide)).1.1,
   (cmpxchg_fast_probe sampleState 5 4 6 (by decide)).1.2.1,
   (cmpxchg_fast_probe sampleState 5 4 6 (by decide)).1.2.2.2.2.2.1,
   (cmpxchg_fast_probe sampleState 5 4 6 (by decide)).2.2.2.1⟩

/-! ## C38: save / restore round trip -/

theorem view_bytes_eq (w : Nat) (hw : w = 1 ∨ w = 2 ∨ w = 4) (m n : Nat → Nat) (a b : Nat)
    (h : view w m a = view w n b) (j : Nat) (hj : j < w) :
    rd8 m (a + j) = rd8 n (b + j) := by
  have m0 := rd8_lt m a
  have m1 := rd8_lt m (a + 1)
  have m2 := rd8_lt m (a + 2)
  have m3 := rd8_lt m (a + 3)
  have n0 := rd8_lt n b
  have n1 := rd8_lt n (b + 1)
  have n2 := rd8_lt n (b + 2)
  have n3 := rd8_lt n (b + 3)
  rcases hw with e | e | e <;> subst e
  · have hj0 : j = 0 := by omega
    subst hj0; exact h
  · have h' : rd8 m a + 256 * rd8 m (a + 1) = rd8 n b + 256 * rd8 n (b + 1) := h
    have hj' : j = 0 ∨ j = 1 := by omega
    rcases hj' with e | e <;> subst e
    · show rd8 m a = rd8 n b; omega
    · omega
  · have h' : rd8 m a + 256 * rd8 m (a + 1) +
        65536 * (rd8 m (a + 2) + 256 * rd8 m (a + 2 + 1)) =
        rd8 n b + 256 * rd8 n (b + 1) + 65536 * (rd8 n (b + 2) + 256 * rd8 n (b + 2 + 1)) := h
    rw [show a + 2 + 1 = a + 3 from rfl, show b + 2 + 1 = b + 3 from rfl] at h'
    have hj' : j = 0 ∨ j = 1 ∨ j = 2 ∨ j = 3 := by omega
    rcases hj' with e | e | e | e <;> subst e
    · show rd8 m a = rd8 n b; omega
    · omega
    · omega
    · omega

theorem taddr_congr (s t : State) (h : t.STAB = s.STAB) (a : Nat) : taddr t a = taddr s a := by
  unfold taddr; rw [h]

theorem round_trip_of (w : Nat) (hw : w = 2 ∨ w = 4) (save restore : State → Nat → State)
    (hs : SavesRegs save w) (hr : RestoresRegs restore w) (s : State) (dst : Nat) :
    (∀ i, rd8 (restore (save s dst) dst).gpr i = rd8 s.gpr i) ∧
    (restore (save s dst) dst).STAB = s.STAB := by
  have hw3 : w = 1 ∨ w = 2 ∨ w = 4 := Or.inr hw
  have S := hs s dst
  have R := hr (save s dst) dst
  have et : taddr (save s dst) dst = taddr s dst := taddr_congr s _ S.2.2.2 dst
  refine ⟨fun i => ?_, R.2.2.2.trans S.2.2.2⟩
  by_cases hi : ∀ k, k < 8 → k ≠ 3 → i < 4 * k ∨ 4 * k + w ≤ i
  · rw [rd8, R.2.1 i hi, S.2.2.1]; rfl
  · have hex : ∃ k, k < 8 ∧ k ≠ 3 ∧ 4 * k ≤ i ∧ i < 4 * k + w := by
      by_contra hne
      exact hi (fun k hk hk3 => by
        by_contra hc
        exact hne ⟨k, hk, hk3, by omega, by omega⟩)
    obtain ⟨k, hk, hk3, h1, h2⟩ := hex
    have hv : view w (restore (save s dst) dst).gpr (4 * k) = view w s.gpr (4 * k) := by
      rw [R.1 k hk hk3, et, S.1 k hk]
    have hb := view_bytes_eq w hw3 _ _ (4 * k) (4 * k) hv (i - 4 * k) (by omega)
    rw [show 4 * k + (i - 4 * k) = i by omega] at hb
    exact hb

/-- C38: for every register vector, translation table and address `dst`,
`r2m_save_opl dst` followed by `m2r_restore_opl dst` leaves every byte of the
nine register slots holding the tag it held before the save, and likewise
`r2m_save_opw` followed by `m2r_restore_opw`; the segment table is unchanged
as well.  (Shadow memory is a flat store here, so the save area is always
ordinary writable memory.) -/
theorem save_restore_round_trip (s : State) (dst : Nat) :
    ((∀ i, rd8 (m2r_restore_opl (r2m_save_opl s dst) dst).gpr i = rd8 s.gpr i) ∧
      (∀ r, gpr32 (m2r_restore_opl (r2m_save_opl s dst) dst) r = gpr32 s r) ∧
      (m2r_restore_opl (r2m_save_opl s dst) dst).STAB = s.STAB) ∧
    ((∀ i, rd8 (m2r_restore_opw (r2m_save_opw s dst) dst).gpr i = rd8 s.gpr i) ∧
      (∀ r, gpr32 (m2r_restore_opw (r2m_save_opw s dst) dst) r = gpr32 s r) ∧
      (m2r_restore_opw (r2m_save_opw s dst) dst).STAB = s.STAB) := by
  have hl := round_trip_of 4 (by decide) r2m_save_opl m2r_restore_opl r2m_save_opl_saves
    m2r_restore_opl_restores s dst
  have hw := round_trip_of 2 (by decide) r2m_save_opw m2r_restore_opw r2m_save_opw_saves
    m2r_restore_opw_restores s dst
  refine ⟨⟨hl.1, fun r => ?_, hl.2⟩, ⟨hw.1, fun r => ?_, hw.2⟩⟩
  · show rd32 _ (4 * r) = rd32 _ (4 * r)
    unfold rd32 rd16
    rw [hl.1, hl.1, hl.1, hl.1]
  · show rd32 _ (4 * r) = rd32 _ (4 * r)
    unfold rd32 rd16
    rw [hw.1, hw.1, hw.1, hw.1]

/-! ## C40: the fused XADD rule and its parts -/

theorem wrw_wrw (w : Nat) (hw : w = 1 ∨ w = 2 ∨ w = 4) (m : Nat → Nat) (a x y : Nat) :
    wrw w (wrw w m a x) a y = wrw w m a y := by
  funext i
  rcases hw with e | e | e <;> subst e
  · show wr8 (wr8 m a x) a y i = wr8 m a y i
    unfold wr8; split_ifs <;> rfl
  · show wr16 (wr16 m a x) a y i = wr16 m a y i
    unfold wr16 wr8; split_ifs <;> rfl
  · show wr32 (wr32 m a x) a y i = wr32 m a y i
    unfold wr32 wr16 wr8; split_ifs <;> rfl

theorem fused_of_eq (w : Nat) (hw : w = 1 ∨ w = 2 ∨ w = 4) (sOff : Nat)
    (fx fc fb : State → Nat → Nat → State)
    (hx : ∀ s dst src, fx s dst src =
      (⟨wrw w s.gpr (4 * src + sOff) (view w s.mem (taddr s dst)), s.STAB,
        wrw w s.mem (taddr s dst)
          (view w s.mem (taddr s dst) ||| view w s.gpr (4 * src + sOff))⟩ : State))
    (hc : ∀ s dst src, fc s dst src =
      (⟨wrw w s.gpr (4 * src + sOff) (view w s.mem (taddr s dst)), s.STAB,
        wrw w s.mem (taddr s dst) (view w s.gpr (4 * src + sOff))⟩ : State))
    (hb : ∀ s dst src, fb s dst src =
      (⟨s.gpr, s.STAB, wrw w s.mem (taddr s dst)
        (view w s.mem (taddr s dst) ||| view w s.gpr (4 * src + sOff))⟩ : State))
    (s : State) (dst src : Nat) :
    fx s dst src = fb (fc s dst src) dst src := by
  rw [hx, hb, hc]
  have et : taddr (⟨wrw w s.gpr (4 * src + sOff) (view w s.mem (taddr s dst)), s.STAB,
      wrw w s.mem (taddr s dst) (view w s.gpr (4 * src + sOff))⟩ : State) dst =
      taddr s dst := rfl
  rw [et]
  show (⟨_, _, _⟩ : State) = ⟨_, _, wrw w (wrw w s.mem (taddr s dst) _) (taddr s dst)
    (view w (wrw w s.mem (taddr s dst) (view w s.gpr (4 * src + sOff))) (taddr s dst) |||
      view w (wrw w s.gpr (4 * src + sOff) (view w s.mem (taddr s dst))) (4 * src + sOff))⟩
  rw [view_wrw_same w hw, view_wrw_same w hw, wrw_wrw w hw, Nat.lor_comm]

/-- C40: for every prior state, memory address and register index, the fused
rule `_xadd_r2m_opl` produces exactly the state (register vector, shadow
memory, segment table) that `_xchg_r2m_opl` followed by `r2m_binary_opl` with
the same operands produces, and likewise for the `_opw`, `_opb_u` and
`_opb_l` variants. -/
theorem xadd_fused_equals_parts (s : State) (dst src : Nat) :
    _xadd_r2m_opl s dst src = r2m_binary_opl (_xchg_r2m_opl s dst src) dst src ∧
    _xadd_r2m_opw s dst src = r2m_binary_opw (_xchg_r2m_opw s dst src) dst src ∧
    _xadd_r2m_opb_u s dst src = r2m_binary_opb_u (_xchg_r2m_opb_u s dst src) dst src ∧
    _xadd_r2m_opb_l s dst src = r2m_binary_opb_l (_xchg_r2m_opb_l s dst src) dst src :=
  ⟨fused_of_eq 4 (by decide) 0 _ _ _ (fun _ _ _ => rfl) (fun _ _ _ => rfl)
      (fun _ _ _ => rfl) s dst src,
   fused_of_eq 2 (by decide) 0 _ _ _ (fun _ _ _ => rfl) (fun _ _ _ => rfl)
      (fun _ _ _ => rfl) s dst src,
   fused_of_eq 1 (by decide) 1 _ _ _ (fun _ _ _ => rfl) (fun _ _ _ => rfl)
      (fun _ _ _ => rfl) s dst src,
   fused_of_eq 1 (by decide) 0 _ _ _ (fun _ _ _ => rfl) (fun _ _ _ => rfl)
      (fun _ _ _ => rfl) s dst src⟩

/-! ## C39: multi-byte accessors translate once -/

theorem setup_table_apply (stack_seg zero_seg null_seg p : Nat) :
    setup_table stack_seg zero_seg null_seg p =
      if 784384 ≤ p ∧ p ≤ 786431 then
        u32 (u32 stack_seg + 4294967296 - u32 (STAB2VIRT p) + u32 ((p - 784384) * PAGE_SZ))
      else if p ≤ 784383 then u32 (u32 null_seg + 4294967296 - u32 (STAB2VIRT p))
      else if 786432 ≤ p ∧ p ≤ 1048575 then
        u32 (u32 zero_seg + 4294967296 - u32 (STAB2VIRT p))
      else 0 := by
  obtain ⟨b1, b2, b3, b4, b5, b6, -, -, -⟩ := stab_bounds
  unfold setup_table
  rw [stab_setup_apply, stab_fill_apply, stab_fill_apply, b1, b2, b3, b4, b5, b6]
  by_cases hs : 784384 ≤ p ∧ p ≤ 786431
  · rw [if_pos hs, if_pos hs]
  · rw [if_neg hs, if_neg hs]
    by_cases hu : p ≤ 784383
    · rw [if_pos ⟨Nat.zero_le _, hu⟩, if_pos hu]
    · rw [if_neg (fun h => hu h.2), if_neg hu]

/-- The table `tagmap_alloc` returns, for an arbitrary result of the vDSO
probe. -/
theorem tagmap_alloc_vdso (mmap : Nat → Nat → Option Nat) (vs ve : Nat) (tm : Tagmap)
    (stab stack_seg zero_seg null_seg : Nat)
    (h1 : mmap (u32 (STAB_SIZE * 4)) prot_rw = some stab)
    (h2 : mmap STACK_SZ prot_rw = some stack_seg)
    (h3 : mmap PAGE_SZ prot_zero = some zero_seg)
    (h4 : mmap PAGE_SZ PROT_NONE = some null_seg) :
    ∃ tm1, tagmap_alloc mmap vs ve tm = some tm1 ∧ tm1.zero_seg = zero_seg ∧
      (vs = 0 → tm1.STAB = setup_table stack_seg zero_seg null_seg) ∧
      (vs ≠ 0 →
        (∀ p, VIRT2STAB vs ≤ p → p ≤ VIRT2STAB (u32 (ve + 4294967295)) →
          tm1.STAB p = u32 (u32 zero_seg + 4294967296 - u32 (STAB2VIRT p))) ∧
        (∀ p, p < VIRT2STAB vs ∨ VIRT2STAB (u32 (ve + 4294967295)) < p →
          tm1.STAB p = setup_table stack_seg zero_seg null_seg p)) ∧
      (0 < ve → ve ≤ 4294967296 → u32 (ve + 4294967295) = ve - 1) ∧
      (∀ p, 786432 ≤ p → p ≤ 1048575 →
        setup_table stack_seg zero_seg null_seg p =
          u32 (u32 zero_seg + 4294967296 - u32 (STAB2VIRT p))) ∧
      (∀ p, p ≤ 784383 →
        setup_table stack_seg zero_seg null_seg p =
          u32 (u32 null_seg + 4294967296 - u32 (STAB2VIRT p))) ∧
      (∀ p, 784384 ≤ p → p ≤ 786431 →
        setup_table stack_seg zero_seg null_seg p =
          u32 (u32 stack_seg + 4294967296 - u32 (STAB2VIRT p) +
            u32 ((p - 784384) * PAGE_SZ))) ∧
      (∀ p, 1048575 < p → setup_table stack_seg zero_seg null_seg p = 0) := by
  refine ⟨_, tagmap_alloc_eq mmap vs ve tm stab stack_seg zero_seg null_seg h1 h2 h3 h4,
    rfl, fun h0 => ?_, fun hne => ⟨fun p hp1 hp2 => ?_, fun p hp => ?_⟩,
    fun hv1 hv2 => ?_, fun p hp1 hp2 => ?_, fun p hp => ?_, fun p hp1 hp2 => ?_,
    fun p hp => ?_⟩
  · show (if vs ≠ 0 then _ else _) = _
    rw [if_neg (by simpa using h0)]
    rfl
  · show (if vs ≠ 0 then _ else _ : Nat → Nat) p = _
    rw [if_pos hne, stab_fill_apply, if_pos ⟨hp1, hp2⟩]
  · show (if vs ≠ 0 then _ else _ : Nat → Nat) p = _
    rw [if_pos hne, stab_fill_apply, if_neg (by omega)]
    rfl
  · unfold u32; omega
  · rw [setup_table_apply, if_neg (by omega), if_neg (by omega), if_pos ⟨hp1, hp2⟩]
  · rw [setup_table_apply, if_neg (by omega), if_pos hp]
  · rw [setup_table_apply, if_pos ⟨hp1, hp2⟩]
  · rw [setup_table_apply, if_neg (by omega), if_neg (by omega), if_neg (by omega)]

theorem get_vdso_not_found (maps : Option (List MapsLine))
    (h : maps = none ∨ ∃ lines, maps = some lines ∧ ∀ l, l ∈ lines → has_vdso_str l = false) :
    get_vdso maps = (0, 0) := by
  rcases h with h | ⟨lines, h, hl⟩
  · rw [h]; rfl
  · rw [h]
    have e : lines.find? has_vdso_str = none := by
      rw [List.find?_eq_none]
      intro l hm
      rw [hl l hm]
      exact Bool.false_ne_true
    show (match lines.find? has_vdso_str with
      | some l => (l.saddr, l.eaddr)
      | none => (0, 0)) = (0, 0)
    rw [e]

/-- C34: a failed vDSO probe is not fatal.  `get_vdso` reports 0, 0 when
`/proc/<pid>/maps` cannot be read or has no line with `[vdso]`.  When the four
mappings of `tagmap_alloc` succeed it returns 0 (a tagmap) whatever the probe
reports.  If the reported start address is 0, the table is exactly the one the
three setup loops build (kernel range to the zero segment, user range below
the stack to the null segment, stack range to the stack segment, nothing
else).  If the start address `s` is not 0, every page from `s >> 12` through
`(e - 1) >> 12` (`e - 1` in 32-bit arithmetic) has the entry
`zero_seg - page base`, and every other page keeps its setup entry. -/
theorem vdso_probe_non_fatal (mmap : Nat → Nat → Option Nat)
    (maps : Option (List MapsLine)) (tm : Tagmap)
    (stab stack_seg zero_seg null_seg : Nat)
    (h1 : mmap (u32 (STAB_SIZE * 4)) prot_rw = some stab)
    (h2 : mmap STACK_SZ prot_rw = some stack_seg)
    (h3 : mmap PAGE_SZ prot_zero = some zero_seg)
    (h4 : mmap PAGE_SZ PROT_NONE = some null_seg) :
    ((maps = none ∨ ∃ lines, maps = some lines ∧ ∀ l, l ∈ lines → has_vdso_str l = false) →
      get_vdso maps = (0, 0)) ∧
    ∃ tm1, tagmap_alloc mmap (get_vdso maps).1 (get_vdso maps).2 tm = some tm1 ∧
      tm1.zero_seg = zero_seg ∧
      ((get_vdso maps).1 = 0 → tm1.STAB = setup_table stack_seg zero_seg null_seg) ∧
      ((get_vdso maps).1 ≠ 0 →
        (∀ p, VIRT2STAB (get_vdso maps).1 ≤ p →
          p ≤ VIRT2STAB (u32 ((get_vdso maps).2 + 4294967295)) →
          tm1.STAB p = u32 (u32 zero_seg + 4294967296 - u32 (STAB2VIRT p))) ∧
        (∀ p, p < VIRT2STAB (get_vdso maps).1 ∨
            VIRT2STAB (u32 ((get_vdso maps).2 + 4294967295)) < p →
          tm1.STAB p = setup_table stack_seg zero_seg null_seg p)) ∧
      (0 < (get_vdso maps).2 → (get_vdso maps).2 ≤ 4294967296 →
        u32 ((get_vdso maps).2 + 4294967295) = (get_vdso maps).2 - 1) ∧
      (∀ p, 786432 ≤ p → p ≤ 1048575 →
        setup_table stack_seg zero_seg null_seg p =
          u32 (u32 zero_seg + 4294967296 - u32 (STAB2VIRT p))) ∧
      (∀ p, p ≤ 784383 →
        setup_table stack_seg zero_seg null_seg p =
          u32 (u32 null_seg + 4294967296 - u32 (STAB2VIRT p))) ∧
      (∀ p, 784384 ≤ p → p ≤ 786431 →
        setup_table stack_seg zero_seg null_seg p =
          u32 (u32 stack_seg + 4294967296 - u32 (STAB2VIRT p) +
            u32 ((p - 784384) * PAGE_SZ))) ∧
      (∀ p, 1048575 < p → setup_table stack_seg zero_seg null_seg p = 0) :=
  ⟨get_vdso_not_found maps,
   tagmap_alloc_vdso mmap (get_vdso maps).1 (get_vdso maps).2 tm stab stack_seg zero_seg
     null_seg h1 h2 h3 h4⟩

/-- Witness for C34: the sample allocator, first with a maps file that cannot
be opened, then with one without a vDSO line, then with a vDSO at
`0xb7fff000 .. 0xb8000000` (page `0xb7fff`). -/
theorem vdso_probe_non_fatal_witness :
    (∃ tm1, tagmap_alloc sampleMmap (get_vdso none).1 (get_vdso none).2 emptyTagmap =
        some tm1 ∧
      tm1.STAB = setup_table 1610612736 1879048192 1879052288) ∧
    get_vdso (some mapsNoVdso) = (0, 0) ∧
    (∃ tm1, tagmap_alloc sampleMmap (get_vdso (some mapsVdso)).1 (get_vdso (some mapsVdso)).2
        emptyTagmap = some tm1 ∧
      tm1.STAB 753663 = u32 (u32 1879048192 + 4294967296 - u32 (STAB2VIRT 753663))) :=
  ⟨(vdso_probe_non_fatal sampleMmap none emptyTagmap 1342177280 1610612736
      1879048192 1879052288 rfl rfl rfl rfl).2.elim
      (fun tm1 h => ⟨tm1, h.1, h.2.2.1 rfl⟩),
   (vdso_probe_non_fatal sampleMmap (some mapsNoVdso) emptyTagmap 1342177280 1610612736
      1879048192 1879052288 rfl rfl rfl rfl).1
      (Or.inr ⟨mapsNoVdso, rfl, by decide⟩),
   (vdso_probe_non_fatal sampleMmap (some mapsVdso) emptyTagmap 1342177280 1610612736
      1879048192 1879052288 rfl rfl rfl rfl).2.elim
      (fun tm1 h => ⟨tm1, h.1, (h.2.2.2.1 (by decide)).1 753663 (by decide) (by decide)⟩)⟩

/-! ## C33: value independence -/

theorem sameBindings_eq (fn : AFUNPTR) (h : dataParams fn = []) (a1 a2 : List Nat)
    (hb : SameBindings fn a1 a2) : a1 = a2 := by
  apply List.ext_get?
  intro i
  by_cases hi : i < a1.length
  · rcases hb.2 i hi with h1 | h1
    · rw [h] at h1; cases h1
    · exact h1
  · rw [List.get?_eq_none.mpr (by omega), List.get?_eq_none.mpr (by rw [← hb.1]; omega)]

theorem invoke_env_indep (env1 env2 : Env) (fn : AFUNPTR) (a : List Nat) (s : State)
    (h1 : fn ≠ ._cmpxchg_m2r_opl_fast) (h2 : fn ≠ ._cmpxchg_m2r_opw_fast) :
    invoke env1 fn a s = invoke env2 fn a s := by
  rcases a with _ | ⟨x, _ | ⟨y, _ | ⟨z, _ | ⟨w, _ | ⟨v, rest⟩⟩⟩⟩⟩ <;> cases fn <;>
    first
    | rfl
    | exact absurd rfl h1
    | exact absurd rfl h2

theorem probe_state_indep (env1 env2 : Env) (fn : AFUNPTR)
    (h : returnsValue fn = true) (a1 a2 : List Nat) (s : State)
    (hb : SameBindings fn a1 a2) :
    (invoke env1 fn a1 s).1 = (invoke env2 fn a2 s).1 := by
  obtain ⟨hlen, hget⟩ := hb
  cases fn <;> first
    | (cases h; done)
    | (rcases a1 with _ | ⟨x1, _ | ⟨y1, _ | ⟨z1, _ | ⟨w1, _ | ⟨v1, r1⟩⟩⟩⟩⟩ <;>
        rcases a2 with _ | ⟨x2, _ | ⟨y2, _ | ⟨z2, _ | ⟨w2, _ | ⟨v2, r2⟩⟩⟩⟩⟩ <;>
        (try simp at hlen) <;>
        first
        | rfl
        | (have e := hget 1 (by simp)
           simp [dataParams] at e
           subst e
           rfl))

theorem block_df_only (s : State) (dst src count e1 e2 : Nat)
    (h : EFLAGS_DF e1 = EFLAGS_DF e2) :
    m2m_xfer_opbn s dst src count e1 = m2m_xfer_opbn s dst src count e2 ∧
    m2m_xfer_opwn s dst src count e1 = m2m_xfer_opwn s dst src count e2 ∧
    m2m_xfer_opln s dst src count e1 = m2m_xfer_opln s dst src count e2 := by
  unfold m2m_xfer_opbn m2m_xfer_opwn m2m_xfer_opln
  rw [h]
  exact ⟨rfl, rfl, rfl⟩

/-- Counterexample for C33 as stated: the block-move rule `m2m_xfer_opbn`,
which is no CMPXCHG probe, run twice from the same tag state with the same
two addresses, ends in different tag states when the repeat count differs
(0 or 1 byte moved) and when the direction flag of EFLAGS differs (2 bytes
moved forward or backward). -/
theorem value_independence_counterexample :
    SameBindings .m2m_xfer_opbn [134512645, 134512641, 0, 0] [134512645, 134512641, 1, 0] ∧
    tagmap_getb (invoke sampleEnv .m2m_xfer_opbn [134512645, 134512641, 0, 0] taintedHigh).1
      134512645 = 0 ∧
    tagmap_getb (invoke sampleEnv .m2m_xfer_opbn [134512645, 134512641, 1, 0] taintedHigh).1
      134512645 = 1 ∧
    SameBindings .m2m_xfer_opbn [134512645, 134512641, 2, 0] [134512645, 134512641, 2, 1024] ∧
    tagmap_getb (invoke sampleEnv .m2m_xfer_opbn [134512645, 134512641, 2, 0] sampleState).1
      134512646 = 228 ∧
    tagmap_getb (invoke sampleEnv .m2m_xfer_opbn [134512645, 134512641, 2, 1024] sampleState).1
      134512646 = 232 := by
  refine ⟨⟨rfl, ?_⟩, by decide, by decide, ⟨rfl, ?_⟩, by decide, by decide⟩
  · intro i hi
    have hi' : i = 0 ∨ i = 1 ∨ i = 2 ∨ i = 3 := by
      simp only [List.length_cons, List.length_nil] at hi; omega
    rcases hi' with e | e | e | e <;> subst e <;> simp [dataParams]
  · intro i hi
    have hi' : i = 0 ∨ i = 1 ∨ i = 2 ∨ i = 3 := by
      simp only [List.length_cons, List.length_nil] at hi; omega
    rcases hi' with e | e | e | e <;> subst e <;> simp [dataParams]

/-- C33 (amended): take any analysis routine other than the three block-move
rules, and two calls from the same prior tag state whose arguments agree on
every register index and memory address but may differ in every program data
value (register contents, program memory, the first-iteration flag).  Both
calls end in the same tag state; this includes the CMPXCHG probes, of which
only the returned value depends on the data (it tells whether the two values
compared are equal).  Routines other than the probes and `rep_predicate` also
return the same value.  The block-move rules depend on the repeat count, and
on EFLAGS through the direction flag only. -/
theorem value_independence (fn : AFUNPTR) (env1 env2 : Env) (a1 a2 : List Nat) (s : State)
    (hb : SameBindings fn a1 a2) :
    (isBlockMove fn = false → (invoke env1 fn a1 s).1 = (invoke env2 fn a2 s).1) ∧
    (isBlockMove fn = false → returnsValue fn = false →
      invoke env1 fn a1 s = invoke env2 fn a2 s) ∧
    (∀ dst src count e1 e2, EFLAGS_DF e1 = EFLAGS_DF e2 →
      m2m_xfer_opbn s dst src count e1 = m2m_xfer_opbn s dst src count e2 ∧
      m2m_xfer_opwn s dst src count e1 = m2m_xfer_opwn s dst src count e2 ∧
      m2m_xfer_opln s dst src count e1 = m2m_xfer_opln s dst src count e2) ∧
    (∀ dv src sv,
      (invoke env1 ._cmpxchg_r2r_opl_fast [dv, src, sv] s).2 =
        (if dv % 4294967296 = sv % 4294967296 then 1 else 0) ∧
      (invoke env1 ._cmpxchg_r2r_opw_fast [dv, src, sv] s).2 =
        (if dv % 65536 = sv % 65536 then 1 else 0) ∧
      (invoke env1 ._cmpxchg_m2r_opl_fast [dv, src] s).2 =
        (if dv % 4294967296 = rd32 env1.data src then 1 else 0) ∧
      (invoke env1 ._cmpxchg_m2r_opw_fast [dv, src] s).2 =
        (if dv % 65536 = rd16 env1.data src then 1 else 0)) := by
  have gen : isBlockMove fn = false → returnsValue fn = false →
      invoke env1 fn a1 s = invoke env2 fn a2 s := by
    intro hB hR
    have hd : dataParams fn = [] := by
      cases fn <;> first | rfl | exact absurd hB (by decide) | exact absurd hR (by decide)
    have e := sameBindings_eq fn hd a1 a2 hb
    subst e
    exact invoke_env_indep env1 env2 fn a1 s
      (fun h => by rw [h] at hR; exact absurd hR (by decide))
      (fun h => by rw [h] at hR; exact absurd hR (by decide))
  refine ⟨fun hB => ?_, gen, fun dst src count e1 e2 h => block_df_only s dst src count e1 e2 h,
    fun _ _ _ => ⟨rfl, rfl, rfl, rfl⟩⟩
  by_cases hR : returnsValue fn = true
  · exact probe_state_indep env1 env2 fn hR a1 a2 s hb
  · exact congrArg Prod.fst (gen hB (by simpa using hR))

/-- Witness for C33: `r2m_xfer_opl` called in two different environments, and
the register probe called with two different pairs of data values. -/
theorem value_independence_witness :
    invoke sampleEnv .r2m_xfer_opl [134512640, 7] sampleState =
      invoke sampleEnvNe .r2m_xfer_opl [134512640, 7] sampleState ∧
    (invoke sampleEnv ._cmpxchg_r2r_opl_fast [5, 4, 5] sampleState).1 =
      (invoke sampleEnvNe ._cmpxchg_r2r_opl_fast [5, 4, 6] sampleState).1 :=
  ⟨(value_independence .r2m_xfer_opl sampleEnv sampleEnvNe [134512640, 7] [134512640, 7]
      sampleState ⟨rfl, fun _ _ => Or.inr rfl⟩).2.1 rfl rfl,
   (value_independence ._cmpxchg_r2r_opl_fast sampleEnv sampleEnvNe [5, 4, 5] [5, 4, 6]
      sampleState ⟨rfl, fun i hi => by
        have hi' : i = 0 ∨ i = 1 ∨ i = 2 := by
          simp only [List.length_cons, List.length_nil] at hi; omega
        rcases hi' with e | e | e <;> subst e <;> simp [dataParams]⟩).1 rfl⟩

/-! ## C1: set / get round trip under page protection -/

theorem alloc_state_null (a : Nat) (h1 : 134512640 ≤ a) (h2 : a < 134516736) :
    taddr allocState a = 1879052288 + (a - 134512640) := by
  have hp : VIRT2STAB a = 32840 := by rw [virt2stab_eq]; omega
  unfold taddr allocState
  simp only []
  rw [hp, setup_table_apply, if_neg (by omega), if_pos (by omega)]
  have e : u32 (u32 1879052288 + 4294967296 - u32 (STAB2VIRT 32840)) = 1744539648 := by
    norm_num [u32, STAB2VIRT, PAGE_SHIFT, Nat.shiftLeft_eq]
  rw [e]
  omega

theorem alloc_state_stack : taddr allocState 3212836864 = 1610612736 := by
  have hp : VIRT2STAB 3212836864 = 784384 := by rw [virt2stab_eq]
  unfold taddr allocState
  simp only []
  rw [hp, setup_table_apply, if_pos (by omega)]
  norm_num [u32, STAB2VIRT, PAGE_SHIFT, PAGE_SZ, Nat.shiftLeft_eq]

/-- Counterexample for C1 as stated: after `tagmap_alloc` (sample allocator,
no vDSO, no image loaded yet) the user address `0x08048000` is unmapped, so the
table translates it to the first byte of the null segment, which is mapped
`PROT_NONE`: `tagmap_setb`, `tagmap_setw` and `tagmap_setl` fault there, and so
does `tagmap_getb`, instead of returning the value set. -/
theorem roundtrip_null_seg_counterexample :
    (∃ tm1, tagmap_alloc sampleMmap 0 0 emptyTagmap = some tm1 ∧
      tm1.STAB = allocState.STAB ∧ tm1.null_seg = 1879052288) ∧
    taddr allocState 134512640 = 1879052288 ∧
    tagmap_setb_prot (alloc_prot 1342177280 1610612736 1879048192 1879052288) allocState
      134512640 255 = none ∧
    tagmap_setw_prot (alloc_prot 1342177280 1610612736 1879048192 1879052288) allocState
      134512640 255 = none ∧
    tagmap_setl_prot (alloc_prot 1342177280 1610612736 1879048192 1879052288) allocState
      134512640 255 = none ∧
    tagmap_getb_prot (alloc_prot 1342177280 1610612736 1879048192 1879052288) allocState
      134512640 = none := by
  have ht : taddr allocState 134512640 = 1879052288 :=
    alloc_state_null 134512640 (by decide) (by decide)
  refine ⟨⟨_, tagmap_alloc_eq sampleMmap 0 0 emptyTagmap 1342177280 1610612736 1879048192
    1879052288 rfl rfl rfl rfl, rfl, rfl⟩, ht, ?_, ?_, ?_, ?_⟩
  · unfold tagmap_setb_prot; rw [ht]; rfl
  · unfold tagmap_setw_prot; rw [ht]; rfl
  · unfold tagmap_setl_prot; rw [ht]; rfl
  · unfold tagmap_getb_prot; rw [ht]; rfl

/-- C1 (amended): for every translation table, every tag value `X` and every
address whose shadow bytes the host lets be read and written (an address
inside an allocated segment), `tagmap_setb addr X` succeeds and `tagmap_getb`
right after it returns `X`; likewise `tagmap_getw` after `tagmap_setw` and
`tagmap_getl` after `tagmap_setl` return the 16-bit / 32-bit value set, in
particular for `X` in {0, 1, 0xFF}.  Where the shadow bytes are not writable
(the null segment that unmapped addresses translate to) the store faults. -/
theorem tagmap_set_get_roundtrip_mapped (prot : Nat → Nat) (s : State) (addr X : Nat) :
    (access_ok prot PROT_WRITE (taddr s addr) 1 = true →
      access_ok prot PROT_READ (taddr s addr) 1 = true → X < 256 →
      ∃ s1, tagmap_setb_prot prot s addr X = some s1 ∧
        tagmap_getb_prot prot s1 addr = some X) ∧
    (access_ok prot PROT_WRITE (taddr s addr) 2 = true →
      access_ok prot PROT_READ (taddr s addr) 2 = true → X < 65536 →
      ∃ s1, tagmap_setw_prot prot s addr X = some s1 ∧
        tagmap_getw_prot prot s1 addr = some X) ∧
    (access_ok prot PROT_WRITE (taddr s addr) 4 = true →
      access_ok prot PROT_READ (taddr s addr) 4 = true → X < 4294967296 →
      ∃ s1, tagmap_setl_prot prot s addr X = some s1 ∧
        tagmap_getl_prot prot s1 addr = some X) ∧
    (access_ok prot PROT_WRITE (taddr s addr) 1 = true →
      access_ok prot PROT_READ (taddr s addr) 1 = true →
      (∃ s1, tagmap_setb_prot prot s addr 0 = some s1 ∧
        tagmap_getb_prot prot s1 addr = some 0) ∧
      (∃ s1, tagmap_setb_prot prot s addr 1 = some s1 ∧
        tagmap_getb_prot prot s1 addr = some 1) ∧
      (∃ s1, tagmap_setb_prot prot s addr 255 = some s1 ∧
        tagmap_getb_prot prot s1 addr = some 255)) ∧
    (access_ok prot PROT_WRITE (taddr s addr) 1 = false →
      tagmap_setb_prot prot s addr X = none) ∧
    (access_ok prot PROT_WRITE (taddr s addr) 2 = false →
      tagmap_setw_prot prot s addr X = none) ∧
    (access_ok prot PROT_WRITE (taddr s addr) 4 = false →
      tagmap_setl_prot prot s addr X = none) := by
  have hb : ∀ v, v < 256 → access_ok prot PROT_WRITE (taddr s addr) 1 = true →
      access_ok prot PROT_READ (taddr s addr) 1 = true →
      ∃ s1, tagmap_setb_prot prot s addr v = some s1 ∧
        tagmap_getb_prot prot s1 addr = some v := by
    intro v hv hw hr
    refine ⟨tagmap_setb s addr v, by unfold tagmap_setb_prot; rw [if_pos hw], ?_⟩
    have et : taddr (tagmap_setb s addr v) addr = taddr s addr := rfl
    unfold tagmap_getb_prot
    rw [et, if_pos hr, (flat_set_get s addr v).1 hv]
  refine ⟨fun hw hr hX => hb X hX hw hr, fun hw hr hX => ?_, fun hw hr hX => ?_,
    fun hw hr => ⟨hb 0 (by decide) hw hr, hb 1 (by decide) hw hr, hb 255 (by decide) hw hr⟩,
    fun h => ?_, fun h => ?_, fun h => ?_⟩
  · refine ⟨tagmap_setw s addr X, by unfold tagmap_setw_prot; rw [if_pos hw], ?_⟩
    have et : taddr (tagmap_setw s addr X) addr = taddr s addr := rfl
    unfold tagmap_getw_prot
    rw [et, if_pos hr, (flat_set_get s addr X).2.1 hX]
  · refine ⟨tagmap_setl s addr X, by unfold tagmap_setl_prot; rw [if_pos hw], ?_⟩
    have et : taddr (tagmap_setl s addr X) addr = taddr s addr := rfl
    unfold tagmap_getl_prot
    rw [et, if_pos hr, (flat_set_get s addr X).2.2.1 hX]
  · unfold tagmap_setb_prot; rw [h]; rfl
  · unfold tagmap_setw_prot; rw [h]; rfl
  · unfold tagmap_setl_prot; rw [h]; rfl

/-- Witness for C1: tag 0xFF at the first stack address `0xBF800000` right
after `tagmap_alloc`, which the table translates to the first byte of the
stack segment, mapped readable and writable. -/
theorem tagmap_set_get_roundtrip_mapped_witness :
    (∃ s1, tagmap_setb_prot (alloc_prot 1342177280 1610612736 1879048192 1879052288)
        allocState 3212836864 255 = some s1 ∧
      tagmap_getb_prot (alloc_prot 1342177280 1610612736 1879048192 1879052288)
        s1 3212836864 = some 255) ∧
    (∃ s1, tagmap_setw_prot (alloc_prot 1342177280 1610612736 1879048192 1879052288)
        allocState 3212836864 255 = some s1 ∧
      tagmap_getw_prot (alloc_prot 1342177280 1610612736 1879048192 1879052288)
        s1 3212836864 = some 255) ∧
    (∃ s1, tagmap_setl_prot (alloc_prot 1342177280 1610612736 1879048192 1879052288)
        allocState 3212836864 255 = some s1 ∧
      tagmap_getl_prot (alloc_prot 1342177280 1610612736 1879048192 1879052288)
        s1 3212836864 = some 255) :=
  ⟨(tagmap_set_get_roundtrip_mapped (alloc_prot 1342177280 1610612736 1879048192 1879052288)
      allocState 3212836864 255).1
      (by rw [alloc_state_stack]; rfl) (by rw [alloc_state_stack]; rfl) (by decide),
   (tagmap_set_get_roundtrip_mapped (alloc_prot 1342177280 1610612736 1879048192 1879052288)
      allocState 3212836864 255).2.1
      (by rw [alloc_state_stack]; rfl) (by rw [alloc_state_stack]; rfl) (by decide),
   (tagmap_set_get_roundtrip_mapped (alloc_prot 1342177280 1610612736 1879048192 1879052288)
      allocState 3212836864 255).2.2.1
      (by rw [alloc_state_stack]; rfl) (by rw [alloc_state_stack]; rfl) (by decide)⟩

end Libdft
